import Mathlib

/-!
# RTXI Repolarization Reserve Current module: the real-time engine

A shallow embedding of `RRC::Module` (src/RRC.h, src/RRC.cpp) and theorems about
its protocol dispatcher, its action potential duration (APD) detector and its
search protocols.

Modelling conventions.

* A C++ `double` is a rational number (`ℚ`). The arithmetic on times, voltages
  and currents (the clock `time += period`, the differences of times, the
  scaling of the output, the downstroke threshold) is exact. The operations
  whose result is converted to an `int` or is compared in a branch against a
  computed product or quotient are rounded as IEEE binary64 arithmetic rounds
  them (`roundDouble`: 53 significant bits, round to nearest, ties to even):
  the period `getPeriod() * 1e-6`, the tick conversions `bcl / period` and
  `stim_length / period`, the injection window
  `stim_length_int + rrc_delay / period` and `rrc_length / period`, the APD
  cutoff `thresh_previousAPD * (1 + thresh_apdCutoff / 100.0)` and the quotient
  `2 * apd_stimWindow / period` of the START timeout. The exponent range of
  `roundDouble` is not bounded; the values of these operations that would
  overflow a `double` are far outside the range of `int`, where the conversion
  gives the same result for an infinity.
* A member of type `double` is a field of type `ℚ`, and the theorems hold for
  every rational value of it. A value that is entered as a decimal, such as
  256.4, reaches the member as the nearest `double`; the examples write
  `roundDouble (1282 / 5)` for it.
* A quotient by a period of 0 is an infinity or a NaN in the source. The
  comparison `0 > a / 0.0` is true exactly when `a < 0` (`gtQuotient`); the
  conversion of an infinity or a NaN to `int` is undefined in C++.
* The conversion `double -> int` truncates toward zero (`truncToInt`) when the
  result is in the range of a 32-bit `int`; otherwise it is undefined in C++,
  and `doubleToInt` takes the value that the x86 conversion instruction
  returns, -2^31. The theorems about tick counts speak about the converted
  value that the object stores, whatever it is.
* A C++ `int` is an integer (`ℤ`). The product `2 * apd_stimWindow` wraps
  modulo 2^32 (`wrapInt32`), as the compiled code does; the step counters are
  assumed to stay inside the 32-bit range.
* The C++ remainder `a % b` is `Int.tmod a b` (sign of the dividend). A
  remainder by 0 has no defined result in the source; here it takes the value
  of `Int.tmod`, and the theorems that depend on it assume a nonzero divisor.
* The members of the object are the fields of the structure `Module`; the
  output channel `output(0)` of the host is the field `output0`, the input
  channel `input(0)` and the two `std::rand()` results of a step are the
  `StepInput` of that step, and the thread period of the host
  (`RT::System::getPeriod()`, nanoseconds) is an argument of `reset`.
* The constructor leaves most members without a value; `initialise` therefore
  starts from an arbitrary `Module` and writes the members the source writes.
-/

namespace RRC

/-- The dispatcher modes, `enum execute_mode_t` of RRC.h. -/
inductive execute_mode_t where
  | IDLE
  | STIMTHRESHOLD
  | PACE
  | RRCTHRESHOLD
  | RRCPROTOCOL
  deriving DecidableEq

/-- The modes of the APD detector, `enum apd_mode_t` of RRC.h. -/
inductive apd_mode_t where
  | START
  | PEAK
  | DOWN
  | DONE
  deriving DecidableEq

/-- The data members of `RRC::Module` (RRC.h lines 49-131) together with the
host's output channel `output(0)` and the thread's active flag. -/
structure Module where
  /-- The value last written to the output channel, `output(0)`. -/
  output0 : ℚ
  /-- The flag set by `setActive`. -/
  active : Bool
  time : ℚ
  voltage : ℚ
  beatNumber : ℚ
  apd : ℚ
  bcl : ℚ
  stim_amplitude : ℚ
  stim_length : ℚ
  ljp : ℚ
  cm : ℚ
  thresh_startAmplitude : ℚ
  thresh_ampIncrement : ℚ
  thresh_beatNumber : ℤ
  thresh_apdCutoff : ℤ
  rrc_amplitude : ℚ
  rrc_delay : ℚ
  rrc_length : ℤ
  rrc_thresholdWindow : ℤ
  rrc_beatNumber : ℤ
  rrc_chance : ℤ
  rrc_endBeatNumber : ℤ
  apd_repolPercent : ℤ
  apd_min : ℤ
  apd_stimWindow : ℤ
  time_int : ℤ
  bcl_int : ℤ
  stim_length_int : ℤ
  beatNumber_int : ℤ
  outputCurrent : ℚ
  period : ℚ
  execute_mode : execute_mode_t
  recording : Bool
  pace_onFlag : Bool
  pace_recordData : Bool
  bcl_startTime : ℤ
  bcl_stepTime : ℤ
  stim_onFlag : Bool
  stim_recordData : Bool
  stim_backToBaseline : Bool
  stim_peakVoltage : ℚ
  stim_vmRest : ℚ
  stim_responseDuration : ℚ
  stim_responseTime : ℚ
  stim_startTime : ℚ
  stim_stimulusLevel : ℚ
  thresh_onFlag : Bool
  thresh_recordData : Bool
  thresh_rrcThreshFound : Bool
  thresh_previousAPD : ℚ
  thresh_rrcAmplitude : ℚ
  rrcProtocol_onFlag : Bool
  rrcProtocol_recordData : Bool
  rrc_startTime : ℤ
  rrc_endTime : ℤ
  rrc_random_injection : ℤ
  rrc_random_threshold : ℤ
  apd_mode : apd_mode_t
  apd_vmRest : ℚ
  apd_upstrokeThreshold : ℚ
  apd_downstrokeThreshold : ℚ
  apd_startTime : ℚ
  apd_peakTime : ℚ
  apd_peakVoltage : ℚ
  apd_endTime : ℚ

/-- What one call of `execute` reads from outside the object: the sample on
`input(0)` (volts) and the results of the two calls of `std::rand()` that a beat
boundary of the randomized protocol makes. -/
structure StepInput where
  input0 : ℚ
  rand1 : ℕ
  rand2 : ℕ

/-- Conversion of a `double` to an `int`: the fractional part is discarded. -/
def truncToInt (q : ℚ) : ℤ := if 0 ≤ q then ⌊q⌋ else ⌈q⌉

/-- The power of two `2 ^ e` as a rational. -/
def pow2 (e : ℤ) : ℚ :=
  if 0 ≤ e then ((2 ^ e.toNat : ℕ) : ℚ) else 1 / ((2 ^ (-e).toNat : ℕ) : ℚ)

/-- The integer nearest to `x`; a tie goes to the even neighbour. -/
def roundHalfEven (x : ℚ) : ℤ :=
  if x - ⌊x⌋ < 1 / 2 then ⌊x⌋
  else if x - ⌊x⌋ > 1 / 2 then ⌊x⌋ + 1
  else if ⌊x⌋ % 2 = 0 then ⌊x⌋ else ⌊x⌋ + 1

/-- The number of halvings that bring `n` below 2, with fuel. -/
def log2Fuel : ℕ → ℕ → ℕ
  | 0, _ => 0
  | fuel + 1, n => if 2 ≤ n then log2Fuel fuel (n / 2) + 1 else 0

/-- The binary logarithm of a natural number, rounded down (0 for 0). -/
def log2 (n : ℕ) : ℕ := log2Fuel n n

/-- The multiple of `2 ^ (e - 52)` nearest to `q`: the binary64 value of a `q`
with `2 ^ e ≤ q < 2 ^ (e + 1)`. -/
def roundAt (q : ℚ) (e : ℤ) : ℚ := (roundHalfEven (q / pow2 (e - 52)) : ℚ) * pow2 (e - 52)

/-- Rounding of a non-negative rational to 53 significant bits. The exponent
of `q` is `log2 num - log2 den` or one less; the comparison with the power of
two selects it. -/
def roundMagnitude (q : ℚ) : ℚ :=
  if pow2 ((log2 q.num.natAbs : ℤ) - (log2 q.den : ℤ)) ≤ q then
    roundAt q ((log2 q.num.natAbs : ℤ) - (log2 q.den : ℤ))
  else if pow2 ((log2 q.num.natAbs : ℤ) - (log2 q.den : ℤ) - 1) ≤ q then
    roundAt q ((log2 q.num.natAbs : ℤ) - (log2 q.den : ℤ) - 1)
  else q

/-- The result of an IEEE binary64 operation whose exact result is `q`: round
to nearest, ties to even, 53 significant bits. -/
def roundDouble (q : ℚ) : ℚ := if q < 0 then -roundMagnitude (-q) else roundMagnitude q

/-- The C++ conversion `(int) x` of a `double`: truncation toward zero; outside
the range of a 32-bit `int` the conversion is undefined and the value is the
one the x86 conversion instruction returns. -/
def doubleToInt (q : ℚ) : ℤ :=
  if -2147483648 ≤ truncToInt q ∧ truncToInt q ≤ 2147483647 then truncToInt q else -2147483648

/-- The C++ expression `(int)(a / b)` on doubles; a quotient by 0 is an
infinity or a NaN, whose conversion is undefined (see `doubleToInt`). -/
def divToInt (a b : ℚ) : ℤ := if b = 0 then -2147483648 else doubleToInt (roundDouble (a / b))

/-- The C++ expression `(int)(k + a / b)` with an `int` k and doubles a, b. -/
def sumDivToInt (k : ℤ) (a b : ℚ) : ℤ :=
  if b = 0 then -2147483648 else doubleToInt (roundDouble ((k : ℚ) + roundDouble (a / b)))

/-- The value of a 32-bit `int` computation whose exact result is `z`. -/
def wrapInt32 (z : ℤ) : ℤ := (z + 2147483648) % 4294967296 - 2147483648

/-- The C++ comparison `x > a / b` on doubles with `x` finite: a quotient by 0
is an infinity of the sign of `a`, or a NaN when `a` is 0, which compares
false. -/
def gtQuotient (x a b : ℚ) : Prop := if b = 0 then a < 0 else x > roundDouble (a / b)

instance (x a b : ℚ) : Decidable (gtQuotient x a b) := by
  unfold gtQuotient
  infer_instance

/-- RRC.cpp lines 705-709: the start event is posted and the flag is set. -/
def dataRecord_start (m : Module) : Module := { m with recording := true }

/-- RRC.cpp lines 711-715: the stop event is posted and the flag is cleared. -/
def dataRecord_stop (m : Module) : Module := { m with recording := false }

/-- RRC.cpp lines 734-795, `calculateAPD(int step)`. -/
def calculateAPD (m : Module) (step : ℤ) : Module :=
  if step = 1 then
    { m with apd_mode := .START }
  else if step = 2 then
    match m.apd_mode with
    | .START =>
      if m.voltage ≥ m.apd_upstrokeThreshold then
        { m with apd_startTime := m.time, apd_peakVoltage := m.apd_vmRest, apd_mode := .PEAK }
      else if gtQuotient ((m.time_int - m.time_int : ℤ) : ℚ)
          ((wrapInt32 (2 * m.apd_stimWindow) : ℤ) : ℚ) m.period then
        { m with apd_mode := .DONE, apd := 0 }
      else m
    | .PEAK =>
      if (m.time - m.apd_startTime) > (m.apd_stimWindow : ℚ) then
        if m.apd_peakVoltage < m.voltage then
          { m with apd_peakVoltage := m.voltage, apd_peakTime := m.time }
        else if (m.time - m.apd_peakTime) > 5 then
          { m with
            apd_downstrokeThreshold :=
              m.apd_peakVoltage -
                ((m.apd_peakVoltage - m.apd_vmRest) * ((m.apd_repolPercent : ℚ) / 100)),
            apd_mode := .DOWN }
        else m
      else m
    | .DOWN =>
      if m.voltage ≤ m.apd_downstrokeThreshold then
        { m with apd_endTime := m.time, apd := m.time - m.apd_startTime, apd_mode := .DONE }
      else m
    | .DONE => m
  else m

/-- RRC.cpp line 719, `getPeriod() * 1e-6`: the period of the host, a
`long long` in nanoseconds, is converted to `double` and multiplied by the
`double` nearest to 1e-6. -/
def periodMs (period_ns : ℤ) : ℚ :=
  roundDouble (roundDouble (period_ns : ℚ) * roundDouble (1 / 1000000))

/-- RRC.cpp lines 717-731, `reset()`; `period_ns` is what the host's
`getPeriod()` returns. -/
def reset (m : Module) (period_ns : ℤ) : Module :=
  let m := { m with period := periodMs period_ns }
  let m := { m with bcl_int := divToInt m.bcl m.period }
  let m := { m with stim_length_int := divToInt m.stim_length m.period }
  let m := { m with
    time := -m.period, time_int := -1, bcl_startTime := 0, beatNumber := 1,
    beatNumber_int := 1 }
  calculateAPD m 1

/-- The first two statements of every running case of `execute`: the clock
advances by one period and one tick. -/
def advanceClock (m : Module) : Module :=
  { m with time := m.time + m.period, time_int := m.time_int + 1 }

/-- The third statement of every running case: recording starts at tick 0 when
the protocol's record flag is set. -/
def startRecordingAtZero (m : Module) (recordData : Bool) : Module :=
  if m.time_int = 0 ∧ recordData = true ∧ m.recording = false then dataRecord_start m else m

/-- The beat bookkeeping shared by the three pacing cases (e.g. RRC.cpp lines
155-160): the resting voltage is marked and phase 1 of the detector runs unless
the detector is in DOWN. -/
def restartAPD (m : Module) : Module :=
  let m := { m with apd_vmRest := m.voltage }
  if m.apd_mode ≠ .DOWN then calculateAPD m 1 else m

/-- RRC.cpp lines 284-289 and 347-352: the injection window of the new beat. -/
def setInjectionWindow (m : Module) : Module :=
  let m := { m with rrc_startTime := sumDivToInt m.stim_length_int m.rrc_delay m.period }
  if m.rrc_length = 0 then
    { m with rrc_endTime := m.bcl_int }
  else
    { m with rrc_endTime := divToInt (m.rrc_length : ℚ) m.period }

/-- RRC.cpp lines 151-161: the beat boundary of `case PACE`. -/
def beat_PACE (m : Module) : Module :=
  if m.time_int - m.bcl_startTime ≥ m.bcl_int then
    restartAPD { m with beatNumber := m.beatNumber + 1, bcl_startTime := m.time_int }
  else m

/-- RRC.cpp lines 163-172: the stimulus window of `case PACE` and the write to
the output channel. -/
def stimulus_PACE (m : Module) : Module :=
  let m :=
    if (m.time_int - m.bcl_startTime) < m.stim_length_int then
      { m with outputCurrent := m.stim_amplitude * (1 / 1000000000) }
    else
      { m with outputCurrent := 0 }
  { m with output0 := m.outputCurrent }

/-- RRC.cpp lines 144-176, `case PACE` of `execute`. -/
def execute_PACE (m : Module) : Module :=
  let m := advanceClock m
  let m := startRecordingAtZero m m.pace_recordData
  let m := beat_PACE m
  let m := stimulus_PACE m
  calculateAPD m 2

/-- RRC.cpp lines 195-197: the peak voltage after the stimulus. -/
def trackPeak_STIMTHRESHOLD (m : Module) : Module :=
  if m.voltage > m.stim_peakVoltage then { m with stim_peakVoltage := m.voltage } else m

/-- RRC.cpp lines 203-207: the first return to the baseline is recorded. -/
def markBaseline_STIMTHRESHOLD (m : Module) : Module :=
  if m.stim_backToBaseline = false then
    { m with
      stim_responseDuration := m.time - m.stim_startTime,
      stim_responseTime := m.time,
      stim_backToBaseline := true }
  else m

/-- RRC.cpp lines 213-219: an action potential was found, the search ends. -/
def accept_STIMTHRESHOLD (m : Module) : Module :=
  let m := { m with
    stim_amplitude := m.stim_stimulusLevel * (5 / 4),
    stim_onFlag := false,
    execute_mode := .IDLE }
  if m.recording = true then dataRecord_stop m else m

/-- RRC.cpp lines 221-231: no action potential; after 200 ms of rest the
stimulus is increased and a new trial begins. -/
def retry_STIMTHRESHOLD (m : Module) : Module :=
  if m.time - m.stim_responseTime > 200 then
    { m with
      stim_stimulusLevel := m.stim_stimulusLevel + 1 / 10,
      stim_startTime := m.time,
      bcl_startTime := m.time_int }
  else m

/-- RRC.cpp lines 185-233: the stimulus window, the peak and baseline tracking
and the completion rule of `case STIMTHRESHOLD`. -/
def search_STIMTHRESHOLD (m : Module) : Module :=
  if m.time_int - m.bcl_startTime < m.stim_length_int then
    { m with stim_backToBaseline := false, output0 := m.stim_stimulusLevel * (1 / 1000000000) }
  else
    let m := trackPeak_STIMTHRESHOLD { m with output0 := 0 }
    if m.voltage - m.stim_vmRest < 2 then
      let m := markBaseline_STIMTHRESHOLD m
      if m.stim_responseDuration > 50 ∧ m.stim_peakVoltage > 10 then
        accept_STIMTHRESHOLD m
      else
        retry_STIMTHRESHOLD m
    else m

/-- RRC.cpp lines 178-234, `case STIMTHRESHOLD` of `execute`. -/
def execute_STIMTHRESHOLD (m : Module) : Module :=
  let m := advanceClock m
  let m := startRecordingAtZero m m.stim_recordData
  search_STIMTHRESHOLD m

/-- RRC.cpp lines 293-297 and 356-360: inside the stimulus window the stimulus
amplitude (nA, converted to A) is added to the output current. -/
def addStimulus (m : Module) : Module :=
  if (m.time_int - m.bcl_startTime) < m.stim_length_int then
    { m with outputCurrent := m.outputCurrent + m.stim_amplitude * (1 / 1000000000) }
  else m

/-- RRC.cpp lines 298-303: on an injection beat of the threshold search the
trial RRC amplitude is added inside the injection window. -/
def addInjection_RRCTHRESHOLD (m : Module) : Module :=
  if m.beatNumber_int.tmod m.thresh_beatNumber = 0 then
    if (m.time_int - m.bcl_startTime) > m.rrc_startTime ∧
        (m.time_int - m.bcl_startTime) < m.rrc_endTime then
      { m with outputCurrent := m.outputCurrent + m.thresh_rrcAmplitude * (1 / 1000000000) }
    else m
  else m

/-- RRC.cpp lines 305 and 376: `output(0) = outputCurrent`. -/
def writeOutput (m : Module) : Module := { m with output0 := m.outputCurrent }

/-- RRC.cpp lines 292-305: the output of a step of the threshold search. -/
def output_RRCTHRESHOLD (m : Module) : Module :=
  let m := { m with outputCurrent := 0 }
  let m := addStimulus m
  let m := addInjection_RRCTHRESHOLD m
  writeOutput m

/-- RRC.cpp line 255, `thresh_previousAPD * (1 + (thresh_apdCutoff / 100.0))`:
the APD at which the search ends, three operations on doubles. -/
def cutoffAPD (m : Module) : ℚ :=
  roundDouble (m.thresh_previousAPD * roundDouble (1 + roundDouble ((m.thresh_apdCutoff : ℚ) / 100)))

/-- RRC.cpp lines 247-260: the comparison made at a beat boundary of the
threshold search. -/
def compare_RRCTHRESHOLD (m : Module) : Module :=
  if m.beatNumber_int.tmod m.thresh_beatNumber = 0 then
    if m.thresh_previousAPD < 0 then
      { m with thresh_previousAPD := m.apd }
    else if m.apd_mode = .DOWN then
      { m with thresh_rrcThreshFound := true }
    else if m.apd ≥ cutoffAPD m then
      { m with thresh_rrcThreshFound := true }
    else
      { m with
        thresh_previousAPD := m.apd,
        thresh_rrcAmplitude := m.thresh_rrcAmplitude + m.thresh_ampIncrement }
  else m

/-- RRC.cpp lines 263-269: the end of the threshold search. -/
def finish_RRCTHRESHOLD (m : Module) : Module :=
  let m := { m with execute_mode := .IDLE, thresh_onFlag := false, output0 := 0 }
  if m.recording = true then dataRecord_stop m else m

/-- RRC.cpp lines 272-289: a new beat of the threshold search. -/
def newBeat_RRCTHRESHOLD (m : Module) : Module :=
  let m := { m with
    beatNumber := m.beatNumber + 1,
    beatNumber_int := m.beatNumber_int + 1,
    bcl_startTime := m.time_int }
  let m := restartAPD m
  setInjectionWindow m

/-- RRC.cpp lines 236-309, `case RRCTHRESHOLD` of `execute`. -/
def execute_RRCTHRESHOLD (m : Module) : Module :=
  let m := advanceClock m
  let m := startRecordingAtZero m m.thresh_recordData
  if m.time_int - m.bcl_startTime ≥ m.bcl_int then
    let m := compare_RRCTHRESHOLD m
    if m.thresh_rrcThreshFound = true then
      finish_RRCTHRESHOLD m
    else
      calculateAPD (output_RRCTHRESHOLD (newBeat_RRCTHRESHOLD m)) 2
  else
    calculateAPD (output_RRCTHRESHOLD m) 2

/-- RRC.cpp lines 363-364: the injection condition of the randomized
protocol. -/
def injectionCondition (m : Module) : Prop :=
  m.beatNumber_int.tmod m.rrc_beatNumber = 0 ∧ m.rrc_random_injection ≤ m.rrc_chance

instance (m : Module) : Decidable (injectionCondition m) := by
  unfold injectionCondition
  infer_instance

/-- RRC.cpp lines 361-374: when the injection condition holds, the RRC
amplitude raised (draw ≥ 50) or lowered (draw < 50) by the threshold window is
added inside the injection window. -/
def addInjection_RRCPROTOCOL (m : Module) : Module :=
  if injectionCondition m then
    if (m.time_int - m.bcl_startTime) > m.rrc_startTime ∧
        (m.time_int - m.bcl_startTime) < m.rrc_endTime then
      if m.rrc_random_threshold ≥ 50 then
        { m with
          outputCurrent := m.outputCurrent +
            m.rrc_amplitude * (1 + ((m.rrc_thresholdWindow : ℚ) / 100)) * (1 / 1000000000) }
      else
        { m with
          outputCurrent := m.outputCurrent +
            m.rrc_amplitude * (1 - ((m.rrc_thresholdWindow : ℚ) / 100)) * (1 / 1000000000) }
    else m
  else m

/-- RRC.cpp lines 355-376: the output of a step of the randomized protocol. -/
def output_RRCPROTOCOL (m : Module) : Module :=
  let m := { m with outputCurrent := 0 }
  let m := addStimulus m
  let m := addInjection_RRCPROTOCOL m
  writeOutput m

/-- RRC.cpp lines 321-328: the end of the randomized protocol. -/
def finish_RRCPROTOCOL (m : Module) : Module :=
  let m := if m.recording = true then dataRecord_stop m else m
  { m with rrcProtocol_onFlag := false, execute_mode := .IDLE, output0 := 0 }

/-- RRC.cpp lines 331-352: a new beat of the randomized protocol; the two
draws are `std::rand() % 100 + 1`. -/
def newBeat_RRCPROTOCOL (m : Module) (inp : StepInput) : Module :=
  let m := { m with
    beatNumber := m.beatNumber + 1,
    beatNumber_int := m.beatNumber_int + 1,
    bcl_startTime := m.time_int }
  let m := restartAPD m
  let m := { m with rrc_random_injection := (inp.rand1 : ℤ).tmod 100 + 1 }
  let m := { m with rrc_random_threshold := (inp.rand2 : ℤ).tmod 100 + 1 }
  setInjectionWindow m

/-- RRC.cpp lines 311-380, `case RRCPROTOCOL` of `execute`. -/
def execute_RRCPROTOCOL (m : Module) (inp : StepInput) : Module :=
  let m := advanceClock m
  let m := startRecordingAtZero m m.rrcProtocol_recordData
  if m.time_int - m.bcl_startTime ≥ m.bcl_int then
    if m.beatNumber ≥ (m.rrc_endBeatNumber : ℚ) then
      finish_RRCPROTOCOL m
    else
      calculateAPD (output_RRCPROTOCOL (newBeat_RRCPROTOCOL m inp)) 2
  else
    calculateAPD (output_RRCPROTOCOL m) 2

/-- RRC.cpp lines 137-382, `execute()`: one step of the engine. -/
def execute (m : Module) (inp : StepInput) : Module :=
  let m := { m with voltage := inp.input0 * 1000 - m.ljp }
  match m.execute_mode with
  | .IDLE => m
  | .PACE => execute_PACE m
  | .STIMTHRESHOLD => execute_STIMTHRESHOLD m
  | .RRCTHRESHOLD => execute_RRCTHRESHOLD m
  | .RRCPROTOCOL => execute_RRCPROTOCOL m inp

/-- The else branch of the four toggle functions (e.g. RRC.cpp lines 843-851):
recording stops, the mode becomes IDLE and the thread is made inactive. -/
def cancelProtocol (m : Module) : Module :=
  let m := if m.recording = true then { m with recording := false } else m
  { m with execute_mode := .IDLE, active := false }

/-- RRC.cpp lines 798-827, `toggle_stimThreshold()`; `checked` is the state of
the button and `input0` the sample on the input channel. -/
def toggle_stimThreshold (m : Module) (checked : Bool) (period_ns : ℤ) (input0 : ℚ) : Module :=
  let m := { m with stim_onFlag := checked, active := false }
  if m.stim_onFlag = true then
    let m := { m with execute_mode := .STIMTHRESHOLD }
    let m := reset m period_ns
    let m := { m with stim_vmRest := input0 * 1000 - m.ljp }
    let m := { m with stim_peakVoltage := m.stim_vmRest }
    { m with
      stim_stimulusLevel := 2, stim_responseDuration := 0, stim_responseTime := 0,
      active := true }
  else cancelProtocol m

/-- RRC.cpp lines 829-852, `toggle_pace()`. -/
def toggle_pace (m : Module) (checked : Bool) (period_ns : ℤ) : Module :=
  let m := { m with pace_onFlag := checked, active := false }
  if m.pace_onFlag = true then
    let m := reset m period_ns
    { m with execute_mode := .PACE, active := true }
  else cancelProtocol m

/-- RRC.cpp lines 854-881, `toggle_rrcThreshold()`. -/
def toggle_rrcThreshold (m : Module) (checked : Bool) (period_ns : ℤ) : Module :=
  let m := { m with thresh_onFlag := checked, active := false }
  if m.thresh_onFlag = true then
    let m := reset m period_ns
    let m := { m with
      execute_mode := .RRCTHRESHOLD, thresh_previousAPD := -1, thresh_rrcThreshFound := false }
    { m with thresh_rrcAmplitude := m.thresh_startAmplitude, active := true }
  else cancelProtocol m

/-- RRC.cpp lines 883-906, `toggle_rrcProtocol()`. -/
def toggle_rrcProtocol (m : Module) (checked : Bool) (period_ns : ℤ) : Module :=
  let m := { m with rrcProtocol_onFlag := checked, active := false }
  if m.rrcProtocol_onFlag = true then
    let m := reset m period_ns
    { m with execute_mode := .RRCPROTOCOL, active := true }
  else cancelProtocol m

/-- RRC.cpp lines 533-573, `initialize()` (the name is reserved in Lean): the
states, the parameters and the record flags receive their compiled-in values;
every other member keeps what the memory of the object held. -/
def initialise (m : Module) : Module :=
  { m with
    time := 0, voltage := 0, beatNumber := 0, apd := 0,
    bcl := 1000, stim_amplitude := 4, stim_length := 1, ljp := 0, cm := 100,
    thresh_startAmplitude := 0, thresh_ampIncrement := 1 / 100, thresh_beatNumber := 3,
    thresh_apdCutoff := 20,
    rrc_amplitude := 0, rrc_delay := 5, rrc_length := 0, rrc_thresholdWindow := 10,
    rrc_beatNumber := 3, rrc_chance := 50, rrc_endBeatNumber := 100,
    apd_repolPercent := 90, apd_min := 50, apd_stimWindow := 4,
    pace_recordData := false, stim_recordData := false, thresh_recordData := false,
    rrcProtocol_recordData := false }

/-- A run of the engine: the state after the first `n` calls of `execute`,
the call number `k` (k = 0, 1, ...) reading `inp k`. After a start command the
call number `k` is the step whose tick counter is `k`. -/
def run (m : Module) (inp : ℕ → StepInput) : ℕ → Module
  | 0 => m
  | n + 1 => execute (run m inp n) (inp n)

/-- The states that the engine reaches from a start command: a start command
may be given in any state, and after it the engine takes steps and may be
cancelled or restarted. -/
inductive Reachable : Module → Prop where
  | start_stimThreshold (m : Module) (period_ns : ℤ) (input0 : ℚ) :
      Reachable (toggle_stimThreshold m true period_ns input0)
  | start_pace (m : Module) (period_ns : ℤ) : Reachable (toggle_pace m true period_ns)
  | start_rrcThreshold (m : Module) (period_ns : ℤ) :
      Reachable (toggle_rrcThreshold m true period_ns)
  | start_rrcProtocol (m : Module) (period_ns : ℤ) :
      Reachable (toggle_rrcProtocol m true period_ns)
  | step (m : Module) (inp : StepInput) : Reachable m → Reachable (execute m inp)
  | cancel_stimThreshold (m : Module) (period_ns : ℤ) (input0 : ℚ) :
      Reachable m → Reachable (toggle_stimThreshold m false period_ns input0)
  | cancel_pace (m : Module) (period_ns : ℤ) :
      Reachable m → Reachable (toggle_pace m false period_ns)
  | cancel_rrcThreshold (m : Module) (period_ns : ℤ) :
      Reachable m → Reachable (toggle_rrcThreshold m false period_ns)
  | cancel_rrcProtocol (m : Module) (period_ns : ℤ) :
      Reachable m → Reachable (toggle_rrcProtocol m false period_ns)

/-! ## Objects and input traces used in the examples -/

/-- An object whose memory is all zero, IDLE and inactive: one of the values
the memory of a new object can hold before `initialise`. -/
def zeroModule : Module where
  output0 := 0
  active := false
  time := 0
  voltage := 0
  beatNumber := 0
  apd := 0
  bcl := 0
  stim_amplitude := 0
  stim_length := 0
  ljp := 0
  cm := 0
  thresh_startAmplitude := 0
  thresh_ampIncrement := 0
  thresh_beatNumber := 0
  thresh_apdCutoff := 0
  rrc_amplitude := 0
  rrc_delay := 0
  rrc_length := 0
  rrc_thresholdWindow := 0
  rrc_beatNumber := 0
  rrc_chance := 0
  rrc_endBeatNumber := 0
  apd_repolPercent := 0
  apd_min := 0
  apd_stimWindow := 0
  time_int := 0
  bcl_int := 0
  stim_length_int := 0
  beatNumber_int := 0
  outputCurrent := 0
  period := 0
  execute_mode := .IDLE
  recording := false
  pace_onFlag := false
  pace_recordData := false
  bcl_startTime := 0
  bcl_stepTime := 0
  stim_onFlag := false
  stim_recordData := false
  stim_backToBaseline := false
  stim_peakVoltage := 0
  stim_vmRest := 0
  stim_responseDuration := 0
  stim_responseTime := 0
  stim_startTime := 0
  stim_stimulusLevel := 0
  thresh_onFlag := false
  thresh_recordData := false
  thresh_rrcThreshFound := false
  thresh_previousAPD := 0
  thresh_rrcAmplitude := 0
  rrcProtocol_onFlag := false
  rrcProtocol_recordData := false
  rrc_startTime := 0
  rrc_endTime := 0
  rrc_random_injection := 0
  rrc_random_threshold := 0
  apd_mode := .START
  apd_vmRest := 0
  apd_upstrokeThreshold := 0
  apd_downstrokeThreshold := 0
  apd_startTime := 0
  apd_peakTime := 0
  apd_peakVoltage := 0
  apd_endTime := 0

/-- The object after construction from zeroed memory: the compiled-in
parameters (bcl = 1000 ms, stimulus 4 nA for 1 ms, ...). -/
def defaultModule : Module := initialise zeroModule

/-- A step input that carries only a voltage sample (volts). -/
def sample (v : ℚ) : StepInput := { input0 := v, rand1 := 0, rand2 := 0 }

/-- The input stream of a preparation at 0 V that never draws a random number
above 0. -/
def quiet : ℕ → StepInput := fun _ => sample 0

/-- The compiled-in parameters with a cycle length of half a millisecond. -/
def shortCycleModule : Module := { defaultModule with bcl := 1 / 2 }

/-- The compiled-in parameters with a cycle length of 2 ms and a stimulus
length of 5 ms. -/
def longStimulusModule : Module := { defaultModule with bcl := 2, stim_length := 5 }

/-- The compiled-in parameters with a stimulus amplitude of 0 nA. -/
def zeroAmplitudeModule : Module := { defaultModule with stim_amplitude := 0 }

/-- The compiled-in parameters with a cycle length of 2 ms and an end-beat
count of 1. -/
def oneBeatModule : Module := { defaultModule with bcl := 2, rrc_endBeatNumber := 1 }

/-- The compiled-in parameters with a cycle length of 2 ms and an injection on
every beat of the threshold search. -/
def everyBeatModule : Module := { defaultModule with bcl := 2, thresh_beatNumber := 1 }

/-- A voltage trace with an action potential: -80 mV during the stimulus
(call 0), 20 mV during the calls 1 to 51 and -80 mV afterwards. -/
def apTrace : ℕ → StepInput := fun k =>
  if k = 0 then sample (-2 / 25) else if k ≤ 51 then sample (1 / 50) else sample (-2 / 25)

/-- The compiled-in parameters with a cycle length of 2 ms and an end-beat
count of 0. -/
def noBeatModule : Module := { defaultModule with bcl := 2, rrc_endBeatNumber := 0 }

/-- A new object whose memory holds 1000 in `rrc_endTime` and 0 elsewhere,
with the compiled-in parameters except an injection on every beat
(beat-spacing 1), an injection chance of 0 % and an RRC amplitude of 1 nA. No
draw has been made: `rrc_random_injection` and `rrc_random_threshold` hold
what the memory held, 0. -/
def undrawnModule : Module :=
  { initialise { zeroModule with rrc_endTime := 1000 } with
    rrc_beatNumber := 1, rrc_chance := 0, rrc_amplitude := 1 }

/-- A new object whose memory holds 1000 in `rrc_random_injection`, with the
compiled-in parameters except an injection on every beat and an injection
chance of 100 %. -/
def undrawnHighModule : Module :=
  { initialise { zeroModule with rrc_random_injection := 1000 } with
    rrc_beatNumber := 1, rrc_chance := 100 }

/-- The compiled-in parameters with a stimulus-artifact window of -1 ms. -/
def negativeWindowModule : Module := { defaultModule with apd_stimWindow := -1 }

/-- A preparation that rests at -80 mV. -/
def restTrace : ℕ → StepInput := fun _ => sample (-2 / 25)

/-- RRC.cpp lines 300-301 and 365-366: the test for the injection window, on
the offset of the tick from the start of the beat. -/
def insideInjectionWindow (s : Module) : Prop :=
  (s.time_int - s.bcl_startTime) > s.rrc_startTime ∧
    (s.time_int - s.bcl_startTime) < s.rrc_endTime

instance (s : Module) : Decidable (insideInjectionWindow s) := by
  unfold insideInjectionWindow
  infer_instance

/-- The stimulus part of the output in the words of the specification: the
stimulus amplitude (nA, as A) inside the stimulus window, else 0. -/
def spec_stimulusPart (s : Module) : ℚ :=
  if s.time_int - s.bcl_startTime < s.stim_length_int then
    s.stim_amplitude * (1 / 1000000000)
  else 0

/-- The injection part of the output of the randomized protocol in the words of
the specification: amplitude * (1 + thresholdWindow %) when the beat is a
multiple of the beat-spacing, the injection draw is at most the chance, the
tick is inside the injection window and the direction draw is at least 50;
amplitude * (1 - thresholdWindow %) under the same conditions with a direction
draw below 50; 0 otherwise. -/
def spec_injectionPart (s : Module) : ℚ :=
  if s.beatNumber_int.tmod s.rrc_beatNumber = 0 ∧ s.rrc_random_injection ≤ s.rrc_chance ∧
      insideInjectionWindow s then
    if s.rrc_random_threshold ≥ 50 then
      s.rrc_amplitude * (1 + (s.rrc_thresholdWindow : ℚ) / 100) * (1 / 1000000000)
    else
      s.rrc_amplitude * (1 - (s.rrc_thresholdWindow : ℚ) / 100) * (1 / 1000000000)
  else 0

/-- The compiled-in parameters with a cycle length of 10 ms, an injection on
every beat of the randomized protocol, a chance of 100 %, an RRC amplitude of
1 nA and an RRC delay of 2 ms. -/
def injectingModule : Module :=
  { defaultModule with
    bcl := 10, rrc_beatNumber := 1, rrc_chance := 100, rrc_amplitude := 1, rrc_delay := 2 }

/-- A preparation at 0 V whose draws are 69 (injection draw 70, direction draw
70, supra-threshold). -/
def drawTrace : ℕ → StepInput := fun _ => { input0 := 0, rand1 := 69, rand2 := 69 }

/-- The compiled-in parameters with a cycle length of 2 ms. -/
def twoTickModule : Module := { defaultModule with bcl := 2 }

/-- The compiled-in parameters with a cycle length of 10 ms and a
stimulus-artifact window of 0 ms. -/
def tenTickModule : Module := { defaultModule with bcl := 10, apd_stimWindow := 0 }

/-- A preparation that stays at 20 mV. -/
def plateauTrace : ℕ → StepInput := fun _ => sample (1 / 50)

/-- The compiled-in parameters with a stimulus length of 20 ms (2 ticks at a
period of 10 ms). -/
def longPulseModule : Module := { defaultModule with stim_length := 20 }

/-- The compiled-in parameters with a stimulus length of 10 ms (1 tick at a
period of 10 ms). -/
def onePulseModule : Module := { defaultModule with stim_length := 10 }

/-- A voltage trace with an action potential at a period of 10 ms: 20 mV during
the calls 0 to 6 and -80 mV afterwards. -/
def briefApTrace : ℕ → StepInput := fun k => if k ≤ 6 then sample (1 / 50) else sample (-2 / 25)

/-- A voltage trace that falls 10 mV below a resting voltage of -80 mV after
the stimulus: -90 mV during the calls 1 to 4, -80 mV otherwise. -/
def undershootTrace : ℕ → StepInput := fun k =>
  if 1 ≤ k ∧ k ≤ 4 then sample (-9 / 100) else sample (-2 / 25)

/-- The stimulus threshold search started on a new object, at a period of
10 ms and a resting voltage of -80 mV. -/
def freshSearch : Module := toggle_stimThreshold longPulseModule true 10000000 (-2 / 25)

/-- The same search started again after an earlier search on a resting
preparation that ran for 24 steps (one increment of the trial current) and was
cancelled. -/
def restartedSearch : Module :=
  toggle_stimThreshold
    (toggle_stimThreshold (run freshSearch restTrace 24) false 10000000 (-2 / 25))
    true 10000000 (-2 / 25)

/-- The stimulus threshold search with a stimulus of one tick, started on a new
object at a period of 10 ms and a resting voltage of -80 mV. -/
def onePulseSearch : Module := toggle_stimThreshold onePulseModule true 10000000 (-2 / 25)

/-- The injection part of the output of the threshold search in the words of
the specification: the trial amplitude on an injection beat inside the
injection window, else 0. -/
def spec_thresholdInjectionPart (s : Module) : ℚ :=
  if s.beatNumber_int.tmod s.thresh_beatNumber = 0 ∧ insideInjectionWindow s then
    s.thresh_rrcAmplitude * (1 / 1000000000)
  else 0

/-- The compiled-in parameters with a cycle of 10 ms, an injection on every
beat and a trial amplitude of 1 nA (stimulus 1 ms, delay 5 ms, length 0). -/
def windowModule : Module :=
  { defaultModule with bcl := 10, thresh_beatNumber := 1, thresh_startAmplitude := 1 }

/-- The same parameters with an injection length of 5 ms, which equals the
delay. -/
def shortWindowModule : Module := { windowModule with rrc_length := 5 }

/-- The peak of the beat in the words of the specification, after the upstroke
made by call `k` and the `i` calls that follow it (the state after call `k + i`
is `run s inp (k + 1 + i)`): the running maximum, seeded with the resting
voltage, of the voltages sampled outside the artifact window, paired with the
time at which the last new peak was observed (none while no sample has
exceeded the seed). -/
def spec_peakTrack (s : Module) (inp : ℕ → StepInput) (k : ℕ) : ℕ → ℚ × Option ℚ
  | 0 => ((run s inp (k + 1)).apd_vmRest, none)
  | i + 1 =>
    if (run s inp (k + 1 + (i + 1))).time - (run s inp (k + 1)).time >
          ((run s inp (k + 1 + (i + 1))).apd_stimWindow : ℚ) ∧
        (spec_peakTrack s inp k i).1 < (run s inp (k + 1 + (i + 1))).voltage then
      ((run s inp (k + 1 + (i + 1))).voltage, some (run s inp (k + 1 + (i + 1))).time)
    else spec_peakTrack s inp k i

/-- The compiled-in parameters with a cycle length of 20 ms and an upstroke
threshold of -40 mV. -/
def detectorModule : Module := { defaultModule with bcl := 20, apd_upstrokeThreshold := -40 }

/-- A voltage trace with an action potential in the second beat: -80 mV up to
call 20 and 20 mV from call 21 on. -/
def spikeTrace : ℕ → StepInput := fun k => if 21 ≤ k then sample (1 / 50) else sample (-2 / 25)

/-- A voltage trace with a failed stimulus in the second beat: -80 mV up to
call 20, a stimulus artifact of -30 mV at the calls 21 and 22, and -85 mV from
call 23 on. -/
def failedTrace : ℕ → StepInput := fun k =>
  if k = 21 ∨ k = 22 then sample (-3 / 100)
  else if 23 ≤ k then sample (-17 / 200) else sample (-2 / 25)

/-- What `modify()` reads from the fields and check boxes of the user
interface. -/
structure GuiValues where
  bcl : ℚ
  stim_amplitude : ℚ
  stim_length : ℚ
  ljp : ℚ
  cm : ℚ
  thresh_startAmplitude : ℚ
  thresh_ampIncrement : ℚ
  thresh_beatNumber : ℤ
  thresh_apdCutoff : ℤ
  rrc_amplitude : ℚ
  rrc_delay : ℚ
  rrc_length : ℤ
  rrc_thresholdWindow : ℤ
  rrc_beatNumber : ℤ
  rrc_chance : ℤ
  rrc_endBeatNumber : ℤ
  apd_repolPercent : ℤ
  apd_min : ℤ
  apd_stimWindow : ℤ
  stim_recordData : Bool
  pace_recordData : Bool
  thresh_recordData : Bool
  rrcProtocol_recordData : Bool

/-- RRC.cpp lines 643-702, `modify()`: the thread is paused, the parameters and
the record flags receive the values of the user interface, and the thread gets
back the activity it had. -/
def modify (m : Module) (g : GuiValues) : Module :=
  let active := m.active
  let m := { m with active := false }
  let m := { m with
    bcl := g.bcl, stim_amplitude := g.stim_amplitude, stim_length := g.stim_length,
    ljp := g.ljp, cm := g.cm,
    thresh_startAmplitude := g.thresh_startAmplitude,
    thresh_ampIncrement := g.thresh_ampIncrement,
    thresh_beatNumber := g.thresh_beatNumber, thresh_apdCutoff := g.thresh_apdCutoff,
    rrc_amplitude := g.rrc_amplitude, rrc_delay := g.rrc_delay, rrc_length := g.rrc_length,
    rrc_thresholdWindow := g.rrc_thresholdWindow, rrc_beatNumber := g.rrc_beatNumber,
    rrc_chance := g.rrc_chance, rrc_endBeatNumber := g.rrc_endBeatNumber,
    apd_repolPercent := g.apd_repolPercent, apd_min := g.apd_min,
    apd_stimWindow := g.apd_stimWindow,
    stim_recordData := g.stim_recordData, pace_recordData := g.pace_recordData,
    thresh_recordData := g.thresh_recordData,
    rrcProtocol_recordData := g.rrcProtocol_recordData }
  { m with active := active }

/-- The states that the engine reaches from a new object whose memory holds
`m0`: `initialize()` runs in the constructor, and after it the parameters may
be modified, every button may be pressed or released with any period, and
steps may be taken in any state. -/
inductive ReachableFrom (m0 : Module) : Module → Prop where
  | init : ReachableFrom m0 (initialise m0)
  | modify (m : Module) (g : GuiValues) : ReachableFrom m0 m → ReachableFrom m0 (modify m g)
  | toggle_stimThreshold (m : Module) (checked : Bool) (period_ns : ℤ) (input0 : ℚ) :
      ReachableFrom m0 m → ReachableFrom m0 (toggle_stimThreshold m checked period_ns input0)
  | toggle_pace (m : Module) (checked : Bool) (period_ns : ℤ) :
      ReachableFrom m0 m → ReachableFrom m0 (toggle_pace m checked period_ns)
  | toggle_rrcThreshold (m : Module) (checked : Bool) (period_ns : ℤ) :
      ReachableFrom m0 m → ReachableFrom m0 (toggle_rrcThreshold m checked period_ns)
  | toggle_rrcProtocol (m : Module) (checked : Bool) (period_ns : ℤ) :
      ReachableFrom m0 m → ReachableFrom m0 (toggle_rrcProtocol m checked period_ns)
  | step (m : Module) (inp : StepInput) : ReachableFrom m0 m → ReachableFrom m0 (execute m inp)

/-- Values of the user interface that differ from the compiled-in parameters:
a cycle of 500 ms, a stimulus of 2 nA for 2 ms, a liquid junction potential of
10 mV, 50 % repolarization. -/
def otherGuiValues : GuiValues where
  bcl := 500
  stim_amplitude := 2
  stim_length := 2
  ljp := 10
  cm := 50
  thresh_startAmplitude := 1
  thresh_ampIncrement := 1 / 10
  thresh_beatNumber := 1
  thresh_apdCutoff := 10
  rrc_amplitude := 1
  rrc_delay := 1
  rrc_length := 0
  rrc_thresholdWindow := 5
  rrc_beatNumber := 1
  rrc_chance := 100
  rrc_endBeatNumber := 10
  apd_repolPercent := 50
  apd_min := 10
  apd_stimWindow := 1
  stim_recordData := true
  pace_recordData := true
  thresh_recordData := true
  rrcProtocol_recordData := true

/-- A new object whose memory holds an upstroke threshold of -40 mV. -/
def rawModule : Module := { zeroModule with apd_upstrokeThreshold := -40 }

/-- The timing of the detector that keeps the reported APD from being
negative: the period is positive, in PEAK the start time is not after the
current time, and in DOWN it lies at least one period before it. -/
def detectorTimed (m : Module) : Prop :=
  0 < m.period ∧ (m.apd_mode = .PEAK → m.apd_startTime ≤ m.time) ∧
    (m.apd_mode = .DOWN → m.apd_startTime + m.period ≤ m.time)

/-- The states that the engine reaches in use from a new object: the thread of
a new object is inactive, the parameters may be modified at any time, the host
reports a positive period to every start command, every protocol may be
cancelled, and `execute` is called only while the thread is active. -/
inductive ReachableInUse : Module → Prop where
  | init (m : Module) : m.active = false → ReachableInUse (initialise m)
  | modify (m : Module) (g : GuiValues) : ReachableInUse m → ReachableInUse (modify m g)
  | start_stimThreshold (m : Module) (period_ns : ℤ) (input0 : ℚ) : 0 < period_ns →
      ReachableInUse m → ReachableInUse (toggle_stimThreshold m true period_ns input0)
  | start_pace (m : Module) (period_ns : ℤ) : 0 < period_ns →
      ReachableInUse m → ReachableInUse (toggle_pace m true period_ns)
  | start_rrcThreshold (m : Module) (period_ns : ℤ) : 0 < period_ns →
      ReachableInUse m → ReachableInUse (toggle_rrcThreshold m true period_ns)
  | start_rrcProtocol (m : Module) (period_ns : ℤ) : 0 < period_ns →
      ReachableInUse m → ReachableInUse (toggle_rrcProtocol m true period_ns)
  | cancel_stimThreshold (m : Module) (period_ns : ℤ) (input0 : ℚ) :
      ReachableInUse m → ReachableInUse (toggle_stimThreshold m false period_ns input0)
  | cancel_pace (m : Module) (period_ns : ℤ) :
      ReachableInUse m → ReachableInUse (toggle_pace m false period_ns)
  | cancel_rrcThreshold (m : Module) (period_ns : ℤ) :
      ReachableInUse m → ReachableInUse (toggle_rrcThreshold m false period_ns)
  | cancel_rrcProtocol (m : Module) (period_ns : ℤ) :
      ReachableInUse m → ReachableInUse (toggle_rrcProtocol m false period_ns)
  | step (m : Module) (inp : StepInput) : m.active = true →
      ReachableInUse m → ReachableInUse (execute m inp)

/-- The pace protocol started at a period of 1 ms on a new object, after
initialize and a modification of the parameters (cycle 500 ms, liquid junction
potential 10 mV, artifact window 1 ms, 50 % repolarization). -/
def startedPace : Module :=
  toggle_pace (modify (initialise rawModule) otherGuiValues) true 1000000

/-- The compiled-in parameters with a cycle length entered as 256.4 ms: the
member holds the `double` nearest to 256.4. -/
def roundedCycleModule : Module := { defaultModule with bcl := roundDouble (1282 / 5) }

/-- The compiled-in parameters with a stimulus length entered as 2.3 ms: the
member holds the `double` nearest to 2.3. -/
def roundedStimulusModule : Module := { defaultModule with stim_length := roundDouble (23 / 10) }

/-- The parameters of a threshold search with a cycle of 300 ms, an injection
on every beat, an APD cutoff of 10 % and an upstroke threshold of -40 mV. -/
def cutoffModule : Module :=
  { defaultModule with
    bcl := 300, thresh_beatNumber := 1, thresh_apdCutoff := 10, apd_upstrokeThreshold := -40 }

/-- The same parameters with an APD cutoff of 5 %. -/
def lowCutoffModule : Module := { cutoffModule with thresh_apdCutoff := 5 }

/-- A voltage trace at a period of 10 ms with two action potentials: 20 mV
during the calls 1 to 20 and 31 to 52, -80 mV otherwise. The detector reports
200 ms for the first and 220 ms for the second. -/
def twoBeatTrace : ℕ → StepInput := fun k =>
  if (1 ≤ k ∧ k ≤ 20) ∨ (31 ≤ k ∧ k ≤ 52) then sample (1 / 50) else sample (-2 / 25)

/-- The compiled-in parameters with a cycle length entered as 256.4 ms and an
end-beat count of 1. -/
def roundedOneBeatModule : Module := { roundedCycleModule with rrc_endBeatNumber := 1 }

/-- The compiled-in parameters with a stimulus-artifact window of 2^30 ms. -/
def wideWindowModule : Module := { defaultModule with apd_stimWindow := 1073741824 }

/-- The parameters of windowModule with a delay entered as 8.2 ms: the member
holds the double nearest to 8.2. -/
def delayModule : Module := { windowModule with rrc_delay := roundDouble (41 / 5) }

/-- The parameters of windowModule with a cycle length of 14 ms and a delay
entered as 9.1 ms. -/
def fineDelayModule : Module :=
  { windowModule with bcl := 14, rrc_delay := roundDouble (91 / 10) }

/-- The threshold search of windowModule at a period of 1 ms, after 10 steps:
the next step is the beat boundary of tick 10. -/
def windowBoundary : Module := run (toggle_rrcThreshold windowModule true 1000000) quiet 10

/-- The threshold search of fineDelayModule at a period of 650000 ns (1 tick of
stimulus, 21 ticks per beat), after 21 steps: the next step is the beat
boundary of tick 21. -/
def fineDelayBoundary : Module :=
  run (toggle_rrcThreshold fineDelayModule true 650000) quiet 21

/-- Phase 1 of the detector (RRC.cpp lines 736-738) only sets the mode to START. -/
@[simp] theorem calculateAPD_one (m : Module) :
    calculateAPD m 1 = { m with apd_mode := .START } := by
  simp [calculateAPD]

/-- The detector writes only its own members and the APD value. -/
theorem calculateAPD_frame (m : Module) (step : ℤ) :
    (calculateAPD m step).output0 = m.output0 ∧ (calculateAPD m step).active = m.active ∧
    (calculateAPD m step).time = m.time ∧ (calculateAPD m step).voltage = m.voltage ∧
    (calculateAPD m step).beatNumber = m.beatNumber ∧ (calculateAPD m step).bcl = m.bcl ∧
    (calculateAPD m step).stim_amplitude = m.stim_amplitude ∧
    (calculateAPD m step).stim_length = m.stim_length ∧ (calculateAPD m step).ljp = m.ljp ∧
    (calculateAPD m step).cm = m.cm ∧
    (calculateAPD m step).thresh_startAmplitude = m.thresh_startAmplitude ∧
    (calculateAPD m step).thresh_ampIncrement = m.thresh_ampIncrement ∧
    (calculateAPD m step).thresh_beatNumber = m.thresh_beatNumber ∧
    (calculateAPD m step).thresh_apdCutoff = m.thresh_apdCutoff ∧
    (calculateAPD m step).rrc_amplitude = m.rrc_amplitude ∧
    (calculateAPD m step).rrc_delay = m.rrc_delay ∧
    (calculateAPD m step).rrc_length = m.rrc_length ∧
    (calculateAPD m step).rrc_thresholdWindow = m.rrc_thresholdWindow ∧
    (calculateAPD m step).rrc_beatNumber = m.rrc_beatNumber ∧
    (calculateAPD m step).rrc_chance = m.rrc_chance ∧
    (calculateAPD m step).rrc_endBeatNumber = m.rrc_endBeatNumber ∧
    (calculateAPD m step).apd_repolPercent = m.apd_repolPercent ∧
    (calculateAPD m step).apd_min = m.apd_min ∧
    (calculateAPD m step).apd_stimWindow = m.apd_stimWindow ∧
    (calculateAPD m step).time_int = m.time_int ∧ (calculateAPD m step).bcl_int = m.bcl_int ∧
    (calculateAPD m step).stim_length_int = m.stim_length_int ∧
    (calculateAPD m step).beatNumber_int = m.beatNumber_int ∧
    (calculateAPD m step).outputCurrent = m.outputCurrent ∧
    (calculateAPD m step).period = m.period ∧ (calculateAPD m step).execute_mode = m.execute_mode ∧
    (calculateAPD m step).recording = m.recording ∧
    (calculateAPD m step).pace_onFlag = m.pace_onFlag ∧
    (calculateAPD m step).pace_recordData = m.pace_recordData ∧
    (calculateAPD m step).bcl_startTime = m.bcl_startTime ∧
    (calculateAPD m step).bcl_stepTime = m.bcl_stepTime ∧
    (calculateAPD m step).stim_onFlag = m.stim_onFlag ∧
    (calculateAPD m step).stim_recordData = m.stim_recordData ∧
    (calculateAPD m step).stim_backToBaseline = m.stim_backToBaseline ∧
    (calculateAPD m step).stim_peakVoltage = m.stim_peakVoltage ∧
    (calculateAPD m step).stim_vmRest = m.stim_vmRest ∧
    (calculateAPD m step).stim_responseDuration = m.stim_responseDuration ∧
    (calculateAPD m step).stim_responseTime = m.stim_responseTime ∧
    (calculateAPD m step).stim_startTime = m.stim_startTime ∧
    (calculateAPD m step).stim_stimulusLevel = m.stim_stimulusLevel ∧
    (calculateAPD m step).thresh_onFlag = m.thresh_onFlag ∧
    (calculateAPD m step).thresh_recordData = m.thresh_recordData ∧
    (calculateAPD m step).thresh_rrcThreshFound = m.thresh_rrcThreshFound ∧
    (calculateAPD m step).thresh_previousAPD = m.thresh_previousAPD ∧
    (calculateAPD m step).thresh_rrcAmplitude = m.thresh_rrcAmplitude ∧
    (calculateAPD m step).rrcProtocol_onFlag = m.rrcProtocol_onFlag ∧
    (calculateAPD m step).rrcProtocol_recordData = m.rrcProtocol_recordData ∧
    (calculateAPD m step).rrc_startTime = m.rrc_startTime ∧
    (calculateAPD m step).rrc_endTime = m.rrc_endTime ∧
    (calculateAPD m step).rrc_random_injection = m.rrc_random_injection ∧
    (calculateAPD m step).rrc_random_threshold = m.rrc_random_threshold ∧
    (calculateAPD m step).apd_vmRest = m.apd_vmRest ∧
    (calculateAPD m step).apd_upstrokeThreshold = m.apd_upstrokeThreshold := by
  unfold calculateAPD
  repeat' split
  all_goals exact ⟨rfl, rfl, rfl, rfl, rfl, rfl, rfl, rfl, rfl, rfl, rfl, rfl, rfl, rfl, rfl, rfl, rfl, rfl, rfl, rfl, rfl, rfl, rfl, rfl, rfl, rfl, rfl, rfl, rfl, rfl, rfl, rfl, rfl, rfl, rfl, rfl, rfl, rfl, rfl, rfl, rfl, rfl, rfl, rfl, rfl, rfl, rfl, rfl, rfl, rfl, rfl, rfl, rfl, rfl, rfl, rfl, rfl, rfl⟩

/-- Starting the recorder writes only the recording flag. -/
theorem startRecordingAtZero_frame (m : Module) (b : Bool) :
    (startRecordingAtZero m b).output0 = m.output0 ∧ (startRecordingAtZero m b).active = m.active ∧
    (startRecordingAtZero m b).time = m.time ∧ (startRecordingAtZero m b).voltage = m.voltage ∧
    (startRecordingAtZero m b).beatNumber = m.beatNumber ∧ (startRecordingAtZero m b).apd = m.apd ∧
    (startRecordingAtZero m b).bcl = m.bcl ∧
    (startRecordingAtZero m b).stim_amplitude = m.stim_amplitude ∧
    (startRecordingAtZero m b).stim_length = m.stim_length ∧
    (startRecordingAtZero m b).ljp = m.ljp ∧ (startRecordingAtZero m b).cm = m.cm ∧
    (startRecordingAtZero m b).thresh_startAmplitude = m.thresh_startAmplitude ∧
    (startRecordingAtZero m b).thresh_ampIncrement = m.thresh_ampIncrement ∧
    (startRecordingAtZero m b).thresh_beatNumber = m.thresh_beatNumber ∧
    (startRecordingAtZero m b).thresh_apdCutoff = m.thresh_apdCutoff ∧
    (startRecordingAtZero m b).rrc_amplitude = m.rrc_amplitude ∧
    (startRecordingAtZero m b).rrc_delay = m.rrc_delay ∧
    (startRecordingAtZero m b).rrc_length = m.rrc_length ∧
    (startRecordingAtZero m b).rrc_thresholdWindow = m.rrc_thresholdWindow ∧
    (startRecordingAtZero m b).rrc_beatNumber = m.rrc_beatNumber ∧
    (startRecordingAtZero m b).rrc_chance = m.rrc_chance ∧
    (startRecordingAtZero m b).rrc_endBeatNumber = m.rrc_endBeatNumber ∧
    (startRecordingAtZero m b).apd_repolPercent = m.apd_repolPercent ∧
    (startRecordingAtZero m b).apd_min = m.apd_min ∧
    (startRecordingAtZero m b).apd_stimWindow = m.apd_stimWindow ∧
    (startRecordingAtZero m b).time_int = m.time_int ∧
    (startRecordingAtZero m b).bcl_int = m.bcl_int ∧
    (startRecordingAtZero m b).stim_length_int = m.stim_length_int ∧
    (startRecordingAtZero m b).beatNumber_int = m.beatNumber_int ∧
    (startRecordingAtZero m b).outputCurrent = m.outputCurrent ∧
    (startRecordingAtZero m b).period = m.period ∧
    (startRecordingAtZero m b).execute_mode = m.execute_mode ∧
    (startRecordingAtZero m b).pace_onFlag = m.pace_onFlag ∧
    (startRecordingAtZero m b).pace_recordData = m.pace_recordData ∧
    (startRecordingAtZero m b).bcl_startTime = m.bcl_startTime ∧
    (startRecordingAtZero m b).bcl_stepTime = m.bcl_stepTime ∧
    (startRecordingAtZero m b).stim_onFlag = m.stim_onFlag ∧
    (startRecordingAtZero m b).stim_recordData = m.stim_recordData ∧
    (startRecordingAtZero m b).stim_backToBaseline = m.stim_backToBaseline ∧
    (startRecordingAtZero m b).stim_peakVoltage = m.stim_peakVoltage ∧
    (startRecordingAtZero m b).stim_vmRest = m.stim_vmRest ∧
    (startRecordingAtZero m b).stim_responseDuration = m.stim_responseDuration ∧
    (startRecordingAtZero m b).stim_responseTime = m.stim_responseTime ∧
    (startRecordingAtZero m b).stim_startTime = m.stim_startTime ∧
    (startRecordingAtZero m b).stim_stimulusLevel = m.stim_stimulusLevel ∧
    (startRecordingAtZero m b).thresh_onFlag = m.thresh_onFlag ∧
    (startRecordingAtZero m b).thresh_recordData = m.thresh_recordData ∧
    (startRecordingAtZero m b).thresh_rrcThreshFound = m.thresh_rrcThreshFound ∧
    (startRecordingAtZero m b).thresh_previousAPD = m.thresh_previousAPD ∧
    (startRecordingAtZero m b).thresh_rrcAmplitude = m.thresh_rrcAmplitude ∧
    (startRecordingAtZero m b).rrcProtocol_onFlag = m.rrcProtocol_onFlag ∧
    (startRecordingAtZero m b).rrcProtocol_recordData = m.rrcProtocol_recordData ∧
    (startRecordingAtZero m b).rrc_startTime = m.rrc_startTime ∧
    (startRecordingAtZero m b).rrc_endTime = m.rrc_endTime ∧
    (startRecordingAtZero m b).rrc_random_injection = m.rrc_random_injection ∧
    (startRecordingAtZero m b).rrc_random_threshold = m.rrc_random_threshold ∧
    (startRecordingAtZero m b).apd_mode = m.apd_mode ∧
    (startRecordingAtZero m b).apd_vmRest = m.apd_vmRest ∧
    (startRecordingAtZero m b).apd_upstrokeThreshold = m.apd_upstrokeThreshold ∧
    (startRecordingAtZero m b).apd_downstrokeThreshold = m.apd_downstrokeThreshold ∧
    (startRecordingAtZero m b).apd_startTime = m.apd_startTime ∧
    (startRecordingAtZero m b).apd_peakTime = m.apd_peakTime ∧
    (startRecordingAtZero m b).apd_peakVoltage = m.apd_peakVoltage ∧
    (startRecordingAtZero m b).apd_endTime = m.apd_endTime := by
  unfold startRecordingAtZero dataRecord_start
  split_ifs <;> exact ⟨rfl, rfl, rfl, rfl, rfl, rfl, rfl, rfl, rfl, rfl, rfl, rfl, rfl, rfl, rfl, rfl, rfl, rfl, rfl, rfl, rfl, rfl, rfl, rfl, rfl, rfl, rfl, rfl, rfl, rfl, rfl, rfl, rfl, rfl, rfl, rfl, rfl, rfl, rfl, rfl, rfl, rfl, rfl, rfl, rfl, rfl, rfl, rfl, rfl, rfl, rfl, rfl, rfl, rfl, rfl, rfl, rfl, rfl, rfl, rfl, rfl, rfl, rfl, rfl⟩

/-- The beat bookkeeping writes only the resting voltage and the detector mode. -/
theorem restartAPD_frame (m : Module) :
    (restartAPD m).output0 = m.output0 ∧ (restartAPD m).active = m.active ∧
    (restartAPD m).time = m.time ∧ (restartAPD m).voltage = m.voltage ∧
    (restartAPD m).beatNumber = m.beatNumber ∧ (restartAPD m).apd = m.apd ∧
    (restartAPD m).bcl = m.bcl ∧ (restartAPD m).stim_amplitude = m.stim_amplitude ∧
    (restartAPD m).stim_length = m.stim_length ∧ (restartAPD m).ljp = m.ljp ∧
    (restartAPD m).cm = m.cm ∧ (restartAPD m).thresh_startAmplitude = m.thresh_startAmplitude ∧
    (restartAPD m).thresh_ampIncrement = m.thresh_ampIncrement ∧
    (restartAPD m).thresh_beatNumber = m.thresh_beatNumber ∧
    (restartAPD m).thresh_apdCutoff = m.thresh_apdCutoff ∧
    (restartAPD m).rrc_amplitude = m.rrc_amplitude ∧ (restartAPD m).rrc_delay = m.rrc_delay ∧
    (restartAPD m).rrc_length = m.rrc_length ∧
    (restartAPD m).rrc_thresholdWindow = m.rrc_thresholdWindow ∧
    (restartAPD m).rrc_beatNumber = m.rrc_beatNumber ∧ (restartAPD m).rrc_chance = m.rrc_chance ∧
    (restartAPD m).rrc_endBeatNumber = m.rrc_endBeatNumber ∧
    (restartAPD m).apd_repolPercent = m.apd_repolPercent ∧ (restartAPD m).apd_min = m.apd_min ∧
    (restartAPD m).apd_stimWindow = m.apd_stimWindow ∧ (restartAPD m).time_int = m.time_int ∧
    (restartAPD m).bcl_int = m.bcl_int ∧ (restartAPD m).stim_length_int = m.stim_length_int ∧
    (restartAPD m).beatNumber_int = m.beatNumber_int ∧
    (restartAPD m).outputCurrent = m.outputCurrent ∧ (restartAPD m).period = m.period ∧
    (restartAPD m).execute_mode = m.execute_mode ∧ (restartAPD m).recording = m.recording ∧
    (restartAPD m).pace_onFlag = m.pace_onFlag ∧
    (restartAPD m).pace_recordData = m.pace_recordData ∧
    (restartAPD m).bcl_startTime = m.bcl_startTime ∧ (restartAPD m).bcl_stepTime = m.bcl_stepTime ∧
    (restartAPD m).stim_onFlag = m.stim_onFlag ∧
    (restartAPD m).stim_recordData = m.stim_recordData ∧
    (restartAPD m).stim_backToBaseline = m.stim_backToBaseline ∧
    (restartAPD m).stim_peakVoltage = m.stim_peakVoltage ∧
    (restartAPD m).stim_vmRest = m.stim_vmRest ∧
    (restartAPD m).stim_responseDuration = m.stim_responseDuration ∧
    (restartAPD m).stim_responseTime = m.stim_responseTime ∧
    (restartAPD m).stim_startTime = m.stim_startTime ∧
    (restartAPD m).stim_stimulusLevel = m.stim_stimulusLevel ∧
    (restartAPD m).thresh_onFlag = m.thresh_onFlag ∧
    (restartAPD m).thresh_recordData = m.thresh_recordData ∧
    (restartAPD m).thresh_rrcThreshFound = m.thresh_rrcThreshFound ∧
    (restartAPD m).thresh_previousAPD = m.thresh_previousAPD ∧
    (restartAPD m).thresh_rrcAmplitude = m.thresh_rrcAmplitude ∧
    (restartAPD m).rrcProtocol_onFlag = m.rrcProtocol_onFlag ∧
    (restartAPD m).rrcProtocol_recordData = m.rrcProtocol_recordData ∧
    (restartAPD m).rrc_startTime = m.rrc_startTime ∧ (restartAPD m).rrc_endTime = m.rrc_endTime ∧
    (restartAPD m).rrc_random_injection = m.rrc_random_injection ∧
    (restartAPD m).rrc_random_threshold = m.rrc_random_threshold ∧
    (restartAPD m).apd_upstrokeThreshold = m.apd_upstrokeThreshold ∧
    (restartAPD m).apd_downstrokeThreshold = m.apd_downstrokeThreshold ∧
    (restartAPD m).apd_startTime = m.apd_startTime ∧ (restartAPD m).apd_peakTime = m.apd_peakTime ∧
    (restartAPD m).apd_peakVoltage = m.apd_peakVoltage ∧
    (restartAPD m).apd_endTime = m.apd_endTime := by
  unfold restartAPD
  dsimp only
  split_ifs <;> exact ⟨rfl, rfl, rfl, rfl, rfl, rfl, rfl, rfl, rfl, rfl, rfl, rfl, rfl, rfl, rfl, rfl, rfl, rfl, rfl, rfl, rfl, rfl, rfl, rfl, rfl, rfl, rfl, rfl, rfl, rfl, rfl, rfl, rfl, rfl, rfl, rfl, rfl, rfl, rfl, rfl, rfl, rfl, rfl, rfl, rfl, rfl, rfl, rfl, rfl, rfl, rfl, rfl, rfl, rfl, rfl, rfl, rfl, rfl, rfl, rfl, rfl, rfl, rfl⟩

/-- The injection window writes only its two bounds. -/
theorem setInjectionWindow_frame (m : Module) :
    (setInjectionWindow m).output0 = m.output0 ∧ (setInjectionWindow m).active = m.active ∧
    (setInjectionWindow m).time = m.time ∧ (setInjectionWindow m).voltage = m.voltage ∧
    (setInjectionWindow m).beatNumber = m.beatNumber ∧ (setInjectionWindow m).apd = m.apd ∧
    (setInjectionWindow m).bcl = m.bcl ∧ (setInjectionWindow m).stim_amplitude = m.stim_amplitude ∧
    (setInjectionWindow m).stim_length = m.stim_length ∧ (setInjectionWindow m).ljp = m.ljp ∧
    (setInjectionWindow m).cm = m.cm ∧
    (setInjectionWindow m).thresh_startAmplitude = m.thresh_startAmplitude ∧
    (setInjectionWindow m).thresh_ampIncrement = m.thresh_ampIncrement ∧
    (setInjectionWindow m).thresh_beatNumber = m.thresh_beatNumber ∧
    (setInjectionWindow m).thresh_apdCutoff = m.thresh_apdCutoff ∧
    (setInjectionWindow m).rrc_amplitude = m.rrc_amplitude ∧
    (setInjectionWindow m).rrc_delay = m.rrc_delay ∧
    (setInjectionWindow m).rrc_length = m.rrc_length ∧
    (setInjectionWindow m).rrc_thresholdWindow = m.rrc_thresholdWindow ∧
    (setInjectionWindow m).rrc_beatNumber = m.rrc_beatNumber ∧
    (setInjectionWindow m).rrc_chance = m.rrc_chance ∧
    (setInjectionWindow m).rrc_endBeatNumber = m.rrc_endBeatNumber ∧
    (setInjectionWindow m).apd_repolPercent = m.apd_repolPercent ∧
    (setInjectionWindow m).apd_min = m.apd_min ∧
    (setInjectionWindow m).apd_stimWindow = m.apd_stimWindow ∧
    (setInjectionWindow m).time_int = m.time_int ∧ (setInjectionWindow m).bcl_int = m.bcl_int ∧
    (setInjectionWindow m).stim_length_int = m.stim_length_int ∧
    (setInjectionWindow m).beatNumber_int = m.beatNumber_int ∧
    (setInjectionWindow m).outputCurrent = m.outputCurrent ∧
    (setInjectionWindow m).period = m.period ∧
    (setInjectionWindow m).execute_mode = m.execute_mode ∧
    (setInjectionWindow m).recording = m.recording ∧
    (setInjectionWindow m).pace_onFlag = m.pace_onFlag ∧
    (setInjectionWindow m).pace_recordData = m.pace_recordData ∧
    (setInjectionWindow m).bcl_startTime = m.bcl_startTime ∧
    (setInjectionWindow m).bcl_stepTime = m.bcl_stepTime ∧
    (setInjectionWindow m).stim_onFlag = m.stim_onFlag ∧
    (setInjectionWindow m).stim_recordData = m.stim_recordData ∧
    (setInjectionWindow m).stim_backToBaseline = m.stim_backToBaseline ∧
    (setInjectionWindow m).stim_peakVoltage = m.stim_peakVoltage ∧
    (setInjectionWindow m).stim_vmRest = m.stim_vmRest ∧
    (setInjectionWindow m).stim_responseDuration = m.stim_responseDuration ∧
    (setInjectionWindow m).stim_responseTime = m.stim_responseTime ∧
    (setInjectionWindow m).stim_startTime = m.stim_startTime ∧
    (setInjectionWindow m).stim_stimulusLevel = m.stim_stimulusLevel ∧
    (setInjectionWindow m).thresh_onFlag = m.thresh_onFlag ∧
    (setInjectionWindow m).thresh_recordData = m.thresh_recordData ∧
    (setInjectionWindow m).thresh_rrcThreshFound = m.thresh_rrcThreshFound ∧
    (setInjectionWindow m).thresh_previousAPD = m.thresh_previousAPD ∧
    (setInjectionWindow m).thresh_rrcAmplitude = m.thresh_rrcAmplitude ∧
    (setInjectionWindow m).rrcProtocol_onFlag = m.rrcProtocol_onFlag ∧
    (setInjectionWindow m).rrcProtocol_recordData = m.rrcProtocol_recordData ∧
    (setInjectionWindow m).rrc_random_injection = m.rrc_random_injection ∧
    (setInjectionWindow m).rrc_random_threshold = m.rrc_random_threshold ∧
    (setInjectionWindow m).apd_mode = m.apd_mode ∧
    (setInjectionWindow m).apd_vmRest = m.apd_vmRest ∧
    (setInjectionWindow m).apd_upstrokeThreshold = m.apd_upstrokeThreshold ∧
    (setInjectionWindow m).apd_downstrokeThreshold = m.apd_downstrokeThreshold ∧
    (setInjectionWindow m).apd_startTime = m.apd_startTime ∧
    (setInjectionWindow m).apd_peakTime = m.apd_peakTime ∧
    (setInjectionWindow m).apd_peakVoltage = m.apd_peakVoltage ∧
    (setInjectionWindow m).apd_endTime = m.apd_endTime := by
  unfold setInjectionWindow
  dsimp only
  split_ifs <;> exact ⟨rfl, rfl, rfl, rfl, rfl, rfl, rfl, rfl, rfl, rfl, rfl, rfl, rfl, rfl, rfl, rfl, rfl, rfl, rfl, rfl, rfl, rfl, rfl, rfl, rfl, rfl, rfl, rfl, rfl, rfl, rfl, rfl, rfl, rfl, rfl, rfl, rfl, rfl, rfl, rfl, rfl, rfl, rfl, rfl, rfl, rfl, rfl, rfl, rfl, rfl, rfl, rfl, rfl, rfl, rfl, rfl, rfl, rfl, rfl, rfl, rfl, rfl, rfl⟩

/-- The beat boundary of PACE writes only the beat counter, the beat-start tick and the detector restart. -/
theorem beat_PACE_frame (m : Module) :
    (beat_PACE m).output0 = m.output0 ∧ (beat_PACE m).active = m.active ∧
    (beat_PACE m).time = m.time ∧ (beat_PACE m).voltage = m.voltage ∧ (beat_PACE m).apd = m.apd ∧
    (beat_PACE m).bcl = m.bcl ∧ (beat_PACE m).stim_amplitude = m.stim_amplitude ∧
    (beat_PACE m).stim_length = m.stim_length ∧ (beat_PACE m).ljp = m.ljp ∧
    (beat_PACE m).cm = m.cm ∧ (beat_PACE m).thresh_startAmplitude = m.thresh_startAmplitude ∧
    (beat_PACE m).thresh_ampIncrement = m.thresh_ampIncrement ∧
    (beat_PACE m).thresh_beatNumber = m.thresh_beatNumber ∧
    (beat_PACE m).thresh_apdCutoff = m.thresh_apdCutoff ∧
    (beat_PACE m).rrc_amplitude = m.rrc_amplitude ∧ (beat_PACE m).rrc_delay = m.rrc_delay ∧
    (beat_PACE m).rrc_length = m.rrc_length ∧
    (beat_PACE m).rrc_thresholdWindow = m.rrc_thresholdWindow ∧
    (beat_PACE m).rrc_beatNumber = m.rrc_beatNumber ∧ (beat_PACE m).rrc_chance = m.rrc_chance ∧
    (beat_PACE m).rrc_endBeatNumber = m.rrc_endBeatNumber ∧
    (beat_PACE m).apd_repolPercent = m.apd_repolPercent ∧ (beat_PACE m).apd_min = m.apd_min ∧
    (beat_PACE m).apd_stimWindow = m.apd_stimWindow ∧ (beat_PACE m).time_int = m.time_int ∧
    (beat_PACE m).bcl_int = m.bcl_int ∧ (beat_PACE m).stim_length_int = m.stim_length_int ∧
    (beat_PACE m).beatNumber_int = m.beatNumber_int ∧
    (beat_PACE m).outputCurrent = m.outputCurrent ∧ (beat_PACE m).period = m.period ∧
    (beat_PACE m).execute_mode = m.execute_mode ∧ (beat_PACE m).recording = m.recording ∧
    (beat_PACE m).pace_onFlag = m.pace_onFlag ∧ (beat_PACE m).pace_recordData = m.pace_recordData ∧
    (beat_PACE m).bcl_stepTime = m.bcl_stepTime ∧ (beat_PACE m).stim_onFlag = m.stim_onFlag ∧
    (beat_PACE m).stim_recordData = m.stim_recordData ∧
    (beat_PACE m).stim_backToBaseline = m.stim_backToBaseline ∧
    (beat_PACE m).stim_peakVoltage = m.stim_peakVoltage ∧
    (beat_PACE m).stim_vmRest = m.stim_vmRest ∧
    (beat_PACE m).stim_responseDuration = m.stim_responseDuration ∧
    (beat_PACE m).stim_responseTime = m.stim_responseTime ∧
    (beat_PACE m).stim_startTime = m.stim_startTime ∧
    (beat_PACE m).stim_stimulusLevel = m.stim_stimulusLevel ∧
    (beat_PACE m).thresh_onFlag = m.thresh_onFlag ∧
    (beat_PACE m).thresh_recordData = m.thresh_recordData ∧
    (beat_PACE m).thresh_rrcThreshFound = m.thresh_rrcThreshFound ∧
    (beat_PACE m).thresh_previousAPD = m.thresh_previousAPD ∧
    (beat_PACE m).thresh_rrcAmplitude = m.thresh_rrcAmplitude ∧
    (beat_PACE m).rrcProtocol_onFlag = m.rrcProtocol_onFlag ∧
    (beat_PACE m).rrcProtocol_recordData = m.rrcProtocol_recordData ∧
    (beat_PACE m).rrc_startTime = m.rrc_startTime ∧ (beat_PACE m).rrc_endTime = m.rrc_endTime ∧
    (beat_PACE m).rrc_random_injection = m.rrc_random_injection ∧
    (beat_PACE m).rrc_random_threshold = m.rrc_random_threshold ∧
    (beat_PACE m).apd_upstrokeThreshold = m.apd_upstrokeThreshold ∧
    (beat_PACE m).apd_downstrokeThreshold = m.apd_downstrokeThreshold ∧
    (beat_PACE m).apd_startTime = m.apd_startTime ∧ (beat_PACE m).apd_peakTime = m.apd_peakTime ∧
    (beat_PACE m).apd_peakVoltage = m.apd_peakVoltage ∧
    (beat_PACE m).apd_endTime = m.apd_endTime := by
  have hA := restartAPD_frame
  have hI := setInjectionWindow_frame
  unfold beat_PACE
  split_ifs <;> (refine ⟨?_, ?_, ?_, ?_, ?_, ?_, ?_, ?_, ?_, ?_, ?_, ?_, ?_, ?_, ?_, ?_, ?_, ?_, ?_, ?_, ?_, ?_, ?_, ?_, ?_, ?_, ?_, ?_, ?_, ?_, ?_, ?_, ?_, ?_, ?_, ?_, ?_, ?_, ?_, ?_, ?_, ?_, ?_, ?_, ?_, ?_, ?_, ?_, ?_, ?_, ?_, ?_, ?_, ?_, ?_, ?_, ?_, ?_, ?_, ?_, ?_⟩ <;> simp [hA, hI])

/-- The stimulus of PACE writes only the output. -/
theorem stimulus_PACE_frame (m : Module) :
    (stimulus_PACE m).active = m.active ∧ (stimulus_PACE m).time = m.time ∧
    (stimulus_PACE m).voltage = m.voltage ∧ (stimulus_PACE m).beatNumber = m.beatNumber ∧
    (stimulus_PACE m).apd = m.apd ∧ (stimulus_PACE m).bcl = m.bcl ∧
    (stimulus_PACE m).stim_amplitude = m.stim_amplitude ∧
    (stimulus_PACE m).stim_length = m.stim_length ∧ (stimulus_PACE m).ljp = m.ljp ∧
    (stimulus_PACE m).cm = m.cm ∧
    (stimulus_PACE m).thresh_startAmplitude = m.thresh_startAmplitude ∧
    (stimulus_PACE m).thresh_ampIncrement = m.thresh_ampIncrement ∧
    (stimulus_PACE m).thresh_beatNumber = m.thresh_beatNumber ∧
    (stimulus_PACE m).thresh_apdCutoff = m.thresh_apdCutoff ∧
    (stimulus_PACE m).rrc_amplitude = m.rrc_amplitude ∧ (stimulus_PACE m).rrc_delay = m.rrc_delay ∧
    (stimulus_PACE m).rrc_length = m.rrc_length ∧
    (stimulus_PACE m).rrc_thresholdWindow = m.rrc_thresholdWindow ∧
    (stimulus_PACE m).rrc_beatNumber = m.rrc_beatNumber ∧
    (stimulus_PACE m).rrc_chance = m.rrc_chance ∧
    (stimulus_PACE m).rrc_endBeatNumber = m.rrc_endBeatNumber ∧
    (stimulus_PACE m).apd_repolPercent = m.apd_repolPercent ∧
    (stimulus_PACE m).apd_min = m.apd_min ∧ (stimulus_PACE m).apd_stimWindow = m.apd_stimWindow ∧
    (stimulus_PACE m).time_int = m.time_int ∧ (stimulus_PACE m).bcl_int = m.bcl_int ∧
    (stimulus_PACE m).stim_length_int = m.stim_length_int ∧
    (stimulus_PACE m).beatNumber_int = m.beatNumber_int ∧ (stimulus_PACE m).period = m.period ∧
    (stimulus_PACE m).execute_mode = m.execute_mode ∧ (stimulus_PACE m).recording = m.recording ∧
    (stimulus_PACE m).pace_onFlag = m.pace_onFlag ∧
    (stimulus_PACE m).pace_recordData = m.pace_recordData ∧
    (stimulus_PACE m).bcl_startTime = m.bcl_startTime ∧
    (stimulus_PACE m).bcl_stepTime = m.bcl_stepTime ∧
    (stimulus_PACE m).stim_onFlag = m.stim_onFlag ∧
    (stimulus_PACE m).stim_recordData = m.stim_recordData ∧
    (stimulus_PACE m).stim_backToBaseline = m.stim_backToBaseline ∧
    (stimulus_PACE m).stim_peakVoltage = m.stim_peakVoltage ∧
    (stimulus_PACE m).stim_vmRest = m.stim_vmRest ∧
    (stimulus_PACE m).stim_responseDuration = m.stim_responseDuration ∧
    (stimulus_PACE m).stim_responseTime = m.stim_responseTime ∧
    (stimulus_PACE m).stim_startTime = m.stim_startTime ∧
    (stimulus_PACE m).stim_stimulusLevel = m.stim_stimulusLevel ∧
    (stimulus_PACE m).thresh_onFlag = m.thresh_onFlag ∧
    (stimulus_PACE m).thresh_recordData = m.thresh_recordData ∧
    (stimulus_PACE m).thresh_rrcThreshFound = m.thresh_rrcThreshFound ∧
    (stimulus_PACE m).thresh_previousAPD = m.thresh_previousAPD ∧
    (stimulus_PACE m).thresh_rrcAmplitude = m.thresh_rrcAmplitude ∧
    (stimulus_PACE m).rrcProtocol_onFlag = m.rrcProtocol_onFlag ∧
    (stimulus_PACE m).rrcProtocol_recordData = m.rrcProtocol_recordData ∧
    (stimulus_PACE m).rrc_startTime = m.rrc_startTime ∧
    (stimulus_PACE m).rrc_endTime = m.rrc_endTime ∧
    (stimulus_PACE m).rrc_random_injection = m.rrc_random_injection ∧
    (stimulus_PACE m).rrc_random_threshold = m.rrc_random_threshold ∧
    (stimulus_PACE m).apd_mode = m.apd_mode ∧ (stimulus_PACE m).apd_vmRest = m.apd_vmRest ∧
    (stimulus_PACE m).apd_upstrokeThreshold = m.apd_upstrokeThreshold ∧
    (stimulus_PACE m).apd_downstrokeThreshold = m.apd_downstrokeThreshold ∧
    (stimulus_PACE m).apd_startTime = m.apd_startTime ∧
    (stimulus_PACE m).apd_peakTime = m.apd_peakTime ∧
    (stimulus_PACE m).apd_peakVoltage = m.apd_peakVoltage ∧
    (stimulus_PACE m).apd_endTime = m.apd_endTime := by
  unfold stimulus_PACE
  dsimp only
  split_ifs <;> exact ⟨rfl, rfl, rfl, rfl, rfl, rfl, rfl, rfl, rfl, rfl, rfl, rfl, rfl, rfl, rfl, rfl, rfl, rfl, rfl, rfl, rfl, rfl, rfl, rfl, rfl, rfl, rfl, rfl, rfl, rfl, rfl, rfl, rfl, rfl, rfl, rfl, rfl, rfl, rfl, rfl, rfl, rfl, rfl, rfl, rfl, rfl, rfl, rfl, rfl, rfl, rfl, rfl, rfl, rfl, rfl, rfl, rfl, rfl, rfl, rfl, rfl, rfl, rfl⟩

/-- Peak tracking writes only the peak voltage of the search. -/
theorem trackPeak_STIMTHRESHOLD_frame (m : Module) :
    (trackPeak_STIMTHRESHOLD m).output0 = m.output0 ∧
    (trackPeak_STIMTHRESHOLD m).active = m.active ∧ (trackPeak_STIMTHRESHOLD m).time = m.time ∧
    (trackPeak_STIMTHRESHOLD m).voltage = m.voltage ∧
    (trackPeak_STIMTHRESHOLD m).beatNumber = m.beatNumber ∧
    (trackPeak_STIMTHRESHOLD m).apd = m.apd ∧ (trackPeak_STIMTHRESHOLD m).bcl = m.bcl ∧
    (trackPeak_STIMTHRESHOLD m).stim_amplitude = m.stim_amplitude ∧
    (trackPeak_STIMTHRESHOLD m).stim_length = m.stim_length ∧
    (trackPeak_STIMTHRESHOLD m).ljp = m.ljp ∧ (trackPeak_STIMTHRESHOLD m).cm = m.cm ∧
    (trackPeak_STIMTHRESHOLD m).thresh_startAmplitude = m.thresh_startAmplitude ∧
    (trackPeak_STIMTHRESHOLD m).thresh_ampIncrement = m.thresh_ampIncrement ∧
    (trackPeak_STIMTHRESHOLD m).thresh_beatNumber = m.thresh_beatNumber ∧
    (trackPeak_STIMTHRESHOLD m).thresh_apdCutoff = m.thresh_apdCutoff ∧
    (trackPeak_STIMTHRESHOLD m).rrc_amplitude = m.rrc_amplitude ∧
    (trackPeak_STIMTHRESHOLD m).rrc_delay = m.rrc_delay ∧
    (trackPeak_STIMTHRESHOLD m).rrc_length = m.rrc_length ∧
    (trackPeak_STIMTHRESHOLD m).rrc_thresholdWindow = m.rrc_thresholdWindow ∧
    (trackPeak_STIMTHRESHOLD m).rrc_beatNumber = m.rrc_beatNumber ∧
    (trackPeak_STIMTHRESHOLD m).rrc_chance = m.rrc_chance ∧
    (trackPeak_STIMTHRESHOLD m).rrc_endBeatNumber = m.rrc_endBeatNumber ∧
    (trackPeak_STIMTHRESHOLD m).apd_repolPercent = m.apd_repolPercent ∧
    (trackPeak_STIMTHRESHOLD m).apd_min = m.apd_min ∧
    (trackPeak_STIMTHRESHOLD m).apd_stimWindow = m.apd_stimWindow ∧
    (trackPeak_STIMTHRESHOLD m).time_int = m.time_int ∧
    (trackPeak_STIMTHRESHOLD m).bcl_int = m.bcl_int ∧
    (trackPeak_STIMTHRESHOLD m).stim_length_int = m.stim_length_int ∧
    (trackPeak_STIMTHRESHOLD m).beatNumber_int = m.beatNumber_int ∧
    (trackPeak_STIMTHRESHOLD m).outputCurrent = m.outputCurrent ∧
    (trackPeak_STIMTHRESHOLD m).period = m.period ∧
    (trackPeak_STIMTHRESHOLD m).execute_mode = m.execute_mode ∧
    (trackPeak_STIMTHRESHOLD m).recording = m.recording ∧
    (trackPeak_STIMTHRESHOLD m).pace_onFlag = m.pace_onFlag ∧
    (trackPeak_STIMTHRESHOLD m).pace_recordData = m.pace_recordData ∧
    (trackPeak_STIMTHRESHOLD m).bcl_startTime = m.bcl_startTime ∧
    (trackPeak_STIMTHRESHOLD m).bcl_stepTime = m.bcl_stepTime ∧
    (trackPeak_STIMTHRESHOLD m).stim_onFlag = m.stim_onFlag ∧
    (trackPeak_STIMTHRESHOLD m).stim_recordData = m.stim_recordData ∧
    (trackPeak_STIMTHRESHOLD m).stim_backToBaseline = m.stim_backToBaseline ∧
    (trackPeak_STIMTHRESHOLD m).stim_vmRest = m.stim_vmRest ∧
    (trackPeak_STIMTHRESHOLD m).stim_responseDuration = m.stim_responseDuration ∧
    (trackPeak_STIMTHRESHOLD m).stim_responseTime = m.stim_responseTime ∧
    (trackPeak_STIMTHRESHOLD m).stim_startTime = m.stim_startTime ∧
    (trackPeak_STIMTHRESHOLD m).stim_stimulusLevel = m.stim_stimulusLevel ∧
    (trackPeak_STIMTHRESHOLD m).thresh_onFlag = m.thresh_onFlag ∧
    (trackPeak_STIMTHRESHOLD m).thresh_recordData = m.thresh_recordData ∧
    (trackPeak_STIMTHRESHOLD m).thresh_rrcThreshFound = m.thresh_rrcThreshFound ∧
    (trackPeak_STIMTHRESHOLD m).thresh_previousAPD = m.thresh_previousAPD ∧
    (trackPeak_STIMTHRESHOLD m).thresh_rrcAmplitude = m.thresh_rrcAmplitude ∧
    (trackPeak_STIMTHRESHOLD m).rrcProtocol_onFlag = m.rrcProtocol_onFlag ∧
    (trackPeak_STIMTHRESHOLD m).rrcProtocol_recordData = m.rrcProtocol_recordData ∧
    (trackPeak_STIMTHRESHOLD m).rrc_startTime = m.rrc_startTime ∧
    (trackPeak_STIMTHRESHOLD m).rrc_endTime = m.rrc_endTime ∧
    (trackPeak_STIMTHRESHOLD m).rrc_random_injection = m.rrc_random_injection ∧
    (trackPeak_STIMTHRESHOLD m).rrc_random_threshold = m.rrc_random_threshold ∧
    (trackPeak_STIMTHRESHOLD m).apd_mode = m.apd_mode ∧
    (trackPeak_STIMTHRESHOLD m).apd_vmRest = m.apd_vmRest ∧
    (trackPeak_STIMTHRESHOLD m).apd_upstrokeThreshold = m.apd_upstrokeThreshold ∧
    (trackPeak_STIMTHRESHOLD m).apd_downstrokeThreshold = m.apd_downstrokeThreshold ∧
    (trackPeak_STIMTHRESHOLD m).apd_startTime = m.apd_startTime ∧
    (trackPeak_STIMTHRESHOLD m).apd_peakTime = m.apd_peakTime ∧
    (trackPeak_STIMTHRESHOLD m).apd_peakVoltage = m.apd_peakVoltage ∧
    (trackPeak_STIMTHRESHOLD m).apd_endTime = m.apd_endTime := by
  unfold trackPeak_STIMTHRESHOLD
  split_ifs <;> exact ⟨rfl, rfl, rfl, rfl, rfl, rfl, rfl, rfl, rfl, rfl, rfl, rfl, rfl, rfl, rfl, rfl, rfl, rfl, rfl, rfl, rfl, rfl, rfl, rfl, rfl, rfl, rfl, rfl, rfl, rfl, rfl, rfl, rfl, rfl, rfl, rfl, rfl, rfl, rfl, rfl, rfl, rfl, rfl, rfl, rfl, rfl, rfl, rfl, rfl, rfl, rfl, rfl, rfl, rfl, rfl, rfl, rfl, rfl, rfl, rfl, rfl, rfl, rfl, rfl⟩

/-- Baseline detection writes only the response duration, the response time and its flag. -/
theorem markBaseline_STIMTHRESHOLD_frame (m : Module) :
    (markBaseline_STIMTHRESHOLD m).output0 = m.output0 ∧
    (markBaseline_STIMTHRESHOLD m).active = m.active ∧
    (markBaseline_STIMTHRESHOLD m).time = m.time ∧
    (markBaseline_STIMTHRESHOLD m).voltage = m.voltage ∧
    (markBaseline_STIMTHRESHOLD m).beatNumber = m.beatNumber ∧
    (markBaseline_STIMTHRESHOLD m).apd = m.apd ∧ (markBaseline_STIMTHRESHOLD m).bcl = m.bcl ∧
    (markBaseline_STIMTHRESHOLD m).stim_amplitude = m.stim_amplitude ∧
    (markBaseline_STIMTHRESHOLD m).stim_length = m.stim_length ∧
    (markBaseline_STIMTHRESHOLD m).ljp = m.ljp ∧ (markBaseline_STIMTHRESHOLD m).cm = m.cm ∧
    (markBaseline_STIMTHRESHOLD m).thresh_startAmplitude = m.thresh_startAmplitude ∧
    (markBaseline_STIMTHRESHOLD m).thresh_ampIncrement = m.thresh_ampIncrement ∧
    (markBaseline_STIMTHRESHOLD m).thresh_beatNumber = m.thresh_beatNumber ∧
    (markBaseline_STIMTHRESHOLD m).thresh_apdCutoff = m.thresh_apdCutoff ∧
    (markBaseline_STIMTHRESHOLD m).rrc_amplitude = m.rrc_amplitude ∧
    (markBaseline_STIMTHRESHOLD m).rrc_delay = m.rrc_delay ∧
    (markBaseline_STIMTHRESHOLD m).rrc_length = m.rrc_length ∧
    (markBaseline_STIMTHRESHOLD m).rrc_thresholdWindow = m.rrc_thresholdWindow ∧
    (markBaseline_STIMTHRESHOLD m).rrc_beatNumber = m.rrc_beatNumber ∧
    (markBaseline_STIMTHRESHOLD m).rrc_chance = m.rrc_chance ∧
    (markBaseline_STIMTHRESHOLD m).rrc_endBeatNumber = m.rrc_endBeatNumber ∧
    (markBaseline_STIMTHRESHOLD m).apd_repolPercent = m.apd_repolPercent ∧
    (markBaseline_STIMTHRESHOLD m).apd_min = m.apd_min ∧
    (markBaseline_STIMTHRESHOLD m).apd_stimWindow = m.apd_stimWindow ∧
    (markBaseline_STIMTHRESHOLD m).time_int = m.time_int ∧
    (markBaseline_STIMTHRESHOLD m).bcl_int = m.bcl_int ∧
    (markBaseline_STIMTHRESHOLD m).stim_length_int = m.stim_length_int ∧
    (markBaseline_STIMTHRESHOLD m).beatNumber_int = m.beatNumber_int ∧
    (markBaseline_STIMTHRESHOLD m).outputCurrent = m.outputCurrent ∧
    (markBaseline_STIMTHRESHOLD m).period = m.period ∧
    (markBaseline_STIMTHRESHOLD m).execute_mode = m.execute_mode ∧
    (markBaseline_STIMTHRESHOLD m).recording = m.recording ∧
    (markBaseline_STIMTHRESHOLD m).pace_onFlag = m.pace_onFlag ∧
    (markBaseline_STIMTHRESHOLD m).pace_recordData = m.pace_recordData ∧
    (markBaseline_STIMTHRESHOLD m).bcl_startTime = m.bcl_startTime ∧
    (markBaseline_STIMTHRESHOLD m).bcl_stepTime = m.bcl_stepTime ∧
    (markBaseline_STIMTHRESHOLD m).stim_onFlag = m.stim_onFlag ∧
    (markBaseline_STIMTHRESHOLD m).stim_recordData = m.stim_recordData ∧
    (markBaseline_STIMTHRESHOLD m).stim_peakVoltage = m.stim_peakVoltage ∧
    (markBaseline_STIMTHRESHOLD m).stim_vmRest = m.stim_vmRest ∧
    (markBaseline_STIMTHRESHOLD m).stim_startTime = m.stim_startTime ∧
    (markBaseline_STIMTHRESHOLD m).stim_stimulusLevel = m.stim_stimulusLevel ∧
    (markBaseline_STIMTHRESHOLD m).thresh_onFlag = m.thresh_onFlag ∧
    (markBaseline_STIMTHRESHOLD m).thresh_recordData = m.thresh_recordData ∧
    (markBaseline_STIMTHRESHOLD m).thresh_rrcThreshFound = m.thresh_rrcThreshFound ∧
    (markBaseline_STIMTHRESHOLD m).thresh_previousAPD = m.thresh_previousAPD ∧
    (markBaseline_STIMTHRESHOLD m).thresh_rrcAmplitude = m.thresh_rrcAmplitude ∧
    (markBaseline_STIMTHRESHOLD m).rrcProtocol_onFlag = m.rrcProtocol_onFlag ∧
    (markBaseline_STIMTHRESHOLD m).rrcProtocol_recordData = m.rrcProtocol_recordData ∧
    (markBaseline_STIMTHRESHOLD m).rrc_startTime = m.rrc_startTime ∧
    (markBaseline_STIMTHRESHOLD m).rrc_endTime = m.rrc_endTime ∧
    (markBaseline_STIMTHRESHOLD m).rrc_random_injection = m.rrc_random_injection ∧
    (markBaseline_STIMTHRESHOLD m).rrc_random_threshold = m.rrc_random_threshold ∧
    (markBaseline_STIMTHRESHOLD m).apd_mode = m.apd_mode ∧
    (markBaseline_STIMTHRESHOLD m).apd_vmRest = m.apd_vmRest ∧
    (markBaseline_STIMTHRESHOLD m).apd_upstrokeThreshold = m.apd_upstrokeThreshold ∧
    (markBaseline_STIMTHRESHOLD m).apd_downstrokeThreshold = m.apd_downstrokeThreshold ∧
    (markBaseline_STIMTHRESHOLD m).apd_startTime = m.apd_startTime ∧
    (markBaseline_STIMTHRESHOLD m).apd_peakTime = m.apd_peakTime ∧
    (markBaseline_STIMTHRESHOLD m).apd_peakVoltage = m.apd_peakVoltage ∧
    (markBaseline_STIMTHRESHOLD m).apd_endTime = m.apd_endTime := by
  unfold markBaseline_STIMTHRESHOLD
  split_ifs <;> exact ⟨rfl, rfl, rfl, rfl, rfl, rfl, rfl, rfl, rfl, rfl, rfl, rfl, rfl, rfl, rfl, rfl, rfl, rfl, rfl, rfl, rfl, rfl, rfl, rfl, rfl, rfl, rfl, rfl, rfl, rfl, rfl, rfl, rfl, rfl, rfl, rfl, rfl, rfl, rfl, rfl, rfl, rfl, rfl, rfl, rfl, rfl, rfl, rfl, rfl, rfl, rfl, rfl, rfl, rfl, rfl, rfl, rfl, rfl, rfl, rfl, rfl, rfl⟩

/-- Accepting the trial current writes only the amplitude, the flag of the search, the mode and the recording flag. -/
theorem accept_STIMTHRESHOLD_frame (m : Module) :
    (accept_STIMTHRESHOLD m).output0 = m.output0 ∧ (accept_STIMTHRESHOLD m).active = m.active ∧
    (accept_STIMTHRESHOLD m).time = m.time ∧ (accept_STIMTHRESHOLD m).voltage = m.voltage ∧
    (accept_STIMTHRESHOLD m).beatNumber = m.beatNumber ∧ (accept_STIMTHRESHOLD m).apd = m.apd ∧
    (accept_STIMTHRESHOLD m).bcl = m.bcl ∧ (accept_STIMTHRESHOLD m).stim_length = m.stim_length ∧
    (accept_STIMTHRESHOLD m).ljp = m.ljp ∧ (accept_STIMTHRESHOLD m).cm = m.cm ∧
    (accept_STIMTHRESHOLD m).thresh_startAmplitude = m.thresh_startAmplitude ∧
    (accept_STIMTHRESHOLD m).thresh_ampIncrement = m.thresh_ampIncrement ∧
    (accept_STIMTHRESHOLD m).thresh_beatNumber = m.thresh_beatNumber ∧
    (accept_STIMTHRESHOLD m).thresh_apdCutoff = m.thresh_apdCutoff ∧
    (accept_STIMTHRESHOLD m).rrc_amplitude = m.rrc_amplitude ∧
    (accept_STIMTHRESHOLD m).rrc_delay = m.rrc_delay ∧
    (accept_STIMTHRESHOLD m).rrc_length = m.rrc_length ∧
    (accept_STIMTHRESHOLD m).rrc_thresholdWindow = m.rrc_thresholdWindow ∧
    (accept_STIMTHRESHOLD m).rrc_beatNumber = m.rrc_beatNumber ∧
    (accept_STIMTHRESHOLD m).rrc_chance = m.rrc_chance ∧
    (accept_STIMTHRESHOLD m).rrc_endBeatNumber = m.rrc_endBeatNumber ∧
    (accept_STIMTHRESHOLD m).apd_repolPercent = m.apd_repolPercent ∧
    (accept_STIMTHRESHOLD m).apd_min = m.apd_min ∧
    (accept_STIMTHRESHOLD m).apd_stimWindow = m.apd_stimWindow ∧
    (accept_STIMTHRESHOLD m).time_int = m.time_int ∧ (accept_STIMTHRESHOLD m).bcl_int = m.bcl_int ∧
    (accept_STIMTHRESHOLD m).stim_length_int = m.stim_length_int ∧
    (accept_STIMTHRESHOLD m).beatNumber_int = m.beatNumber_int ∧
    (accept_STIMTHRESHOLD m).outputCurrent = m.outputCurrent ∧
    (accept_STIMTHRESHOLD m).period = m.period ∧
    (accept_STIMTHRESHOLD m).pace_onFlag = m.pace_onFlag ∧
    (accept_STIMTHRESHOLD m).pace_recordData = m.pace_recordData ∧
    (accept_STIMTHRESHOLD m).bcl_startTime = m.bcl_startTime ∧
    (accept_STIMTHRESHOLD m).bcl_stepTime = m.bcl_stepTime ∧
    (accept_STIMTHRESHOLD m).stim_recordData = m.stim_recordData ∧
    (accept_STIMTHRESHOLD m).stim_backToBaseline = m.stim_backToBaseline ∧
    (accept_STIMTHRESHOLD m).stim_peakVoltage = m.stim_peakVoltage ∧
    (accept_STIMTHRESHOLD m).stim_vmRest = m.stim_vmRest ∧
    (accept_STIMTHRESHOLD m).stim_responseDuration = m.stim_responseDuration ∧
    (accept_STIMTHRESHOLD m).stim_responseTime = m.stim_responseTime ∧
    (accept_STIMTHRESHOLD m).stim_startTime = m.stim_startTime ∧
    (accept_STIMTHRESHOLD m).stim_stimulusLevel = m.stim_stimulusLevel ∧
    (accept_STIMTHRESHOLD m).thresh_onFlag = m.thresh_onFlag ∧
    (accept_STIMTHRESHOLD m).thresh_recordData = m.thresh_recordData ∧
    (accept_STIMTHRESHOLD m).thresh_rrcThreshFound = m.thresh_rrcThreshFound ∧
    (accept_STIMTHRESHOLD m).thresh_previousAPD = m.thresh_previousAPD ∧
    (accept_STIMTHRESHOLD m).thresh_rrcAmplitude = m.thresh_rrcAmplitude ∧
    (accept_STIMTHRESHOLD m).rrcProtocol_onFlag = m.rrcProtocol_onFlag ∧
    (accept_STIMTHRESHOLD m).rrcProtocol_recordData = m.rrcProtocol_recordData ∧
    (accept_STIMTHRESHOLD m).rrc_startTime = m.rrc_startTime ∧
    (accept_STIMTHRESHOLD m).rrc_endTime = m.rrc_endTime ∧
    (accept_STIMTHRESHOLD m).rrc_random_injection = m.rrc_random_injection ∧
    (accept_STIMTHRESHOLD m).rrc_random_threshold = m.rrc_random_threshold ∧
    (accept_STIMTHRESHOLD m).apd_mode = m.apd_mode ∧
    (accept_STIMTHRESHOLD m).apd_vmRest = m.apd_vmRest ∧
    (accept_STIMTHRESHOLD m).apd_upstrokeThreshold = m.apd_upstrokeThreshold ∧
    (accept_STIMTHRESHOLD m).apd_downstrokeThreshold = m.apd_downstrokeThreshold ∧
    (accept_STIMTHRESHOLD m).apd_startTime = m.apd_startTime ∧
    (accept_STIMTHRESHOLD m).apd_peakTime = m.apd_peakTime ∧
    (accept_STIMTHRESHOLD m).apd_peakVoltage = m.apd_peakVoltage ∧
    (accept_STIMTHRESHOLD m).apd_endTime = m.apd_endTime := by
  unfold accept_STIMTHRESHOLD dataRecord_stop
  dsimp only
  split_ifs <;> exact ⟨rfl, rfl, rfl, rfl, rfl, rfl, rfl, rfl, rfl, rfl, rfl, rfl, rfl, rfl, rfl, rfl, rfl, rfl, rfl, rfl, rfl, rfl, rfl, rfl, rfl, rfl, rfl, rfl, rfl, rfl, rfl, rfl, rfl, rfl, rfl, rfl, rfl, rfl, rfl, rfl, rfl, rfl, rfl, rfl, rfl, rfl, rfl, rfl, rfl, rfl, rfl, rfl, rfl, rfl, rfl, rfl, rfl, rfl, rfl, rfl, rfl⟩

/-- A new trial writes only the trial current, the stimulus start time and the beat-start tick. -/
theorem retry_STIMTHRESHOLD_frame (m : Module) :
    (retry_STIMTHRESHOLD m).output0 = m.output0 ∧ (retry_STIMTHRESHOLD m).active = m.active ∧
    (retry_STIMTHRESHOLD m).time = m.time ∧ (retry_STIMTHRESHOLD m).voltage = m.voltage ∧
    (retry_STIMTHRESHOLD m).beatNumber = m.beatNumber ∧ (retry_STIMTHRESHOLD m).apd = m.apd ∧
    (retry_STIMTHRESHOLD m).bcl = m.bcl ∧
    (retry_STIMTHRESHOLD m).stim_amplitude = m.stim_amplitude ∧
    (retry_STIMTHRESHOLD m).stim_length = m.stim_length ∧ (retry_STIMTHRESHOLD m).ljp = m.ljp ∧
    (retry_STIMTHRESHOLD m).cm = m.cm ∧
    (retry_STIMTHRESHOLD m).thresh_startAmplitude = m.thresh_startAmplitude ∧
    (retry_STIMTHRESHOLD m).thresh_ampIncrement = m.thresh_ampIncrement ∧
    (retry_STIMTHRESHOLD m).thresh_beatNumber = m.thresh_beatNumber ∧
    (retry_STIMTHRESHOLD m).thresh_apdCutoff = m.thresh_apdCutoff ∧
    (retry_STIMTHRESHOLD m).rrc_amplitude = m.rrc_amplitude ∧
    (retry_STIMTHRESHOLD m).rrc_delay = m.rrc_delay ∧
    (retry_STIMTHRESHOLD m).rrc_length = m.rrc_length ∧
    (retry_STIMTHRESHOLD m).rrc_thresholdWindow = m.rrc_thresholdWindow ∧
    (retry_STIMTHRESHOLD m).rrc_beatNumber = m.rrc_beatNumber ∧
    (retry_STIMTHRESHOLD m).rrc_chance = m.rrc_chance ∧
    (retry_STIMTHRESHOLD m).rrc_endBeatNumber = m.rrc_endBeatNumber ∧
    (retry_STIMTHRESHOLD m).apd_repolPercent = m.apd_repolPercent ∧
    (retry_STIMTHRESHOLD m).apd_min = m.apd_min ∧
    (retry_STIMTHRESHOLD m).apd_stimWindow = m.apd_stimWindow ∧
    (retry_STIMTHRESHOLD m).time_int = m.time_int ∧ (retry_STIMTHRESHOLD m).bcl_int = m.bcl_int ∧
    (retry_STIMTHRESHOLD m).stim_length_int = m.stim_length_int ∧
    (retry_STIMTHRESHOLD m).beatNumber_int = m.beatNumber_int ∧
    (retry_STIMTHRESHOLD m).outputCurrent = m.outputCurrent ∧
    (retry_STIMTHRESHOLD m).period = m.period ∧
    (retry_STIMTHRESHOLD m).execute_mode = m.execute_mode ∧
    (retry_STIMTHRESHOLD m).recording = m.recording ∧
    (retry_STIMTHRESHOLD m).pace_onFlag = m.pace_onFlag ∧
    (retry_STIMTHRESHOLD m).pace_recordData = m.pace_recordData ∧
    (retry_STIMTHRESHOLD m).bcl_stepTime = m.bcl_stepTime ∧
    (retry_STIMTHRESHOLD m).stim_onFlag = m.stim_onFlag ∧
    (retry_STIMTHRESHOLD m).stim_recordData = m.stim_recordData ∧
    (retry_STIMTHRESHOLD m).stim_backToBaseline = m.stim_backToBaseline ∧
    (retry_STIMTHRESHOLD m).stim_peakVoltage = m.stim_peakVoltage ∧
    (retry_STIMTHRESHOLD m).stim_vmRest = m.stim_vmRest ∧
    (retry_STIMTHRESHOLD m).stim_responseDuration = m.stim_responseDuration ∧
    (retry_STIMTHRESHOLD m).stim_responseTime = m.stim_responseTime ∧
    (retry_STIMTHRESHOLD m).thresh_onFlag = m.thresh_onFlag ∧
    (retry_STIMTHRESHOLD m).thresh_recordData = m.thresh_recordData ∧
    (retry_STIMTHRESHOLD m).thresh_rrcThreshFound = m.thresh_rrcThreshFound ∧
    (retry_STIMTHRESHOLD m).thresh_previousAPD = m.thresh_previousAPD ∧
    (retry_STIMTHRESHOLD m).thresh_rrcAmplitude = m.thresh_rrcAmplitude ∧
    (retry_STIMTHRESHOLD m).rrcProtocol_onFlag = m.rrcProtocol_onFlag ∧
    (retry_STIMTHRESHOLD m).rrcProtocol_recordData = m.rrcProtocol_recordData ∧
    (retry_STIMTHRESHOLD m).rrc_startTime = m.rrc_startTime ∧
    (retry_STIMTHRESHOLD m).rrc_endTime = m.rrc_endTime ∧
    (retry_STIMTHRESHOLD m).rrc_random_injection = m.rrc_random_injection ∧
    (retry_STIMTHRESHOLD m).rrc_random_threshold = m.rrc_random_threshold ∧
    (retry_STIMTHRESHOLD m).apd_mode = m.apd_mode ∧
    (retry_STIMTHRESHOLD m).apd_vmRest = m.apd_vmRest ∧
    (retry_STIMTHRESHOLD m).apd_upstrokeThreshold = m.apd_upstrokeThreshold ∧
    (retry_STIMTHRESHOLD m).apd_downstrokeThreshold = m.apd_downstrokeThreshold ∧
    (retry_STIMTHRESHOLD m).apd_startTime = m.apd_startTime ∧
    (retry_STIMTHRESHOLD m).apd_peakTime = m.apd_peakTime ∧
    (retry_STIMTHRESHOLD m).apd_peakVoltage = m.apd_peakVoltage ∧
    (retry_STIMTHRESHOLD m).apd_endTime = m.apd_endTime := by
  unfold retry_STIMTHRESHOLD
  split_ifs <;> exact ⟨rfl, rfl, rfl, rfl, rfl, rfl, rfl, rfl, rfl, rfl, rfl, rfl, rfl, rfl, rfl, rfl, rfl, rfl, rfl, rfl, rfl, rfl, rfl, rfl, rfl, rfl, rfl, rfl, rfl, rfl, rfl, rfl, rfl, rfl, rfl, rfl, rfl, rfl, rfl, rfl, rfl, rfl, rfl, rfl, rfl, rfl, rfl, rfl, rfl, rfl, rfl, rfl, rfl, rfl, rfl, rfl, rfl, rfl, rfl, rfl, rfl, rfl⟩

/-- The stimulus threshold search leaves the other members alone. -/
theorem search_STIMTHRESHOLD_frame (m : Module) :
    (search_STIMTHRESHOLD m).active = m.active ∧ (search_STIMTHRESHOLD m).time = m.time ∧
    (search_STIMTHRESHOLD m).voltage = m.voltage ∧
    (search_STIMTHRESHOLD m).beatNumber = m.beatNumber ∧ (search_STIMTHRESHOLD m).apd = m.apd ∧
    (search_STIMTHRESHOLD m).bcl = m.bcl ∧ (search_STIMTHRESHOLD m).stim_length = m.stim_length ∧
    (search_STIMTHRESHOLD m).ljp = m.ljp ∧ (search_STIMTHRESHOLD m).cm = m.cm ∧
    (search_STIMTHRESHOLD m).thresh_startAmplitude = m.thresh_startAmplitude ∧
    (search_STIMTHRESHOLD m).thresh_ampIncrement = m.thresh_ampIncrement ∧
    (search_STIMTHRESHOLD m).thresh_beatNumber = m.thresh_beatNumber ∧
    (search_STIMTHRESHOLD m).thresh_apdCutoff = m.thresh_apdCutoff ∧
    (search_STIMTHRESHOLD m).rrc_amplitude = m.rrc_amplitude ∧
    (search_STIMTHRESHOLD m).rrc_delay = m.rrc_delay ∧
    (search_STIMTHRESHOLD m).rrc_length = m.rrc_length ∧
    (search_STIMTHRESHOLD m).rrc_thresholdWindow = m.rrc_thresholdWindow ∧
    (search_STIMTHRESHOLD m).rrc_beatNumber = m.rrc_beatNumber ∧
    (search_STIMTHRESHOLD m).rrc_chance = m.rrc_chance ∧
    (search_STIMTHRESHOLD m).rrc_endBeatNumber = m.rrc_endBeatNumber ∧
    (search_STIMTHRESHOLD m).apd_repolPercent = m.apd_repolPercent ∧
    (search_STIMTHRESHOLD m).apd_min = m.apd_min ∧
    (search_STIMTHRESHOLD m).apd_stimWindow = m.apd_stimWindow ∧
    (search_STIMTHRESHOLD m).time_int = m.time_int ∧ (search_STIMTHRESHOLD m).bcl_int = m.bcl_int ∧
    (search_STIMTHRESHOLD m).stim_length_int = m.stim_length_int ∧
    (search_STIMTHRESHOLD m).beatNumber_int = m.beatNumber_int ∧
    (search_STIMTHRESHOLD m).outputCurrent = m.outputCurrent ∧
    (search_STIMTHRESHOLD m).period = m.period ∧
    (search_STIMTHRESHOLD m).pace_onFlag = m.pace_onFlag ∧
    (search_STIMTHRESHOLD m).pace_recordData = m.pace_recordData ∧
    (search_STIMTHRESHOLD m).bcl_stepTime = m.bcl_stepTime ∧
    (search_STIMTHRESHOLD m).stim_recordData = m.stim_recordData ∧
    (search_STIMTHRESHOLD m).stim_vmRest = m.stim_vmRest ∧
    (search_STIMTHRESHOLD m).thresh_onFlag = m.thresh_onFlag ∧
    (search_STIMTHRESHOLD m).thresh_recordData = m.thresh_recordData ∧
    (search_STIMTHRESHOLD m).thresh_rrcThreshFound = m.thresh_rrcThreshFound ∧
    (search_STIMTHRESHOLD m).thresh_previousAPD = m.thresh_previousAPD ∧
    (search_STIMTHRESHOLD m).thresh_rrcAmplitude = m.thresh_rrcAmplitude ∧
    (search_STIMTHRESHOLD m).rrcProtocol_onFlag = m.rrcProtocol_onFlag ∧
    (search_STIMTHRESHOLD m).rrcProtocol_recordData = m.rrcProtocol_recordData ∧
    (search_STIMTHRESHOLD m).rrc_startTime = m.rrc_startTime ∧
    (search_STIMTHRESHOLD m).rrc_endTime = m.rrc_endTime ∧
    (search_STIMTHRESHOLD m).rrc_random_injection = m.rrc_random_injection ∧
    (search_STIMTHRESHOLD m).rrc_random_threshold = m.rrc_random_threshold ∧
    (search_STIMTHRESHOLD m).apd_mode = m.apd_mode ∧
    (search_STIMTHRESHOLD m).apd_vmRest = m.apd_vmRest ∧
    (search_STIMTHRESHOLD m).apd_upstrokeThreshold = m.apd_upstrokeThreshold ∧
    (search_STIMTHRESHOLD m).apd_downstrokeThreshold = m.apd_downstrokeThreshold ∧
    (search_STIMTHRESHOLD m).apd_startTime = m.apd_startTime ∧
    (search_STIMTHRESHOLD m).apd_peakTime = m.apd_peakTime ∧
    (search_STIMTHRESHOLD m).apd_peakVoltage = m.apd_peakVoltage ∧
    (search_STIMTHRESHOLD m).apd_endTime = m.apd_endTime := by
  have hT := trackPeak_STIMTHRESHOLD_frame
  have hM := markBaseline_STIMTHRESHOLD_frame
  have hA := accept_STIMTHRESHOLD_frame
  have hI := retry_STIMTHRESHOLD_frame
  unfold search_STIMTHRESHOLD
  dsimp only
  split_ifs <;> (refine ⟨?_, ?_, ?_, ?_, ?_, ?_, ?_, ?_, ?_, ?_, ?_, ?_, ?_, ?_, ?_, ?_, ?_, ?_, ?_, ?_, ?_, ?_, ?_, ?_, ?_, ?_, ?_, ?_, ?_, ?_, ?_, ?_, ?_, ?_, ?_, ?_, ?_, ?_, ?_, ?_, ?_, ?_, ?_, ?_, ?_, ?_, ?_, ?_, ?_, ?_, ?_, ?_, ?_⟩ <;> simp [hT, hM, hA, hI])

/-- The output of the threshold search writes only the output. -/
theorem output_RRCTHRESHOLD_frame (m : Module) :
    (output_RRCTHRESHOLD m).active = m.active ∧ (output_RRCTHRESHOLD m).time = m.time ∧
    (output_RRCTHRESHOLD m).voltage = m.voltage ∧
    (output_RRCTHRESHOLD m).beatNumber = m.beatNumber ∧ (output_RRCTHRESHOLD m).apd = m.apd ∧
    (output_RRCTHRESHOLD m).bcl = m.bcl ∧
    (output_RRCTHRESHOLD m).stim_amplitude = m.stim_amplitude ∧
    (output_RRCTHRESHOLD m).stim_length = m.stim_length ∧ (output_RRCTHRESHOLD m).ljp = m.ljp ∧
    (output_RRCTHRESHOLD m).cm = m.cm ∧
    (output_RRCTHRESHOLD m).thresh_startAmplitude = m.thresh_startAmplitude ∧
    (output_RRCTHRESHOLD m).thresh_ampIncrement = m.thresh_ampIncrement ∧
    (output_RRCTHRESHOLD m).thresh_beatNumber = m.thresh_beatNumber ∧
    (output_RRCTHRESHOLD m).thresh_apdCutoff = m.thresh_apdCutoff ∧
    (output_RRCTHRESHOLD m).rrc_amplitude = m.rrc_amplitude ∧
    (output_RRCTHRESHOLD m).rrc_delay = m.rrc_delay ∧
    (output_RRCTHRESHOLD m).rrc_length = m.rrc_length ∧
    (output_RRCTHRESHOLD m).rrc_thresholdWindow = m.rrc_thresholdWindow ∧
    (output_RRCTHRESHOLD m).rrc_beatNumber = m.rrc_beatNumber ∧
    (output_RRCTHRESHOLD m).rrc_chance = m.rrc_chance ∧
    (output_RRCTHRESHOLD m).rrc_endBeatNumber = m.rrc_endBeatNumber ∧
    (output_RRCTHRESHOLD m).apd_repolPercent = m.apd_repolPercent ∧
    (output_RRCTHRESHOLD m).apd_min = m.apd_min ∧
    (output_RRCTHRESHOLD m).apd_stimWindow = m.apd_stimWindow ∧
    (output_RRCTHRESHOLD m).time_int = m.time_int ∧ (output_RRCTHRESHOLD m).bcl_int = m.bcl_int ∧
    (output_RRCTHRESHOLD m).stim_length_int = m.stim_length_int ∧
    (output_RRCTHRESHOLD m).beatNumber_int = m.beatNumber_int ∧
    (output_RRCTHRESHOLD m).period = m.period ∧
    (output_RRCTHRESHOLD m).execute_mode = m.execute_mode ∧
    (output_RRCTHRESHOLD m).recording = m.recording ∧
    (output_RRCTHRESHOLD m).pace_onFlag = m.pace_onFlag ∧
    (output_RRCTHRESHOLD m).pace_recordData = m.pace_recordData ∧
    (output_RRCTHRESHOLD m).bcl_startTime = m.bcl_startTime ∧
    (output_RRCTHRESHOLD m).bcl_stepTime = m.bcl_stepTime ∧
    (output_RRCTHRESHOLD m).stim_onFlag = m.stim_onFlag ∧
    (output_RRCTHRESHOLD m).stim_recordData = m.stim_recordData ∧
    (output_RRCTHRESHOLD m).stim_backToBaseline = m.stim_backToBaseline ∧
    (output_RRCTHRESHOLD m).stim_peakVoltage = m.stim_peakVoltage ∧
    (output_RRCTHRESHOLD m).stim_vmRest = m.stim_vmRest ∧
    (output_RRCTHRESHOLD m).stim_responseDuration = m.stim_responseDuration ∧
    (output_RRCTHRESHOLD m).stim_responseTime = m.stim_responseTime ∧
    (output_RRCTHRESHOLD m).stim_startTime = m.stim_startTime ∧
    (output_RRCTHRESHOLD m).stim_stimulusLevel = m.stim_stimulusLevel ∧
    (output_RRCTHRESHOLD m).thresh_onFlag = m.thresh_onFlag ∧
    (output_RRCTHRESHOLD m).thresh_recordData = m.thresh_recordData ∧
    (output_RRCTHRESHOLD m).thresh_rrcThreshFound = m.thresh_rrcThreshFound ∧
    (output_RRCTHRESHOLD m).thresh_previousAPD = m.thresh_previousAPD ∧
    (output_RRCTHRESHOLD m).thresh_rrcAmplitude = m.thresh_rrcAmplitude ∧
    (output_RRCTHRESHOLD m).rrcProtocol_onFlag = m.rrcProtocol_onFlag ∧
    (output_RRCTHRESHOLD m).rrcProtocol_recordData = m.rrcProtocol_recordData ∧
    (output_RRCTHRESHOLD m).rrc_startTime = m.rrc_startTime ∧
    (output_RRCTHRESHOLD m).rrc_endTime = m.rrc_endTime ∧
    (output_RRCTHRESHOLD m).rrc_random_injection = m.rrc_random_injection ∧
    (output_RRCTHRESHOLD m).rrc_random_threshold = m.rrc_random_threshold ∧
    (output_RRCTHRESHOLD m).apd_mode = m.apd_mode ∧
    (output_RRCTHRESHOLD m).apd_vmRest = m.apd_vmRest ∧
    (output_RRCTHRESHOLD m).apd_upstrokeThreshold = m.apd_upstrokeThreshold ∧
    (output_RRCTHRESHOLD m).apd_downstrokeThreshold = m.apd_downstrokeThreshold ∧
    (output_RRCTHRESHOLD m).apd_startTime = m.apd_startTime ∧
    (output_RRCTHRESHOLD m).apd_peakTime = m.apd_peakTime ∧
    (output_RRCTHRESHOLD m).apd_peakVoltage = m.apd_peakVoltage ∧
    (output_RRCTHRESHOLD m).apd_endTime = m.apd_endTime := by
  unfold output_RRCTHRESHOLD writeOutput addInjection_RRCTHRESHOLD addStimulus
  dsimp only
  split_ifs <;> exact ⟨rfl, rfl, rfl, rfl, rfl, rfl, rfl, rfl, rfl, rfl, rfl, rfl, rfl, rfl, rfl, rfl, rfl, rfl, rfl, rfl, rfl, rfl, rfl, rfl, rfl, rfl, rfl, rfl, rfl, rfl, rfl, rfl, rfl, rfl, rfl, rfl, rfl, rfl, rfl, rfl, rfl, rfl, rfl, rfl, rfl, rfl, rfl, rfl, rfl, rfl, rfl, rfl, rfl, rfl, rfl, rfl, rfl, rfl, rfl, rfl, rfl, rfl, rfl⟩

/-- The comparison writes only the baseline, the found flag and the trial amplitude. -/
theorem compare_RRCTHRESHOLD_frame (m : Module) :
    (compare_RRCTHRESHOLD m).output0 = m.output0 ∧ (compare_RRCTHRESHOLD m).active = m.active ∧
    (compare_RRCTHRESHOLD m).time = m.time ∧ (compare_RRCTHRESHOLD m).voltage = m.voltage ∧
    (compare_RRCTHRESHOLD m).beatNumber = m.beatNumber ∧ (compare_RRCTHRESHOLD m).apd = m.apd ∧
    (compare_RRCTHRESHOLD m).bcl = m.bcl ∧
    (compare_RRCTHRESHOLD m).stim_amplitude = m.stim_amplitude ∧
    (compare_RRCTHRESHOLD m).stim_length = m.stim_length ∧ (compare_RRCTHRESHOLD m).ljp = m.ljp ∧
    (compare_RRCTHRESHOLD m).cm = m.cm ∧
    (compare_RRCTHRESHOLD m).thresh_startAmplitude = m.thresh_startAmplitude ∧
    (compare_RRCTHRESHOLD m).thresh_ampIncrement = m.thresh_ampIncrement ∧
    (compare_RRCTHRESHOLD m).thresh_beatNumber = m.thresh_beatNumber ∧
    (compare_RRCTHRESHOLD m).thresh_apdCutoff = m.thresh_apdCutoff ∧
    (compare_RRCTHRESHOLD m).rrc_amplitude = m.rrc_amplitude ∧
    (compare_RRCTHRESHOLD m).rrc_delay = m.rrc_delay ∧
    (compare_RRCTHRESHOLD m).rrc_length = m.rrc_length ∧
    (compare_RRCTHRESHOLD m).rrc_thresholdWindow = m.rrc_thresholdWindow ∧
    (compare_RRCTHRESHOLD m).rrc_beatNumber = m.rrc_beatNumber ∧
    (compare_RRCTHRESHOLD m).rrc_chance = m.rrc_chance ∧
    (compare_RRCTHRESHOLD m).rrc_endBeatNumber = m.rrc_endBeatNumber ∧
    (compare_RRCTHRESHOLD m).apd_repolPercent = m.apd_repolPercent ∧
    (compare_RRCTHRESHOLD m).apd_min = m.apd_min ∧
    (compare_RRCTHRESHOLD m).apd_stimWindow = m.apd_stimWindow ∧
    (compare_RRCTHRESHOLD m).time_int = m.time_int ∧ (compare_RRCTHRESHOLD m).bcl_int = m.bcl_int ∧
    (compare_RRCTHRESHOLD m).stim_length_int = m.stim_length_int ∧
    (compare_RRCTHRESHOLD m).beatNumber_int = m.beatNumber_int ∧
    (compare_RRCTHRESHOLD m).outputCurrent = m.outputCurrent ∧
    (compare_RRCTHRESHOLD m).period = m.period ∧
    (compare_RRCTHRESHOLD m).execute_mode = m.execute_mode ∧
    (compare_RRCTHRESHOLD m).recording = m.recording ∧
    (compare_RRCTHRESHOLD m).pace_onFlag = m.pace_onFlag ∧
    (compare_RRCTHRESHOLD m).pace_recordData = m.pace_recordData ∧
    (compare_RRCTHRESHOLD m).bcl_startTime = m.bcl_startTime ∧
    (compare_RRCTHRESHOLD m).bcl_stepTime = m.bcl_stepTime ∧
    (compare_RRCTHRESHOLD m).stim_onFlag = m.stim_onFlag ∧
    (compare_RRCTHRESHOLD m).stim_recordData = m.stim_recordData ∧
    (compare_RRCTHRESHOLD m).stim_backToBaseline = m.stim_backToBaseline ∧
    (compare_RRCTHRESHOLD m).stim_peakVoltage = m.stim_peakVoltage ∧
    (compare_RRCTHRESHOLD m).stim_vmRest = m.stim_vmRest ∧
    (compare_RRCTHRESHOLD m).stim_responseDuration = m.stim_responseDuration ∧
    (compare_RRCTHRESHOLD m).stim_responseTime = m.stim_responseTime ∧
    (compare_RRCTHRESHOLD m).stim_startTime = m.stim_startTime ∧
    (compare_RRCTHRESHOLD m).stim_stimulusLevel = m.stim_stimulusLevel ∧
    (compare_RRCTHRESHOLD m).thresh_onFlag = m.thresh_onFlag ∧
    (compare_RRCTHRESHOLD m).thresh_recordData = m.thresh_recordData ∧
    (compare_RRCTHRESHOLD m).rrcProtocol_onFlag = m.rrcProtocol_onFlag ∧
    (compare_RRCTHRESHOLD m).rrcProtocol_recordData = m.rrcProtocol_recordData ∧
    (compare_RRCTHRESHOLD m).rrc_startTime = m.rrc_startTime ∧
    (compare_RRCTHRESHOLD m).rrc_endTime = m.rrc_endTime ∧
    (compare_RRCTHRESHOLD m).rrc_random_injection = m.rrc_random_injection ∧
    (compare_RRCTHRESHOLD m).rrc_random_threshold = m.rrc_random_threshold ∧
    (compare_RRCTHRESHOLD m).apd_mode = m.apd_mode ∧
    (compare_RRCTHRESHOLD m).apd_vmRest = m.apd_vmRest ∧
    (compare_RRCTHRESHOLD m).apd_upstrokeThreshold = m.apd_upstrokeThreshold ∧
    (compare_RRCTHRESHOLD m).apd_downstrokeThreshold = m.apd_downstrokeThreshold ∧
    (compare_RRCTHRESHOLD m).apd_startTime = m.apd_startTime ∧
    (compare_RRCTHRESHOLD m).apd_peakTime = m.apd_peakTime ∧
    (compare_RRCTHRESHOLD m).apd_peakVoltage = m.apd_peakVoltage ∧
    (compare_RRCTHRESHOLD m).apd_endTime = m.apd_endTime := by
  unfold compare_RRCTHRESHOLD
  split_ifs <;> exact ⟨rfl, rfl, rfl, rfl, rfl, rfl, rfl, rfl, rfl, rfl, rfl, rfl, rfl, rfl, rfl, rfl, rfl, rfl, rfl, rfl, rfl, rfl, rfl, rfl, rfl, rfl, rfl, rfl, rfl, rfl, rfl, rfl, rfl, rfl, rfl, rfl, rfl, rfl, rfl, rfl, rfl, rfl, rfl, rfl, rfl, rfl, rfl, rfl, rfl, rfl, rfl, rfl, rfl, rfl, rfl, rfl, rfl, rfl, rfl, rfl, rfl, rfl⟩

/-- The end of the threshold search writes only the mode, its flag, the output and the recording flag. -/
theorem finish_RRCTHRESHOLD_frame (m : Module) :
    (finish_RRCTHRESHOLD m).active = m.active ∧ (finish_RRCTHRESHOLD m).time = m.time ∧
    (finish_RRCTHRESHOLD m).voltage = m.voltage ∧
    (finish_RRCTHRESHOLD m).beatNumber = m.beatNumber ∧ (finish_RRCTHRESHOLD m).apd = m.apd ∧
    (finish_RRCTHRESHOLD m).bcl = m.bcl ∧
    (finish_RRCTHRESHOLD m).stim_amplitude = m.stim_amplitude ∧
    (finish_RRCTHRESHOLD m).stim_length = m.stim_length ∧ (finish_RRCTHRESHOLD m).ljp = m.ljp ∧
    (finish_RRCTHRESHOLD m).cm = m.cm ∧
    (finish_RRCTHRESHOLD m).thresh_startAmplitude = m.thresh_startAmplitude ∧
    (finish_RRCTHRESHOLD m).thresh_ampIncrement = m.thresh_ampIncrement ∧
    (finish_RRCTHRESHOLD m).thresh_beatNumber = m.thresh_beatNumber ∧
    (finish_RRCTHRESHOLD m).thresh_apdCutoff = m.thresh_apdCutoff ∧
    (finish_RRCTHRESHOLD m).rrc_amplitude = m.rrc_amplitude ∧
    (finish_RRCTHRESHOLD m).rrc_delay = m.rrc_delay ∧
    (finish_RRCTHRESHOLD m).rrc_length = m.rrc_length ∧
    (finish_RRCTHRESHOLD m).rrc_thresholdWindow = m.rrc_thresholdWindow ∧
    (finish_RRCTHRESHOLD m).rrc_beatNumber = m.rrc_beatNumber ∧
    (finish_RRCTHRESHOLD m).rrc_chance = m.rrc_chance ∧
    (finish_RRCTHRESHOLD m).rrc_endBeatNumber = m.rrc_endBeatNumber ∧
    (finish_RRCTHRESHOLD m).apd_repolPercent = m.apd_repolPercent ∧
    (finish_RRCTHRESHOLD m).apd_min = m.apd_min ∧
    (finish_RRCTHRESHOLD m).apd_stimWindow = m.apd_stimWindow ∧
    (finish_RRCTHRESHOLD m).time_int = m.time_int ∧ (finish_RRCTHRESHOLD m).bcl_int = m.bcl_int ∧
    (finish_RRCTHRESHOLD m).stim_length_int = m.stim_length_int ∧
    (finish_RRCTHRESHOLD m).beatNumber_int = m.beatNumber_int ∧
    (finish_RRCTHRESHOLD m).outputCurrent = m.outputCurrent ∧
    (finish_RRCTHRESHOLD m).period = m.period ∧
    (finish_RRCTHRESHOLD m).pace_onFlag = m.pace_onFlag ∧
    (finish_RRCTHRESHOLD m).pace_recordData = m.pace_recordData ∧
    (finish_RRCTHRESHOLD m).bcl_startTime = m.bcl_startTime ∧
    (finish_RRCTHRESHOLD m).bcl_stepTime = m.bcl_stepTime ∧
    (finish_RRCTHRESHOLD m).stim_onFlag = m.stim_onFlag ∧
    (finish_RRCTHRESHOLD m).stim_recordData = m.stim_recordData ∧
    (finish_RRCTHRESHOLD m).stim_backToBaseline = m.stim_backToBaseline ∧
    (finish_RRCTHRESHOLD m).stim_peakVoltage = m.stim_peakVoltage ∧
    (finish_RRCTHRESHOLD m).stim_vmRest = m.stim_vmRest ∧
    (finish_RRCTHRESHOLD m).stim_responseDuration = m.stim_responseDuration ∧
    (finish_RRCTHRESHOLD m).stim_responseTime = m.stim_responseTime ∧
    (finish_RRCTHRESHOLD m).stim_startTime = m.stim_startTime ∧
    (finish_RRCTHRESHOLD m).stim_stimulusLevel = m.stim_stimulusLevel ∧
    (finish_RRCTHRESHOLD m).thresh_recordData = m.thresh_recordData ∧
    (finish_RRCTHRESHOLD m).thresh_rrcThreshFound = m.thresh_rrcThreshFound ∧
    (finish_RRCTHRESHOLD m).thresh_previousAPD = m.thresh_previousAPD ∧
    (finish_RRCTHRESHOLD m).thresh_rrcAmplitude = m.thresh_rrcAmplitude ∧
    (finish_RRCTHRESHOLD m).rrcProtocol_onFlag = m.rrcProtocol_onFlag ∧
    (finish_RRCTHRESHOLD m).rrcProtocol_recordData = m.rrcProtocol_recordData ∧
    (finish_RRCTHRESHOLD m).rrc_startTime = m.rrc_startTime ∧
    (finish_RRCTHRESHOLD m).rrc_endTime = m.rrc_endTime ∧
    (finish_RRCTHRESHOLD m).rrc_random_injection = m.rrc_random_injection ∧
    (finish_RRCTHRESHOLD m).rrc_random_threshold = m.rrc_random_threshold ∧
    (finish_RRCTHRESHOLD m).apd_mode = m.apd_mode ∧
    (finish_RRCTHRESHOLD m).apd_vmRest = m.apd_vmRest ∧
    (finish_RRCTHRESHOLD m).apd_upstrokeThreshold = m.apd_upstrokeThreshold ∧
    (finish_RRCTHRESHOLD m).apd_downstrokeThreshold = m.apd_downstrokeThreshold ∧
    (finish_RRCTHRESHOLD m).apd_startTime = m.apd_startTime ∧
    (finish_RRCTHRESHOLD m).apd_peakTime = m.apd_peakTime ∧
    (finish_RRCTHRESHOLD m).apd_peakVoltage = m.apd_peakVoltage ∧
    (finish_RRCTHRESHOLD m).apd_endTime = m.apd_endTime := by
  unfold finish_RRCTHRESHOLD dataRecord_stop
  dsimp only
  split_ifs <;> exact ⟨rfl, rfl, rfl, rfl, rfl, rfl, rfl, rfl, rfl, rfl, rfl, rfl, rfl, rfl, rfl, rfl, rfl, rfl, rfl, rfl, rfl, rfl, rfl, rfl, rfl, rfl, rfl, rfl, rfl, rfl, rfl, rfl, rfl, rfl, rfl, rfl, rfl, rfl, rfl, rfl, rfl, rfl, rfl, rfl, rfl, rfl, rfl, rfl, rfl, rfl, rfl, rfl, rfl, rfl, rfl, rfl, rfl, rfl, rfl, rfl, rfl⟩

/-- A new beat of the threshold search writes only the beat bookkeeping and the injection window. -/
theorem newBeat_RRCTHRESHOLD_frame (m : Module) :
    (newBeat_RRCTHRESHOLD m).output0 = m.output0 ∧ (newBeat_RRCTHRESHOLD m).active = m.active ∧
    (newBeat_RRCTHRESHOLD m).time = m.time ∧ (newBeat_RRCTHRESHOLD m).voltage = m.voltage ∧
    (newBeat_RRCTHRESHOLD m).apd = m.apd ∧ (newBeat_RRCTHRESHOLD m).bcl = m.bcl ∧
    (newBeat_RRCTHRESHOLD m).stim_amplitude = m.stim_amplitude ∧
    (newBeat_RRCTHRESHOLD m).stim_length = m.stim_length ∧ (newBeat_RRCTHRESHOLD m).ljp = m.ljp ∧
    (newBeat_RRCTHRESHOLD m).cm = m.cm ∧
    (newBeat_RRCTHRESHOLD m).thresh_startAmplitude = m.thresh_startAmplitude ∧
    (newBeat_RRCTHRESHOLD m).thresh_ampIncrement = m.thresh_ampIncrement ∧
    (newBeat_RRCTHRESHOLD m).thresh_beatNumber = m.thresh_beatNumber ∧
    (newBeat_RRCTHRESHOLD m).thresh_apdCutoff = m.thresh_apdCutoff ∧
    (newBeat_RRCTHRESHOLD m).rrc_amplitude = m.rrc_amplitude ∧
    (newBeat_RRCTHRESHOLD m).rrc_delay = m.rrc_delay ∧
    (newBeat_RRCTHRESHOLD m).rrc_length = m.rrc_length ∧
    (newBeat_RRCTHRESHOLD m).rrc_thresholdWindow = m.rrc_thresholdWindow ∧
    (newBeat_RRCTHRESHOLD m).rrc_beatNumber = m.rrc_beatNumber ∧
    (newBeat_RRCTHRESHOLD m).rrc_chance = m.rrc_chance ∧
    (newBeat_RRCTHRESHOLD m).rrc_endBeatNumber = m.rrc_endBeatNumber ∧
    (newBeat_RRCTHRESHOLD m).apd_repolPercent = m.apd_repolPercent ∧
    (newBeat_RRCTHRESHOLD m).apd_min = m.apd_min ∧
    (newBeat_RRCTHRESHOLD m).apd_stimWindow = m.apd_stimWindow ∧
    (newBeat_RRCTHRESHOLD m).time_int = m.time_int ∧ (newBeat_RRCTHRESHOLD m).bcl_int = m.bcl_int ∧
    (newBeat_RRCTHRESHOLD m).stim_length_int = m.stim_length_int ∧
    (newBeat_RRCTHRESHOLD m).outputCurrent = m.outputCurrent ∧
    (newBeat_RRCTHRESHOLD m).period = m.period ∧
    (newBeat_RRCTHRESHOLD m).execute_mode = m.execute_mode ∧
    (newBeat_RRCTHRESHOLD m).recording = m.recording ∧
    (newBeat_RRCTHRESHOLD m).pace_onFlag = m.pace_onFlag ∧
    (newBeat_RRCTHRESHOLD m).pace_recordData = m.pace_recordData ∧
    (newBeat_RRCTHRESHOLD m).bcl_stepTime = m.bcl_stepTime ∧
    (newBeat_RRCTHRESHOLD m).stim_onFlag = m.stim_onFlag ∧
    (newBeat_RRCTHRESHOLD m).stim_recordData = m.stim_recordData ∧
    (newBeat_RRCTHRESHOLD m).stim_backToBaseline = m.stim_backToBaseline ∧
    (newBeat_RRCTHRESHOLD m).stim_peakVoltage = m.stim_peakVoltage ∧
    (newBeat_RRCTHRESHOLD m).stim_vmRest = m.stim_vmRest ∧
    (newBeat_RRCTHRESHOLD m).stim_responseDuration = m.stim_responseDuration ∧
    (newBeat_RRCTHRESHOLD m).stim_responseTime = m.stim_responseTime ∧
    (newBeat_RRCTHRESHOLD m).stim_startTime = m.stim_startTime ∧
    (newBeat_RRCTHRESHOLD m).stim_stimulusLevel = m.stim_stimulusLevel ∧
    (newBeat_RRCTHRESHOLD m).thresh_onFlag = m.thresh_onFlag ∧
    (newBeat_RRCTHRESHOLD m).thresh_recordData = m.thresh_recordData ∧
    (newBeat_RRCTHRESHOLD m).thresh_rrcThreshFound = m.thresh_rrcThreshFound ∧
    (newBeat_RRCTHRESHOLD m).thresh_previousAPD = m.thresh_previousAPD ∧
    (newBeat_RRCTHRESHOLD m).thresh_rrcAmplitude = m.thresh_rrcAmplitude ∧
    (newBeat_RRCTHRESHOLD m).rrcProtocol_onFlag = m.rrcProtocol_onFlag ∧
    (newBeat_RRCTHRESHOLD m).rrcProtocol_recordData = m.rrcProtocol_recordData ∧
    (newBeat_RRCTHRESHOLD m).rrc_random_injection = m.rrc_random_injection ∧
    (newBeat_RRCTHRESHOLD m).rrc_random_threshold = m.rrc_random_threshold ∧
    (newBeat_RRCTHRESHOLD m).apd_upstrokeThreshold = m.apd_upstrokeThreshold ∧
    (newBeat_RRCTHRESHOLD m).apd_downstrokeThreshold = m.apd_downstrokeThreshold ∧
    (newBeat_RRCTHRESHOLD m).apd_startTime = m.apd_startTime ∧
    (newBeat_RRCTHRESHOLD m).apd_peakTime = m.apd_peakTime ∧
    (newBeat_RRCTHRESHOLD m).apd_peakVoltage = m.apd_peakVoltage ∧
    (newBeat_RRCTHRESHOLD m).apd_endTime = m.apd_endTime := by
  have hA := restartAPD_frame
  have hI := setInjectionWindow_frame
  unfold newBeat_RRCTHRESHOLD
  (refine ⟨?_, ?_, ?_, ?_, ?_, ?_, ?_, ?_, ?_, ?_, ?_, ?_, ?_, ?_, ?_, ?_, ?_, ?_, ?_, ?_, ?_, ?_, ?_, ?_, ?_, ?_, ?_, ?_, ?_, ?_, ?_, ?_, ?_, ?_, ?_, ?_, ?_, ?_, ?_, ?_, ?_, ?_, ?_, ?_, ?_, ?_, ?_, ?_, ?_, ?_, ?_, ?_, ?_, ?_, ?_, ?_, ?_, ?_⟩ <;> simp [hA, hI])

/-- The output of the randomized protocol writes only the output. -/
theorem output_RRCPROTOCOL_frame (m : Module) :
    (output_RRCPROTOCOL m).active = m.active ∧ (output_RRCPROTOCOL m).time = m.time ∧
    (output_RRCPROTOCOL m).voltage = m.voltage ∧ (output_RRCPROTOCOL m).beatNumber = m.beatNumber ∧
    (output_RRCPROTOCOL m).apd = m.apd ∧ (output_RRCPROTOCOL m).bcl = m.bcl ∧
    (output_RRCPROTOCOL m).stim_amplitude = m.stim_amplitude ∧
    (output_RRCPROTOCOL m).stim_length = m.stim_length ∧ (output_RRCPROTOCOL m).ljp = m.ljp ∧
    (output_RRCPROTOCOL m).cm = m.cm ∧
    (output_RRCPROTOCOL m).thresh_startAmplitude = m.thresh_startAmplitude ∧
    (output_RRCPROTOCOL m).thresh_ampIncrement = m.thresh_ampIncrement ∧
    (output_RRCPROTOCOL m).thresh_beatNumber = m.thresh_beatNumber ∧
    (output_RRCPROTOCOL m).thresh_apdCutoff = m.thresh_apdCutoff ∧
    (output_RRCPROTOCOL m).rrc_amplitude = m.rrc_amplitude ∧
    (output_RRCPROTOCOL m).rrc_delay = m.rrc_delay ∧
    (output_RRCPROTOCOL m).rrc_length = m.rrc_length ∧
    (output_RRCPROTOCOL m).rrc_thresholdWindow = m.rrc_thresholdWindow ∧
    (output_RRCPROTOCOL m).rrc_beatNumber = m.rrc_beatNumber ∧
    (output_RRCPROTOCOL m).rrc_chance = m.rrc_chance ∧
    (output_RRCPROTOCOL m).rrc_endBeatNumber = m.rrc_endBeatNumber ∧
    (output_RRCPROTOCOL m).apd_repolPercent = m.apd_repolPercent ∧
    (output_RRCPROTOCOL m).apd_min = m.apd_min ∧
    (output_RRCPROTOCOL m).apd_stimWindow = m.apd_stimWindow ∧
    (output_RRCPROTOCOL m).time_int = m.time_int ∧ (output_RRCPROTOCOL m).bcl_int = m.bcl_int ∧
    (output_RRCPROTOCOL m).stim_length_int = m.stim_length_int ∧
    (output_RRCPROTOCOL m).beatNumber_int = m.beatNumber_int ∧
    (output_RRCPROTOCOL m).period = m.period ∧
    (output_RRCPROTOCOL m).execute_mode = m.execute_mode ∧
    (output_RRCPROTOCOL m).recording = m.recording ∧
    (output_RRCPROTOCOL m).pace_onFlag = m.pace_onFlag ∧
    (output_RRCPROTOCOL m).pace_recordData = m.pace_recordData ∧
    (output_RRCPROTOCOL m).bcl_startTime = m.bcl_startTime ∧
    (output_RRCPROTOCOL m).bcl_stepTime = m.bcl_stepTime ∧
    (output_RRCPROTOCOL m).stim_onFlag = m.stim_onFlag ∧
    (output_RRCPROTOCOL m).stim_recordData = m.stim_recordData ∧
    (output_RRCPROTOCOL m).stim_backToBaseline = m.stim_backToBaseline ∧
    (output_RRCPROTOCOL m).stim_peakVoltage = m.stim_peakVoltage ∧
    (output_RRCPROTOCOL m).stim_vmRest = m.stim_vmRest ∧
    (output_RRCPROTOCOL m).stim_responseDuration = m.stim_responseDuration ∧
    (output_RRCPROTOCOL m).stim_responseTime = m.stim_responseTime ∧
    (output_RRCPROTOCOL m).stim_startTime = m.stim_startTime ∧
    (output_RRCPROTOCOL m).stim_stimulusLevel = m.stim_stimulusLevel ∧
    (output_RRCPROTOCOL m).thresh_onFlag = m.thresh_onFlag ∧
    (output_RRCPROTOCOL m).thresh_recordData = m.thresh_recordData ∧
    (output_RRCPROTOCOL m).thresh_rrcThreshFound = m.thresh_rrcThreshFound ∧
    (output_RRCPROTOCOL m).thresh_previousAPD = m.thresh_previousAPD ∧
    (output_RRCPROTOCOL m).thresh_rrcAmplitude = m.thresh_rrcAmplitude ∧
    (output_RRCPROTOCOL m).rrcProtocol_onFlag = m.rrcProtocol_onFlag ∧
    (output_RRCPROTOCOL m).rrcProtocol_recordData = m.rrcProtocol_recordData ∧
    (output_RRCPROTOCOL m).rrc_startTime = m.rrc_startTime ∧
    (output_RRCPROTOCOL m).rrc_endTime = m.rrc_endTime ∧
    (output_RRCPROTOCOL m).rrc_random_injection = m.rrc_random_injection ∧
    (output_RRCPROTOCOL m).rrc_random_threshold = m.rrc_random_threshold ∧
    (output_RRCPROTOCOL m).apd_mode = m.apd_mode ∧
    (output_RRCPROTOCOL m).apd_vmRest = m.apd_vmRest ∧
    (output_RRCPROTOCOL m).apd_upstrokeThreshold = m.apd_upstrokeThreshold ∧
    (output_RRCPROTOCOL m).apd_downstrokeThreshold = m.apd_downstrokeThreshold ∧
    (output_RRCPROTOCOL m).apd_startTime = m.apd_startTime ∧
    (output_RRCPROTOCOL m).apd_peakTime = m.apd_peakTime ∧
    (output_RRCPROTOCOL m).apd_peakVoltage = m.apd_peakVoltage ∧
    (output_RRCPROTOCOL m).apd_endTime = m.apd_endTime := by
  unfold output_RRCPROTOCOL writeOutput addInjection_RRCPROTOCOL addStimulus
  dsimp only
  split_ifs <;> exact ⟨rfl, rfl, rfl, rfl, rfl, rfl, rfl, rfl, rfl, rfl, rfl, rfl, rfl, rfl, rfl, rfl, rfl, rfl, rfl, rfl, rfl, rfl, rfl, rfl, rfl, rfl, rfl, rfl, rfl, rfl, rfl, rfl, rfl, rfl, rfl, rfl, rfl, rfl, rfl, rfl, rfl, rfl, rfl, rfl, rfl, rfl, rfl, rfl, rfl, rfl, rfl, rfl, rfl, rfl, rfl, rfl, rfl, rfl, rfl, rfl, rfl, rfl, rfl⟩

/-- The end of the randomized protocol writes only the mode, its flag, the output and the recording flag. -/
theorem finish_RRCPROTOCOL_frame (m : Module) :
    (finish_RRCPROTOCOL m).active = m.active ∧ (finish_RRCPROTOCOL m).time = m.time ∧
    (finish_RRCPROTOCOL m).voltage = m.voltage ∧ (finish_RRCPROTOCOL m).beatNumber = m.beatNumber ∧
    (finish_RRCPROTOCOL m).apd = m.apd ∧ (finish_RRCPROTOCOL m).bcl = m.bcl ∧
    (finish_RRCPROTOCOL m).stim_amplitude = m.stim_amplitude ∧
    (finish_RRCPROTOCOL m).stim_length = m.stim_length ∧ (finish_RRCPROTOCOL m).ljp = m.ljp ∧
    (finish_RRCPROTOCOL m).cm = m.cm ∧
    (finish_RRCPROTOCOL m).thresh_startAmplitude = m.thresh_startAmplitude ∧
    (finish_RRCPROTOCOL m).thresh_ampIncrement = m.thresh_ampIncrement ∧
    (finish_RRCPROTOCOL m).thresh_beatNumber = m.thresh_beatNumber ∧
    (finish_RRCPROTOCOL m).thresh_apdCutoff = m.thresh_apdCutoff ∧
    (finish_RRCPROTOCOL m).rrc_amplitude = m.rrc_amplitude ∧
    (finish_RRCPROTOCOL m).rrc_delay = m.rrc_delay ∧
    (finish_RRCPROTOCOL m).rrc_length = m.rrc_length ∧
    (finish_RRCPROTOCOL m).rrc_thresholdWindow = m.rrc_thresholdWindow ∧
    (finish_RRCPROTOCOL m).rrc_beatNumber = m.rrc_beatNumber ∧
    (finish_RRCPROTOCOL m).rrc_chance = m.rrc_chance ∧
    (finish_RRCPROTOCOL m).rrc_endBeatNumber = m.rrc_endBeatNumber ∧
    (finish_RRCPROTOCOL m).apd_repolPercent = m.apd_repolPercent ∧
    (finish_RRCPROTOCOL m).apd_min = m.apd_min ∧
    (finish_RRCPROTOCOL m).apd_stimWindow = m.apd_stimWindow ∧
    (finish_RRCPROTOCOL m).time_int = m.time_int ∧ (finish_RRCPROTOCOL m).bcl_int = m.bcl_int ∧
    (finish_RRCPROTOCOL m).stim_length_int = m.stim_length_int ∧
    (finish_RRCPROTOCOL m).beatNumber_int = m.beatNumber_int ∧
    (finish_RRCPROTOCOL m).outputCurrent = m.outputCurrent ∧
    (finish_RRCPROTOCOL m).period = m.period ∧ (finish_RRCPROTOCOL m).pace_onFlag = m.pace_onFlag ∧
    (finish_RRCPROTOCOL m).pace_recordData = m.pace_recordData ∧
    (finish_RRCPROTOCOL m).bcl_startTime = m.bcl_startTime ∧
    (finish_RRCPROTOCOL m).bcl_stepTime = m.bcl_stepTime ∧
    (finish_RRCPROTOCOL m).stim_onFlag = m.stim_onFlag ∧
    (finish_RRCPROTOCOL m).stim_recordData = m.stim_recordData ∧
    (finish_RRCPROTOCOL m).stim_backToBaseline = m.stim_backToBaseline ∧
    (finish_RRCPROTOCOL m).stim_peakVoltage = m.stim_peakVoltage ∧
    (finish_RRCPROTOCOL m).stim_vmRest = m.stim_vmRest ∧
    (finish_RRCPROTOCOL m).stim_responseDuration = m.stim_responseDuration ∧
    (finish_RRCPROTOCOL m).stim_responseTime = m.stim_responseTime ∧
    (finish_RRCPROTOCOL m).stim_startTime = m.stim_startTime ∧
    (finish_RRCPROTOCOL m).stim_stimulusLevel = m.stim_stimulusLevel ∧
    (finish_RRCPROTOCOL m).thresh_onFlag = m.thresh_onFlag ∧
    (finish_RRCPROTOCOL m).thresh_recordData = m.thresh_recordData ∧
    (finish_RRCPROTOCOL m).thresh_rrcThreshFound = m.thresh_rrcThreshFound ∧
    (finish_RRCPROTOCOL m).thresh_previousAPD = m.thresh_previousAPD ∧
    (finish_RRCPROTOCOL m).thresh_rrcAmplitude = m.thresh_rrcAmplitude ∧
    (finish_RRCPROTOCOL m).rrcProtocol_recordData = m.rrcProtocol_recordData ∧
    (finish_RRCPROTOCOL m).rrc_startTime = m.rrc_startTime ∧
    (finish_RRCPROTOCOL m).rrc_endTime = m.rrc_endTime ∧
    (finish_RRCPROTOCOL m).rrc_random_injection = m.rrc_random_injection ∧
    (finish_RRCPROTOCOL m).rrc_random_threshold = m.rrc_random_threshold ∧
    (finish_RRCPROTOCOL m).apd_mode = m.apd_mode ∧
    (finish_RRCPROTOCOL m).apd_vmRest = m.apd_vmRest ∧
    (finish_RRCPROTOCOL m).apd_upstrokeThreshold = m.apd_upstrokeThreshold ∧
    (finish_RRCPROTOCOL m).apd_downstrokeThreshold = m.apd_downstrokeThreshold ∧
    (finish_RRCPROTOCOL m).apd_startTime = m.apd_startTime ∧
    (finish_RRCPROTOCOL m).apd_peakTime = m.apd_peakTime ∧
    (finish_RRCPROTOCOL m).apd_peakVoltage = m.apd_peakVoltage ∧
    (finish_RRCPROTOCOL m).apd_endTime = m.apd_endTime := by
  unfold finish_RRCPROTOCOL dataRecord_stop
  dsimp only
  split_ifs <;> exact ⟨rfl, rfl, rfl, rfl, rfl, rfl, rfl, rfl, rfl, rfl, rfl, rfl, rfl, rfl, rfl, rfl, rfl, rfl, rfl, rfl, rfl, rfl, rfl, rfl, rfl, rfl, rfl, rfl, rfl, rfl, rfl, rfl, rfl, rfl, rfl, rfl, rfl, rfl, rfl, rfl, rfl, rfl, rfl, rfl, rfl, rfl, rfl, rfl, rfl, rfl, rfl, rfl, rfl, rfl, rfl, rfl, rfl, rfl, rfl, rfl, rfl⟩

/-- A new beat of the randomized protocol writes only the beat bookkeeping, the draws and the injection window. -/
theorem newBeat_RRCPROTOCOL_frame (m : Module) (inp : StepInput) :
    (newBeat_RRCPROTOCOL m inp).output0 = m.output0 ∧
    (newBeat_RRCPROTOCOL m inp).active = m.active ∧ (newBeat_RRCPROTOCOL m inp).time = m.time ∧
    (newBeat_RRCPROTOCOL m inp).voltage = m.voltage ∧ (newBeat_RRCPROTOCOL m inp).apd = m.apd ∧
    (newBeat_RRCPROTOCOL m inp).bcl = m.bcl ∧
    (newBeat_RRCPROTOCOL m inp).stim_amplitude = m.stim_amplitude ∧
    (newBeat_RRCPROTOCOL m inp).stim_length = m.stim_length ∧
    (newBeat_RRCPROTOCOL m inp).ljp = m.ljp ∧ (newBeat_RRCPROTOCOL m inp).cm = m.cm ∧
    (newBeat_RRCPROTOCOL m inp).thresh_startAmplitude = m.thresh_startAmplitude ∧
    (newBeat_RRCPROTOCOL m inp).thresh_ampIncrement = m.thresh_ampIncrement ∧
    (newBeat_RRCPROTOCOL m inp).thresh_beatNumber = m.thresh_beatNumber ∧
    (newBeat_RRCPROTOCOL m inp).thresh_apdCutoff = m.thresh_apdCutoff ∧
    (newBeat_RRCPROTOCOL m inp).rrc_amplitude = m.rrc_amplitude ∧
    (newBeat_RRCPROTOCOL m inp).rrc_delay = m.rrc_delay ∧
    (newBeat_RRCPROTOCOL m inp).rrc_length = m.rrc_length ∧
    (newBeat_RRCPROTOCOL m inp).rrc_thresholdWindow = m.rrc_thresholdWindow ∧
    (newBeat_RRCPROTOCOL m inp).rrc_beatNumber = m.rrc_beatNumber ∧
    (newBeat_RRCPROTOCOL m inp).rrc_chance = m.rrc_chance ∧
    (newBeat_RRCPROTOCOL m inp).rrc_endBeatNumber = m.rrc_endBeatNumber ∧
    (newBeat_RRCPROTOCOL m inp).apd_repolPercent = m.apd_repolPercent ∧
    (newBeat_RRCPROTOCOL m inp).apd_min = m.apd_min ∧
    (newBeat_RRCPROTOCOL m inp).apd_stimWindow = m.apd_stimWindow ∧
    (newBeat_RRCPROTOCOL m inp).time_int = m.time_int ∧
    (newBeat_RRCPROTOCOL m inp).bcl_int = m.bcl_int ∧
    (newBeat_RRCPROTOCOL m inp).stim_length_int = m.stim_length_int ∧
    (newBeat_RRCPROTOCOL m inp).outputCurrent = m.outputCurrent ∧
    (newBeat_RRCPROTOCOL m inp).period = m.period ∧
    (newBeat_RRCPROTOCOL m inp).execute_mode = m.execute_mode ∧
    (newBeat_RRCPROTOCOL m inp).recording = m.recording ∧
    (newBeat_RRCPROTOCOL m inp).pace_onFlag = m.pace_onFlag ∧
    (newBeat_RRCPROTOCOL m inp).pace_recordData = m.pace_recordData ∧
    (newBeat_RRCPROTOCOL m inp).bcl_stepTime = m.bcl_stepTime ∧
    (newBeat_RRCPROTOCOL m inp).stim_onFlag = m.stim_onFlag ∧
    (newBeat_RRCPROTOCOL m inp).stim_recordData = m.stim_recordData ∧
    (newBeat_RRCPROTOCOL m inp).stim_backToBaseline = m.stim_backToBaseline ∧
    (newBeat_RRCPROTOCOL m inp).stim_peakVoltage = m.stim_peakVoltage ∧
    (newBeat_RRCPROTOCOL m inp).stim_vmRest = m.stim_vmRest ∧
    (newBeat_RRCPROTOCOL m inp).stim_responseDuration = m.stim_responseDuration ∧
    (newBeat_RRCPROTOCOL m inp).stim_responseTime = m.stim_responseTime ∧
    (newBeat_RRCPROTOCOL m inp).stim_startTime = m.stim_startTime ∧
    (newBeat_RRCPROTOCOL m inp).stim_stimulusLevel = m.stim_stimulusLevel ∧
    (newBeat_RRCPROTOCOL m inp).thresh_onFlag = m.thresh_onFlag ∧
    (newBeat_RRCPROTOCOL m inp).thresh_recordData = m.thresh_recordData ∧
    (newBeat_RRCPROTOCOL m inp).thresh_rrcThreshFound = m.thresh_rrcThreshFound ∧
    (newBeat_RRCPROTOCOL m inp).thresh_previousAPD = m.thresh_previousAPD ∧
    (newBeat_RRCPROTOCOL m inp).thresh_rrcAmplitude = m.thresh_rrcAmplitude ∧
    (newBeat_RRCPROTOCOL m inp).rrcProtocol_onFlag = m.rrcProtocol_onFlag ∧
    (newBeat_RRCPROTOCOL m inp).rrcProtocol_recordData = m.rrcProtocol_recordData ∧
    (newBeat_RRCPROTOCOL m inp).apd_upstrokeThreshold = m.apd_upstrokeThreshold ∧
    (newBeat_RRCPROTOCOL m inp).apd_downstrokeThreshold = m.apd_downstrokeThreshold ∧
    (newBeat_RRCPROTOCOL m inp).apd_startTime = m.apd_startTime ∧
    (newBeat_RRCPROTOCOL m inp).apd_peakTime = m.apd_peakTime ∧
    (newBeat_RRCPROTOCOL m inp).apd_peakVoltage = m.apd_peakVoltage ∧
    (newBeat_RRCPROTOCOL m inp).apd_endTime = m.apd_endTime := by
  have hA := restartAPD_frame
  have hI := setInjectionWindow_frame
  unfold newBeat_RRCPROTOCOL
  (refine ⟨?_, ?_, ?_, ?_, ?_, ?_, ?_, ?_, ?_, ?_, ?_, ?_, ?_, ?_, ?_, ?_, ?_, ?_, ?_, ?_, ?_, ?_, ?_, ?_, ?_, ?_, ?_, ?_, ?_, ?_, ?_, ?_, ?_, ?_, ?_, ?_, ?_, ?_, ?_, ?_, ?_, ?_, ?_, ?_, ?_, ?_, ?_, ?_, ?_, ?_, ?_, ?_, ?_, ?_, ?_, ?_⟩ <;> simp [hA, hI])

/-- The reset writes only the period, the tick conversions, the clock, the beat bookkeeping and the detector mode. -/
theorem reset_frame (m : Module) (ns : ℤ) :
    (reset m ns).output0 = m.output0 ∧ (reset m ns).active = m.active ∧
    (reset m ns).voltage = m.voltage ∧ (reset m ns).apd = m.apd ∧ (reset m ns).bcl = m.bcl ∧
    (reset m ns).stim_amplitude = m.stim_amplitude ∧ (reset m ns).stim_length = m.stim_length ∧
    (reset m ns).ljp = m.ljp ∧ (reset m ns).cm = m.cm ∧
    (reset m ns).thresh_startAmplitude = m.thresh_startAmplitude ∧
    (reset m ns).thresh_ampIncrement = m.thresh_ampIncrement ∧
    (reset m ns).thresh_beatNumber = m.thresh_beatNumber ∧
    (reset m ns).thresh_apdCutoff = m.thresh_apdCutoff ∧
    (reset m ns).rrc_amplitude = m.rrc_amplitude ∧ (reset m ns).rrc_delay = m.rrc_delay ∧
    (reset m ns).rrc_length = m.rrc_length ∧
    (reset m ns).rrc_thresholdWindow = m.rrc_thresholdWindow ∧
    (reset m ns).rrc_beatNumber = m.rrc_beatNumber ∧ (reset m ns).rrc_chance = m.rrc_chance ∧
    (reset m ns).rrc_endBeatNumber = m.rrc_endBeatNumber ∧
    (reset m ns).apd_repolPercent = m.apd_repolPercent ∧ (reset m ns).apd_min = m.apd_min ∧
    (reset m ns).apd_stimWindow = m.apd_stimWindow ∧ (reset m ns).outputCurrent = m.outputCurrent ∧
    (reset m ns).execute_mode = m.execute_mode ∧ (reset m ns).recording = m.recording ∧
    (reset m ns).pace_onFlag = m.pace_onFlag ∧ (reset m ns).pace_recordData = m.pace_recordData ∧
    (reset m ns).bcl_stepTime = m.bcl_stepTime ∧ (reset m ns).stim_onFlag = m.stim_onFlag ∧
    (reset m ns).stim_recordData = m.stim_recordData ∧
    (reset m ns).stim_backToBaseline = m.stim_backToBaseline ∧
    (reset m ns).stim_peakVoltage = m.stim_peakVoltage ∧ (reset m ns).stim_vmRest = m.stim_vmRest ∧
    (reset m ns).stim_responseDuration = m.stim_responseDuration ∧
    (reset m ns).stim_responseTime = m.stim_responseTime ∧
    (reset m ns).stim_startTime = m.stim_startTime ∧
    (reset m ns).stim_stimulusLevel = m.stim_stimulusLevel ∧
    (reset m ns).thresh_onFlag = m.thresh_onFlag ∧
    (reset m ns).thresh_recordData = m.thresh_recordData ∧
    (reset m ns).thresh_rrcThreshFound = m.thresh_rrcThreshFound ∧
    (reset m ns).thresh_previousAPD = m.thresh_previousAPD ∧
    (reset m ns).thresh_rrcAmplitude = m.thresh_rrcAmplitude ∧
    (reset m ns).rrcProtocol_onFlag = m.rrcProtocol_onFlag ∧
    (reset m ns).rrcProtocol_recordData = m.rrcProtocol_recordData ∧
    (reset m ns).rrc_startTime = m.rrc_startTime ∧ (reset m ns).rrc_endTime = m.rrc_endTime ∧
    (reset m ns).rrc_random_injection = m.rrc_random_injection ∧
    (reset m ns).rrc_random_threshold = m.rrc_random_threshold ∧
    (reset m ns).apd_vmRest = m.apd_vmRest ∧
    (reset m ns).apd_upstrokeThreshold = m.apd_upstrokeThreshold ∧
    (reset m ns).apd_downstrokeThreshold = m.apd_downstrokeThreshold ∧
    (reset m ns).apd_startTime = m.apd_startTime ∧ (reset m ns).apd_peakTime = m.apd_peakTime ∧
    (reset m ns).apd_peakVoltage = m.apd_peakVoltage ∧
    (reset m ns).apd_endTime = m.apd_endTime := by
  unfold reset
  dsimp only
  rw [calculateAPD_one]
  exact ⟨rfl, rfl, rfl, rfl, rfl, rfl, rfl, rfl, rfl, rfl, rfl, rfl, rfl, rfl, rfl, rfl, rfl, rfl, rfl, rfl, rfl, rfl, rfl, rfl, rfl, rfl, rfl, rfl, rfl, rfl, rfl, rfl, rfl, rfl, rfl, rfl, rfl, rfl, rfl, rfl, rfl, rfl, rfl, rfl, rfl, rfl, rfl, rfl, rfl, rfl, rfl, rfl, rfl, rfl, rfl, rfl⟩

/-! ## Rounding -/

/-- The model of a power of two is the power of two. -/
theorem pow2_eq_zpow (e : ℤ) : pow2 e = (2 : ℚ) ^ e := by
  unfold pow2
  split_ifs with h
  · obtain ⟨n, rfl⟩ := Int.eq_ofNat_of_zero_le h
    simp
  · obtain ⟨n, hn⟩ := Int.eq_ofNat_of_zero_le (show 0 ≤ -e by omega)
    have he : e = -(n : ℤ) := by omega
    subst he
    simp

/-- A power of two is positive. -/
theorem pow2_pos (e : ℤ) : 0 < pow2 e := by
  rw [pow2_eq_zpow]
  positivity

/-- Rounding to the nearest integer does not go below the floor. -/
theorem floor_le_roundHalfEven (x : ℚ) : ⌊x⌋ ≤ roundHalfEven x := by
  unfold roundHalfEven
  split_ifs <;> omega

/-- Rounding at the exponent of a positive number gives a positive number. -/
theorem roundAt_pos (q : ℚ) (e : ℤ) (h : pow2 e ≤ q) : 0 < roundAt q e := by
  unfold roundAt
  have hp := pow2_pos (e - 52)
  have hx : (1 : ℚ) ≤ q / pow2 (e - 52) := by
    rw [le_div_iff₀ hp, one_mul]
    refine le_trans ?_ h
    rw [pow2_eq_zpow, pow2_eq_zpow]
    exact zpow_le_zpow_right₀ (by norm_num) (by omega)
  have hf : 1 ≤ ⌊q / pow2 (e - 52)⌋ := Int.le_floor.mpr (by simpa using hx)
  have hr := floor_le_roundHalfEven (q / pow2 (e - 52))
  have : (0 : ℚ) < (roundHalfEven (q / pow2 (e - 52)) : ℚ) := by
    exact_mod_cast (by omega : 0 < roundHalfEven (q / pow2 (e - 52)))
  positivity

/-- Rounding keeps a positive number positive. -/
theorem roundMagnitude_pos (q : ℚ) (h : 0 < q) : 0 < roundMagnitude q := by
  unfold roundMagnitude
  split_ifs with h1 h2
  · exact roundAt_pos q _ h1
  · exact roundAt_pos q _ h2
  · exact h

/-- Rounding keeps 0. -/
theorem roundMagnitude_zero : roundMagnitude 0 = 0 := by decide!

/-- Rounding to binary64 keeps the sign. -/
theorem roundDouble_sign (q : ℚ) :
    (0 < q → 0 < roundDouble q) ∧ (q < 0 → roundDouble q < 0) ∧ (q = 0 → roundDouble q = 0) := by
  unfold roundDouble
  refine ⟨fun h => ?_, fun h => ?_, fun h => ?_⟩
  · rw [if_neg (not_lt.mpr h.le)]
    exact roundMagnitude_pos q h
  · rw [if_pos h]
    have := roundMagnitude_pos (-q) (by linarith)
    linarith
  · subst h
    rw [if_neg (lt_irrefl _)]
    exact roundMagnitude_zero

/-- Rounding to binary64 keeps a non-negative number non-negative. -/
theorem roundDouble_nonneg (q : ℚ) (h : 0 ≤ q) : 0 ≤ roundDouble q := by
  rcases h.lt_or_eq with h1 | h1
  · exact ((roundDouble_sign q).1 h1).le
  · rw [(roundDouble_sign q).2.2 h1.symm]

/-- The period that the reset computes has the sign of the period that the host
reports. -/
theorem periodMs_sign (ns : ℤ) :
    (0 < ns → 0 < periodMs ns) ∧ (ns < 0 → periodMs ns < 0) ∧ (ns = 0 → periodMs ns = 0) := by
  unfold periodMs
  have hu : 0 < roundDouble (1 / 1000000) := (roundDouble_sign _).1 (by norm_num)
  refine ⟨fun h => ?_, fun h => ?_, fun h => ?_⟩
  · have h1 : 0 < roundDouble (ns : ℚ) := (roundDouble_sign _).1 (by exact_mod_cast h)
    exact (roundDouble_sign _).1 (mul_pos h1 hu)
  · have h1 : roundDouble (ns : ℚ) < 0 := (roundDouble_sign _).2.1 (by exact_mod_cast h)
    exact (roundDouble_sign _).2.1 (mul_neg_of_neg_of_pos h1 hu)
  · subst h
    have h1 : roundDouble ((0 : ℤ) : ℚ) = 0 := (roundDouble_sign _).2.2 (by norm_num)
    rw [h1, zero_mul]
    exact (roundDouble_sign _).2.2 rfl

/-- A 32-bit product that stays in range is the exact product. -/
theorem wrapInt32_of_range (z : ℤ) (h1 : -2147483648 ≤ z) (h2 : z ≤ 2147483647) :
    wrapInt32 z = z := by
  unfold wrapInt32
  omega

/-! ## Arithmetic of ticks -/

/-- For a non-negative real the conversion to `int` is the floor. -/
theorem truncToInt_of_nonneg (q : ℚ) (h : 0 ≤ q) : truncToInt q = ⌊q⌋ := by
  simp [truncToInt, h]

/-- When the floor is at least 1 the conversion to `int` is the floor. -/
theorem truncToInt_of_one_le_floor (q : ℚ) (h : 1 ≤ ⌊q⌋) : truncToInt q = ⌊q⌋ := by
  apply truncToInt_of_nonneg
  have : (1 : ℚ) ≤ q := Int.floor_pos.mp (by omega)
  linarith

/-- The quotient of the next tick by a positive cycle length: it grows by one
exactly when the tick reaches the end of the cycle. -/
theorem div_succ_of_pos (N t : ℤ) (hN : 0 < N) :
    (t + 1) / N = if t + 1 - N * (t / N) ≥ N then t / N + 1 else t / N := by
  have h1 := Int.emod_add_ediv t N
  have h2 := Int.emod_nonneg t hN.ne'
  have h3 := Int.emod_lt_of_pos t hN
  split_ifs with h
  · have : t + 1 = N * (t / N + 1) := by
      have : N * (t / N + 1) = N * (t / N) + N := by ring
      omega
    rw [this, Int.mul_ediv_cancel_left _ hN.ne']
  · have : t + 1 = (t % N + 1) + N * (t / N) := by omega
    rw [this, Int.add_mul_ediv_left _ _ hN.ne', Int.ediv_eq_zero_of_lt (by omega) (by omega)]
    simp

/-! ## PACE -/

/-- The beat-start tick after the beat boundary of PACE. -/
theorem beat_PACE_bcl_startTime (m : Module) :
    (beat_PACE m).bcl_startTime =
      if m.time_int - m.bcl_startTime ≥ m.bcl_int then m.time_int else m.bcl_startTime := by
  have hA := restartAPD_frame
  unfold beat_PACE
  split_ifs <;> simp [hA]

/-- The beat counter after the beat boundary of PACE. -/
theorem beat_PACE_beatNumber (m : Module) :
    (beat_PACE m).beatNumber =
      if m.time_int - m.bcl_startTime ≥ m.bcl_int then m.beatNumber + 1 else m.beatNumber := by
  have hA := restartAPD_frame
  unfold beat_PACE
  split_ifs <;> simp [hA]

/-- The output written by the stimulus block of PACE. -/
theorem stimulus_PACE_output0 (m : Module) :
    (stimulus_PACE m).output0 =
      if m.time_int - m.bcl_startTime < m.stim_length_int
        then m.stim_amplitude * (1 / 1000000000) else 0 := by
  unfold stimulus_PACE
  dsimp only
  split_ifs <;> rfl

/-- One step in PACE: the clock, the beat bookkeeping and the output. -/
theorem execute_PACE_step (m : Module) (inp : StepInput) (h : m.execute_mode = .PACE) :
    (execute m inp).execute_mode = .PACE ∧
    (execute m inp).time_int = m.time_int + 1 ∧
    (execute m inp).bcl_int = m.bcl_int ∧
    (execute m inp).stim_length_int = m.stim_length_int ∧
    (execute m inp).stim_amplitude = m.stim_amplitude ∧
    (execute m inp).bcl_startTime =
      (if m.time_int + 1 - m.bcl_startTime ≥ m.bcl_int then m.time_int + 1 else m.bcl_startTime) ∧
    (execute m inp).beatNumber =
      (if m.time_int + 1 - m.bcl_startTime ≥ m.bcl_int then m.beatNumber + 1 else m.beatNumber) ∧
    (execute m inp).output0 =
      (if m.time_int + 1 - (execute m inp).bcl_startTime < m.stim_length_int
        then m.stim_amplitude * (1 / 1000000000) else 0) := by
  have hC := calculateAPD_frame
  have hS := stimulus_PACE_frame
  have hB := beat_PACE_frame
  have hR := startRecordingAtZero_frame
  simp [execute, h, execute_PACE, advanceClock, beat_PACE_bcl_startTime, beat_PACE_beatNumber,
    stimulus_PACE_output0, hC, hS, hB, hR]

/-- The state that the start-pace command leaves. -/
theorem toggle_pace_start (m : Module) (ns : ℤ) :
    (toggle_pace m true ns).execute_mode = .PACE ∧
    (toggle_pace m true ns).time_int = -1 ∧
    (toggle_pace m true ns).bcl_startTime = 0 ∧
    (toggle_pace m true ns).beatNumber = 1 ∧
    (toggle_pace m true ns).bcl_int = divToInt m.bcl (periodMs ns) ∧
    (toggle_pace m true ns).stim_length_int = divToInt m.stim_length (periodMs ns) ∧
    (toggle_pace m true ns).stim_amplitude = m.stim_amplitude := by
  have hR := reset_frame
  simp [toggle_pace, reset, hR]

/-- The invariant of a PACE run that starts at the start command, for a cycle
of at least one tick: after the step with tick counter `t` the beat-start tick
is the last multiple of the cycle length, the beat counter is the number of
that multiple plus one, and the output is the stimulus inside the window. -/
theorem pace_run_invariant (m0 : Module) (ns : ℤ) (inp : ℕ → StepInput)
    (hN : 1 ≤ (toggle_pace m0 true ns).bcl_int) (t : ℕ) :
    (run (toggle_pace m0 true ns) inp (t + 1)).execute_mode = .PACE ∧
    (run (toggle_pace m0 true ns) inp (t + 1)).time_int = t ∧
    (run (toggle_pace m0 true ns) inp (t + 1)).bcl_int = (toggle_pace m0 true ns).bcl_int ∧
    (run (toggle_pace m0 true ns) inp (t + 1)).stim_length_int =
      (toggle_pace m0 true ns).stim_length_int ∧
    (run (toggle_pace m0 true ns) inp (t + 1)).stim_amplitude = m0.stim_amplitude ∧
    (run (toggle_pace m0 true ns) inp (t + 1)).bcl_startTime =
      (toggle_pace m0 true ns).bcl_int * ((t : ℤ) / (toggle_pace m0 true ns).bcl_int) ∧
    (run (toggle_pace m0 true ns) inp (t + 1)).beatNumber =
      (((t : ℤ) / (toggle_pace m0 true ns).bcl_int : ℤ) : ℚ) + 1 ∧
    (run (toggle_pace m0 true ns) inp (t + 1)).output0 =
      (if (t : ℤ) - (toggle_pace m0 true ns).bcl_int * ((t : ℤ) / (toggle_pace m0 true ns).bcl_int)
          < (toggle_pace m0 true ns).stim_length_int
        then m0.stim_amplitude * (1 / 1000000000) else 0) := by
  obtain ⟨s1, s2, s3, s4, -, -, s7⟩ := toggle_pace_start m0 ns
  generalize toggle_pace m0 true ns = s0 at *
  generalize hNdef : s0.bcl_int = N at *
  induction t with
  | zero =>
    obtain ⟨e1, e2, e3, e4, e5, e6, e7, e8⟩ := execute_PACE_step s0 (inp 0) s1
    have hlt : ¬ (N ≤ 0) := by omega
    have hq : (0 : ℤ) / N = 0 := Int.zero_ediv N
    simp only [run]
    rw [e8, e6]
    simp [e1, e2, e3, e4, e5, e6, e7, s2, s3, s4, s7, hNdef, hlt]
  | succ t ih =>
    obtain ⟨i1, i2, i3, i4, i5, i6, i7, -⟩ := ih
    have hr : run s0 inp (t + 1 + 1) = execute (run s0 inp (t + 1)) (inp (t + 1)) := rfl
    rw [hr]
    generalize run s0 inp (t + 1) = s at *
    obtain ⟨e1, e2, e3, e4, e5, e6, e7, e8⟩ := execute_PACE_step s (inp (t + 1)) i1
    have hd := div_succ_of_pos N t (by omega)
    rw [e8, e6]
    refine ⟨e1, ?_, ?_, ?_, ?_, ?_, ?_, ?_⟩
    · rw [e2, i2]; push_cast; ring
    · rw [e3, i3]
    · rw [e4, i4]
    · rw [e5, i5]
    · rw [i2, i6, i3]
      push_cast
      rw [hd]
      split_ifs with hc
      · have h1 := Int.emod_add_ediv (t : ℤ) N
        have h2 := Int.emod_lt_of_pos (t : ℤ) (show 0 < N by omega)
        have h3 : N * ((t : ℤ) / N + 1) = N * ((t : ℤ) / N) + N := by ring
        omega
      · rfl
    · rw [e7, i2, i6, i3, i7]
      push_cast
      rw [hd]
      split_ifs with hc
      · push_cast; ring
      · rfl
    · rw [i2, i6, i3, i4, i5]
      push_cast
      rw [hd]
      split_ifs with hc <;> first | rfl | skip
      all_goals
        have h1 := Int.emod_add_ediv (t : ℤ) N
        have h2 := Int.emod_lt_of_pos (t : ℤ) (show 0 < N by omega)
        have h3 : N * ((t : ℤ) / N + 1) = N * ((t : ℤ) / N) + N := by ring
        omega

/-- C1 (amended): in PACE mode, from the state the start-pace command leaves.
Let N be the cycle length in ticks that the reset stores, N = (int)(bcl /
period), the quotient of the two doubles rounded to a double and truncated.
When N ≥ 1, after the step whose tick counter is t the beat counter is
floor(t / N) + 1 and the beat-start tick is N * floor(t / N), for every
input. -/
theorem pace_beat_counter (m0 : Module) (ns : ℤ) (inp : ℕ → StepInput) (t : ℕ)
    (hN : 1 ≤ (toggle_pace m0 true ns).bcl_int) :
    (toggle_pace m0 true ns).bcl_int = divToInt m0.bcl (periodMs ns) ∧
    (run (toggle_pace m0 true ns) inp (t + 1)).time_int = t ∧
    (run (toggle_pace m0 true ns) inp (t + 1)).beatNumber =
      (((t : ℤ) / (toggle_pace m0 true ns).bcl_int : ℤ) : ℚ) + 1 ∧
    (run (toggle_pace m0 true ns) inp (t + 1)).bcl_startTime =
      (toggle_pace m0 true ns).bcl_int * ((t : ℤ) / (toggle_pace m0 true ns).bcl_int) := by
  obtain ⟨-, h2, -, -, -, h6, h7, -⟩ := pace_run_invariant m0 ns inp hN t
  exact ⟨(toggle_pace_start m0 ns).2.2.2.2.1, h2, h7, h6⟩

/-- C1, witness: the compiled-in cycle of 1000 ms at a period of 1 ms is stored
as 1000 ticks; after the step with tick counter 2500 the beat counter is
floor(2500/1000) + 1 = 3. A cycle entered as 256.4 ms at a period of 40000 ns
is stored as 6409 ticks; after the step with tick counter 6409 the beat
counter is 2. -/
theorem pace_beat_counter_witness :
    (toggle_pace defaultModule true 1000000).bcl_int = 1000 ∧
    (run (toggle_pace defaultModule true 1000000) quiet (2500 + 1)).beatNumber = 3 ∧
    (run (toggle_pace defaultModule true 1000000) quiet (2500 + 1)).bcl_startTime = 2000 ∧
    (toggle_pace roundedCycleModule true 40000).bcl_int = 6409 ∧
    (run (toggle_pace roundedCycleModule true 40000) quiet (6409 + 1)).beatNumber = 2 ∧
    (run (toggle_pace roundedCycleModule true 40000) quiet (6409 + 1)).bcl_startTime = 6409 :=
  ⟨by decide!,
   (pace_beat_counter defaultModule 1000000 quiet 2500 (by decide!)).2.2.1.trans (by decide!),
   (pace_beat_counter defaultModule 1000000 quiet 2500 (by decide!)).2.2.2.trans (by decide!),
   by decide!,
   (pace_beat_counter roundedCycleModule 40000 quiet 6409 (by decide!)).2.2.1.trans (by decide!),
   (pace_beat_counter roundedCycleModule 40000 quiet 6409 (by decide!)).2.2.2.trans (by decide!)⟩

/-- C1, counterexample. (a) Period 1 ms and cycle length 0.5 ms, so
floor(B/P) = 0: every step is a beat boundary; after the step with tick
counter 3 the beat counter is 5 and the beat-start tick is 3, which is not a
multiple floor(B/P) * q of floor(B/P) for any q, and not what the claimed
formula gives. (b) Cycle length 256.4 ms and period 40000 ns (0.04 ms), so
floor(B/P) = 6410: the object stores the doubles nearest to 256.4 and to 0.04,
their quotient rounds to 6409.999999999999 and the stored cycle is 6409 ticks;
after the step with tick counter 6409 the beat counter is 2 and the beat-start
tick 6409, where the claimed formula gives floor(6409/6410) + 1 = 1 and 0. -/
theorem pace_beat_counter_counterexample :
    (toggle_pace shortCycleModule true 1000000).period = 1 ∧
    ⌊shortCycleModule.bcl / (toggle_pace shortCycleModule true 1000000).period⌋ = 0 ∧
    (run (toggle_pace shortCycleModule true 1000000) quiet (3 + 1)).time_int = 3 ∧
    (run (toggle_pace shortCycleModule true 1000000) quiet (3 + 1)).beatNumber = 5 ∧
    (run (toggle_pace shortCycleModule true 1000000) quiet (3 + 1)).bcl_startTime = 3 ∧
    (∀ q : ℤ, (run (toggle_pace shortCycleModule true 1000000) quiet (3 + 1)).bcl_startTime ≠
      ⌊shortCycleModule.bcl / (toggle_pace shortCycleModule true 1000000).period⌋ * q) ∧
    ⌊(1282 / 5 : ℚ) / ((40000 : ℚ) / 1000000)⌋ = 6410 ∧
    roundedCycleModule.bcl = roundDouble (1282 / 5) ∧
    (toggle_pace roundedCycleModule true 40000).period = roundDouble (1 / 25) ∧
    (toggle_pace roundedCycleModule true 40000).bcl_int = 6409 ∧
    (run (toggle_pace roundedCycleModule true 40000) quiet (6409 + 1)).time_int = 6409 ∧
    (run (toggle_pace roundedCycleModule true 40000) quiet (6409 + 1)).beatNumber = 2 ∧
    (run (toggle_pace roundedCycleModule true 40000) quiet (6409 + 1)).bcl_startTime = 6409 ∧
    (((6409 : ℤ) / 6410 : ℤ) : ℚ) + 1 = 1 := by
  have hN : ⌊shortCycleModule.bcl / (toggle_pace shortCycleModule true 1000000).period⌋ = 0 := by
    decide!
  have hs : (run (toggle_pace shortCycleModule true 1000000) quiet (3 + 1)).bcl_startTime = 3 := by
    decide!
  have hb : (1 : ℤ) ≤ (toggle_pace roundedCycleModule true 40000).bcl_int := by decide!
  obtain ⟨-, r2, -, -, -, r6, r7, -⟩ := pace_run_invariant roundedCycleModule 40000 quiet hb 6409
  refine ⟨by decide!, hN, by decide!, by decide!, hs, ?_, by decide!, rfl, by decide!,
    by decide!, r2, r7.trans (by decide!), r6.trans (by decide!), by decide!⟩
  intro q
  rw [hs, hN]
  omega

/-- Counting the steps of one beat that carry a current: when the output is
`a` on the offsets below `l` and 0 on the others, the steps of beat `k` with a
nonzero output are the first `l` ones (none when `a = 0`). -/
theorem filter_window (f : ℕ → ℚ) (n l : ℕ) (a : ℚ) (hln : l ≤ n) (k : ℕ)
    (hf : ∀ t : ℕ, f t = if (t : ℤ) % (n : ℤ) < (l : ℤ) then a else 0) :
    (Finset.range n).filter (fun j => f (k * n + j) ≠ 0) =
      if a = 0 then ∅ else Finset.range l := by
  ext j
  simp only [Finset.mem_filter, Finset.mem_range, hf]
  by_cases hj : j < n
  · have hmod : ((k * n + j : ℕ) : ℤ) % (n : ℤ) = (j : ℤ) := by
      rw [← Int.natCast_mod, Nat.mul_add_mod_of_lt hj]
    rw [hmod]
    by_cases ha : a = 0
    · simp [ha]
    · simp only [ha, if_false, Finset.mem_range]
      constructor
      · rintro ⟨-, h⟩
        by_contra hjl
        exact h (by rw [if_neg (by exact_mod_cast hjl)])
      · intro h
        exact ⟨hj, by rw [if_pos (by exact_mod_cast h)]; exact ha⟩
  · by_cases ha : a = 0
    · simp [ha]
    · simp only [ha, if_false, Finset.mem_range]
      constructor
      · rintro ⟨h, -⟩
        exact absurd h hj
      · intro h
        omega

/-- C2 (amended): in PACE mode, from the state the start-pace command leaves.
Let N and L be the cycle length and the stimulus length in ticks that the reset
stores, N = (int)(bcl / period) and L = (int)(stim_length / period), each the
quotient of the two doubles rounded to a double and truncated. When N ≥ 1 and
0 ≤ L ≤ N, the emitted current is stim_amplitude * 1e-9 on the steps whose
offset in the beat is below L and 0 on every other step; so in every beat the
steps with a nonzero current are exactly the first L ones when the amplitude
is not 0 (and none when it is 0). Beat k + 1 is made of the ticks k * N + j
with j < N. -/
theorem pace_stimulus_window (m0 : Module) (ns : ℤ) (inp : ℕ → StepInput)
    (hN : 1 ≤ (toggle_pace m0 true ns).bcl_int)
    (hL : 0 ≤ (toggle_pace m0 true ns).stim_length_int)
    (hLN : (toggle_pace m0 true ns).stim_length_int ≤ (toggle_pace m0 true ns).bcl_int) :
    ((toggle_pace m0 true ns).bcl_int = divToInt m0.bcl (periodMs ns) ∧
      (toggle_pace m0 true ns).stim_length_int = divToInt m0.stim_length (periodMs ns)) ∧
    (∀ t : ℕ, (run (toggle_pace m0 true ns) inp (t + 1)).output0 =
      if (t : ℤ) % (toggle_pace m0 true ns).bcl_int < (toggle_pace m0 true ns).stim_length_int
        then m0.stim_amplitude * (1 / 1000000000) else 0) ∧
    (∀ k : ℕ,
      (Finset.range (toggle_pace m0 true ns).bcl_int.toNat).filter
        (fun j => (run (toggle_pace m0 true ns) inp
          (k * (toggle_pace m0 true ns).bcl_int.toNat + j + 1)).output0 ≠ 0) =
      if m0.stim_amplitude * (1 / 1000000000) = 0 then ∅
        else Finset.range (toggle_pace m0 true ns).stim_length_int.toNat) ∧
    (∀ k j : ℕ, j < (toggle_pace m0 true ns).bcl_int.toNat →
      (run (toggle_pace m0 true ns) inp
        (k * (toggle_pace m0 true ns).bcl_int.toNat + j + 1)).beatNumber = (k : ℚ) + 1) := by
  refine ⟨⟨(toggle_pace_start m0 ns).2.2.2.2.1, (toggle_pace_start m0 ns).2.2.2.2.2.1⟩, ?_⟩
  have hout : ∀ t : ℕ, (run (toggle_pace m0 true ns) inp (t + 1)).output0 =
      if (t : ℤ) % (toggle_pace m0 true ns).bcl_int < (toggle_pace m0 true ns).stim_length_int
        then m0.stim_amplitude * (1 / 1000000000) else 0 := by
    intro t
    obtain ⟨-, -, -, -, -, -, -, h8⟩ := pace_run_invariant m0 ns inp hN t
    rw [h8, Int.emod_def]
  have hbeat : ∀ t : ℕ, (run (toggle_pace m0 true ns) inp (t + 1)).beatNumber =
      (((t : ℤ) / (toggle_pace m0 true ns).bcl_int : ℤ) : ℚ) + 1 := by
    intro t
    obtain ⟨-, -, -, -, -, -, h7, -⟩ := pace_run_invariant m0 ns inp hN t
    exact h7
  obtain ⟨n, hn⟩ := Int.eq_ofNat_of_zero_le (show 0 ≤ (toggle_pace m0 true ns).bcl_int by omega)
  obtain ⟨l, hl'⟩ := Int.eq_ofNat_of_zero_le hL
  rw [hn, hl'] at hout hLN
  rw [hn] at hbeat hN
  rw [hn, hl']
  simp only [Int.toNat_ofNat]
  refine ⟨hout, ?_, ?_⟩
  · intro k
    exact filter_window (fun t => (run (toggle_pace m0 true ns) inp (t + 1)).output0) n l _
      (by exact_mod_cast hLN) k hout
  · intro k j hj
    rw [hbeat]
    have hq : ((k * n + j : ℕ) : ℤ) / (n : ℤ) = (k : ℤ) := by
      rw [← Int.natCast_div]
      congr 1
      rw [Nat.mul_comm, Nat.mul_add_div (by omega), Nat.div_eq_of_lt hj]
      simp
    rw [hq]
    simp

/-- C2, witness: period 1 ms, bcl 1000 ms, stimulus 4 nA for 1 ms; the output
is 4e-9 on the tick with offset 0 of every 1000-tick beat and 0 elsewhere. With
a stimulus length entered as 2.3 ms at a period of 20000 ns the stored lengths
are 50000 and 114 ticks, and the output is 4e-9 on the offsets 0 to 113 of
every beat. -/
theorem pace_stimulus_window_witness :
    (toggle_pace defaultModule true 1000000).bcl_int = 1000 ∧
    (toggle_pace defaultModule true 1000000).stim_length_int = 1 ∧
    (∀ t : ℕ, (run (toggle_pace defaultModule true 1000000) quiet (t + 1)).output0 =
      if (t : ℤ) % 1000 < 1 then 4 * (1 / 1000000000) else 0) ∧
    (toggle_pace roundedStimulusModule true 20000).bcl_int = 50000 ∧
    (toggle_pace roundedStimulusModule true 20000).stim_length_int = 114 ∧
    (∀ t : ℕ, (run (toggle_pace roundedStimulusModule true 20000) quiet (t + 1)).output0 =
      if (t : ℤ) % 50000 < 114 then 4 * (1 / 1000000000) else 0) := by
  have hB : (toggle_pace defaultModule true 1000000).bcl_int = 1000 := by decide!
  have hS : (toggle_pace defaultModule true 1000000).stim_length_int = 1 := by decide!
  have hB2 : (toggle_pace roundedStimulusModule true 20000).bcl_int = 50000 := by decide!
  have hS2 : (toggle_pace roundedStimulusModule true 20000).stim_length_int = 114 := by decide!
  have h := (pace_stimulus_window defaultModule 1000000 quiet (by decide!) (by decide!)
    (by decide!)).2.1
  have h2 := (pace_stimulus_window roundedStimulusModule 20000 quiet (by decide!) (by decide!)
    (by decide!)).2.1
  have hA : defaultModule.stim_amplitude = 4 := by decide!
  have hA2 : roundedStimulusModule.stim_amplitude = 4 := by decide!
  rw [hB, hS, hA] at h
  rw [hB2, hS2, hA2] at h2
  exact ⟨hB, hS, h, hB2, hS2, h2⟩

/-- C2, counterexample. (a) Period 1 ms, cycle length 2 ms, stimulus length
5 ms, amplitude 4 nA: floor(stimLength/P) = 5, but a beat has only
floor(B/P) = 2 steps (the beat counter is 1 after the ticks 0 and 1 and 2 after
tick 2) and the current is 4e-9 on every step: the first beat has 2 steps with
a nonzero current, not 5. (b) With the compiled-in parameters and amplitude 0
the current on the first step of the first beat is 0 although
floor(stimLength/P) = 1. (c) Stimulus length 2.3 ms and period 20000 ns
(0.02 ms), so floor(stimLength/P) = 115: the object stores the doubles nearest
to 2.3 and to 0.02, their quotient rounds to 114.99999999999999 and the stored
stimulus length is 114 ticks; the steps with the offsets 0 to 113 emit 4e-9 A
and the step with offset 114 emits 0. -/
theorem pace_stimulus_window_counterexample :
    (toggle_pace longStimulusModule true 1000000).period = 1 ∧
    ⌊longStimulusModule.bcl / (toggle_pace longStimulusModule true 1000000).period⌋ = 2 ∧
    ⌊longStimulusModule.stim_length / (toggle_pace longStimulusModule true 1000000).period⌋
      = 5 ∧
    (run (toggle_pace longStimulusModule true 1000000) quiet 1).beatNumber = 1 ∧
    (run (toggle_pace longStimulusModule true 1000000) quiet 2).beatNumber = 1 ∧
    (run (toggle_pace longStimulusModule true 1000000) quiet 3).beatNumber = 2 ∧
    (run (toggle_pace longStimulusModule true 1000000) quiet 1).output0 = 4 / 1000000000 ∧
    (run (toggle_pace longStimulusModule true 1000000) quiet 2).output0 = 4 / 1000000000 ∧
    (run (toggle_pace longStimulusModule true 1000000) quiet 3).output0 = 4 / 1000000000 ∧
    ((Finset.range 2).filter (fun j =>
      (run (toggle_pace longStimulusModule true 1000000) quiet (j + 1)).output0 ≠ 0)).card = 2 ∧
    ⌊zeroAmplitudeModule.stim_length / (toggle_pace zeroAmplitudeModule true 1000000).period⌋
      = 1 ∧
    (run (toggle_pace zeroAmplitudeModule true 1000000) quiet 1).output0 = 0 ∧
    ⌊(23 / 10 : ℚ) / ((20000 : ℚ) / 1000000)⌋ = 115 ∧
    roundedStimulusModule.stim_length = roundDouble (23 / 10) ∧
    (toggle_pace roundedStimulusModule true 20000).period = roundDouble (1 / 50) ∧
    (toggle_pace roundedStimulusModule true 20000).stim_length_int = 114 ∧
    (toggle_pace roundedStimulusModule true 20000).bcl_int = 50000 ∧
    (run (toggle_pace roundedStimulusModule true 20000) quiet (113 + 1)).output0
      = 4 / 1000000000 ∧
    (run (toggle_pace roundedStimulusModule true 20000) quiet (114 + 1)).time_int = 114 ∧
    (run (toggle_pace roundedStimulusModule true 20000) quiet (114 + 1)).beatNumber = 1 ∧
    (run (toggle_pace roundedStimulusModule true 20000) quiet (114 + 1)).output0 = 0 := by
  have hb : (1 : ℤ) ≤ (toggle_pace roundedStimulusModule true 20000).bcl_int := by decide!
  obtain ⟨-, -, -, -, -, -, -, a8⟩ :=
    pace_run_invariant roundedStimulusModule 20000 quiet hb 113
  obtain ⟨-, b2, -, -, -, -, b7, b8⟩ :=
    pace_run_invariant roundedStimulusModule 20000 quiet hb 114
  refine ⟨by decide!, by decide!, by decide!, by decide!, by decide!, by decide!, by decide!,
    by decide!, by decide!, by decide!, by decide!, by decide!, by decide!, rfl, by decide!,
    by decide!, by decide!, a8.trans (by decide!), b2, b7.trans (by decide!),
    b8.trans (by decide!)⟩

/-! ## The end of a protocol -/

/-- The dispatch of `execute` in STIMTHRESHOLD. -/
theorem execute_of_STIMTHRESHOLD (m : Module) (inp : StepInput)
    (h : m.execute_mode = .STIMTHRESHOLD) :
    execute m inp = execute_STIMTHRESHOLD { m with voltage := inp.input0 * 1000 - m.ljp } := by
  simp [execute, h]

/-- The dispatch of `execute` in RRCTHRESHOLD. -/
theorem execute_of_RRCTHRESHOLD (m : Module) (inp : StepInput)
    (h : m.execute_mode = .RRCTHRESHOLD) :
    execute m inp = execute_RRCTHRESHOLD { m with voltage := inp.input0 * 1000 - m.ljp } := by
  simp [execute, h]

/-- The dispatch of `execute` in RRCPROTOCOL. -/
theorem execute_of_RRCPROTOCOL (m : Module) (inp : StepInput)
    (h : m.execute_mode = .RRCPROTOCOL) :
    execute m inp =
      execute_RRCPROTOCOL { m with voltage := inp.input0 * 1000 - m.ljp } inp := by
  simp [execute, h]

/-- The dispatch of `execute` in PACE. -/
theorem execute_of_PACE (m : Module) (inp : StepInput) (h : m.execute_mode = .PACE) :
    execute m inp = execute_PACE { m with voltage := inp.input0 * 1000 - m.ljp } := by
  simp [execute, h]

/-- The dispatch of `execute` in IDLE: only the working voltage is written. -/
theorem execute_of_IDLE (m : Module) (inp : StepInput) (h : m.execute_mode = .IDLE) :
    execute m inp = { m with voltage := inp.input0 * 1000 - m.ljp } := by
  simp [execute, h]

/-- Accepting the trial current: the mode is IDLE, recording is off, the
published amplitude is 1.25 times the trial current. -/
theorem accept_STIMTHRESHOLD_effect (m : Module) :
    (accept_STIMTHRESHOLD m).execute_mode = .IDLE ∧
    (accept_STIMTHRESHOLD m).recording = false ∧
    (accept_STIMTHRESHOLD m).stim_amplitude = m.stim_stimulusLevel * (5 / 4) := by
  unfold accept_STIMTHRESHOLD dataRecord_stop
  dsimp only
  split_ifs with h
  · exact ⟨rfl, rfl, rfl⟩
  · exact ⟨rfl, by simpa using h, rfl⟩

/-- The end of the threshold search: the mode is IDLE, the output is 0 and
recording is off. -/
theorem finish_RRCTHRESHOLD_effect (m : Module) :
    (finish_RRCTHRESHOLD m).execute_mode = .IDLE ∧
    (finish_RRCTHRESHOLD m).output0 = 0 ∧
    (finish_RRCTHRESHOLD m).recording = false := by
  unfold finish_RRCTHRESHOLD dataRecord_stop
  dsimp only
  split_ifs with h
  · exact ⟨rfl, rfl, rfl⟩
  · exact ⟨rfl, rfl, by simpa using h⟩

/-- The end of the randomized protocol: the mode is IDLE, the output is 0 and
recording is off. -/
theorem finish_RRCPROTOCOL_effect (m : Module) :
    (finish_RRCPROTOCOL m).execute_mode = .IDLE ∧
    (finish_RRCPROTOCOL m).output0 = 0 ∧
    (finish_RRCPROTOCOL m).recording = false := by
  unfold finish_RRCPROTOCOL dataRecord_stop
  dsimp only
  split_ifs with h
  · exact ⟨rfl, rfl, rfl⟩
  · exact ⟨rfl, rfl, by simpa using h⟩

/-- A step of the stimulus threshold search that ends in IDLE emits 0 and
leaves recording off. -/
theorem search_STIMTHRESHOLD_idle (m : Module) (hm : m.execute_mode ≠ .IDLE)
    (h : (search_STIMTHRESHOLD m).execute_mode = .IDLE) :
    (search_STIMTHRESHOLD m).output0 = 0 ∧ (search_STIMTHRESHOLD m).recording = false := by
  have hT := trackPeak_STIMTHRESHOLD_frame
  have hM := markBaseline_STIMTHRESHOLD_frame
  have hA := accept_STIMTHRESHOLD_frame
  have hI := retry_STIMTHRESHOLD_frame
  have hE := accept_STIMTHRESHOLD_effect
  unfold search_STIMTHRESHOLD at h ⊢
  dsimp only at h ⊢
  split_ifs at h ⊢
  · exact absurd h hm
  · exact ⟨by simp [hT, hM, hA], (hE _).2.1⟩
  · simp [hT, hM, hI] at h
    exact absurd h hm
  · simp [hT] at h
    exact absurd h hm

/-- C3: a step that starts in STIMTHRESHOLD, RRCTHRESHOLD or RRCPROTOCOL and
ends in IDLE (the completion condition of the protocol fired) emits a current
of 0 and leaves the recording flag false. -/
theorem completion_step_stops (m : Module) (inp : StepInput)
    (hstart : m.execute_mode = .STIMTHRESHOLD ∨ m.execute_mode = .RRCTHRESHOLD ∨
      m.execute_mode = .RRCPROTOCOL)
    (hend : (execute m inp).execute_mode = .IDLE) :
    (execute m inp).output0 = 0 ∧ (execute m inp).recording = false := by
  have hC := calculateAPD_frame
  have hR := startRecordingAtZero_frame
  rcases hstart with h | h | h
  · rw [execute_of_STIMTHRESHOLD m inp h] at hend ⊢
    unfold execute_STIMTHRESHOLD at hend ⊢
    dsimp only at hend ⊢
    apply search_STIMTHRESHOLD_idle _ _ hend
    simp [hR, advanceClock, h]
  · have hO := output_RRCTHRESHOLD_frame
    have hN := newBeat_RRCTHRESHOLD_frame
    have hK := compare_RRCTHRESHOLD_frame
    rw [execute_of_RRCTHRESHOLD m inp h] at hend ⊢
    unfold execute_RRCTHRESHOLD at hend ⊢
    dsimp only at hend ⊢
    split_ifs at hend ⊢
    · exact (finish_RRCTHRESHOLD_effect _).2
    · simp [hC, hO, hN, hK, hR, advanceClock, h] at hend
    · simp [hC, hO, hR, advanceClock, h] at hend
  · have hO := output_RRCPROTOCOL_frame
    have hN := newBeat_RRCPROTOCOL_frame
    rw [execute_of_RRCPROTOCOL m inp h] at hend ⊢
    unfold execute_RRCPROTOCOL at hend ⊢
    dsimp only at hend ⊢
    split_ifs at hend ⊢
    · exact (finish_RRCPROTOCOL_effect _).2
    · simp [hC, hO, hN, hR, advanceClock, h] at hend
    · simp [hC, hO, hR, advanceClock, h] at hend

/-- C3, witness: the randomized protocol with a cycle of 2 ticks and an end-beat
count of 1; the step with tick counter 2 starts in RRCPROTOCOL and ends in
IDLE. -/
theorem completion_step_stops_witness :
    (run (toggle_rrcProtocol oneBeatModule true 1000000) quiet 2).execute_mode = .RRCPROTOCOL ∧
    (execute (run (toggle_rrcProtocol oneBeatModule true 1000000) quiet 2) (quiet 2)).execute_mode
      = .IDLE ∧
    (execute (run (toggle_rrcProtocol oneBeatModule true 1000000) quiet 2) (quiet 2)).output0 = 0 ∧
    (execute (run (toggle_rrcProtocol oneBeatModule true 1000000) quiet 2) (quiet 2)).recording
      = false :=
  ⟨by decide!, by decide!,
    completion_step_stops (run (toggle_rrcProtocol oneBeatModule true 1000000) quiet 2) (quiet 2)
      (Or.inr (Or.inr (by decide!))) (by decide!)⟩

/-- C4, evaluation: the pace protocol is started with the compiled-in
parameters at a period of 1 ms, one step runs (tick 0, inside the stimulus
window, output 4e-9 A) and the operator cancels. The cancel leaves the mode
IDLE and the recording flag false, but it does not write the output channel:
the output is still 4e-9 A, and a later step in IDLE leaves it at 4e-9 A. -/
theorem cancel_keeps_output :
    (run (toggle_pace defaultModule true 1000000) quiet 1).output0 = 4 / 1000000000 ∧
    (toggle_pace (run (toggle_pace defaultModule true 1000000) quiet 1) false 1000000).execute_mode
      = .IDLE ∧
    (toggle_pace (run (toggle_pace defaultModule true 1000000) quiet 1) false 1000000).recording
      = false ∧
    (toggle_pace (run (toggle_pace defaultModule true 1000000) quiet 1) false 1000000).output0
      = 4 / 1000000000 ∧
    (execute (toggle_pace (run (toggle_pace defaultModule true 1000000) quiet 1) false 1000000)
      (quiet 1)).output0 = 4 / 1000000000 := by
  refine ⟨by decide!, by decide!, by decide!, by decide!, by decide!⟩

/-- The cancel branch of a toggle writes the mode, the recording flag and the
active flag only: whatever the output channel held, it still holds. -/
theorem cancelProtocol_effect (m : Module) :
    (cancelProtocol m).execute_mode = .IDLE ∧ (cancelProtocol m).recording = false ∧
    (cancelProtocol m).output0 = m.output0 ∧ (cancelProtocol m).time = m.time ∧
    (cancelProtocol m).time_int = m.time_int ∧ (cancelProtocol m).period = m.period := by
  unfold cancelProtocol
  dsimp only
  split_ifs with h
  · exact ⟨rfl, rfl, rfl, rfl, rfl, rfl⟩
  · exact ⟨rfl, by simpa using h, rfl, rfl, rfl, rfl⟩

/-! ## The stimulus threshold search -/

/-- The trial current after the completion rule: unchanged when the trial is
accepted, never smaller otherwise. -/
theorem search_STIMTHRESHOLD_level (m : Module) :
    m.stim_stimulusLevel ≤ (search_STIMTHRESHOLD m).stim_stimulusLevel ∧
    (m.execute_mode ≠ .IDLE → (search_STIMTHRESHOLD m).execute_mode = .IDLE →
      (search_STIMTHRESHOLD m).stim_amplitude = m.stim_stimulusLevel * (5 / 4) ∧
      (search_STIMTHRESHOLD m).stim_stimulusLevel = m.stim_stimulusLevel) := by
  have hT := trackPeak_STIMTHRESHOLD_frame
  have hM := markBaseline_STIMTHRESHOLD_frame
  have hA := accept_STIMTHRESHOLD_frame
  have hI := retry_STIMTHRESHOLD_frame
  have hE := accept_STIMTHRESHOLD_effect
  unfold search_STIMTHRESHOLD
  dsimp only
  split_ifs
  · exact ⟨le_refl _, fun hm h => absurd h hm⟩
  · refine ⟨by simp [hT, hM, hA], fun _ _ => ⟨?_, by simp [hT, hM, hA]⟩⟩
    rw [(hE _).2.2]
    simp [hT, hM]
  · refine ⟨?_, fun hm h => ?_⟩
    · unfold retry_STIMTHRESHOLD
      split_ifs
      · simp [hT, hM]
      · simp [hT, hM]
    · simp [hT, hM, hI] at h
      exact absurd h hm
  · refine ⟨by simp [hT], fun hm h => ?_⟩
    simp [hT] at h
    exact absurd h hm

/-- One step of the engine, in any mode, never lowers the trial current. -/
theorem execute_level_mono (m : Module) (inp : StepInput) :
    m.stim_stimulusLevel ≤ (execute m inp).stim_stimulusLevel := by
  have hC := calculateAPD_frame
  have hR := startRecordingAtZero_frame
  cases hmode : m.execute_mode
  · rw [execute_of_IDLE m inp hmode]
  · rw [execute_of_STIMTHRESHOLD m inp hmode]
    unfold execute_STIMTHRESHOLD
    dsimp only
    refine le_trans (le_of_eq ?_) (search_STIMTHRESHOLD_level _).1
    simp [hR, advanceClock]
  · have hS := stimulus_PACE_frame
    have hB := beat_PACE_frame
    rw [execute_of_PACE m inp hmode]
    unfold execute_PACE
    simp [hC, hS, hB, hR, advanceClock]
  · have hO := output_RRCTHRESHOLD_frame
    have hN := newBeat_RRCTHRESHOLD_frame
    have hK := compare_RRCTHRESHOLD_frame
    have hF := finish_RRCTHRESHOLD_frame
    rw [execute_of_RRCTHRESHOLD m inp hmode]
    unfold execute_RRCTHRESHOLD
    dsimp only
    split_ifs <;> simp [hC, hO, hN, hK, hF, hR, advanceClock]
  · have hO := output_RRCPROTOCOL_frame
    have hN := newBeat_RRCPROTOCOL_frame
    have hF := finish_RRCPROTOCOL_frame
    rw [execute_of_RRCPROTOCOL m inp hmode]
    unfold execute_RRCPROTOCOL
    dsimp only
    split_ifs <;> simp [hC, hO, hN, hF, hR, advanceClock]

/-- C6: along every run the trial current of the stimulus threshold search
never decreases, and whenever a step ends the search by the AP-found rule
(the step starts in STIMTHRESHOLD and ends in IDLE) the published stimulus
amplitude is 1.25 times the trial current of that step, which that step does
not change. -/
theorem stim_search_monotone_published (s : Module) (inp : ℕ → StepInput) (i j : ℕ)
    (hij : i ≤ j) :
    (run s inp i).stim_stimulusLevel ≤ (run s inp j).stim_stimulusLevel ∧
    (∀ n : ℕ, (run s inp n).execute_mode = .STIMTHRESHOLD →
      (run s inp (n + 1)).execute_mode = .IDLE →
      (run s inp (n + 1)).stim_amplitude = (run s inp n).stim_stimulusLevel * (5 / 4) ∧
      (run s inp (n + 1)).stim_stimulusLevel = (run s inp n).stim_stimulusLevel) := by
  constructor
  · induction j with
    | zero =>
      have : i = 0 := by omega
      rw [this]
    | succ j ih =>
      by_cases h : i = j + 1
      · rw [h]
      · exact le_trans (ih (by omega)) (execute_level_mono _ _)
  · intro n hn hend
    have hR := startRecordingAtZero_frame
    have hr : run s inp (n + 1) = execute (run s inp n) (inp n) := rfl
    rw [hr] at hend ⊢
    generalize run s inp n = m at *
    rw [execute_of_STIMTHRESHOLD m _ hn] at hend ⊢
    unfold execute_STIMTHRESHOLD at hend ⊢
    dsimp only at hend ⊢
    have h := (search_STIMTHRESHOLD_level
      (startRecordingAtZero (advanceClock { m with voltage := (inp n).input0 * 1000 - m.ljp })
        (advanceClock { m with voltage := (inp n).input0 * 1000 - m.ljp }).stim_recordData)).2
      (by simp [hR, advanceClock, hn]) hend
    simpa [hR, advanceClock] using h

/-- C6, witness: the search started at a resting voltage of -80 mV on the trace
`apTrace`; the response lasts 52 ms and peaks at 20 mV, so call 52 ends the
search and publishes 1.25 * 2.0 = 2.5 nA. -/
theorem stim_search_monotone_published_witness :
    (run (toggle_stimThreshold defaultModule true 1000000 (-2 / 25)) apTrace 52).execute_mode
      = .STIMTHRESHOLD ∧
    (run (toggle_stimThreshold defaultModule true 1000000 (-2 / 25)) apTrace 53).execute_mode
      = .IDLE ∧
    (run (toggle_stimThreshold defaultModule true 1000000 (-2 / 25)) apTrace 52).stim_stimulusLevel
      = 2 ∧
    (run (toggle_stimThreshold defaultModule true 1000000 (-2 / 25)) apTrace 53).stim_amplitude
      = 5 / 2 :=
  ⟨by decide!, by decide!, by decide!,
    (((stim_search_monotone_published (toggle_stimThreshold defaultModule true 1000000 (-2 / 25))
      apTrace 0 53 (by decide)).2 52 (by decide!) (by decide!)).1).trans (by decide!)⟩
/-! ## The RRC threshold search -/

/-- The comparison on an injection beat with a baseline (previous APD ≥ 0) and
an APD at or above the cutoff that the source computes: the search is found and
the trial amplitude is not changed. -/
theorem compare_RRCTHRESHOLD_cutoff (m : Module)
    (hinj : m.beatNumber_int.tmod m.thresh_beatNumber = 0)
    (hbase : 0 ≤ m.thresh_previousAPD)
    (hcut : m.apd ≥ cutoffAPD m) :
    (compare_RRCTHRESHOLD m).thresh_rrcThreshFound = true ∧
    (compare_RRCTHRESHOLD m).thresh_rrcAmplitude = m.thresh_rrcAmplitude := by
  unfold compare_RRCTHRESHOLD
  rw [if_pos hinj, if_neg (not_lt.mpr hbase)]
  split_ifs
  · exact ⟨rfl, rfl⟩
  · exact ⟨rfl, rfl⟩

/-- C7 (amended): at a beat-boundary step in RRCTHRESHOLD on an injection beat
(beat counter a multiple of the nonzero beat-spacing), when a baseline exists
(previousAPD ≥ 0, i.e. this is not the first injection boundary of the search)
and apd is at least the cutoff as the source computes it, the double
previousAPD * (1 + cutoff / 100.0) with each of the three operations rounded,
the step ends with the found flag set, the mode IDLE and the output 0, and the
trial RRC amplitude after the step equals its value before the step. -/
theorem rrc_threshold_cutoff_ends (m : Module) (inp : StepInput)
    (hmode : m.execute_mode = .RRCTHRESHOLD)
    (hboundary : m.time_int + 1 - m.bcl_startTime ≥ m.bcl_int)
    (hspacing : m.thresh_beatNumber ≠ 0)
    (hinj : m.beatNumber_int.tmod m.thresh_beatNumber = 0)
    (hbase : 0 ≤ m.thresh_previousAPD)
    (hcut : m.apd ≥ cutoffAPD m) :
    (execute m inp).thresh_rrcThreshFound = true ∧
    (execute m inp).execute_mode = .IDLE ∧
    (execute m inp).output0 = 0 ∧
    (execute m inp).thresh_rrcAmplitude = m.thresh_rrcAmplitude := by
  have _ := hspacing
  have hR := startRecordingAtZero_frame
  have hF := finish_RRCTHRESHOLD_frame
  have hE := finish_RRCTHRESHOLD_effect
  rw [execute_of_RRCTHRESHOLD m inp hmode]
  unfold execute_RRCTHRESHOLD
  dsimp only
  have hb : (startRecordingAtZero (advanceClock { m with voltage := inp.input0 * 1000 - m.ljp })
      (advanceClock { m with voltage := inp.input0 * 1000 - m.ljp }).thresh_recordData).time_int -
      (startRecordingAtZero (advanceClock { m with voltage := inp.input0 * 1000 - m.ljp })
      (advanceClock { m with voltage := inp.input0 * 1000 - m.ljp }).thresh_recordData).bcl_startTime
      ≥
      (startRecordingAtZero (advanceClock { m with voltage := inp.input0 * 1000 - m.ljp })
      (advanceClock { m with voltage := inp.input0 * 1000 - m.ljp }).thresh_recordData).bcl_int := by
    simpa [hR, advanceClock] using hboundary
  rw [if_pos hb]
  obtain ⟨c1, c2⟩ := compare_RRCTHRESHOLD_cutoff
    (startRecordingAtZero (advanceClock { m with voltage := inp.input0 * 1000 - m.ljp })
      (advanceClock { m with voltage := inp.input0 * 1000 - m.ljp }).thresh_recordData)
    (by simpa [hR, advanceClock] using hinj)
    (by simpa [hR, advanceClock] using hbase)
    (by simpa [cutoffAPD, hR, advanceClock] using hcut)
  rw [if_pos c1]
  refine ⟨?_, (hE _).1, (hE _).2.1, ?_⟩
  · simp only [hF]
    exact c1
  · simp only [hF]
    rw [c2]
    simp [hR, advanceClock]

/-- C7, witness: the threshold search at a period of 10 ms with a cycle of 30
ticks, an injection on every beat and a cutoff of 5 %, on a trace with an
action potential of 200 ms in beat 1 and of 220 ms in beat 2. The boundary at
tick 30 makes 200 ms the baseline; at the boundary of tick 60 the APD 220 ms
is at least the cutoff 210 ms and the search ends. -/
theorem rrc_threshold_cutoff_ends_witness :
    (run (toggle_rrcThreshold lowCutoffModule true 10000000) twoBeatTrace 60).apd = 220 ∧
    (run (toggle_rrcThreshold lowCutoffModule true 10000000) twoBeatTrace 60
      ).thresh_previousAPD = 200 ∧
    cutoffAPD (run (toggle_rrcThreshold lowCutoffModule true 10000000) twoBeatTrace 60)
      = 210 ∧
    ((execute (run (toggle_rrcThreshold lowCutoffModule true 10000000) twoBeatTrace 60)
        (twoBeatTrace 60)).thresh_rrcThreshFound = true ∧
      (execute (run (toggle_rrcThreshold lowCutoffModule true 10000000) twoBeatTrace 60)
        (twoBeatTrace 60)).execute_mode = .IDLE ∧
      (execute (run (toggle_rrcThreshold lowCutoffModule true 10000000) twoBeatTrace 60)
        (twoBeatTrace 60)).output0 = 0 ∧
      (execute (run (toggle_rrcThreshold lowCutoffModule true 10000000) twoBeatTrace 60)
        (twoBeatTrace 60)).thresh_rrcAmplitude =
        (run (toggle_rrcThreshold lowCutoffModule true 10000000) twoBeatTrace 60
          ).thresh_rrcAmplitude) :=
  ⟨by decide!, by decide!, by decide!,
    rrc_threshold_cutoff_ends
      (run (toggle_rrcThreshold lowCutoffModule true 10000000) twoBeatTrace 60)
      (twoBeatTrace 60) (by decide!) (by decide!) (by decide!) (by decide!) (by decide!)
      (by decide!)⟩

/-- C7, counterexample. (a) The threshold search with a cycle of 2 ticks at its
first injection boundary (the step with tick counter 2): before the step the
mode is RRCTHRESHOLD, the step is a beat boundary, beat 1 is an injection beat
and apd = 0 ≥ previousAPD * 1.2 = -1.2 (previousAPD is the start value -1);
after the step the found flag is false, the mode is still RRCTHRESHOLD and the
step only made the APD the baseline. (b) The search at a period of 10 ms with
a cutoff of 10 %, a baseline of 200 ms and an APD of 220 ms at the boundary of
tick 60: 220 ≥ 200 * (1 + 10/100) holds for the numbers, but the source
computes the cutoff in doubles as 220.00000000000003; the found flag stays
false, the mode stays RRCTHRESHOLD and the trial amplitude is incremented. -/
theorem rrc_threshold_cutoff_ends_counterexample :
    (run (toggle_rrcThreshold everyBeatModule true 1000000) quiet 2).execute_mode
      = .RRCTHRESHOLD ∧
    (run (toggle_rrcThreshold everyBeatModule true 1000000) quiet 2).time_int + 1 -
      (run (toggle_rrcThreshold everyBeatModule true 1000000) quiet 2).bcl_startTime ≥
      (run (toggle_rrcThreshold everyBeatModule true 1000000) quiet 2).bcl_int ∧
    (run (toggle_rrcThreshold everyBeatModule true 1000000) quiet 2).beatNumber_int.tmod
      (run (toggle_rrcThreshold everyBeatModule true 1000000) quiet 2).thresh_beatNumber = 0 ∧
    (run (toggle_rrcThreshold everyBeatModule true 1000000) quiet 2).thresh_previousAPD = -1 ∧
    (run (toggle_rrcThreshold everyBeatModule true 1000000) quiet 2).apd ≥
      (run (toggle_rrcThreshold everyBeatModule true 1000000) quiet 2).thresh_previousAPD *
        (1 + (((run (toggle_rrcThreshold everyBeatModule true 1000000) quiet 2).thresh_apdCutoff
          : ℚ) / 100)) ∧
    (execute (run (toggle_rrcThreshold everyBeatModule true 1000000) quiet 2)
      (quiet 2)).thresh_rrcThreshFound = false ∧
    (execute (run (toggle_rrcThreshold everyBeatModule true 1000000) quiet 2)
      (quiet 2)).execute_mode = .RRCTHRESHOLD ∧
    (execute (run (toggle_rrcThreshold everyBeatModule true 1000000) quiet 2)
      (quiet 2)).thresh_previousAPD = 0 ∧
    (run (toggle_rrcThreshold cutoffModule true 10000000) twoBeatTrace 60).execute_mode
      = .RRCTHRESHOLD ∧
    (run (toggle_rrcThreshold cutoffModule true 10000000) twoBeatTrace 60).time_int + 1 -
      (run (toggle_rrcThreshold cutoffModule true 10000000) twoBeatTrace 60).bcl_startTime ≥
      (run (toggle_rrcThreshold cutoffModule true 10000000) twoBeatTrace 60).bcl_int ∧
    (run (toggle_rrcThreshold cutoffModule true 10000000) twoBeatTrace 60).beatNumber_int.tmod
      (run (toggle_rrcThreshold cutoffModule true 10000000) twoBeatTrace 60).thresh_beatNumber
      = 0 ∧
    (run (toggle_rrcThreshold cutoffModule true 10000000) twoBeatTrace 60).apd_mode = .DONE ∧
    (run (toggle_rrcThreshold cutoffModule true 10000000) twoBeatTrace 60).apd = 220 ∧
    (run (toggle_rrcThreshold cutoffModule true 10000000) twoBeatTrace 60).thresh_previousAPD
      = 200 ∧
    (run (toggle_rrcThreshold cutoffModule true 10000000) twoBeatTrace 60).thresh_apdCutoff
      = 10 ∧
    (220 : ℚ) ≥ 200 * (1 + ((10 : ℤ) : ℚ) / 100) ∧
    cutoffAPD (run (toggle_rrcThreshold cutoffModule true 10000000) twoBeatTrace 60) =
      220 + 1 / 35184372088832 ∧
    (execute (run (toggle_rrcThreshold cutoffModule true 10000000) twoBeatTrace 60)
      (twoBeatTrace 60)).thresh_rrcThreshFound = false ∧
    (execute (run (toggle_rrcThreshold cutoffModule true 10000000) twoBeatTrace 60)
      (twoBeatTrace 60)).execute_mode = .RRCTHRESHOLD ∧
    (execute (run (toggle_rrcThreshold cutoffModule true 10000000) twoBeatTrace 60)
      (twoBeatTrace 60)).thresh_rrcAmplitude =
      (run (toggle_rrcThreshold cutoffModule true 10000000) twoBeatTrace 60
        ).thresh_rrcAmplitude + 1 / 100 := by
  refine ⟨by decide!, by decide!, by decide!, by decide!, by decide!, by decide!, by decide!,
    by decide!, by decide!, by decide!, by decide!, by decide!, by decide!, by decide!,
    by decide!, by decide!, by decide!, by decide!, by decide!, by decide!⟩

/-! ## The clock -/

/-- The reset leaves the clock one period and one tick before zero. -/
theorem reset_clock (m : Module) (ns : ℤ) :
    (reset m ns).time = -(reset m ns).period ∧ (reset m ns).time_int = -1 ∧
    (reset m ns).period = periodMs ns := by
  unfold reset
  dsimp only
  rw [calculateAPD_one]
  exact ⟨rfl, rfl, rfl⟩

/-- One step of the engine: in IDLE the clock stands still, in every other
mode the time grows by the period and the step counter by 1; the period is not
written. -/
theorem execute_clock (m : Module) (inp : StepInput) :
    (execute m inp).period = m.period ∧
    (m.execute_mode = .IDLE →
      (execute m inp).time = m.time ∧ (execute m inp).time_int = m.time_int) ∧
    (m.execute_mode ≠ .IDLE →
      (execute m inp).time = m.time + m.period ∧
      (execute m inp).time_int = m.time_int + 1) := by
  have hC := calculateAPD_frame
  have hR := startRecordingAtZero_frame
  cases hmode : m.execute_mode
  · rw [execute_of_IDLE m inp hmode]
    simp
  · have hS := search_STIMTHRESHOLD_frame
    rw [execute_of_STIMTHRESHOLD m inp hmode]
    unfold execute_STIMTHRESHOLD
    simp [hS, hR, advanceClock]
  · have hS := stimulus_PACE_frame
    have hB := beat_PACE_frame
    rw [execute_of_PACE m inp hmode]
    unfold execute_PACE
    simp [hC, hS, hB, hR, advanceClock]
  · have hO := output_RRCTHRESHOLD_frame
    have hN := newBeat_RRCTHRESHOLD_frame
    have hK := compare_RRCTHRESHOLD_frame
    have hF := finish_RRCTHRESHOLD_frame
    rw [execute_of_RRCTHRESHOLD m inp hmode]
    unfold execute_RRCTHRESHOLD
    dsimp only
    split_ifs <;> simp [hC, hO, hN, hK, hF, hR, advanceClock]
  · have hO := output_RRCPROTOCOL_frame
    have hN := newBeat_RRCPROTOCOL_frame
    have hF := finish_RRCPROTOCOL_frame
    rw [execute_of_RRCPROTOCOL m inp hmode]
    unfold execute_RRCPROTOCOL
    dsimp only
    split_ifs <;> simp [hC, hO, hN, hF, hR, advanceClock]

/-- The four start commands leave the clock of the reset: time = -period and
step counter = -1. -/
theorem start_clock (m : Module) (ns : ℤ) (v : ℚ) :
    ((toggle_stimThreshold m true ns v).time = -(toggle_stimThreshold m true ns v).period ∧
      (toggle_stimThreshold m true ns v).time_int = -1) ∧
    ((toggle_pace m true ns).time = -(toggle_pace m true ns).period ∧
      (toggle_pace m true ns).time_int = -1) ∧
    ((toggle_rrcThreshold m true ns).time = -(toggle_rrcThreshold m true ns).period ∧
      (toggle_rrcThreshold m true ns).time_int = -1) ∧
    ((toggle_rrcProtocol m true ns).time = -(toggle_rrcProtocol m true ns).period ∧
      (toggle_rrcProtocol m true ns).time_int = -1) := by
  have hK := reset_clock
  refine ⟨?_, ?_, ?_, ?_⟩
  · simp [toggle_stimThreshold, hK]
  · simp [toggle_pace, hK]
  · simp [toggle_rrcThreshold, hK]
  · simp [toggle_rrcProtocol, hK]

/-- The four cancel commands do not write the clock. -/
theorem cancel_clock (m : Module) (ns : ℤ) (v : ℚ) :
    ((toggle_stimThreshold m false ns v).time = m.time ∧
      (toggle_stimThreshold m false ns v).time_int = m.time_int ∧
      (toggle_stimThreshold m false ns v).period = m.period) ∧
    ((toggle_pace m false ns).time = m.time ∧
      (toggle_pace m false ns).time_int = m.time_int ∧
      (toggle_pace m false ns).period = m.period) ∧
    ((toggle_rrcThreshold m false ns).time = m.time ∧
      (toggle_rrcThreshold m false ns).time_int = m.time_int ∧
      (toggle_rrcThreshold m false ns).period = m.period) ∧
    ((toggle_rrcProtocol m false ns).time = m.time ∧
      (toggle_rrcProtocol m false ns).time_int = m.time_int ∧
      (toggle_rrcProtocol m false ns).period = m.period) := by
  have hK := cancelProtocol_effect
  refine ⟨?_, ?_, ?_, ?_⟩
  · simp [toggle_stimThreshold, hK]
  · simp [toggle_pace, hK]
  · simp [toggle_rrcThreshold, hK]
  · simp [toggle_rrcProtocol, hK]

/-- C10: in every state reachable from a start command (by steps in any mode,
cancels and restarts; exact arithmetic) the elapsed time is the step counter
times the period. Every reset leaves time = -period and step counter = -1, and
every step outside IDLE adds the period to the time and 1 to the step counter
and leaves the period as the last reset set it. -/
theorem clock_invariant (m : Module) (h : Reachable m) :
    m.time = (m.time_int : ℚ) * m.period ∧
    (∀ (m0 : Module) (ns : ℤ),
      (reset m0 ns).time = -(reset m0 ns).period ∧ (reset m0 ns).time_int = -1) ∧
    (∀ inp : StepInput, m.execute_mode ≠ .IDLE →
      (execute m inp).time = m.time + m.period ∧
      (execute m inp).time_int = m.time_int + 1 ∧
      (execute m inp).period = m.period) := by
  refine ⟨?_, fun m0 ns => ⟨(reset_clock m0 ns).1, (reset_clock m0 ns).2.1⟩,
    fun inp hm => ⟨((execute_clock m inp).2.2 hm).1, ((execute_clock m inp).2.2 hm).2,
      (execute_clock m inp).1⟩⟩
  induction h with
  | start_stimThreshold m ns v =>
    obtain ⟨⟨h1, h2⟩, -⟩ := start_clock m ns v
    rw [h1, h2]; push_cast; ring
  | start_pace m ns =>
    obtain ⟨-, ⟨h1, h2⟩, -⟩ := start_clock m ns 0
    rw [h1, h2]; push_cast; ring
  | start_rrcThreshold m ns =>
    obtain ⟨-, -, ⟨h1, h2⟩, -⟩ := start_clock m ns 0
    rw [h1, h2]; push_cast; ring
  | start_rrcProtocol m ns =>
    obtain ⟨-, -, -, ⟨h1, h2⟩⟩ := start_clock m ns 0
    rw [h1, h2]; push_cast; ring
  | step m inp _ ih =>
    obtain ⟨hp, hidle, hrun⟩ := execute_clock m inp
    by_cases hm : m.execute_mode = .IDLE
    · rw [(hidle hm).1, (hidle hm).2, hp]
      exact ih
    · rw [(hrun hm).1, (hrun hm).2, hp, ih]
      push_cast; ring
  | cancel_stimThreshold m ns v _ ih =>
    obtain ⟨⟨h1, h2, h3⟩, -⟩ := cancel_clock m ns v
    rw [h1, h2, h3]; exact ih
  | cancel_pace m ns _ ih =>
    obtain ⟨-, ⟨h1, h2, h3⟩, -⟩ := cancel_clock m ns 0
    rw [h1, h2, h3]; exact ih
  | cancel_rrcThreshold m ns _ ih =>
    obtain ⟨-, -, ⟨h1, h2, h3⟩, -⟩ := cancel_clock m ns 0
    rw [h1, h2, h3]; exact ih
  | cancel_rrcProtocol m ns _ ih =>
    obtain ⟨-, -, -, ⟨h1, h2, h3⟩⟩ := cancel_clock m ns 0
    rw [h1, h2, h3]; exact ih

/-- C10, witness: the pace protocol started with the compiled-in parameters at
a period of 1 ms, after one step: time = 0 = 0 * 1. -/
theorem clock_invariant_witness :
    Reachable (execute (toggle_pace defaultModule true 1000000) (quiet 0)) ∧
    (execute (toggle_pace defaultModule true 1000000) (quiet 0)).time =
      ((execute (toggle_pace defaultModule true 1000000) (quiet 0)).time_int : ℚ) *
        (execute (toggle_pace defaultModule true 1000000) (quiet 0)).period ∧
    (execute (toggle_pace defaultModule true 1000000) (quiet 0)).time_int = 0 :=
  ⟨Reachable.step _ _ (Reachable.start_pace _ _),
    (clock_invariant _ (Reachable.step _ _ (Reachable.start_pace _ _))).1, by decide!⟩

/-! ## The randomized RRC protocol -/

/-- A new beat of the randomized protocol: the beat counter grows by one, the
beat starts at the current tick and the two draws are in [1, 100]. -/
theorem newBeat_RRCPROTOCOL_effect (m : Module) (inp : StepInput) :
    (newBeat_RRCPROTOCOL m inp).beatNumber = m.beatNumber + 1 ∧
    (newBeat_RRCPROTOCOL m inp).beatNumber_int = m.beatNumber_int + 1 ∧
    (newBeat_RRCPROTOCOL m inp).bcl_startTime = m.time_int ∧
    (newBeat_RRCPROTOCOL m inp).rrc_random_injection = (inp.rand1 : ℤ).tmod 100 + 1 ∧
    (newBeat_RRCPROTOCOL m inp).rrc_random_threshold = (inp.rand2 : ℤ).tmod 100 + 1 := by
  have hA := restartAPD_frame
  have hI := setInjectionWindow_frame
  unfold newBeat_RRCPROTOCOL
  simp [hA, hI]

/-- One step in RRCPROTOCOL: the clock, and the three cases of the beat
boundary. -/
theorem execute_RRCPROTOCOL_step (m : Module) (inp : StepInput)
    (h : m.execute_mode = .RRCPROTOCOL) :
    (execute m inp).time_int = m.time_int + 1 ∧
    (execute m inp).bcl_int = m.bcl_int ∧
    (execute m inp).rrc_endBeatNumber = m.rrc_endBeatNumber ∧
    (m.time_int + 1 - m.bcl_startTime ≥ m.bcl_int → m.beatNumber ≥ (m.rrc_endBeatNumber : ℚ) →
      (execute m inp).execute_mode = .IDLE ∧ (execute m inp).output0 = 0 ∧
      (execute m inp).beatNumber = m.beatNumber) ∧
    (m.time_int + 1 - m.bcl_startTime ≥ m.bcl_int → ¬ m.beatNumber ≥ (m.rrc_endBeatNumber : ℚ) →
      (execute m inp).execute_mode = .RRCPROTOCOL ∧
      (execute m inp).beatNumber = m.beatNumber + 1 ∧
      (execute m inp).bcl_startTime = m.time_int + 1) ∧
    (¬ m.time_int + 1 - m.bcl_startTime ≥ m.bcl_int →
      (execute m inp).execute_mode = .RRCPROTOCOL ∧
      (execute m inp).beatNumber = m.beatNumber ∧
      (execute m inp).bcl_startTime = m.bcl_startTime) := by
  have hC := calculateAPD_frame
  have hR := startRecordingAtZero_frame
  have hO := output_RRCPROTOCOL_frame
  have hN := newBeat_RRCPROTOCOL_frame
  have hF := finish_RRCPROTOCOL_frame
  have hE := finish_RRCPROTOCOL_effect
  have hB := newBeat_RRCPROTOCOL_effect
  rw [execute_of_RRCPROTOCOL m inp h]
  unfold execute_RRCPROTOCOL
  dsimp only
  split_ifs with h1 h2
  · simp only [hR, advanceClock, ge_iff_le] at h1 h2
    refine ⟨by simp [hF, hR, advanceClock], by simp [hF, hR, advanceClock],
      by simp [hF, hR, advanceClock], fun _ _ => ⟨(hE _).1, (hE _).2.1, ?_⟩,
      fun _ hn => absurd h2 hn, fun hn => absurd h1 hn⟩
    simp [hF, hR, advanceClock]
  · simp only [hR, advanceClock, ge_iff_le] at h1 h2
    refine ⟨by simp [hC, hO, hN, hR, advanceClock], by simp [hC, hO, hN, hR, advanceClock],
      by simp [hC, hO, hN, hR, advanceClock], fun _ hn => absurd hn h2,
      fun _ _ => ⟨by simp [hC, hO, hN, hR, advanceClock, h], ?_, ?_⟩, fun hn => absurd h1 hn⟩
    · simp [hC, hO, hB, hR, advanceClock]
    · simp [hC, hO, hB, hR, advanceClock]
  · simp only [hR, advanceClock, ge_iff_le] at h1
    refine ⟨by simp [hC, hO, hR, advanceClock], by simp [hC, hO, hR, advanceClock],
      by simp [hC, hO, hR, advanceClock], fun hn => absurd hn h1, fun hn => absurd hn h1,
      fun _ => ⟨by simp [hC, hO, hR, advanceClock, h], by simp [hC, hO, hR, advanceClock],
        by simp [hC, hO, hR, advanceClock]⟩⟩

/-- The state that the start command of the randomized protocol leaves. -/
theorem toggle_rrcProtocol_start (m : Module) (ns : ℤ) :
    (toggle_rrcProtocol m true ns).execute_mode = .RRCPROTOCOL ∧
    (toggle_rrcProtocol m true ns).time_int = -1 ∧
    (toggle_rrcProtocol m true ns).bcl_startTime = 0 ∧
    (toggle_rrcProtocol m true ns).beatNumber = 1 ∧
    (toggle_rrcProtocol m true ns).bcl_int = divToInt m.bcl (periodMs ns) ∧
    (toggle_rrcProtocol m true ns).rrc_endBeatNumber = m.rrc_endBeatNumber := by
  have hR := reset_frame
  simp [toggle_rrcProtocol, reset, hR]

/-- The invariant of a run of the randomized protocol before its last beat
boundary: for a cycle of N ≥ 1 ticks and an end-beat count E, after the step
with tick counter t < E * N the protocol is still running, the beat starts at
the last multiple of N and the beat counter is floor(t / N) + 1. -/
theorem rrcProtocol_run_invariant (s0 : Module) (inp : ℕ → StepInput) (N E : ℤ)
    (hmode : s0.execute_mode = .RRCPROTOCOL) (htime : s0.time_int = -1)
    (hstart : s0.bcl_startTime = 0) (hbeat : s0.beatNumber = 1) (hbcl : s0.bcl_int = N)
    (hend : s0.rrc_endBeatNumber = E) (hN : 1 ≤ N) (t : ℕ) (ht : (t : ℤ) < E * N) :
    (run s0 inp (t + 1)).execute_mode = .RRCPROTOCOL ∧
    (run s0 inp (t + 1)).time_int = t ∧
    (run s0 inp (t + 1)).bcl_int = N ∧
    (run s0 inp (t + 1)).rrc_endBeatNumber = E ∧
    (run s0 inp (t + 1)).bcl_startTime = N * ((t : ℤ) / N) ∧
    (run s0 inp (t + 1)).beatNumber = (((t : ℤ) / N : ℤ) : ℚ) + 1 := by
  induction t with
  | zero =>
    obtain ⟨e1, e2, e3, -, -, e6⟩ := execute_RRCPROTOCOL_step s0 (inp 0) hmode
    have hnb : ¬ s0.time_int + 1 - s0.bcl_startTime ≥ s0.bcl_int := by
      rw [htime, hstart, hbcl]; omega
    obtain ⟨f1, f2, f3⟩ := e6 hnb
    have hr : run s0 inp (0 + 1) = execute s0 (inp 0) := rfl
    rw [hr]
    refine ⟨f1, by rw [e1, htime]; simp, by rw [e2, hbcl], by rw [e3, hend], ?_, ?_⟩
    · rw [f3, hstart]; simp
    · rw [f2, hbeat]; simp
  | succ t ih =>
    have htN : (t : ℤ) < E * N := by push_cast at ht; omega
    obtain ⟨i1, i2, i3, i4, i5, i6⟩ := ih htN
    have hr : run s0 inp (t + 1 + 1) = execute (run s0 inp (t + 1)) (inp (t + 1)) := rfl
    rw [hr]
    generalize run s0 inp (t + 1) = s at *
    obtain ⟨e1, e2, e3, -, e5, e6⟩ := execute_RRCPROTOCOL_step s (inp (t + 1)) i1
    have hd := div_succ_of_pos N t (by omega)
    have hlt : ((t : ℤ) + 1) / N < E := Int.ediv_lt_of_lt_mul (by omega) (by push_cast at ht; exact ht)
    rw [i2, i5, i3] at e5 e6
    by_cases hb : (t : ℤ) + 1 - N * ((t : ℤ) / N) ≥ N
    · rw [if_pos hb] at hd
      have hnot : ¬ s.beatNumber ≥ (s.rrc_endBeatNumber : ℚ) := by
        rw [i6, i4, not_le]
        have : (t : ℤ) / N + 1 < E := by omega
        exact_mod_cast this
      obtain ⟨f1, f2, f3⟩ := e5 hb hnot
      refine ⟨f1, by rw [e1, i2]; push_cast; ring, by rw [e2, i3], by rw [e3, i4], ?_, ?_⟩
      · rw [f3]
        push_cast
        rw [hd]
        have h1 := Int.emod_add_ediv (t : ℤ) N
        have h2 := Int.emod_lt_of_pos (t : ℤ) (show 0 < N by omega)
        have h3 : N * ((t : ℤ) / N + 1) = N * ((t : ℤ) / N) + N := by ring
        omega
      · rw [f2, i6]
        push_cast
        rw [hd]
        push_cast
        ring
    · rw [if_neg hb] at hd
      obtain ⟨f1, f2, f3⟩ := e6 hb
      refine ⟨f1, by rw [e1, i2]; push_cast; ring, by rw [e2, i3], by rw [e3, i4], ?_, ?_⟩
      · rw [f3]; push_cast; rw [hd]
      · rw [f2, i6]; push_cast; rw [hd]

/-- A step in IDLE leaves the mode, the output and the beat counter. -/
theorem execute_IDLE_keeps (m : Module) (inp : StepInput) (h : m.execute_mode = .IDLE) :
    (execute m inp).execute_mode = .IDLE ∧ (execute m inp).output0 = m.output0 ∧
    (execute m inp).beatNumber = m.beatNumber := by
  rw [execute_of_IDLE m inp h]
  exact ⟨h, rfl, rfl⟩

/-- The length of a run of the randomized protocol, in terms of the cycle
length in ticks that the start command stores. -/
theorem rrcProtocol_run_ends (m0 : Module) (ns : ℤ) (inp : ℕ → StepInput)
    (hN : 1 ≤ (toggle_rrcProtocol m0 true ns).bcl_int) (hE : 1 ≤ m0.rrc_endBeatNumber) :
    (∀ t : ℕ, (t : ℤ) < m0.rrc_endBeatNumber * (toggle_rrcProtocol m0 true ns).bcl_int →
      (run (toggle_rrcProtocol m0 true ns) inp (t + 1)).execute_mode = .RRCPROTOCOL ∧
      (run (toggle_rrcProtocol m0 true ns) inp (t + 1)).beatNumber =
        (((t : ℤ) / (toggle_rrcProtocol m0 true ns).bcl_int : ℤ) : ℚ) + 1 ∧
      (run (toggle_rrcProtocol m0 true ns) inp (t + 1)).beatNumber ≤
        (m0.rrc_endBeatNumber : ℚ)) ∧
    (∀ n : ℕ, (n : ℤ) ≥ m0.rrc_endBeatNumber * (toggle_rrcProtocol m0 true ns).bcl_int + 1 →
      (run (toggle_rrcProtocol m0 true ns) inp n).execute_mode = .IDLE ∧
      (run (toggle_rrcProtocol m0 true ns) inp n).output0 = 0 ∧
      (run (toggle_rrcProtocol m0 true ns) inp n).beatNumber = (m0.rrc_endBeatNumber : ℚ)) := by
  obtain ⟨s1, s2, s3, s4, -, s6⟩ := toggle_rrcProtocol_start m0 ns
  generalize m0.rrc_endBeatNumber = E at *
  generalize toggle_rrcProtocol m0 true ns = s0 at *
  generalize s5 : s0.bcl_int = N at *
  have hinv := rrcProtocol_run_invariant s0 inp N E s1 s2 s3 s4 s5 s6 hN
  have hpos : 0 < E * N := by positivity
  constructor
  · intro t ht
    obtain ⟨i1, -, -, -, -, i6⟩ := hinv t ht
    refine ⟨i1, i6, ?_⟩
    rw [i6]
    have : (t : ℤ) / N < E := Int.ediv_lt_of_lt_mul (by omega) ht
    have : (t : ℤ) / N + 1 ≤ E := by omega
    exact_mod_cast this
  · -- the step with tick counter E * N ends the run
    obtain ⟨T, hT⟩ := Int.eq_ofNat_of_zero_le (show 0 ≤ E * N - 1 by omega)
    have hlast : (run s0 inp (T + 1 + 1)).execute_mode = .IDLE ∧
        (run s0 inp (T + 1 + 1)).output0 = 0 ∧
        (run s0 inp (T + 1 + 1)).beatNumber = (E : ℚ) := by
      obtain ⟨i1, i2, i3, i4, i5, i6⟩ := hinv T (by omega)
      have hr : run s0 inp (T + 1 + 1) = execute (run s0 inp (T + 1)) (inp (T + 1)) := rfl
      rw [hr]
      generalize run s0 inp (T + 1) = s at *
      obtain ⟨-, -, -, e4, -, -⟩ := execute_RRCPROTOCOL_step s (inp (T + 1)) i1
      have hq : (T : ℤ) / N = E - 1 := by
        have : (T : ℤ) = (N - 1) + N * (E - 1) := by
          have : N * (E - 1) = E * N - N := by ring
          omega
        rw [this, Int.add_mul_ediv_left _ _ (by omega : N ≠ 0),
          Int.ediv_eq_zero_of_lt (by omega) (by omega)]
        simp
      rw [i2, i5, i3, i6, i4, hq] at e4
      have hb : (T : ℤ) + 1 - N * (E - 1) ≥ N := by
        have : N * (E - 1) = E * N - N := by ring
        omega
      obtain ⟨f1, f2, f3⟩ := e4 hb (by push_cast; linarith)
      refine ⟨f1, f2, ?_⟩
      rw [f3]
      push_cast
      ring
    intro n hn
    obtain ⟨d, hd⟩ : ∃ d : ℕ, n = T + 1 + 1 + d := ⟨n - (T + 1 + 1), by omega⟩
    rw [hd]
    clear hd hn
    induction d with
    | zero => exact hlast
    | succ d ih =>
      have hr : run s0 inp (T + 1 + 1 + (d + 1)) =
          execute (run s0 inp (T + 1 + 1 + d)) (inp (T + 1 + 1 + d)) := rfl
      rw [hr]
      obtain ⟨k1, k2, k3⟩ := execute_IDLE_keeps (run s0 inp (T + 1 + 1 + d))
        (inp (T + 1 + 1 + d)) ih.1
      exact ⟨k1, k2.trans ih.2.1, k3.trans ih.2.2⟩

/-- C9 (amended): the randomized protocol started with a nonzero beat-spacing,
an end-beat count E ≥ 1 and a cycle of N ≥ 1 ticks, where N is the cycle
length that the reset stores, N = (int)(bcl / period), the quotient of the two
doubles rounded to a double and truncated. After every step with tick counter
t < E * N the protocol is running and the beat counter is floor(t / N) + 1 ≤ E;
the step with tick counter E * N, the boundary at which the beat counter would
pass E, ends the run: the mode is IDLE, the output is 0 (that beat's stimulus
is not applied) and the beat counter is E, and so it stays on every later
step. -/
theorem rrcProtocol_run_length (m0 : Module) (ns : ℤ) (inp : ℕ → StepInput)
    (hN : 1 ≤ (toggle_rrcProtocol m0 true ns).bcl_int) (hE : 1 ≤ m0.rrc_endBeatNumber)
    (hspacing : m0.rrc_beatNumber ≠ 0) :
    (toggle_rrcProtocol m0 true ns).bcl_int = divToInt m0.bcl (periodMs ns) ∧
    (∀ t : ℕ, (t : ℤ) < m0.rrc_endBeatNumber * (toggle_rrcProtocol m0 true ns).bcl_int →
      (run (toggle_rrcProtocol m0 true ns) inp (t + 1)).execute_mode = .RRCPROTOCOL ∧
      (run (toggle_rrcProtocol m0 true ns) inp (t + 1)).beatNumber =
        (((t : ℤ) / (toggle_rrcProtocol m0 true ns).bcl_int : ℤ) : ℚ) + 1 ∧
      (run (toggle_rrcProtocol m0 true ns) inp (t + 1)).beatNumber ≤
        (m0.rrc_endBeatNumber : ℚ)) ∧
    (∀ n : ℕ, (n : ℤ) ≥ m0.rrc_endBeatNumber * (toggle_rrcProtocol m0 true ns).bcl_int + 1 →
      (run (toggle_rrcProtocol m0 true ns) inp n).execute_mode = .IDLE ∧
      (run (toggle_rrcProtocol m0 true ns) inp n).output0 = 0 ∧
      (run (toggle_rrcProtocol m0 true ns) inp n).beatNumber = (m0.rrc_endBeatNumber : ℚ)) := by
  have _ := hspacing
  exact ⟨(toggle_rrcProtocol_start m0 ns).2.2.2.2.1, rrcProtocol_run_ends m0 ns inp hN hE⟩

/-- C9, witness: a cycle of 2 ticks and an end-beat count of 1; the protocol
runs during the ticks 0 and 1 and the step with tick counter 2 = 1 * 2 ends
it. With a cycle entered as 256.4 ms at a period of 40000 ns (6409 ticks) the
protocol runs at tick 6408 and the step with tick counter 6409 ends it. -/
theorem rrcProtocol_run_length_witness :
    (toggle_rrcProtocol oneBeatModule true 1000000).bcl_int = 2 ∧
    oneBeatModule.rrc_endBeatNumber = 1 ∧
    (run (toggle_rrcProtocol oneBeatModule true 1000000) quiet (1 + 1)).execute_mode
      = .RRCPROTOCOL ∧
    (run (toggle_rrcProtocol oneBeatModule true 1000000) quiet 3).execute_mode = .IDLE ∧
    (run (toggle_rrcProtocol oneBeatModule true 1000000) quiet 3).output0 = 0 ∧
    (toggle_rrcProtocol roundedOneBeatModule true 40000).bcl_int = 6409 ∧
    (run (toggle_rrcProtocol roundedOneBeatModule true 40000) quiet (6408 + 1)).execute_mode
      = .RRCPROTOCOL ∧
    (run (toggle_rrcProtocol roundedOneBeatModule true 40000) quiet 6410).execute_mode = .IDLE :=
  ⟨by decide!, by decide!,
    ((rrcProtocol_run_length oneBeatModule 1000000 quiet (by decide!) (by decide!)
      (by decide!)).2.1 1 (by decide!)).1,
    ((rrcProtocol_run_length oneBeatModule 1000000 quiet (by decide!) (by decide!)
      (by decide!)).2.2 3 (by decide!)).1,
    ((rrcProtocol_run_length oneBeatModule 1000000 quiet (by decide!) (by decide!)
      (by decide!)).2.2 3 (by decide!)).2.1,
    by decide!,
    ((rrcProtocol_run_length roundedOneBeatModule 40000 quiet (by decide!) (by decide!)
      (by decide!)).2.1 6408 (by decide!)).1,
    ((rrcProtocol_run_length roundedOneBeatModule 40000 quiet (by decide!) (by decide!)
      (by decide!)).2.2 6410 (by decide!)).1⟩

/-- C9, counterexample. (a) A cycle of 2 ticks and an end-beat count E = 0. The
start command sets the beat counter to 1 > E; the step with tick counter
0 = E * 2 does not end the run (the mode is still RRCPROTOCOL and the stimulus
4e-9 A is applied); the run ends at the first beat boundary, tick 2. (b) A
cycle of 256.4 ms at a period of 40000 ns and E = 1, so
E * floor(bcl/P) = 6410: the stored cycle is 6409 ticks and the run ends at the
step with tick counter 6409, one tick before the claimed one. -/
theorem rrcProtocol_run_length_counterexample :
    (toggle_rrcProtocol noBeatModule true 1000000).period = 1 ∧
    1 ≤ ⌊noBeatModule.bcl / (toggle_rrcProtocol noBeatModule true 1000000).period⌋ ∧
    noBeatModule.rrc_endBeatNumber = 0 ∧
    (toggle_rrcProtocol noBeatModule true 1000000).beatNumber = 1 ∧
    (run (toggle_rrcProtocol noBeatModule true 1000000) quiet 1).time_int = 0 ∧
    (run (toggle_rrcProtocol noBeatModule true 1000000) quiet 1).execute_mode = .RRCPROTOCOL ∧
    (run (toggle_rrcProtocol noBeatModule true 1000000) quiet 1).output0 = 4 / 1000000000 ∧
    (run (toggle_rrcProtocol noBeatModule true 1000000) quiet 1).beatNumber = 1 ∧
    (run (toggle_rrcProtocol noBeatModule true 1000000) quiet 2).execute_mode = .RRCPROTOCOL ∧
    (run (toggle_rrcProtocol noBeatModule true 1000000) quiet 3).execute_mode = .IDLE ∧
    ⌊(1282 / 5 : ℚ) / ((40000 : ℚ) / 1000000)⌋ = 6410 ∧
    roundedOneBeatModule.bcl = roundDouble (1282 / 5) ∧
    roundedOneBeatModule.rrc_endBeatNumber = 1 ∧
    (toggle_rrcProtocol roundedOneBeatModule true 40000).bcl_int = 6409 ∧
    (run (toggle_rrcProtocol roundedOneBeatModule true 40000) quiet (6409 + 1)).execute_mode
      = .IDLE ∧
    (run (toggle_rrcProtocol roundedOneBeatModule true 40000) quiet (6409 + 1)).output0 = 0 := by
  have hb : (1 : ℤ) ≤ (toggle_rrcProtocol roundedOneBeatModule true 40000).bcl_int := by decide!
  have hE : (1 : ℤ) ≤ roundedOneBeatModule.rrc_endBeatNumber := by decide!
  obtain ⟨e1, e2, -⟩ :=
    (rrcProtocol_run_ends roundedOneBeatModule 40000 quiet hb hE).2 (6409 + 1) (by decide!)
  refine ⟨by decide!, by decide!, by decide!, by decide!, by decide!, by decide!, by decide!,
    by decide!, by decide!, by decide!, by decide!, rfl, by decide!, by decide!, e1, e2⟩

/-- After a step of the randomized protocol that begins a new beat the
injection draw is in [1, 100]: with a chance of 100 the injection condition
holds exactly when the beat is a multiple of the beat-spacing, and with a
chance of 0 it does not hold. -/
theorem injectionCondition_newBeat (m : Module) (inp : StepInput) :
    (m.rrc_chance = 100 →
      (injectionCondition (newBeat_RRCPROTOCOL m inp) ↔
        (newBeat_RRCPROTOCOL m inp).beatNumber_int.tmod m.rrc_beatNumber = 0)) ∧
    (m.rrc_chance = 0 → ¬ injectionCondition (newBeat_RRCPROTOCOL m inp)) := by
  have hN := newBeat_RRCPROTOCOL_frame
  have hB := newBeat_RRCPROTOCOL_effect
  have h1 : 0 ≤ (inp.rand1 : ℤ).tmod 100 := Int.tmod_nonneg _ (by omega)
  have h2 : (inp.rand1 : ℤ).tmod 100 < 100 := Int.tmod_lt_of_pos _ (by omega)
  unfold injectionCondition
  rw [(hB m inp).2.2.2.1]
  simp only [hN]
  constructor
  · intro hc
    rw [hc]
    constructor
    · exact fun h => h.1
    · exact fun h => ⟨h, by omega⟩
  · intro hc
    rw [hc]
    rintro ⟨-, h⟩
    omega

/-- C8, evaluation: the randomized protocol is started on a new object in
which no draw has been made. With beat-spacing 1 the first beat is eligible,
and during the first beat the injection condition is evaluated on what the
memory held: with a chance of 0 % and 0 in `rrc_random_injection` the
condition holds after the steps with tick counters 0 and 1, and the step with
tick counter 1 adds the injection current 1 * (1 - 10/100) * 1e-9 A to the
output; with a chance of 100 % and 1000 in `rrc_random_injection` the
condition does not hold on the eligible first beat. -/
theorem undrawn_first_beat :
    undrawnModule.rrc_chance = 0 ∧
    (run (toggle_rrcProtocol undrawnModule true 1000000) quiet 1).beatNumber_int = 1 ∧
    injectionCondition (run (toggle_rrcProtocol undrawnModule true 1000000) quiet 1) ∧
    injectionCondition (run (toggle_rrcProtocol undrawnModule true 1000000) quiet 2) ∧
    (run (toggle_rrcProtocol undrawnModule true 1000000) quiet 2).execute_mode = .RRCPROTOCOL ∧
    (run (toggle_rrcProtocol undrawnModule true 1000000) quiet 2).output0 = 9 / 10000000000 ∧
    undrawnHighModule.rrc_chance = 100 ∧
    (run (toggle_rrcProtocol undrawnHighModule true 1000000) quiet 1).beatNumber_int.tmod
      (run (toggle_rrcProtocol undrawnHighModule true 1000000) quiet 1).rrc_beatNumber = 0 ∧
    ¬ injectionCondition (run (toggle_rrcProtocol undrawnHighModule true 1000000) quiet 1) := by
  refine ⟨by decide!, by decide!, by decide!, by decide!, by decide!, by decide!, by decide!,
    by decide!, by decide!⟩

/-! ## The APD detector -/

/-- Phase 2 of the detector in START: a move to PEAK captures the current time
as the start time. -/
theorem calculateAPD_upstroke (m : Module) (h : m.apd_mode = .START)
    (hp : (calculateAPD m 2).apd_mode = .PEAK) :
    (calculateAPD m 2).apd_startTime = m.time := by
  unfold calculateAPD at hp ⊢
  simp only [h] at hp ⊢
  norm_num at hp ⊢
  split_ifs at hp ⊢ <;> first | rfl | (exfalso; simp_all)

/-- Phase 2 of the detector outside START: the start time is kept and the
detector does not return to START. -/
theorem calculateAPD_keeps_start (m : Module) (h : m.apd_mode ≠ .START) :
    (calculateAPD m 2).apd_startTime = m.apd_startTime ∧
    (calculateAPD m 2).apd_mode ≠ .START := by
  unfold calculateAPD
  norm_num
  cases hm : m.apd_mode
  · exact absurd hm h
  · dsimp only
    split_ifs <;> simp [hm]
  · dsimp only
    split_ifs <;> simp [hm]
  · simp [hm]

/-- Phase 2 of the detector in DOWN: a move to DONE reports the time elapsed
since the start time. -/
theorem calculateAPD_downstroke (m : Module) (h : m.apd_mode = .DOWN)
    (hd : (calculateAPD m 2).apd_mode = .DONE) :
    (calculateAPD m 2).apd = m.time - m.apd_startTime := by
  unfold calculateAPD at hd ⊢
  simp only [h] at hd ⊢
  norm_num at hd ⊢
  split_ifs at hd ⊢ <;> first | rfl | (exfalso; simp_all)

/-- The detector mode after the beat bookkeeping. -/
theorem restartAPD_mode (m : Module) :
    (restartAPD m).apd_mode = if m.apd_mode ≠ .DOWN then .START else m.apd_mode := by
  unfold restartAPD
  dsimp only
  split_ifs <;> simp

/-- The detector mode after the beat boundary of PACE: it is kept or reset to
START, and it is kept when the beat counter is. -/
theorem beat_PACE_apd_mode (m : Module) :
    ((beat_PACE m).apd_mode = m.apd_mode ∨ (beat_PACE m).apd_mode = .START) ∧
    ((beat_PACE m).beatNumber = m.beatNumber → (beat_PACE m).apd_mode = m.apd_mode) := by
  have hA := restartAPD_frame
  have hM := restartAPD_mode
  unfold beat_PACE
  split_ifs with hb
  · constructor
    · rw [hM]
      dsimp only
      split_ifs
      · exact Or.inr rfl
      · exact Or.inl rfl
    · intro h
      simp [hA] at h
  · exact ⟨Or.inl rfl, fun _ => rfl⟩

/-- A new beat of the threshold search: the beat counter grows, the detector
mode is kept or reset to START, the start time and the APD are kept. -/
theorem newBeat_RRCTHRESHOLD_effect (m : Module) :
    (newBeat_RRCTHRESHOLD m).beatNumber = m.beatNumber + 1 ∧
    (newBeat_RRCTHRESHOLD m).beatNumber_int = m.beatNumber_int + 1 ∧
    (newBeat_RRCTHRESHOLD m).bcl_startTime = m.time_int ∧
    ((newBeat_RRCTHRESHOLD m).apd_mode = m.apd_mode ∨
      (newBeat_RRCTHRESHOLD m).apd_mode = .START) := by
  have hA := restartAPD_frame
  have hI := setInjectionWindow_frame
  have hM := restartAPD_mode
  unfold newBeat_RRCTHRESHOLD
  refine ⟨by simp [hA, hI], by simp [hA, hI], by simp [hA, hI], ?_⟩
  simp only [hI, hM]
  split_ifs
  · exact Or.inr rfl
  · exact Or.inl rfl

/-- A new beat of the randomized protocol keeps the detector mode or resets it
to START. -/
theorem newBeat_RRCPROTOCOL_apd_mode (m : Module) (inp : StepInput) :
    (newBeat_RRCPROTOCOL m inp).apd_mode = m.apd_mode ∨
      (newBeat_RRCPROTOCOL m inp).apd_mode = .START := by
  have hI := setInjectionWindow_frame
  have hM := restartAPD_mode
  unfold newBeat_RRCPROTOCOL
  simp only [hI, hM]
  split_ifs
  · exact Or.inr rfl
  · exact Or.inl rfl

/-- A step in PACE, RRCTHRESHOLD or RRCPROTOCOL that does not end the protocol
is phase 2 of the detector applied to a state in which the time has advanced
by one period, the start time and the APD are those before the step, and the
detector mode is the one before the step unless a beat boundary reset it to
START; without a new beat the mode is the one before the step. -/
theorem execute_detector (m : Module) (inp : StepInput)
    (hmode : m.execute_mode = .PACE ∨ m.execute_mode = .RRCTHRESHOLD ∨
      m.execute_mode = .RRCPROTOCOL)
    (hafter : (execute m inp).execute_mode ≠ .IDLE) :
    ∃ x : Module, execute m inp = calculateAPD x 2 ∧
      x.time = m.time + m.period ∧ x.period = m.period ∧
      x.apd_startTime = m.apd_startTime ∧ x.apd = m.apd ∧
      (x.apd_mode = m.apd_mode ∨ x.apd_mode = .START) ∧
      ((execute m inp).beatNumber = m.beatNumber → x.apd_mode = m.apd_mode) := by
  have hC := calculateAPD_frame
  have hR := startRecordingAtZero_frame
  rcases hmode with h | h | h
  · have hS := stimulus_PACE_frame
    have hB := beat_PACE_frame
    have hM := beat_PACE_apd_mode
    rw [execute_of_PACE m inp h]
    unfold execute_PACE
    dsimp only
    refine ⟨_, rfl, by simp [hS, hB, hR, advanceClock], by simp [hS, hB, hR, advanceClock],
      by simp [hS, hB, hR, advanceClock], by simp [hS, hB, hR, advanceClock], ?_, ?_⟩
    · have := (hM (startRecordingAtZero
        (advanceClock { m with voltage := inp.input0 * 1000 - m.ljp })
        (advanceClock { m with voltage := inp.input0 * 1000 - m.ljp }).pace_recordData)).1
      simpa [hS, hR, advanceClock] using this
    · intro hb
      have := (hM (startRecordingAtZero
        (advanceClock { m with voltage := inp.input0 * 1000 - m.ljp })
        (advanceClock { m with voltage := inp.input0 * 1000 - m.ljp }).pace_recordData)).2
        (by simpa [hC, hS, hR, advanceClock] using hb)
      simpa [hS, hR, advanceClock] using this
  · have hO := output_RRCTHRESHOLD_frame
    have hN := newBeat_RRCTHRESHOLD_frame
    have hK := compare_RRCTHRESHOLD_frame
    have hE := finish_RRCTHRESHOLD_effect
    have hM := newBeat_RRCTHRESHOLD_effect
    rw [execute_of_RRCTHRESHOLD m inp h] at hafter ⊢
    unfold execute_RRCTHRESHOLD at hafter ⊢
    dsimp only at hafter ⊢
    split_ifs at hafter ⊢
    · exact absurd (hE _).1 hafter
    · refine ⟨_, rfl, by simp [hO, hN, hK, hR, advanceClock],
        by simp [hO, hN, hK, hR, advanceClock], by simp [hO, hN, hK, hR, advanceClock],
        by simp [hO, hN, hK, hR, advanceClock], ?_, ?_⟩
      · have := (hM (compare_RRCTHRESHOLD (startRecordingAtZero
          (advanceClock { m with voltage := inp.input0 * 1000 - m.ljp })
          (advanceClock { m with voltage := inp.input0 * 1000 - m.ljp }).thresh_recordData))).2.2.2
        simpa [hO, hK, hR, advanceClock] using this
      · intro hb
        exfalso
        simp only [hC, hO] at hb
        rw [(hM _).1] at hb
        simp [hK, hR, advanceClock] at hb
    · exact ⟨_, rfl, by simp [hO, hR, advanceClock], by simp [hO, hR, advanceClock],
        by simp [hO, hR, advanceClock], by simp [hO, hR, advanceClock],
        Or.inl (by simp [hO, hR, advanceClock]), fun _ => by simp [hO, hR, advanceClock]⟩
  · have hO := output_RRCPROTOCOL_frame
    have hN := newBeat_RRCPROTOCOL_frame
    have hE := finish_RRCPROTOCOL_effect
    have hM := newBeat_RRCPROTOCOL_apd_mode
    have hB := newBeat_RRCPROTOCOL_effect
    rw [execute_of_RRCPROTOCOL m inp h] at hafter ⊢
    unfold execute_RRCPROTOCOL at hafter ⊢
    dsimp only at hafter ⊢
    split_ifs at hafter ⊢
    · exact absurd (hE _).1 hafter
    · refine ⟨_, rfl, by simp [hO, hN, hR, advanceClock],
        by simp [hO, hN, hR, advanceClock], by simp [hO, hN, hR, advanceClock],
        by simp [hO, hN, hR, advanceClock], ?_, ?_⟩
      · have := hM (startRecordingAtZero
          (advanceClock { m with voltage := inp.input0 * 1000 - m.ljp })
          (advanceClock { m with voltage := inp.input0 * 1000 - m.ljp }).rrcProtocol_recordData)
          inp
        simpa [hO, hR, advanceClock] using this
      · intro hb
        exfalso
        simp only [hC, hO] at hb
        rw [(hB _ _).1] at hb
        simp [hR, advanceClock] at hb
    · exact ⟨_, rfl, by simp [hO, hR, advanceClock], by simp [hO, hR, advanceClock],
        by simp [hO, hR, advanceClock], by simp [hO, hR, advanceClock],
        Or.inl (by simp [hO, hR, advanceClock]), fun _ => by simp [hO, hR, advanceClock]⟩

/-- Phase 2 of the detector does not write the clock. -/
theorem calculateAPD_clock (m : Module) (step : ℤ) :
    (calculateAPD m step).time = m.time ∧ (calculateAPD m step).period = m.period := by
  have hC := calculateAPD_frame
  simp only [hC]
  exact ⟨trivial, trivial⟩

/-- The detector between the upstroke and the downstroke: after the call `k`
moved the detector from START to PEAK, as long as the protocol runs and no new
beat begins, the start time stays the time of call `k`, the clock advances by
one period per call and the detector does not return to START. -/
theorem detector_between (s : Module) (inp : ℕ → StepInput) (k d : ℕ)
    (hrun : ∀ n : ℕ, k ≤ n → n ≤ k + d + 1 →
      ((run s inp n).execute_mode = .PACE ∨ (run s inp n).execute_mode = .RRCTHRESHOLD ∨
        (run s inp n).execute_mode = .RRCPROTOCOL))
    (hup : (run s inp k).apd_mode = .START ∧ (run s inp (k + 1)).apd_mode = .PEAK)
    (hbeat : ∀ j : ℕ, 1 ≤ j → j ≤ d →
      (run s inp (k + j + 1)).beatNumber = (run s inp (k + j)).beatNumber)
    (j : ℕ) (hj : j < d) :
    (run s inp (k + 1 + j)).apd_startTime = (run s inp (k + 1)).time ∧
    (run s inp (k + 1 + j)).time = (run s inp (k + 1)).time + (j : ℚ) * (run s inp k).period ∧
    (run s inp (k + 1 + j)).period = (run s inp k).period ∧
    (run s inp (k + 1 + j)).apd_mode ≠ .START := by
  have hidle : ∀ n : ℕ, k ≤ n → n ≤ k + d + 1 → (run s inp n).execute_mode ≠ .IDLE := by
    intro n h1 h2 h
    rcases hrun n h1 h2 with h' | h' | h' <;> rw [h] at h' <;> exact absurd h' (by decide)
  induction j with
  | zero =>
    have hr : run s inp (k + 1) = execute (run s inp k) (inp k) := rfl
    have hafter := hidle (k + 1) (by omega) (by omega)
    rw [hr] at hafter
    obtain ⟨x, hx, x1, x2, -, -, x5, -⟩ := execute_detector (run s inp k) (inp k)
      (hrun k (le_refl _) (by omega)) hafter
    have hxs : x.apd_mode = .START := by
      rcases x5 with h | h
      · rw [h, hup.1]
      · exact h
    have hp : (calculateAPD x 2).apd_mode = .PEAK := by rw [← hx, ← hr]; exact hup.2
    have hst := calculateAPD_upstroke x hxs hp
    simp only [Nat.add_zero, Nat.cast_zero, zero_mul, add_zero]
    rw [hr, hx]
    refine ⟨?_, trivial, ?_, ?_⟩
    · rw [hst, (calculateAPD_clock x 2).1]
    · rw [(calculateAPD_clock x 2).2, x2]
    · rw [hp]; decide
  | succ j ih =>
    obtain ⟨i1, i2, i3, i4⟩ := ih (by omega)
    have hidx : k + 1 + (j + 1) = (k + 1 + j) + 1 := by omega
    have hr : run s inp (k + 1 + (j + 1)) = execute (run s inp (k + 1 + j)) (inp (k + 1 + j)) := by
      rw [hidx]; rfl
    have hafter := hidle (k + 1 + (j + 1)) (by omega) (by omega)
    have hb := hbeat (j + 1) (by omega) (by omega)
    rw [show k + (j + 1) + 1 = k + 1 + (j + 1) by omega, show k + (j + 1) = k + 1 + j by omega] at hb
    have hmode := hrun (k + 1 + j) (by omega) (by omega)
    rw [hr] at hafter hb ⊢
    generalize run s inp (k + 1 + j) = m at *
    obtain ⟨x, hx, x1, x2, x3, -, -, x6⟩ := execute_detector m (inp (k + 1 + j)) hmode hafter
    have hxm : x.apd_mode ≠ .START := by rw [x6 hb]; exact i4
    obtain ⟨c1, c2⟩ := calculateAPD_keeps_start x hxm
    rw [hx]
    refine ⟨by rw [c1, x3, i1], ?_, ?_, c2⟩
    · rw [(calculateAPD_clock x 2).1, x1, i2, i3]
      push_cast
      ring
    · rw [(calculateAPD_clock x 2).2, x2, i3]

/-- One step of the engine keeps the mode or ends the protocol (IDLE), and
never lowers the beat counter. -/
theorem execute_mode_beat (m : Module) (inp : StepInput) :
    ((execute m inp).execute_mode = m.execute_mode ∨ (execute m inp).execute_mode = .IDLE) ∧
    m.beatNumber ≤ (execute m inp).beatNumber := by
  have hC := calculateAPD_frame
  have hR := startRecordingAtZero_frame
  cases hmode : m.execute_mode
  · rw [execute_of_IDLE m inp hmode]
    exact ⟨Or.inr hmode, le_refl _⟩
  · have hS := search_STIMTHRESHOLD_frame
    rw [execute_of_STIMTHRESHOLD m inp hmode]
    unfold execute_STIMTHRESHOLD
    dsimp only
    constructor
    · by_cases h : (search_STIMTHRESHOLD (startRecordingAtZero
          (advanceClock { m with voltage := inp.input0 * 1000 - m.ljp })
          (advanceClock { m with voltage := inp.input0 * 1000 - m.ljp }).stim_recordData)
          ).execute_mode = .IDLE
      · exact Or.inr h
      · left
        have hT := trackPeak_STIMTHRESHOLD_frame
        have hM := markBaseline_STIMTHRESHOLD_frame
        have hI := retry_STIMTHRESHOLD_frame
        have hE := accept_STIMTHRESHOLD_effect
        unfold search_STIMTHRESHOLD at h ⊢
        dsimp only at h ⊢
        split_ifs at h ⊢
        · simp [hR, advanceClock, hmode]
        · exact absurd (hE _).1 h
        · simp [hT, hM, hI, hR, advanceClock, hmode]
        · simp [hT, hR, advanceClock, hmode]
    · simp [hS, hR, advanceClock]
  · have hS := stimulus_PACE_frame
    have hB := beat_PACE_frame
    rw [execute_of_PACE m inp hmode]
    unfold execute_PACE
    dsimp only
    refine ⟨Or.inl (by simp [hC, hS, hB, hR, advanceClock, hmode]), ?_⟩
    simp only [hC, hS, beat_PACE_beatNumber]
    split_ifs <;> simp [hR, advanceClock]
  · have hO := output_RRCTHRESHOLD_frame
    have hN := newBeat_RRCTHRESHOLD_frame
    have hK := compare_RRCTHRESHOLD_frame
    have hF := finish_RRCTHRESHOLD_frame
    have hE := finish_RRCTHRESHOLD_effect
    have hM := newBeat_RRCTHRESHOLD_effect
    rw [execute_of_RRCTHRESHOLD m inp hmode]
    unfold execute_RRCTHRESHOLD
    dsimp only
    split_ifs
    · exact ⟨Or.inr (hE _).1, by simp [hF, hK, hR, advanceClock]⟩
    · refine ⟨Or.inl (by simp [hC, hO, hN, hK, hR, advanceClock, hmode]), ?_⟩
      simp only [hC, hO]
      rw [(hM _).1]
      simp [hK, hR, advanceClock]
    · exact ⟨Or.inl (by simp [hC, hO, hR, advanceClock, hmode]),
        by simp [hC, hO, hR, advanceClock]⟩
  · have hO := output_RRCPROTOCOL_frame
    have hN := newBeat_RRCPROTOCOL_frame
    have hF := finish_RRCPROTOCOL_frame
    have hE := finish_RRCPROTOCOL_effect
    have hB := newBeat_RRCPROTOCOL_effect
    rw [execute_of_RRCPROTOCOL m inp hmode]
    unfold execute_RRCPROTOCOL
    dsimp only
    split_ifs
    · exact ⟨Or.inr (hE _).1, by simp [hF, hR, advanceClock]⟩
    · refine ⟨Or.inl (by simp [hC, hO, hN, hR, advanceClock, hmode]), ?_⟩
      simp only [hC, hO]
      rw [(hB _ _).1]
      simp [hR, advanceClock]
    · exact ⟨Or.inl (by simp [hC, hO, hR, advanceClock, hmode]),
        by simp [hC, hO, hR, advanceClock]⟩

/-- Along a run the mode of a state that is not IDLE is the mode of every
earlier state. -/
theorem run_mode_back (s : Module) (inp : ℕ → StepInput) (n e : ℕ)
    (h : (run s inp (n + e)).execute_mode ≠ .IDLE) :
    (run s inp n).execute_mode = (run s inp (n + e)).execute_mode := by
  induction e with
  | zero => rfl
  | succ e ih =>
    have hr : run s inp (n + (e + 1)) = execute (run s inp (n + e)) (inp (n + e)) := rfl
    rw [hr] at h ⊢
    rcases (execute_mode_beat (run s inp (n + e)) (inp (n + e))).1 with h1 | h1
    · rw [h1] at h ⊢
      exact ih h
    · exact absurd h1 h

/-- Along a run the beat counter never decreases. -/
theorem run_beat_mono (s : Module) (inp : ℕ → StepInput) (n e : ℕ) :
    (run s inp n).beatNumber ≤ (run s inp (n + e)).beatNumber := by
  induction e with
  | zero => exact le_refl _
  | succ e ih =>
    have hr : run s inp (n + (e + 1)) = execute (run s inp (n + e)) (inp (n + e)) := rfl
    rw [hr]
    exact le_trans ih (execute_mode_beat _ _).2

/-! ## The START timeout of the detector -/

/-- C16 (amended): for every state with period > 0 and a stimulus-artifact
window w with 0 ≤ w < 2^30, so that the product 2 * w of the timeout test
neither is negative nor wraps, a phase-2 step taken in START with the voltage
below the upstroke threshold does not fire the timeout branch: the state, and
so the mode START and the APD value, is unchanged. -/
theorem start_timeout_never_fires (m : Module) (hP : 0 < m.period)
    (hw : 0 ≤ m.apd_stimWindow) (hw2 : m.apd_stimWindow < 1073741824)
    (hs : m.apd_mode = .START) (hv : m.voltage < m.apd_upstrokeThreshold) :
    calculateAPD m 2 = m ∧ (calculateAPD m 2).apd_mode = .START ∧
    (calculateAPD m 2).apd = m.apd := by
  have hq : ¬ gtQuotient ((m.time_int - m.time_int : ℤ) : ℚ)
      ((wrapInt32 (2 * m.apd_stimWindow) : ℤ) : ℚ) m.period := by
    unfold gtQuotient
    rw [if_neg hP.ne', sub_self, wrapInt32_of_range _ (by omega) (by omega), not_lt]
    have h2 : (0 : ℚ) ≤ ((2 * m.apd_stimWindow : ℤ) : ℚ) := by
      exact_mod_cast (by omega : (0 : ℤ) ≤ 2 * m.apd_stimWindow)
    simpa using roundDouble_nonneg _ (div_nonneg h2 hP.le)
  have h : calculateAPD m 2 = m := by
    unfold calculateAPD
    rw [if_neg (by decide), if_pos rfl]
    simp only [hs]
    rw [if_neg (not_le.mpr hv), if_neg hq]
  rw [h]
  exact ⟨rfl, hs, rfl⟩

/-- C16, witness: the state the start-pace command leaves with the compiled-in
parameters (window 4 ms) at a period of 1 ms, with a working voltage of
-80 mV, below the upstroke threshold 0 mV: phase 2 leaves the detector in
START, as does the first step of the run on a preparation at -80 mV. -/
theorem start_timeout_never_fires_witness :
    (calculateAPD { toggle_pace defaultModule true 1000000 with voltage := -80 } 2).apd_mode
      = .START ∧
    (calculateAPD { toggle_pace defaultModule true 1000000 with voltage := -80 } 2).apd =
      ({ toggle_pace defaultModule true 1000000 with voltage := -80 } : Module).apd ∧
    (run (toggle_pace defaultModule true 1000000) restTrace 1).apd_mode = .START :=
  ⟨(start_timeout_never_fires { toggle_pace defaultModule true 1000000 with voltage := -80 }
      (by decide!) (by decide!) (by decide!) (by decide!) (by decide!)).2.1,
    (start_timeout_never_fires { toggle_pace defaultModule true 1000000 with voltage := -80 }
      (by decide!) (by decide!) (by decide!) (by decide!) (by decide!)).2.2,
    by decide!⟩

/-- C16, counterexample. (a) A stimulus-artifact window of -1 ms at a period of
1 ms. The timeout test is 0 > 2 * (-1) / 1, which holds: on a preparation at
-80 mV, below the upstroke threshold 0 mV, the first step of PACE takes the
detector from START to DONE, and a phase-2 step in START with an APD of 51 ms
sets the APD to 0. (b) A window of 2^30 ms: the `int` product 2 * 2^30 wraps to
-2^31, the test 0 > -2^31 / 1 holds and the first step of PACE takes the
detector from START to DONE as well. -/
theorem start_timeout_never_fires_counterexample :
    negativeWindowModule.apd_stimWindow = -1 ∧
    (toggle_pace negativeWindowModule true 1000000).period = 1 ∧
    (toggle_pace negativeWindowModule true 1000000).apd_mode = .START ∧
    (toggle_pace negativeWindowModule true 1000000).apd_upstrokeThreshold = 0 ∧
    (run (toggle_pace negativeWindowModule true 1000000) restTrace 1).voltage = -80 ∧
    (run (toggle_pace negativeWindowModule true 1000000) restTrace 1).apd_mode = .DONE ∧
    (calculateAPD
      { toggle_pace negativeWindowModule true 1000000 with voltage := -80, apd := 51 } 2).apd_mode
      = .DONE ∧
    (calculateAPD
      { toggle_pace negativeWindowModule true 1000000 with voltage := -80, apd := 51 } 2).apd
      = 0 ∧
    wideWindowModule.apd_stimWindow = 1073741824 ∧
    wrapInt32 (2 * wideWindowModule.apd_stimWindow) = -2147483648 ∧
    (toggle_pace wideWindowModule true 1000000).period = 1 ∧
    (toggle_pace wideWindowModule true 1000000).apd_mode = .START ∧
    (run (toggle_pace wideWindowModule true 1000000) restTrace 1).voltage = -80 ∧
    (run (toggle_pace wideWindowModule true 1000000) restTrace 1).apd_mode = .DONE ∧
    (calculateAPD
      { toggle_pace wideWindowModule true 1000000 with voltage := -80, apd := 51 } 2).apd
      = 0 := by
  refine ⟨by decide!, by decide!, by decide!, by decide!, by decide!, by decide!, by decide!,
    by decide!, by decide!, by decide!, by decide!, by decide!, by decide!, by decide!,
    by decide!⟩

/-! ## The period -/

/-- The injection window of a new beat, as the source computes it. -/
theorem setInjectionWindow_effect (m : Module) :
    (setInjectionWindow m).rrc_startTime =
      sumDivToInt m.stim_length_int m.rrc_delay m.period ∧
    (setInjectionWindow m).rrc_endTime =
      (if m.rrc_length = 0 then m.bcl_int else divToInt (m.rrc_length : ℚ) m.period) := by
  unfold setInjectionWindow
  dsimp only
  split_ifs <;> exact ⟨rfl, rfl⟩

/-- The period that the reset computes is 0 exactly when the host reports 0. -/
theorem periodMs_ne_zero (ns : ℤ) (h : ns ≠ 0) : periodMs ns ≠ 0 := by
  rcases lt_or_gt_of_ne h with h1 | h1
  · exact ((periodMs_sign ns).2.1 h1).ne
  · exact ((periodMs_sign ns).1 h1).ne'

/-- The state that a start command leaves, for every period of the host. -/
theorem start_state (m : Module) (ns : ℤ) (v : ℚ) :
    ((toggle_stimThreshold m true ns v).execute_mode = .STIMTHRESHOLD ∧
      (toggle_stimThreshold m true ns v).active = true ∧
      (toggle_stimThreshold m true ns v).period = periodMs ns ∧
      (toggle_stimThreshold m true ns v).bcl_int = divToInt m.bcl (periodMs ns) ∧
      (toggle_stimThreshold m true ns v).stim_length_int =
        divToInt m.stim_length (periodMs ns)) ∧
    ((toggle_pace m true ns).execute_mode = .PACE ∧
      (toggle_pace m true ns).active = true ∧
      (toggle_pace m true ns).period = periodMs ns ∧
      (toggle_pace m true ns).bcl_int = divToInt m.bcl (periodMs ns) ∧
      (toggle_pace m true ns).stim_length_int = divToInt m.stim_length (periodMs ns)) ∧
    ((toggle_rrcThreshold m true ns).execute_mode = .RRCTHRESHOLD ∧
      (toggle_rrcThreshold m true ns).active = true ∧
      (toggle_rrcThreshold m true ns).period = periodMs ns ∧
      (toggle_rrcThreshold m true ns).bcl_int = divToInt m.bcl (periodMs ns) ∧
      (toggle_rrcThreshold m true ns).stim_length_int =
        divToInt m.stim_length (periodMs ns)) ∧
    ((toggle_rrcProtocol m true ns).execute_mode = .RRCPROTOCOL ∧
      (toggle_rrcProtocol m true ns).active = true ∧
      (toggle_rrcProtocol m true ns).period = periodMs ns ∧
      (toggle_rrcProtocol m true ns).bcl_int = divToInt m.bcl (periodMs ns) ∧
      (toggle_rrcProtocol m true ns).stim_length_int =
        divToInt m.stim_length (periodMs ns)) := by
  have hR := reset_frame
  refine ⟨?_, ?_, ?_, ?_⟩
  · simp [toggle_stimThreshold, reset, hR]
  · simp [toggle_pace, reset, hR]
  · simp [toggle_rrcThreshold, reset, hR]
  · simp [toggle_rrcProtocol, reset, hR]

/-- C15 (amended): the engine does not check the period. For every value that
the host reports as its period, positive, zero or negative, each of the four
start commands completes: it stores the period (the reported nanoseconds times
1e-6, which has the sign of the reported value), sets the mode of its protocol
and activates the thread; there is no error outcome. When the reported period
is not 0, negative or not, the tick conversions are the truncated double
quotients bcl / period and stim_length / period, and every new beat of the RRC
protocols at a nonzero period evaluates rrc_delay / period, and
rrc_length / period when the length is not 0. -/
theorem start_without_period_check (m : Module) (ns : ℤ) (v : ℚ) :
    ((toggle_stimThreshold m true ns v).execute_mode = .STIMTHRESHOLD ∧
      (toggle_stimThreshold m true ns v).active = true ∧
      (toggle_stimThreshold m true ns v).period = periodMs ns) ∧
    ((toggle_pace m true ns).execute_mode = .PACE ∧
      (toggle_pace m true ns).active = true ∧
      (toggle_pace m true ns).period = periodMs ns) ∧
    ((toggle_rrcThreshold m true ns).execute_mode = .RRCTHRESHOLD ∧
      (toggle_rrcThreshold m true ns).active = true ∧
      (toggle_rrcThreshold m true ns).period = periodMs ns) ∧
    ((toggle_rrcProtocol m true ns).execute_mode = .RRCPROTOCOL ∧
      (toggle_rrcProtocol m true ns).active = true ∧
      (toggle_rrcProtocol m true ns).period = periodMs ns) ∧
    ((0 < ns → 0 < periodMs ns) ∧ (ns < 0 → periodMs ns < 0) ∧ (ns = 0 → periodMs ns = 0)) ∧
    (ns ≠ 0 →
      ((toggle_stimThreshold m true ns v).bcl_int =
          doubleToInt (roundDouble (m.bcl / periodMs ns)) ∧
        (toggle_stimThreshold m true ns v).stim_length_int =
          doubleToInt (roundDouble (m.stim_length / periodMs ns))) ∧
      ((toggle_pace m true ns).bcl_int = doubleToInt (roundDouble (m.bcl / periodMs ns)) ∧
        (toggle_pace m true ns).stim_length_int =
          doubleToInt (roundDouble (m.stim_length / periodMs ns))) ∧
      ((toggle_rrcThreshold m true ns).bcl_int =
          doubleToInt (roundDouble (m.bcl / periodMs ns)) ∧
        (toggle_rrcThreshold m true ns).stim_length_int =
          doubleToInt (roundDouble (m.stim_length / periodMs ns))) ∧
      ((toggle_rrcProtocol m true ns).bcl_int =
          doubleToInt (roundDouble (m.bcl / periodMs ns)) ∧
        (toggle_rrcProtocol m true ns).stim_length_int =
          doubleToInt (roundDouble (m.stim_length / periodMs ns)))) ∧
    (∀ x : Module, x.period ≠ 0 →
      (setInjectionWindow x).rrc_startTime =
        doubleToInt (roundDouble ((x.stim_length_int : ℚ) + roundDouble (x.rrc_delay / x.period))) ∧
      (setInjectionWindow x).rrc_endTime =
        (if x.rrc_length = 0 then x.bcl_int
          else doubleToInt (roundDouble ((x.rrc_length : ℚ) / x.period)))) := by
  obtain ⟨⟨a1, a2, a3, a4, a5⟩, ⟨b1, b2, b3, b4, b5⟩, ⟨c1, c2, c3, c4, c5⟩,
    ⟨d1, d2, d3, d4, d5⟩⟩ := start_state m ns v
  refine ⟨⟨a1, a2, a3⟩, ⟨b1, b2, b3⟩, ⟨c1, c2, c3⟩, ⟨d1, d2, d3⟩, periodMs_sign ns,
    fun hns => ?_, fun x hx => ?_⟩
  · have hp := periodMs_ne_zero ns hns
    have e : ∀ a : ℚ, divToInt a (periodMs ns) = doubleToInt (roundDouble (a / periodMs ns)) := by
      intro a
      unfold divToInt
      rw [if_neg hp]
    rw [a4, a5, b4, b5, c4, c5, d4, d5]
    simp only [e]
    exact ⟨⟨trivial, trivial⟩, ⟨trivial, trivial⟩, ⟨trivial, trivial⟩, ⟨trivial, trivial⟩⟩
  · obtain ⟨w1, w2⟩ := setInjectionWindow_effect x
    rw [w1, w2]
    unfold sumDivToInt divToInt
    rw [if_neg hx, if_neg hx]
    exact ⟨rfl, rfl⟩

/-- C15, witness: the compiled-in parameters at a reported period of 1 ms and
of -1 ms: the start-pace command stores 1000 and 1 ticks, and -1000 and -1
ticks. -/
theorem start_without_period_check_witness :
    ((toggle_pace defaultModule true 1000000).bcl_int =
        doubleToInt (roundDouble (defaultModule.bcl / periodMs 1000000)) ∧
      (toggle_pace defaultModule true 1000000).stim_length_int =
        doubleToInt (roundDouble (defaultModule.stim_length / periodMs 1000000))) ∧
    (toggle_pace defaultModule true 1000000).bcl_int = 1000 ∧
    ((toggle_pace defaultModule true (-1000000)).bcl_int =
        doubleToInt (roundDouble (defaultModule.bcl / periodMs (-1000000))) ∧
      (toggle_pace defaultModule true (-1000000)).stim_length_int =
        doubleToInt (roundDouble (defaultModule.stim_length / periodMs (-1000000)))) ∧
    (toggle_pace defaultModule true (-1000000)).bcl_int = -1000 :=
  ⟨((start_without_period_check defaultModule 1000000 0).2.2.2.2.2.1 (by decide)).2.1,
    by decide!,
    ((start_without_period_check defaultModule (-1000000) 0).2.2.2.2.2.1 (by decide)).2.1,
    by decide!⟩

/-- C15, counterexample: the host reports a period of -1 ms (-1000000 ns), or
of 0. The start-pace command does not fail: the mode is PACE and the thread is
active; with -1 ms the conversions give bcl_int = -1000 and
stim_length_int = -1, the clock starts at time = 1 ms, and the first step runs
as a beat boundary (beat counter 2). -/
theorem start_without_period_check_counterexample :
    (toggle_pace defaultModule true (-1000000)).period = -1 ∧
    (toggle_pace defaultModule true (-1000000)).execute_mode = .PACE ∧
    (toggle_pace defaultModule true (-1000000)).active = true ∧
    (toggle_pace defaultModule true (-1000000)).bcl_int = -1000 ∧
    (toggle_pace defaultModule true (-1000000)).stim_length_int = -1 ∧
    (toggle_pace defaultModule true (-1000000)).time = 1 ∧
    (run (toggle_pace defaultModule true (-1000000)) quiet 1).execute_mode = .PACE ∧
    (run (toggle_pace defaultModule true (-1000000)) quiet 1).beatNumber = 2 ∧
    (toggle_pace defaultModule true 0).period = 0 ∧
    (toggle_pace defaultModule true 0).execute_mode = .PACE ∧
    (toggle_pace defaultModule true 0).active = true := by
  refine ⟨by decide!, by decide!, by decide!, by decide!, by decide!, by decide!, by decide!,
    by decide!, by decide!, by decide!, by decide!⟩

/-! ## The decision table of the RRC threshold search -/

/-- The comparison at a beat boundary, case by case. -/
theorem compare_RRCTHRESHOLD_table (m : Module) :
    (m.beatNumber_int.tmod m.thresh_beatNumber = 0 → m.thresh_previousAPD < 0 →
      (compare_RRCTHRESHOLD m).thresh_previousAPD = m.apd ∧
      (compare_RRCTHRESHOLD m).thresh_rrcAmplitude = m.thresh_rrcAmplitude ∧
      (compare_RRCTHRESHOLD m).thresh_rrcThreshFound = m.thresh_rrcThreshFound) ∧
    (m.beatNumber_int.tmod m.thresh_beatNumber = 0 → ¬ m.thresh_previousAPD < 0 →
      (m.apd_mode = .DOWN ∨
        m.apd ≥ cutoffAPD m) →
      (compare_RRCTHRESHOLD m).thresh_rrcThreshFound = true ∧
      (compare_RRCTHRESHOLD m).thresh_rrcAmplitude = m.thresh_rrcAmplitude ∧
      (compare_RRCTHRESHOLD m).thresh_previousAPD = m.thresh_previousAPD) ∧
    (m.beatNumber_int.tmod m.thresh_beatNumber = 0 → ¬ m.thresh_previousAPD < 0 →
      ¬ (m.apd_mode = .DOWN ∨
        m.apd ≥ cutoffAPD m) →
      (compare_RRCTHRESHOLD m).thresh_rrcAmplitude =
        m.thresh_rrcAmplitude + m.thresh_ampIncrement ∧
      (compare_RRCTHRESHOLD m).thresh_previousAPD = m.apd ∧
      (compare_RRCTHRESHOLD m).thresh_rrcThreshFound = m.thresh_rrcThreshFound) ∧
    (¬ m.beatNumber_int.tmod m.thresh_beatNumber = 0 →
      (compare_RRCTHRESHOLD m).thresh_previousAPD = m.thresh_previousAPD ∧
      (compare_RRCTHRESHOLD m).thresh_rrcAmplitude = m.thresh_rrcAmplitude ∧
      (compare_RRCTHRESHOLD m).thresh_rrcThreshFound = m.thresh_rrcThreshFound) := by
  unfold compare_RRCTHRESHOLD
  refine ⟨fun h1 h2 => ?_, fun h1 h2 h3 => ?_, fun h1 h2 h3 => ?_, fun h1 => ?_⟩
  · rw [if_pos h1, if_pos h2]
    exact ⟨rfl, rfl, rfl⟩
  · rw [if_pos h1, if_neg h2]
    rcases h3 with h3 | h3
    · rw [if_pos h3]
      exact ⟨rfl, rfl, rfl⟩
    · split_ifs <;> exact ⟨rfl, rfl, rfl⟩
  · rw [if_pos h1, if_neg h2, if_neg (fun h => h3 (Or.inl h)), if_neg (fun h => h3 (Or.inr h))]
    exact ⟨rfl, rfl, rfl⟩
  · rw [if_neg h1]
    exact ⟨rfl, rfl, rfl⟩

/-- A beat-boundary step in RRCTHRESHOLD leaves in the baseline, the trial
amplitude and the found flag what the comparison wrote, and ends in IDLE
exactly when the found flag is set. -/
theorem execute_RRCTHRESHOLD_boundary (m : Module) (inp : StepInput)
    (hmode : m.execute_mode = .RRCTHRESHOLD)
    (hboundary : m.time_int + 1 - m.bcl_startTime ≥ m.bcl_int) :
    ∃ y : Module,
      y.beatNumber_int = m.beatNumber_int ∧ y.thresh_beatNumber = m.thresh_beatNumber ∧
      y.thresh_previousAPD = m.thresh_previousAPD ∧ y.apd = m.apd ∧
      y.apd_mode = m.apd_mode ∧ y.thresh_apdCutoff = m.thresh_apdCutoff ∧
      y.thresh_rrcAmplitude = m.thresh_rrcAmplitude ∧
      y.thresh_ampIncrement = m.thresh_ampIncrement ∧
      y.thresh_rrcThreshFound = m.thresh_rrcThreshFound ∧
      (execute m inp).thresh_previousAPD = (compare_RRCTHRESHOLD y).thresh_previousAPD ∧
      (execute m inp).thresh_rrcAmplitude = (compare_RRCTHRESHOLD y).thresh_rrcAmplitude ∧
      (execute m inp).thresh_rrcThreshFound = (compare_RRCTHRESHOLD y).thresh_rrcThreshFound ∧
      ((execute m inp).execute_mode = .IDLE ↔
        (compare_RRCTHRESHOLD y).thresh_rrcThreshFound = true) := by
  have hC := calculateAPD_frame
  have hR := startRecordingAtZero_frame
  have hO := output_RRCTHRESHOLD_frame
  have hN := newBeat_RRCTHRESHOLD_frame
  have hK := compare_RRCTHRESHOLD_frame
  have hF := finish_RRCTHRESHOLD_frame
  have hE := finish_RRCTHRESHOLD_effect
  refine ⟨startRecordingAtZero (advanceClock { m with voltage := inp.input0 * 1000 - m.ljp })
      (advanceClock { m with voltage := inp.input0 * 1000 - m.ljp }).thresh_recordData,
    by simp [hR, advanceClock], by simp [hR, advanceClock], by simp [hR, advanceClock],
    by simp [hR, advanceClock], by simp [hR, advanceClock], by simp [hR, advanceClock],
    by simp [hR, advanceClock], by simp [hR, advanceClock], by simp [hR, advanceClock], ?_⟩
  rw [execute_of_RRCTHRESHOLD m inp hmode]
  unfold execute_RRCTHRESHOLD
  dsimp only
  have hb : (startRecordingAtZero (advanceClock { m with voltage := inp.input0 * 1000 - m.ljp })
      (advanceClock { m with voltage := inp.input0 * 1000 - m.ljp }).thresh_recordData).time_int -
      (startRecordingAtZero (advanceClock { m with voltage := inp.input0 * 1000 - m.ljp })
      (advanceClock { m with voltage := inp.input0 * 1000 - m.ljp }).thresh_recordData).bcl_startTime
      ≥
      (startRecordingAtZero (advanceClock { m with voltage := inp.input0 * 1000 - m.ljp })
      (advanceClock { m with voltage := inp.input0 * 1000 - m.ljp }).thresh_recordData).bcl_int := by
    simpa [hR, advanceClock] using hboundary
  rw [if_pos hb]
  split_ifs with hf
  · refine ⟨by simp only [hF], by simp only [hF], by simp only [hF], ?_⟩
    exact ⟨fun _ => hf, fun _ => (hE _).1⟩
  · refine ⟨by simp only [hC, hO, hN], by simp only [hC, hO, hN], by simp only [hC, hO, hN], ?_⟩
    constructor
    · intro h
      simp only [hC, hO, hN, hK, hR] at h
      simp [advanceClock, hmode] at h
    · intro h
      exact absurd h hf

/-- C17 (amended): the decision table of the RRC threshold search. At a
beat-boundary step in RRCTHRESHOLD on an injection beat (beat counter a
multiple of the nonzero beat-spacing): (1) with no baseline yet
(previousAPD < 0) the baseline becomes the current APD and the trial amplitude
is unchanged; (2) otherwise, if the detector is in DOWN or apd is at least the
cutoff as the source computes it, the double previousAPD * (1 + cutoff / 100.0)
with each of the three operations rounded, the search is found (and the step
ends in IDLE); (3) otherwise the trial amplitude becomes amplitude + increment
and the baseline becomes the current APD. At the beat boundary of a beat that
is not an injection beat the baseline, the amplitude and the found flag do not
change. -/
theorem rrc_threshold_decision_table (m : Module) (inp : StepInput)
    (hmode : m.execute_mode = .RRCTHRESHOLD)
    (hboundary : m.time_int + 1 - m.bcl_startTime ≥ m.bcl_int)
    (hspacing : m.thresh_beatNumber ≠ 0) :
    (m.beatNumber_int.tmod m.thresh_beatNumber = 0 → m.thresh_previousAPD < 0 →
      (execute m inp).thresh_previousAPD = m.apd ∧
      (execute m inp).thresh_rrcAmplitude = m.thresh_rrcAmplitude) ∧
    (m.beatNumber_int.tmod m.thresh_beatNumber = 0 → ¬ m.thresh_previousAPD < 0 →
      (m.apd_mode = .DOWN ∨
        m.apd ≥ cutoffAPD m) →
      (execute m inp).thresh_rrcThreshFound = true ∧
      (execute m inp).execute_mode = .IDLE) ∧
    (m.beatNumber_int.tmod m.thresh_beatNumber = 0 → ¬ m.thresh_previousAPD < 0 →
      ¬ (m.apd_mode = .DOWN ∨
        m.apd ≥ cutoffAPD m) →
      (execute m inp).thresh_rrcAmplitude = m.thresh_rrcAmplitude + m.thresh_ampIncrement ∧
      (execute m inp).thresh_previousAPD = m.apd) ∧
    (¬ m.beatNumber_int.tmod m.thresh_beatNumber = 0 →
      (execute m inp).thresh_previousAPD = m.thresh_previousAPD ∧
      (execute m inp).thresh_rrcAmplitude = m.thresh_rrcAmplitude ∧
      (execute m inp).thresh_rrcThreshFound = m.thresh_rrcThreshFound) := by
  have _ := hspacing
  obtain ⟨y, y1, y2, y3, y4, y5, y6, y7, y8, y9, e1, e2, e3, e4⟩ :=
    execute_RRCTHRESHOLD_boundary m inp hmode hboundary
  obtain ⟨t1, t2, t3, t4⟩ := compare_RRCTHRESHOLD_table y
  have hc : cutoffAPD y = cutoffAPD m := by
    unfold cutoffAPD
    rw [y3, y6]
  simp only [y1, y2, y3, y4, y5, y6, y7, y8, y9, hc] at t1 t2 t3 t4
  refine ⟨fun h1 h2 => ?_, fun h1 h2 h3 => ?_, fun h1 h2 h3 => ?_, fun h1 => ?_⟩
  · obtain ⟨a, b, -⟩ := t1 h1 h2
    exact ⟨e1.trans a, e2.trans b⟩
  · obtain ⟨a, -, -⟩ := t2 h1 h2 h3
    exact ⟨e3.trans a, e4.mpr a⟩
  · obtain ⟨a, b, -⟩ := t3 h1 h2 h3
    exact ⟨e2.trans a, e1.trans b⟩
  · obtain ⟨a, b, c⟩ := t4 h1
    exact ⟨e1.trans a, e2.trans b, e3.trans c⟩

/-- C17, witness: the threshold search at a period of 10 ms with a cycle of 30
ticks and an injection on every beat, on a trace with an action potential of
200 ms in beat 1 and of 220 ms in beat 2. Row (1) at the boundary of tick 30:
the baseline becomes 200 ms. Row (2) at the boundary of tick 60 with a cutoff
of 5 % (210 ms): found, IDLE. Row (3) at the boundary of tick 60 with a cutoff
of 10 % (220.00000000000003 ms in doubles): the amplitude is incremented and
the baseline becomes 220 ms. Last row, for a cycle of 2 ticks and a
beat-spacing of 3, at the boundary of tick 2: nothing changes. -/
theorem rrc_threshold_decision_table_witness :
    ((execute (run (toggle_rrcThreshold cutoffModule true 10000000) twoBeatTrace 30)
        (twoBeatTrace 30)).thresh_previousAPD =
        (run (toggle_rrcThreshold cutoffModule true 10000000) twoBeatTrace 30).apd ∧
      (execute (run (toggle_rrcThreshold cutoffModule true 10000000) twoBeatTrace 30)
        (twoBeatTrace 30)).thresh_rrcAmplitude =
        (run (toggle_rrcThreshold cutoffModule true 10000000) twoBeatTrace 30
          ).thresh_rrcAmplitude) ∧
    (run (toggle_rrcThreshold cutoffModule true 10000000) twoBeatTrace 30).apd = 200 ∧
    ((execute (run (toggle_rrcThreshold lowCutoffModule true 10000000) twoBeatTrace 60)
        (twoBeatTrace 60)).thresh_rrcThreshFound = true ∧
      (execute (run (toggle_rrcThreshold lowCutoffModule true 10000000) twoBeatTrace 60)
        (twoBeatTrace 60)).execute_mode = .IDLE) ∧
    ((execute (run (toggle_rrcThreshold cutoffModule true 10000000) twoBeatTrace 60)
        (twoBeatTrace 60)).thresh_rrcAmplitude =
        (run (toggle_rrcThreshold cutoffModule true 10000000) twoBeatTrace 60
          ).thresh_rrcAmplitude +
        (run (toggle_rrcThreshold cutoffModule true 10000000) twoBeatTrace 60
          ).thresh_ampIncrement ∧
      (execute (run (toggle_rrcThreshold cutoffModule true 10000000) twoBeatTrace 60)
        (twoBeatTrace 60)).thresh_previousAPD =
        (run (toggle_rrcThreshold cutoffModule true 10000000) twoBeatTrace 60).apd) ∧
    (run (toggle_rrcThreshold cutoffModule true 10000000) twoBeatTrace 60).apd = 220 ∧
    ((execute (run (toggle_rrcThreshold twoTickModule true 1000000) quiet 2)
        (quiet 2)).thresh_previousAPD =
        (run (toggle_rrcThreshold twoTickModule true 1000000) quiet 2).thresh_previousAPD ∧
      (execute (run (toggle_rrcThreshold twoTickModule true 1000000) quiet 2)
        (quiet 2)).thresh_rrcAmplitude =
        (run (toggle_rrcThreshold twoTickModule true 1000000) quiet 2).thresh_rrcAmplitude ∧
      (execute (run (toggle_rrcThreshold twoTickModule true 1000000) quiet 2)
        (quiet 2)).thresh_rrcThreshFound =
        (run (toggle_rrcThreshold twoTickModule true 1000000) quiet 2).thresh_rrcThreshFound) :=
  ⟨(rrc_threshold_decision_table
      (run (toggle_rrcThreshold cutoffModule true 10000000) twoBeatTrace 30) (twoBeatTrace 30)
      (by decide!) (by decide!) (by decide!)).1 (by decide!) (by decide!),
    by decide!,
    (rrc_threshold_decision_table
      (run (toggle_rrcThreshold lowCutoffModule true 10000000) twoBeatTrace 60) (twoBeatTrace 60)
      (by decide!) (by decide!) (by decide!)).2.1 (by decide!) (by decide!) (by decide!),
    (rrc_threshold_decision_table
      (run (toggle_rrcThreshold cutoffModule true 10000000) twoBeatTrace 60) (twoBeatTrace 60)
      (by decide!) (by decide!) (by decide!)).2.2.1 (by decide!) (by decide!) (by decide!),
    by decide!,
    (rrc_threshold_decision_table
      (run (toggle_rrcThreshold twoTickModule true 1000000) quiet 2) (quiet 2)
      (by decide!) (by decide!) (by decide!)).2.2.2 (by decide!)⟩

/-- C17, counterexample: row (2) read with the numbers. The threshold search at
a period of 10 ms with a cutoff of 10 %, at the boundary of tick 60 of an
injection beat: the baseline is 200 ms, the detector is in DONE and the APD is
220 ms, so apd ≥ previousAPD * (1 + cutoff/100) = 220 holds. The source
computes the cutoff in doubles as 220.00000000000003 and takes row (3): the
search is not found, the mode stays RRCTHRESHOLD, the trial amplitude becomes
amplitude + increment and the baseline becomes 220 ms. -/
theorem rrc_threshold_decision_table_counterexample :
    (run (toggle_rrcThreshold cutoffModule true 10000000) twoBeatTrace 60).execute_mode
      = .RRCTHRESHOLD ∧
    (run (toggle_rrcThreshold cutoffModule true 10000000) twoBeatTrace 60).time_int + 1 -
      (run (toggle_rrcThreshold cutoffModule true 10000000) twoBeatTrace 60).bcl_startTime ≥
      (run (toggle_rrcThreshold cutoffModule true 10000000) twoBeatTrace 60).bcl_int ∧
    (run (toggle_rrcThreshold cutoffModule true 10000000) twoBeatTrace 60).thresh_beatNumber
      = 1 ∧
    (run (toggle_rrcThreshold cutoffModule true 10000000) twoBeatTrace 60).beatNumber_int.tmod
      (run (toggle_rrcThreshold cutoffModule true 10000000) twoBeatTrace 60).thresh_beatNumber
      = 0 ∧
    ¬ (run (toggle_rrcThreshold cutoffModule true 10000000) twoBeatTrace 60).thresh_previousAPD
      < 0 ∧
    (run (toggle_rrcThreshold cutoffModule true 10000000) twoBeatTrace 60).apd_mode ≠ .DOWN ∧
    (run (toggle_rrcThreshold cutoffModule true 10000000) twoBeatTrace 60).apd ≥
      (run (toggle_rrcThreshold cutoffModule true 10000000) twoBeatTrace 60).thresh_previousAPD *
        (1 + (((run (toggle_rrcThreshold cutoffModule true 10000000) twoBeatTrace 60
          ).thresh_apdCutoff : ℚ) / 100)) ∧
    ¬ (run (toggle_rrcThreshold cutoffModule true 10000000) twoBeatTrace 60).apd ≥
      cutoffAPD (run (toggle_rrcThreshold cutoffModule true 10000000) twoBeatTrace 60) ∧
    (execute (run (toggle_rrcThreshold cutoffModule true 10000000) twoBeatTrace 60)
      (twoBeatTrace 60)).thresh_rrcThreshFound = false ∧
    (execute (run (toggle_rrcThreshold cutoffModule true 10000000) twoBeatTrace 60)
      (twoBeatTrace 60)).execute_mode = .RRCTHRESHOLD ∧
    (execute (run (toggle_rrcThreshold cutoffModule true 10000000) twoBeatTrace 60)
      (twoBeatTrace 60)).thresh_rrcAmplitude = 1 / 100 ∧
    (execute (run (toggle_rrcThreshold cutoffModule true 10000000) twoBeatTrace 60)
      (twoBeatTrace 60)).thresh_previousAPD = 220 := by
  refine ⟨by decide!, by decide!, by decide!, by decide!, by decide!, by decide!, by decide!,
    by decide!, by decide!, by decide!, by decide!, by decide!⟩

/-! ## The output of the randomized protocol -/

/-- The output block of the randomized protocol writes the stimulus part plus
the injection part. -/
theorem output_RRCPROTOCOL_output0 (m : Module) :
    (output_RRCPROTOCOL m).output0 = spec_stimulusPart m + spec_injectionPart m := by
  unfold output_RRCPROTOCOL writeOutput addInjection_RRCPROTOCOL addStimulus spec_stimulusPart
    spec_injectionPart injectionCondition insideInjectionWindow
  dsimp only
  split_ifs <;> simp_all

/-- C13: in every step of RRCPROTOCOL that does not end the run the emitted
current is the stimulus part (stim_amplitude * 1e-9 inside the stimulus window,
else 0) plus the injection part (amplitude * (1 ± thresholdWindow/100) * 1e-9
when the beat is a multiple of the beat-spacing, the injection draw ≤ chance
and the tick is inside the injection window, with + for a direction draw ≥ 50
and - below 50; else 0), all read in the state the step leaves. -/
theorem rrcProtocol_output_composition (m : Module) (inp : StepInput)
    (hmode : m.execute_mode = .RRCPROTOCOL)
    (hrun : (execute m inp).execute_mode ≠ .IDLE) :
    (execute m inp).output0 =
      spec_stimulusPart (execute m inp) + spec_injectionPart (execute m inp) := by
  have hC := calculateAPD_frame
  have hO := output_RRCPROTOCOL_frame
  have hE := finish_RRCPROTOCOL_effect
  have key : ∀ x : Module,
      (calculateAPD (output_RRCPROTOCOL x) 2).output0 =
        spec_stimulusPart (calculateAPD (output_RRCPROTOCOL x) 2) +
          spec_injectionPart (calculateAPD (output_RRCPROTOCOL x) 2) := by
    intro x
    have h := output_RRCPROTOCOL_output0 x
    unfold spec_stimulusPart spec_injectionPart insideInjectionWindow at h ⊢
    simp only [hC, hO]
    rw [← (hC (output_RRCPROTOCOL x) 2).1]
    simpa only [hC] using h
  rw [execute_of_RRCPROTOCOL m inp hmode] at hrun ⊢
  unfold execute_RRCPROTOCOL at hrun ⊢
  dsimp only at hrun ⊢
  split_ifs at hrun ⊢
  · exact absurd (hE _).1 hrun
  · exact key _
  · exact key _

/-- C13, witness: the randomized protocol with a cycle of 10 ticks, an
injection on every beat with a chance of 100 %, an amplitude of 1 nA and a
delay of 2 ms, all draws 70. In the second beat the tick with offset 4 lies
inside the injection window (3, 10) and outside the stimulus window: the
output is 0 + 1 * (1 + 10/100) * 1e-9 A. -/
theorem rrcProtocol_output_composition_witness :
    (run (toggle_rrcProtocol injectingModule true 1000000) drawTrace 14).execute_mode
      = .RRCPROTOCOL ∧
    (execute (run (toggle_rrcProtocol injectingModule true 1000000) drawTrace 14)
      (drawTrace 14)).output0 =
      spec_stimulusPart (execute (run (toggle_rrcProtocol injectingModule true 1000000)
        drawTrace 14) (drawTrace 14)) +
      spec_injectionPart (execute (run (toggle_rrcProtocol injectingModule true 1000000)
        drawTrace 14) (drawTrace 14)) ∧
    (execute (run (toggle_rrcProtocol injectingModule true 1000000) drawTrace 14)
      (drawTrace 14)).output0 = 11 / 10000000000 :=
  ⟨by decide!,
    rrcProtocol_output_composition
      (run (toggle_rrcProtocol injectingModule true 1000000) drawTrace 14) (drawTrace 14)
      (by decide!) (by decide!),
    by decide!⟩

/-! ## The detector at a beat boundary -/

/-- The beat bookkeeping marks the current working voltage as the resting
voltage. -/
theorem restartAPD_vmRest (m : Module) : (restartAPD m).apd_vmRest = m.voltage := by
  unfold restartAPD
  dsimp only
  split_ifs
  · rw [calculateAPD_one]
  · rfl

/-- The state on which phase 2 of the detector runs in a beat-boundary step
that does not end the protocol: the resting voltage is the current working
voltage, the mode is START unless it was DOWN, and the other members of the
detector and the APD value are those before the step. -/
theorem execute_boundary_detector (m : Module) (inp : StepInput)
    (hmode : m.execute_mode = .PACE ∨ m.execute_mode = .RRCTHRESHOLD ∨
      m.execute_mode = .RRCPROTOCOL)
    (hboundary : m.time_int + 1 - m.bcl_startTime ≥ m.bcl_int)
    (hafter : (execute m inp).execute_mode ≠ .IDLE) :
    ∃ x : Module, execute m inp = calculateAPD x 2 ∧
      x.apd_vmRest = inp.input0 * 1000 - m.ljp ∧
      x.apd_mode = (if m.apd_mode ≠ .DOWN then .START else m.apd_mode) ∧
      x.apd_startTime = m.apd_startTime ∧ x.apd_peakTime = m.apd_peakTime ∧
      x.apd_peakVoltage = m.apd_peakVoltage ∧
      x.apd_upstrokeThreshold = m.apd_upstrokeThreshold ∧
      x.apd_downstrokeThreshold = m.apd_downstrokeThreshold ∧
      x.apd_endTime = m.apd_endTime ∧ x.apd = m.apd := by
  have hR := startRecordingAtZero_frame
  have hA := restartAPD_frame
  have hV := restartAPD_vmRest
  have hM := restartAPD_mode
  have hI := setInjectionWindow_frame
  rcases hmode with h | h | h
  · have hS := stimulus_PACE_frame
    rw [execute_of_PACE m inp h]
    unfold execute_PACE
    dsimp only
    have hb : (startRecordingAtZero (advanceClock { m with voltage := inp.input0 * 1000 - m.ljp })
        (advanceClock { m with voltage := inp.input0 * 1000 - m.ljp }).pace_recordData).time_int -
        (startRecordingAtZero (advanceClock { m with voltage := inp.input0 * 1000 - m.ljp })
        (advanceClock { m with voltage := inp.input0 * 1000 - m.ljp }).pace_recordData).bcl_startTime
        ≥
        (startRecordingAtZero (advanceClock { m with voltage := inp.input0 * 1000 - m.ljp })
        (advanceClock { m with voltage := inp.input0 * 1000 - m.ljp }).pace_recordData).bcl_int := by
      simpa [hR, advanceClock] using hboundary
    refine ⟨_, rfl, ?_⟩
    unfold beat_PACE
    rw [if_pos hb]
    simp only [hS, hA, hV, hM]
    simp [hR, advanceClock]
  · have hO := output_RRCTHRESHOLD_frame
    have hK := compare_RRCTHRESHOLD_frame
    have hE := finish_RRCTHRESHOLD_effect
    rw [execute_of_RRCTHRESHOLD m inp h] at hafter ⊢
    unfold execute_RRCTHRESHOLD at hafter ⊢
    dsimp only at hafter ⊢
    have hb : (startRecordingAtZero (advanceClock { m with voltage := inp.input0 * 1000 - m.ljp })
        (advanceClock { m with voltage := inp.input0 * 1000 - m.ljp }).thresh_recordData).time_int -
        (startRecordingAtZero (advanceClock { m with voltage := inp.input0 * 1000 - m.ljp })
        (advanceClock { m with voltage := inp.input0 * 1000 - m.ljp }).thresh_recordData).bcl_startTime
        ≥
        (startRecordingAtZero (advanceClock { m with voltage := inp.input0 * 1000 - m.ljp })
        (advanceClock { m with voltage := inp.input0 * 1000 - m.ljp }).thresh_recordData).bcl_int := by
      simpa [hR, advanceClock] using hboundary
    rw [if_pos hb] at hafter ⊢
    by_cases hf : (compare_RRCTHRESHOLD (startRecordingAtZero
        (advanceClock { m with voltage := inp.input0 * 1000 - m.ljp })
        (advanceClock { m with voltage := inp.input0 * 1000 - m.ljp }).thresh_recordData)
        ).thresh_rrcThreshFound = true
    · rw [if_pos hf] at hafter
      exact absurd (hE _).1 hafter
    · rw [if_neg hf]
      refine ⟨_, rfl, ?_⟩
      unfold newBeat_RRCTHRESHOLD
      simp only [hO, hI, hA, hV, hM]
      simp [hK, hR, advanceClock]
  · have hO := output_RRCPROTOCOL_frame
    have hE := finish_RRCPROTOCOL_effect
    rw [execute_of_RRCPROTOCOL m inp h] at hafter ⊢
    unfold execute_RRCPROTOCOL at hafter ⊢
    dsimp only at hafter ⊢
    have hb : (startRecordingAtZero (advanceClock { m with voltage := inp.input0 * 1000 - m.ljp })
        (advanceClock { m with voltage := inp.input0 * 1000 - m.ljp }).rrcProtocol_recordData
        ).time_int -
        (startRecordingAtZero (advanceClock { m with voltage := inp.input0 * 1000 - m.ljp })
        (advanceClock { m with voltage := inp.input0 * 1000 - m.ljp }).rrcProtocol_recordData
        ).bcl_startTime
        ≥
        (startRecordingAtZero (advanceClock { m with voltage := inp.input0 * 1000 - m.ljp })
        (advanceClock { m with voltage := inp.input0 * 1000 - m.ljp }).rrcProtocol_recordData
        ).bcl_int := by
      simpa [hR, advanceClock] using hboundary
    rw [if_pos hb] at hafter ⊢
    by_cases hf : (startRecordingAtZero
        (advanceClock { m with voltage := inp.input0 * 1000 - m.ljp })
        (advanceClock { m with voltage := inp.input0 * 1000 - m.ljp }).rrcProtocol_recordData
        ).beatNumber ≥
        (((startRecordingAtZero
        (advanceClock { m with voltage := inp.input0 * 1000 - m.ljp })
        (advanceClock { m with voltage := inp.input0 * 1000 - m.ljp }).rrcProtocol_recordData
        ).rrc_endBeatNumber : ℤ) : ℚ)
    · rw [if_pos hf] at hafter
      exact absurd (hE _).1 hafter
    · rw [if_neg hf]
      refine ⟨_, rfl, ?_⟩
      unfold newBeat_RRCPROTOCOL
      simp only [hO, hI, hA, hV, hM]
      simp [hR, advanceClock]

/-- C11 (amended): at every beat-boundary step in PACE, RRCTHRESHOLD or
RRCPROTOCOL that does not end the protocol, phase 2 of the detector runs on a
state in which the boundary handling has marked the current working voltage as
the resting voltage and has left the start, peak and end times, the peak
voltage, the two thresholds and the APD value untouched; the detector mode is
START when the mode before the step is START or DONE, and when the mode before
the step is DOWN phase 1 is suppressed and the mode is still DOWN. -/
theorem boundary_detector_restart (m : Module) (inp : StepInput)
    (hmode : m.execute_mode = .PACE ∨ m.execute_mode = .RRCTHRESHOLD ∨
      m.execute_mode = .RRCPROTOCOL)
    (hboundary : m.time_int + 1 - m.bcl_startTime ≥ m.bcl_int)
    (hafter : (execute m inp).execute_mode ≠ .IDLE) :
    ∃ x : Module, execute m inp = calculateAPD x 2 ∧
      x.apd_vmRest = inp.input0 * 1000 - m.ljp ∧
      (m.apd_mode = .START ∨ m.apd_mode = .DONE → x.apd_mode = .START) ∧
      (m.apd_mode = .DOWN → x.apd_mode = .DOWN) ∧
      x.apd_startTime = m.apd_startTime ∧ x.apd_peakTime = m.apd_peakTime ∧
      x.apd_peakVoltage = m.apd_peakVoltage ∧
      x.apd_upstrokeThreshold = m.apd_upstrokeThreshold ∧
      x.apd_downstrokeThreshold = m.apd_downstrokeThreshold ∧
      x.apd_endTime = m.apd_endTime ∧ x.apd = m.apd := by
  obtain ⟨x, hx, x1, x2, x3, x4, x5, x6, x7, x8, x9⟩ :=
    execute_boundary_detector m inp hmode hboundary hafter
  refine ⟨x, hx, x1, ?_, ?_, x3, x4, x5, x6, x7, x8, x9⟩
  · intro h
    rw [x2]
    rcases h with h | h <;> simp [h]
  · intro h
    rw [x2]
    simp [h]

/-- C11, witness: PACE with a cycle of 10 ticks and an artifact window of 0 ms
on a preparation at 20 mV. The detector is in DOWN when the step with tick
counter 10, a beat boundary, begins; after the step it is still in DOWN with
the same start time, and the resting voltage is the voltage of that step. -/
theorem boundary_detector_restart_witness :
    (run (toggle_pace tenTickModule true 1000000) plateauTrace 10).apd_mode = .DOWN ∧
    (∃ x : Module,
      execute (run (toggle_pace tenTickModule true 1000000) plateauTrace 10) (plateauTrace 10)
        = calculateAPD x 2 ∧
      x.apd_vmRest = (plateauTrace 10).input0 * 1000 -
        (run (toggle_pace tenTickModule true 1000000) plateauTrace 10).ljp ∧
      x.apd_mode = .DOWN) ∧
    (run (toggle_pace tenTickModule true 1000000) plateauTrace 11).apd_mode = .DOWN :=
  ⟨by decide!,
    (boundary_detector_restart (run (toggle_pace tenTickModule true 1000000) plateauTrace 10)
      (plateauTrace 10) (Or.inl (by decide!)) (by decide!) (by decide!)).imp
      (fun _ h => ⟨h.1, h.2.1, h.2.2.2.1 (by decide!)⟩),
    by decide!⟩

/-- C11, counterexample: (a) PACE with a cycle of 2 ticks on a preparation at
0 V: the detector is in PEAK (start time 0) when the boundary step with tick
counter 2 begins, and the step restarts it: the start time becomes 2.
(b) PACE with a cycle of 10 ticks on a preparation at 20 mV: the detector is
in DOWN with a resting voltage of 0 mV when the boundary step with tick counter
10 begins; the mode stays DOWN but the resting voltage is overwritten with
20 mV. -/
theorem boundary_detector_restart_counterexample :
    (run (toggle_pace twoTickModule true 1000000) quiet 2).apd_mode = .PEAK ∧
    (run (toggle_pace twoTickModule true 1000000) quiet 2).apd_startTime = 0 ∧
    (run (toggle_pace twoTickModule true 1000000) quiet 2).beatNumber = 1 ∧
    (restartAPD (run (toggle_pace twoTickModule true 1000000) quiet 2)).apd_mode = .START ∧
    (run (toggle_pace twoTickModule true 1000000) quiet 3).beatNumber = 2 ∧
    (run (toggle_pace twoTickModule true 1000000) quiet 3).apd_startTime = 2 ∧
    (run (toggle_pace tenTickModule true 1000000) plateauTrace 10).apd_mode = .DOWN ∧
    (run (toggle_pace tenTickModule true 1000000) plateauTrace 10).apd_vmRest = 0 ∧
    (run (toggle_pace tenTickModule true 1000000) plateauTrace 10).beatNumber = 1 ∧
    (run (toggle_pace tenTickModule true 1000000) plateauTrace 11).beatNumber = 2 ∧
    (run (toggle_pace tenTickModule true 1000000) plateauTrace 11).apd_mode = .DOWN ∧
    (run (toggle_pace tenTickModule true 1000000) plateauTrace 11).apd_vmRest = 20 := by
  refine ⟨by decide!, by decide!, by decide!, by decide!, by decide!, by decide!, by decide!,
    by decide!, by decide!, by decide!, by decide!, by decide!⟩

/-! ## The start of the stimulus threshold search -/

/-- C12, evaluation: two starts of the stimulus threshold search with the same
configuration, period (10 ms) and input sample (-80 mV), one on a new object
and one after an earlier search that had incremented its trial current at
time 230 ms and was cancelled. The start command sets the trial current, the
rest and peak voltages, the response duration and the response timestamp, but
not the stimulus start time (0 against 230) nor the returned-to-baseline flag
(false against true). On the same trace with an action potential of 70 ms the
first search accepts at call 7 (published amplitude 2.5 nA, IDLE, output 0
afterwards), the second computes a response duration of 70 - 230 ms, rejects,
and emits a stimulus of 2.1 nA at call 29. -/
theorem restart_keeps_stale_start_time :
    (run freshSearch restTrace 24).stim_startTime = 230 ∧
    freshSearch.bcl = restartedSearch.bcl ∧
    freshSearch.stim_amplitude = restartedSearch.stim_amplitude ∧
    freshSearch.stim_length = restartedSearch.stim_length ∧
    freshSearch.ljp = restartedSearch.ljp ∧
    freshSearch.period = restartedSearch.period ∧
    freshSearch.stim_stimulusLevel = 2 ∧ restartedSearch.stim_stimulusLevel = 2 ∧
    freshSearch.stim_vmRest = restartedSearch.stim_vmRest ∧
    freshSearch.stim_peakVoltage = restartedSearch.stim_peakVoltage ∧
    freshSearch.stim_responseDuration = restartedSearch.stim_responseDuration ∧
    freshSearch.stim_responseTime = restartedSearch.stim_responseTime ∧
    freshSearch.stim_startTime = 0 ∧ restartedSearch.stim_startTime = 230 ∧
    freshSearch.stim_backToBaseline = false ∧ restartedSearch.stim_backToBaseline = true ∧
    (run freshSearch briefApTrace 8).execute_mode = .IDLE ∧
    (run freshSearch briefApTrace 8).stim_amplitude = 5 / 2 ∧
    (run restartedSearch briefApTrace 8).execute_mode = .STIMTHRESHOLD ∧
    (run restartedSearch briefApTrace 8).stim_responseDuration = -160 ∧
    (run freshSearch briefApTrace 30).output0 = 0 ∧
    (run restartedSearch briefApTrace 30).output0 = 21 / 10000000000 := by
  refine ⟨by decide!, by decide!, by decide!, by decide!, by decide!, by decide!, by decide!,
    by decide!, by decide!, by decide!, by decide!, by decide!, by decide!, by decide!,
    by decide!, by decide!, by decide!, by decide!, by decide!, by decide!, by decide!,
    by decide!⟩

/-! ## The baseline test of the stimulus threshold search -/

/-- C19, evaluation: the search with a stimulus of two ticks, a captured
resting voltage of -80 mV and a trace that sits at -90 mV during the calls 1
to 4. Call 2 is the first step after the stimulus; its voltage is 10 mV away
from the resting voltage, yet the returned-to-baseline flag is set there, with
the response duration and timestamp of that step (20 ms); the first
post-stimulus step within 2 mV of the resting voltage is call 5. -/
theorem baseline_test_one_sided :
    freshSearch.stim_vmRest = -80 ∧
    (run freshSearch undershootTrace 2).stim_backToBaseline = false ∧
    (run freshSearch undershootTrace 3).voltage = -90 ∧
    ¬ |(run freshSearch undershootTrace 3).voltage - freshSearch.stim_vmRest| < 2 ∧
    (run freshSearch undershootTrace 3).stim_backToBaseline = true ∧
    (run freshSearch undershootTrace 3).stim_responseDuration = 20 ∧
    (run freshSearch undershootTrace 3).stim_responseTime = 20 ∧
    ¬ |(run freshSearch undershootTrace 4).voltage - freshSearch.stim_vmRest| < 2 ∧
    ¬ |(run freshSearch undershootTrace 5).voltage - freshSearch.stim_vmRest| < 2 ∧
    |(run freshSearch undershootTrace 6).voltage - freshSearch.stim_vmRest| < 2 ∧
    (run freshSearch undershootTrace 6).time = 50 ∧
    (run freshSearch undershootTrace 6).stim_responseTime = 20 := by
  refine ⟨by decide!, by decide!, by decide!, by decide!, by decide!, by decide!, by decide!,
    by decide!, by decide!, by decide!, by decide!, by decide!⟩

/-! ## The stimulus of the stimulus threshold search -/

/-- C20, evaluation: the search on a resting preparation at a period of 10 ms.
With a stimulus length of 20 ms (two ticks) the first beat emits the trial
current 2 nA on the calls 0 and 1; the increment at call 23 begins a new beat
in a step that has already emitted 0, and that beat emits the new trial current
2.1 nA on call 24 only. With a stimulus length of 10 ms (one tick) the beat
begun by the increment at call 22 emits no stimulus at all, and every later
step increments the trial current again. -/
theorem increment_beat_loses_one_step :
    freshSearch.stim_length_int = 2 ∧
    (run freshSearch restTrace 1).output0 = 2 / 1000000000 ∧
    (run freshSearch restTrace 2).output0 = 2 / 1000000000 ∧
    (run freshSearch restTrace 3).output0 = 0 ∧
    (run freshSearch restTrace 23).stim_stimulusLevel = 2 ∧
    (run freshSearch restTrace 23).bcl_startTime = 0 ∧
    (run freshSearch restTrace 24).stim_stimulusLevel = 21 / 10 ∧
    (run freshSearch restTrace 24).bcl_startTime = 23 ∧
    (run freshSearch restTrace 24).time_int = 23 ∧
    (run freshSearch restTrace 24).output0 = 0 ∧
    (run freshSearch restTrace 25).output0 = 21 / 10000000000 ∧
    (run freshSearch restTrace 26).output0 = 0 ∧
    (run freshSearch restTrace 27).output0 = 0 ∧
    (run freshSearch restTrace 27).bcl_startTime = 23 ∧
    onePulseSearch.stim_length_int = 1 ∧
    (run onePulseSearch restTrace 1).output0 = 2 / 1000000000 ∧
    (run onePulseSearch restTrace 23).stim_stimulusLevel = 21 / 10 ∧
    (run onePulseSearch restTrace 23).bcl_startTime = 22 ∧
    (run onePulseSearch restTrace 23).output0 = 0 ∧
    (run onePulseSearch restTrace 24).output0 = 0 ∧
    (run onePulseSearch restTrace 24).stim_stimulusLevel = 22 / 10 ∧
    (run onePulseSearch restTrace 25).output0 = 0 ∧
    (run onePulseSearch restTrace 25).stim_stimulusLevel = 23 / 10 ∧
    (run onePulseSearch restTrace 25).stim_backToBaseline = true ∧
    (run onePulseSearch restTrace 25).stim_responseTime = 10 := by
  refine ⟨by decide!, by decide!, by decide!, by decide!, by decide!, by decide!, by decide!,
    by decide!, by decide!, by decide!, by decide!, by decide!, by decide!, by decide!,
    by decide!, by decide!, by decide!, by decide!, by decide!, by decide!, by decide!,
    by decide!, by decide!, by decide!, by decide!⟩

/-! ## The injection window -/

/-- The output block of the threshold search writes the stimulus part plus the
injection part. -/
theorem output_RRCTHRESHOLD_output0 (m : Module) :
    (output_RRCTHRESHOLD m).output0 = spec_stimulusPart m + spec_thresholdInjectionPart m := by
  unfold output_RRCTHRESHOLD writeOutput addInjection_RRCTHRESHOLD addStimulus spec_stimulusPart
    spec_thresholdInjectionPart insideInjectionWindow
  dsimp only
  split_ifs <;> simp_all

/-- A step of the threshold search that does not end the search: mode, clock,
configuration, beat start, injection window, beat counter and output. -/
theorem execute_RRCTHRESHOLD_window (m : Module) (inp : StepInput)
    (hmode : m.execute_mode = .RRCTHRESHOLD)
    (hrun : m.time_int + 1 - m.bcl_startTime ≥ m.bcl_int →
      (execute m inp).execute_mode ≠ .IDLE) :
    (execute m inp).execute_mode = .RRCTHRESHOLD ∧
    (execute m inp).thresh_beatNumber = m.thresh_beatNumber ∧
    (execute m inp).rrc_beatNumber = m.rrc_beatNumber ∧
    (execute m inp).rrc_chance = m.rrc_chance ∧
    (execute m inp).time_int = m.time_int + 1 ∧
    (execute m inp).bcl_int = m.bcl_int ∧
    (execute m inp).stim_length_int = m.stim_length_int ∧
    (execute m inp).rrc_delay = m.rrc_delay ∧
    (execute m inp).period = m.period ∧
    (execute m inp).rrc_length = m.rrc_length ∧
    (m.time_int + 1 - m.bcl_startTime ≥ m.bcl_int →
      (execute m inp).bcl_startTime = m.time_int + 1 ∧
      (execute m inp).rrc_startTime =
        sumDivToInt m.stim_length_int m.rrc_delay m.period ∧
      (execute m inp).rrc_endTime =
        (if m.rrc_length = 0 then m.bcl_int
          else divToInt (m.rrc_length : ℚ) m.period)) ∧
    (¬ m.time_int + 1 - m.bcl_startTime ≥ m.bcl_int →
      (execute m inp).bcl_startTime = m.bcl_startTime ∧
      (execute m inp).rrc_startTime = m.rrc_startTime ∧
      (execute m inp).rrc_endTime = m.rrc_endTime ∧
      (execute m inp).beatNumber_int = m.beatNumber_int ∧
      (execute m inp).rrc_random_injection = m.rrc_random_injection) ∧
    (execute m inp).output0 =
      spec_stimulusPart (execute m inp) + spec_thresholdInjectionPart (execute m inp) := by
  have hC := calculateAPD_frame
  have hR := startRecordingAtZero_frame
  have hO := output_RRCTHRESHOLD_frame
  have hN := newBeat_RRCTHRESHOLD_frame
  have hK := compare_RRCTHRESHOLD_frame
  have hA := restartAPD_frame
  have hE := finish_RRCTHRESHOLD_effect
  have hB := newBeat_RRCTHRESHOLD_effect
  have hW := setInjectionWindow_effect
  have key : ∀ x : Module,
      (calculateAPD (output_RRCTHRESHOLD x) 2).output0 =
        spec_stimulusPart (calculateAPD (output_RRCTHRESHOLD x) 2) +
          spec_thresholdInjectionPart (calculateAPD (output_RRCTHRESHOLD x) 2) := by
    intro x
    have h := output_RRCTHRESHOLD_output0 x
    unfold spec_stimulusPart spec_thresholdInjectionPart insideInjectionWindow at h ⊢
    simp only [hC, hO]
    rw [← (hC (output_RRCTHRESHOLD x) 2).1]
    simpa only [hC] using h
  have win : ∀ x : Module,
      (newBeat_RRCTHRESHOLD x).rrc_startTime =
        sumDivToInt x.stim_length_int x.rrc_delay x.period ∧
      (newBeat_RRCTHRESHOLD x).rrc_endTime =
        (if x.rrc_length = 0 then x.bcl_int
          else divToInt (x.rrc_length : ℚ) x.period) := by
    intro x
    unfold newBeat_RRCTHRESHOLD
    dsimp only
    simp only [hW, hA]
    exact ⟨trivial, trivial⟩
  rw [execute_of_RRCTHRESHOLD m inp hmode] at hrun ⊢
  unfold execute_RRCTHRESHOLD at hrun ⊢
  dsimp only at hrun ⊢
  by_cases h1 : m.time_int + 1 - m.bcl_startTime ≥ m.bcl_int
  · have hb : (startRecordingAtZero (advanceClock { m with voltage := inp.input0 * 1000 - m.ljp })
        (advanceClock { m with voltage := inp.input0 * 1000 - m.ljp }).thresh_recordData).time_int -
        (startRecordingAtZero (advanceClock { m with voltage := inp.input0 * 1000 - m.ljp })
        (advanceClock { m with voltage := inp.input0 * 1000 - m.ljp }).thresh_recordData).bcl_startTime
        ≥
        (startRecordingAtZero (advanceClock { m with voltage := inp.input0 * 1000 - m.ljp })
        (advanceClock { m with voltage := inp.input0 * 1000 - m.ljp }).thresh_recordData).bcl_int := by
      simpa [hR, advanceClock] using h1
    have hrun := hrun h1
    rw [if_pos hb] at hrun ⊢
    by_cases hf : (compare_RRCTHRESHOLD (startRecordingAtZero
        (advanceClock { m with voltage := inp.input0 * 1000 - m.ljp })
        (advanceClock { m with voltage := inp.input0 * 1000 - m.ljp }).thresh_recordData)
        ).thresh_rrcThreshFound = true
    · rw [if_pos hf] at hrun
      exact absurd (hE _).1 hrun
    · rw [if_neg hf]
      refine ⟨by simp [hC, hO, hN, hK, hR, advanceClock, hmode],
        by simp [hC, hO, hN, hK, hR, advanceClock], by simp [hC, hO, hN, hK, hR, advanceClock],
        by simp [hC, hO, hN, hK, hR, advanceClock],
        by simp [hC, hO, hN, hK, hR, advanceClock],
        by simp [hC, hO, hN, hK, hR, advanceClock], by simp [hC, hO, hN, hK, hR, advanceClock],
        by simp [hC, hO, hN, hK, hR, advanceClock], by simp [hC, hO, hN, hK, hR, advanceClock],
        by simp [hC, hO, hN, hK, hR, advanceClock], fun _ => ⟨?_, ?_, ?_⟩,
        fun hn => absurd h1 hn, key _⟩
      · simp [hC, hO, hB, hK, hR, advanceClock]
      · simp only [hC, hO]
        rw [(win _).1]
        simp [hK, hR, advanceClock]
      · simp only [hC, hO]
        rw [(win _).2]
        simp [hK, hR, advanceClock]
  · have hb : ¬ (startRecordingAtZero (advanceClock { m with voltage := inp.input0 * 1000 - m.ljp })
        (advanceClock { m with voltage := inp.input0 * 1000 - m.ljp }).thresh_recordData).time_int -
        (startRecordingAtZero (advanceClock { m with voltage := inp.input0 * 1000 - m.ljp })
        (advanceClock { m with voltage := inp.input0 * 1000 - m.ljp }).thresh_recordData).bcl_startTime
        ≥
        (startRecordingAtZero (advanceClock { m with voltage := inp.input0 * 1000 - m.ljp })
        (advanceClock { m with voltage := inp.input0 * 1000 - m.ljp }).thresh_recordData).bcl_int := by
      simpa [hR, advanceClock] using h1
    rw [if_neg hb]
    exact ⟨by simp [hC, hO, hR, advanceClock, hmode], by simp [hC, hO, hR, advanceClock],
      by simp [hC, hO, hR, advanceClock], by simp [hC, hO, hR, advanceClock],
      by simp [hC, hO, hR, advanceClock],
      by simp [hC, hO, hR, advanceClock], by simp [hC, hO, hR, advanceClock],
      by simp [hC, hO, hR, advanceClock], by simp [hC, hO, hR, advanceClock],
      by simp [hC, hO, hR, advanceClock], fun hn => absurd hn h1,
      fun _ => ⟨by simp [hC, hO, hR, advanceClock], by simp [hC, hO, hR, advanceClock],
        by simp [hC, hO, hR, advanceClock], by simp [hC, hO, hR, advanceClock],
        by simp [hC, hO, hR, advanceClock]⟩, key _⟩

/-- A step of the randomized protocol that does not end the run: mode, clock,
configuration, beat start, injection window, beat counter and output. -/
theorem execute_RRCPROTOCOL_window (m : Module) (inp : StepInput)
    (hmode : m.execute_mode = .RRCPROTOCOL)
    (hrun : m.time_int + 1 - m.bcl_startTime ≥ m.bcl_int →
      (execute m inp).execute_mode ≠ .IDLE) :
    (execute m inp).execute_mode = .RRCPROTOCOL ∧
    (execute m inp).thresh_beatNumber = m.thresh_beatNumber ∧
    (execute m inp).rrc_beatNumber = m.rrc_beatNumber ∧
    (execute m inp).rrc_chance = m.rrc_chance ∧
    (execute m inp).time_int = m.time_int + 1 ∧
    (execute m inp).bcl_int = m.bcl_int ∧
    (execute m inp).stim_length_int = m.stim_length_int ∧
    (execute m inp).rrc_delay = m.rrc_delay ∧
    (execute m inp).period = m.period ∧
    (execute m inp).rrc_length = m.rrc_length ∧
    (m.time_int + 1 - m.bcl_startTime ≥ m.bcl_int →
      (execute m inp).bcl_startTime = m.time_int + 1 ∧
      (execute m inp).rrc_startTime =
        sumDivToInt m.stim_length_int m.rrc_delay m.period ∧
      (execute m inp).rrc_endTime =
        (if m.rrc_length = 0 then m.bcl_int
          else divToInt (m.rrc_length : ℚ) m.period)) ∧
    (¬ m.time_int + 1 - m.bcl_startTime ≥ m.bcl_int →
      (execute m inp).bcl_startTime = m.bcl_startTime ∧
      (execute m inp).rrc_startTime = m.rrc_startTime ∧
      (execute m inp).rrc_endTime = m.rrc_endTime ∧
      (execute m inp).beatNumber_int = m.beatNumber_int ∧
      (execute m inp).rrc_random_injection = m.rrc_random_injection) ∧
    (execute m inp).output0 =
      spec_stimulusPart (execute m inp) + spec_injectionPart (execute m inp) := by
  have hC := calculateAPD_frame
  have hR := startRecordingAtZero_frame
  have hO := output_RRCPROTOCOL_frame
  have hN := newBeat_RRCPROTOCOL_frame
  have hA := restartAPD_frame
  have hE := finish_RRCPROTOCOL_effect
  have hB := newBeat_RRCPROTOCOL_effect
  have hW := setInjectionWindow_effect
  have key : ∀ x : Module,
      (calculateAPD (output_RRCPROTOCOL x) 2).output0 =
        spec_stimulusPart (calculateAPD (output_RRCPROTOCOL x) 2) +
          spec_injectionPart (calculateAPD (output_RRCPROTOCOL x) 2) := by
    intro x
    have h := output_RRCPROTOCOL_output0 x
    unfold spec_stimulusPart spec_injectionPart insideInjectionWindow at h ⊢
    simp only [hC, hO]
    rw [← (hC (output_RRCPROTOCOL x) 2).1]
    simpa only [hC] using h
  have win : ∀ (x : Module) (i : StepInput),
      (newBeat_RRCPROTOCOL x i).rrc_startTime =
        sumDivToInt x.stim_length_int x.rrc_delay x.period ∧
      (newBeat_RRCPROTOCOL x i).rrc_endTime =
        (if x.rrc_length = 0 then x.bcl_int
          else divToInt (x.rrc_length : ℚ) x.period) := by
    intro x i
    unfold newBeat_RRCPROTOCOL
    dsimp only
    simp only [hW, hA]
    exact ⟨trivial, trivial⟩
  rw [execute_of_RRCPROTOCOL m inp hmode] at hrun ⊢
  unfold execute_RRCPROTOCOL at hrun ⊢
  dsimp only at hrun ⊢
  by_cases h1 : m.time_int + 1 - m.bcl_startTime ≥ m.bcl_int
  · have hb : (startRecordingAtZero (advanceClock { m with voltage := inp.input0 * 1000 - m.ljp })
        (advanceClock { m with voltage := inp.input0 * 1000 - m.ljp }).rrcProtocol_recordData).time_int -
        (startRecordingAtZero (advanceClock { m with voltage := inp.input0 * 1000 - m.ljp })
        (advanceClock { m with voltage := inp.input0 * 1000 - m.ljp }).rrcProtocol_recordData).bcl_startTime
        ≥
        (startRecordingAtZero (advanceClock { m with voltage := inp.input0 * 1000 - m.ljp })
        (advanceClock { m with voltage := inp.input0 * 1000 - m.ljp }).rrcProtocol_recordData).bcl_int := by
      simpa [hR, advanceClock] using h1
    have hrun := hrun h1
    rw [if_pos hb] at hrun ⊢
    by_cases hf : (startRecordingAtZero
        (advanceClock { m with voltage := inp.input0 * 1000 - m.ljp })
        (advanceClock { m with voltage := inp.input0 * 1000 - m.ljp }).rrcProtocol_recordData
        ).beatNumber ≥ ((startRecordingAtZero
        (advanceClock { m with voltage := inp.input0 * 1000 - m.ljp })
        (advanceClock { m with voltage := inp.input0 * 1000 - m.ljp }).rrcProtocol_recordData
        ).rrc_endBeatNumber : ℚ)
    · rw [if_pos hf] at hrun
      exact absurd (hE _).1 hrun
    · rw [if_neg hf]
      refine ⟨by simp [hC, hO, hN, hR, advanceClock, hmode],
        by simp [hC, hO, hN, hR, advanceClock], by simp [hC, hO, hN, hR, advanceClock],
        by simp [hC, hO, hN, hR, advanceClock],
        by simp [hC, hO, hN, hR, advanceClock],
        by simp [hC, hO, hN, hR, advanceClock], by simp [hC, hO, hN, hR, advanceClock],
        by simp [hC, hO, hN, hR, advanceClock], by simp [hC, hO, hN, hR, advanceClock],
        by simp [hC, hO, hN, hR, advanceClock], fun _ => ⟨?_, ?_, ?_⟩,
        fun hn => absurd h1 hn, key _⟩
      · simp [hC, hO, hB, hR, advanceClock]
      · simp only [hC, hO]
        rw [(win _ _).1]
        simp [hR, advanceClock]
      · simp only [hC, hO]
        rw [(win _ _).2]
        simp [hR, advanceClock]
  · have hb : ¬ (startRecordingAtZero (advanceClock { m with voltage := inp.input0 * 1000 - m.ljp })
        (advanceClock { m with voltage := inp.input0 * 1000 - m.ljp }).rrcProtocol_recordData).time_int -
        (startRecordingAtZero (advanceClock { m with voltage := inp.input0 * 1000 - m.ljp })
        (advanceClock { m with voltage := inp.input0 * 1000 - m.ljp }).rrcProtocol_recordData).bcl_startTime
        ≥
        (startRecordingAtZero (advanceClock { m with voltage := inp.input0 * 1000 - m.ljp })
        (advanceClock { m with voltage := inp.input0 * 1000 - m.ljp }).rrcProtocol_recordData).bcl_int := by
      simpa [hR, advanceClock] using h1
    rw [if_neg hb]
    exact ⟨by simp [hC, hO, hR, advanceClock, hmode], by simp [hC, hO, hR, advanceClock],
      by simp [hC, hO, hR, advanceClock], by simp [hC, hO, hR, advanceClock],
      by simp [hC, hO, hR, advanceClock],
      by simp [hC, hO, hR, advanceClock], by simp [hC, hO, hR, advanceClock],
      by simp [hC, hO, hR, advanceClock], by simp [hC, hO, hR, advanceClock],
      by simp [hC, hO, hR, advanceClock], fun hn => absurd hn h1,
      fun _ => ⟨by simp [hC, hO, hR, advanceClock], by simp [hC, hO, hR, advanceClock],
        by simp [hC, hO, hR, advanceClock], by simp [hC, hO, hR, advanceClock],
        by simp [hC, hO, hR, advanceClock]⟩, key _⟩

/-- A step of the threshold search or of the randomized protocol that does not
end the run: the two cases of the step in one statement. -/
theorem execute_injection_step (m : Module) (inp : StepInput)
    (hmode : m.execute_mode = .RRCTHRESHOLD ∨ m.execute_mode = .RRCPROTOCOL)
    (hrun : m.time_int + 1 - m.bcl_startTime ≥ m.bcl_int →
      (execute m inp).execute_mode ≠ .IDLE) :
    (execute m inp).execute_mode = m.execute_mode ∧
    (execute m inp).time_int = m.time_int + 1 ∧
    (execute m inp).bcl_int = m.bcl_int ∧
    (m.time_int + 1 - m.bcl_startTime ≥ m.bcl_int →
      (execute m inp).bcl_startTime = m.time_int + 1 ∧
      (execute m inp).rrc_startTime =
        sumDivToInt m.stim_length_int m.rrc_delay m.period ∧
      (execute m inp).rrc_endTime =
        (if m.rrc_length = 0 then m.bcl_int
          else divToInt (m.rrc_length : ℚ) m.period)) ∧
    (¬ m.time_int + 1 - m.bcl_startTime ≥ m.bcl_int →
      (execute m inp).bcl_startTime = m.bcl_startTime ∧
      (execute m inp).rrc_startTime = m.rrc_startTime ∧
      (execute m inp).rrc_endTime = m.rrc_endTime ∧
      (execute m inp).beatNumber_int = m.beatNumber_int ∧
      (execute m inp).rrc_random_injection = m.rrc_random_injection) ∧
    (m.execute_mode = .RRCTHRESHOLD →
      (execute m inp).output0 =
        spec_stimulusPart (execute m inp) + spec_thresholdInjectionPart (execute m inp)) ∧
    (m.execute_mode = .RRCPROTOCOL →
      (execute m inp).output0 =
        spec_stimulusPart (execute m inp) + spec_injectionPart (execute m inp)) := by
  rcases hmode with h | h
  · obtain ⟨a1, -, -, -, a2, a3, -, -, -, -, a4, a5, a6⟩ :=
      execute_RRCTHRESHOLD_window m inp h hrun
    refine ⟨by rw [a1, h], a2, a3, a4, a5, fun _ => a6, fun h2 => ?_⟩
    rw [h] at h2
    cases h2
  · obtain ⟨a1, -, -, -, a2, a3, -, -, -, -, a4, a5, a6⟩ :=
      execute_RRCPROTOCOL_window m inp h hrun
    refine ⟨by rw [a1, h], a2, a3, a4, a5, fun h2 => ?_, fun _ => a6⟩
    rw [h] at h2
    cases h2

/-- The beat begun by a beat boundary, with an injection length of 0: the
state after j further steps, as long as the beat lasts. -/
theorem injection_beat_invariant (m : Module) (inp : ℕ → StepInput)
    (hmode : m.execute_mode = .RRCTHRESHOLD ∨ m.execute_mode = .RRCPROTOCOL)
    (hboundary : m.time_int + 1 - m.bcl_startTime ≥ m.bcl_int)
    (hrun : (execute m (inp 0)).execute_mode ≠ .IDLE)
    (hlen : m.rrc_length = 0) (j : ℕ) (hj : (j : ℤ) < m.bcl_int) :
    (run m inp (j + 1)).execute_mode = m.execute_mode ∧
    (run m inp (j + 1)).time_int - (run m inp (j + 1)).bcl_startTime = j ∧
    (run m inp (j + 1)).bcl_int = m.bcl_int ∧
    (run m inp (j + 1)).rrc_startTime =
      sumDivToInt m.stim_length_int m.rrc_delay m.period ∧
    (run m inp (j + 1)).rrc_endTime = m.bcl_int ∧
    (run m inp (j + 1)).beatNumber_int = (run m inp 1).beatNumber_int ∧
    (run m inp (j + 1)).rrc_random_injection = (run m inp 1).rrc_random_injection ∧
    (m.execute_mode = .RRCTHRESHOLD →
      (run m inp (j + 1)).output0 =
        spec_stimulusPart (run m inp (j + 1)) +
          spec_thresholdInjectionPart (run m inp (j + 1))) ∧
    (m.execute_mode = .RRCPROTOCOL →
      (run m inp (j + 1)).output0 =
        spec_stimulusPart (run m inp (j + 1)) + spec_injectionPart (run m inp (j + 1))) := by
  induction j with
  | zero =>
    have hr : run m inp (0 + 1) = execute m (inp 0) := rfl
    obtain ⟨a1, a2, a3, a4, -, a6, a7⟩ := execute_injection_step m (inp 0) hmode (fun _ => hrun)
    obtain ⟨b1, b2, b3⟩ := a4 hboundary
    rw [if_pos hlen] at b3
    rw [hr]
    refine ⟨a1, ?_, a3, b2, b3, rfl, rfl, a6, a7⟩
    rw [a2, b1]
    simp
  | succ j ih =>
    have hj2 : (j : ℤ) < m.bcl_int := by
      push_cast at hj
      omega
    obtain ⟨i1, i2, i3, i4, i5, i6, i7, -, -⟩ := ih hj2
    have hr : run m inp (j + 1 + 1) = execute (run m inp (j + 1)) (inp (j + 1)) := rfl
    have hmode2 : (run m inp (j + 1)).execute_mode = .RRCTHRESHOLD ∨
        (run m inp (j + 1)).execute_mode = .RRCPROTOCOL := by
      rw [i1]
      exact hmode
    have hnb : ¬ (run m inp (j + 1)).time_int + 1 - (run m inp (j + 1)).bcl_startTime ≥
        (run m inp (j + 1)).bcl_int := by
      rw [i3]
      push_cast at hj
      omega
    obtain ⟨a1, a2, a3, -, a5, a6, a7⟩ :=
      execute_injection_step (run m inp (j + 1)) (inp (j + 1)) hmode2 (fun h => absurd h hnb)
    obtain ⟨b1, b2, b3, b4, b5⟩ := a5 hnb
    rw [hr]
    refine ⟨by rw [a1, i1], ?_, by rw [a3, i3], by rw [b2, i4], by rw [b3, i5],
      by rw [b4, i6], by rw [b5, i7], fun h => a6 (by rw [i1]; exact h),
      fun h => a7 (by rw [i1]; exact h)⟩
    rw [a2, b1]
    push_cast
    omega

/-- C14 (amended): the injection window of the RRC threshold search and of the
randomized protocol with an injection length of 0, a nonzero beat-spacing and a
positive period, in a beat begun by a beat boundary. The boundary stores the
window start the source computes, the int conversion of the double
stim_length_int + rrc_delay / period (quotient and sum each rounded), and the
step with offset j from the beat start (j below the cycle length in ticks)
lies inside the injection window exactly when j is greater than that stored
start: the window opens one tick after the delay has elapsed from the END of
the stimulus and stays open on every tick until the next stimulus. The beat
counter and the injection draw do not change during the beat, and the output
of the step is the stimulus part plus the injection part, which is nonzero
only inside the window. -/
theorem injection_window_until_next_stimulus (m : Module) (inp : ℕ → StepInput) (j : ℕ)
    (hmode : m.execute_mode = .RRCTHRESHOLD ∨ m.execute_mode = .RRCPROTOCOL)
    (hspacing : (m.execute_mode = .RRCTHRESHOLD → m.thresh_beatNumber ≠ 0) ∧
      (m.execute_mode = .RRCPROTOCOL → m.rrc_beatNumber ≠ 0))
    (hP : 0 < m.period)
    (hboundary : m.time_int + 1 - m.bcl_startTime ≥ m.bcl_int)
    (hrun : (execute m (inp 0)).execute_mode ≠ .IDLE)
    (hlen : m.rrc_length = 0)
    (hj : (j : ℤ) < m.bcl_int) :
    (run m inp (j + 1)).execute_mode = m.execute_mode ∧
    (run m inp (j + 1)).time_int - (run m inp (j + 1)).bcl_startTime = j ∧
    (run m inp (j + 1)).beatNumber_int = (run m inp 1).beatNumber_int ∧
    (run m inp (j + 1)).rrc_random_injection = (run m inp 1).rrc_random_injection ∧
    (run m inp (j + 1)).rrc_startTime =
      doubleToInt (roundDouble ((m.stim_length_int : ℚ) + roundDouble (m.rrc_delay / m.period))) ∧
    (insideInjectionWindow (run m inp (j + 1)) ↔ (run m inp (j + 1)).rrc_startTime < j) ∧
    (m.execute_mode = .RRCTHRESHOLD →
      (run m inp (j + 1)).output0 =
        spec_stimulusPart (run m inp (j + 1)) +
          spec_thresholdInjectionPart (run m inp (j + 1))) ∧
    (m.execute_mode = .RRCPROTOCOL →
      (run m inp (j + 1)).output0 =
        spec_stimulusPart (run m inp (j + 1)) + spec_injectionPart (run m inp (j + 1))) := by
  have _hs := hspacing
  obtain ⟨i1, i2, i3, i4, i5, i6, i7, i8, i9⟩ :=
    injection_beat_invariant m inp hmode hboundary hrun hlen j hj
  have hst : sumDivToInt m.stim_length_int m.rrc_delay m.period =
      doubleToInt (roundDouble ((m.stim_length_int : ℚ) +
        roundDouble (m.rrc_delay / m.period))) := by
    unfold sumDivToInt
    rw [if_neg (ne_of_gt hP)]
  refine ⟨i1, i2, i6, i7, by rw [i4, hst], ?_, i8, i9⟩
  unfold insideInjectionWindow
  rw [i2, i5]
  constructor
  · intro h
    exact h.1
  · intro h
    exact ⟨h, hj⟩

/-- The threshold search of fineDelayModule at a period of 650000 ns: the tick
counts of the start command, the window the boundary of tick 21 stores, and
the steps with the offsets 14 and 15 of the beat begun at tick 21. -/
theorem fineDelay_run :
    (toggle_rrcThreshold fineDelayModule true 650000).stim_length_int = 1 ∧
    (toggle_rrcThreshold fineDelayModule true 650000).bcl_int = 21 ∧
    (run (toggle_rrcThreshold fineDelayModule true 650000) quiet 22).bcl_startTime = 21 ∧
    (run (toggle_rrcThreshold fineDelayModule true 650000) quiet 22).rrc_startTime = 14 ∧
    (run (toggle_rrcThreshold fineDelayModule true 650000) quiet 36).time_int = 35 ∧
    (run (toggle_rrcThreshold fineDelayModule true 650000) quiet 36).output0 = 0 ∧
    (run (toggle_rrcThreshold fineDelayModule true 650000) quiet 37).time_int = 36 ∧
    (run (toggle_rrcThreshold fineDelayModule true 650000) quiet 37).bcl_startTime = 21 ∧
    (run (toggle_rrcThreshold fineDelayModule true 650000) quiet 37).output0 = 1 / 1000000000 := by
  refine ⟨by decide!, by decide!, by decide!, by decide!, by decide!, by decide!, by decide!,
    by decide!, by decide!⟩

/-- C14, witness: the threshold search with a stimulus of 1 ms, a length of 0,
an injection on every beat and a trial amplitude of 1 nA. At a period of 1 ms
with a cycle of 10 ticks and a delay of 5 ms, at the beat boundary of tick 10:
the stored window start is 1 + 5 = 6, the step with offset 7 lies inside and
emits 1e-9 A. At a period of 650000 ns with a cycle of 21 ticks, a stimulus of
1 tick and a delay entered as 9.1 ms, at the beat boundary of tick 21: the
double 1 + 9.1 / 0.65 is 14.999999999999998, the stored window start is 14,
and the step with offset 15 lies inside and emits 1e-9 A. -/
theorem injection_window_until_next_stimulus_witness :
    windowBoundary.execute_mode = .RRCTHRESHOLD ∧
    windowBoundary.thresh_beatNumber = 1 ∧
    windowBoundary.period = 1 ∧
    ((run windowBoundary quiet (7 + 1)).execute_mode = windowBoundary.execute_mode ∧
      (run windowBoundary quiet (7 + 1)).time_int - (run windowBoundary quiet (7 + 1)).bcl_startTime = (7 : ℕ) ∧
      (run windowBoundary quiet (7 + 1)).beatNumber_int = (run windowBoundary quiet 1).beatNumber_int ∧
      (run windowBoundary quiet (7 + 1)).rrc_random_injection = (run windowBoundary quiet 1).rrc_random_injection ∧
      (run windowBoundary quiet (7 + 1)).rrc_startTime =
        doubleToInt (roundDouble ((windowBoundary.stim_length_int : ℚ) +
          roundDouble (windowBoundary.rrc_delay / windowBoundary.period))) ∧
      (insideInjectionWindow (run windowBoundary quiet (7 + 1)) ↔ (run windowBoundary quiet (7 + 1)).rrc_startTime < (7 : ℕ)) ∧
      (windowBoundary.execute_mode = .RRCTHRESHOLD →
        (run windowBoundary quiet (7 + 1)).output0 = spec_stimulusPart (run windowBoundary quiet (7 + 1)) + spec_thresholdInjectionPart (run windowBoundary quiet (7 + 1))) ∧
      (windowBoundary.execute_mode = .RRCPROTOCOL →
        (run windowBoundary quiet (7 + 1)).output0 = spec_stimulusPart (run windowBoundary quiet (7 + 1)) + spec_injectionPart (run windowBoundary quiet (7 + 1)))) ∧
    (run windowBoundary quiet (7 + 1)).rrc_startTime = 6 ∧
    (run windowBoundary quiet (7 + 1)).output0 = 1 / 1000000000 ∧
    fineDelayBoundary.execute_mode = .RRCTHRESHOLD ∧
    fineDelayBoundary.thresh_beatNumber = 1 ∧
    0 < fineDelayBoundary.period ∧
    fineDelayBoundary.stim_length_int = 1 ∧
    fineDelayBoundary.bcl_int = 21 ∧
    ((run fineDelayBoundary quiet (15 + 1)).execute_mode = fineDelayBoundary.execute_mode ∧
      (run fineDelayBoundary quiet (15 + 1)).time_int - (run fineDelayBoundary quiet (15 + 1)).bcl_startTime = (15 : ℕ) ∧
      (run fineDelayBoundary quiet (15 + 1)).beatNumber_int = (run fineDelayBoundary quiet 1).beatNumber_int ∧
      (run fineDelayBoundary quiet (15 + 1)).rrc_random_injection = (run fineDelayBoundary quiet 1).rrc_random_injection ∧
      (run fineDelayBoundary quiet (15 + 1)).rrc_startTime =
        doubleToInt (roundDouble ((fineDelayBoundary.stim_length_int : ℚ) +
          roundDouble (fineDelayBoundary.rrc_delay / fineDelayBoundary.period))) ∧
      (insideInjectionWindow (run fineDelayBoundary quiet (15 + 1)) ↔ (run fineDelayBoundary quiet (15 + 1)).rrc_startTime < (15 : ℕ)) ∧
      (fineDelayBoundary.execute_mode = .RRCTHRESHOLD →
        (run fineDelayBoundary quiet (15 + 1)).output0 = spec_stimulusPart (run fineDelayBoundary quiet (15 + 1)) + spec_thresholdInjectionPart (run fineDelayBoundary quiet (15 + 1))) ∧
      (fineDelayBoundary.execute_mode = .RRCPROTOCOL →
        (run fineDelayBoundary quiet (15 + 1)).output0 = spec_stimulusPart (run fineDelayBoundary quiet (15 + 1)) + spec_injectionPart (run fineDelayBoundary quiet (15 + 1)))) ∧
    (run fineDelayBoundary quiet (15 + 1)).rrc_startTime = 14 ∧
    (run fineDelayBoundary quiet (15 + 1)).output0 = 1 / 1000000000 :=
  ⟨by decide!, by decide!, by decide!,
    injection_window_until_next_stimulus windowBoundary quiet 7
      (Or.inl (by decide!)) ⟨fun _ => by decide!, fun h => absurd h (by decide!)⟩
      (by decide!) (by decide!) (by decide!) (by decide!) (by decide!),
    by decide!, by decide!, by decide!, by decide!, by decide!, by decide!, by decide!,
    injection_window_until_next_stimulus fineDelayBoundary quiet 15
      (Or.inl (by decide!)) ⟨fun _ => by decide!, fun h => absurd h (by decide!)⟩
      (by decide!) (by decide!) (by decide!) (by decide!) (by decide!),
    by decide!, by decide!⟩

/-- C14, counterexample: the threshold search of windowModule at a period of
1 ms. The claim puts the first injected tick of the beat begun at tick 10 at
offset floor(5 / 1) = 5 from the stimulus onset; the steps with offsets 5 and
6 emit 0 and the first injected step has offset 7. With a length of 5 ms the
window is the set of offsets above 6 and below 5, which is empty: no step of
the beat injects, where the claim has 5 injected ticks. In the first beat
after the start command the window is the one the object was created with
(here 0, 0) and nothing is injected at offset 7 either, although beat 1 is an
injection beat. The tick counts are conversions of doubles: at a period of
650000 ns with a stimulus of 1 tick and a delay entered as 9.1 ms the numbers
give floor(1 + 9.1 / 0.65) = 15, while the boundary of tick 21 stores the
window start 14 and the step with offset 15 injects; at a period of 40000 ns
with a stimulus of 25 ticks and a delay entered as 8.2 ms the numbers give
floor(25 + 8.2 / 0.04) = 230, while the stored window start is 229. -/
theorem injection_window_until_next_stimulus_counterexample :
    (toggle_rrcThreshold windowModule true 1000000).rrc_delay = 5 ∧
    (toggle_rrcThreshold windowModule true 1000000).period = 1 ∧
    (toggle_rrcThreshold windowModule true 1000000).stim_length_int = 1 ∧
    (toggle_rrcThreshold windowModule true 1000000).bcl_int = 10 ∧
    (run (toggle_rrcThreshold windowModule true 1000000) quiet 11).bcl_startTime = 10 ∧
    (run (toggle_rrcThreshold windowModule true 1000000) quiet 11).rrc_startTime = 6 ∧
    (run (toggle_rrcThreshold windowModule true 1000000) quiet 11).rrc_endTime = 10 ∧
    (run (toggle_rrcThreshold windowModule true 1000000) quiet 11).beatNumber_int.tmod
      (run (toggle_rrcThreshold windowModule true 1000000) quiet 11).thresh_beatNumber = 0 ∧
    (run (toggle_rrcThreshold windowModule true 1000000) quiet 11).output0 = 4 / 1000000000 ∧
    (run (toggle_rrcThreshold windowModule true 1000000) quiet 16).time_int = 15 ∧
    (run (toggle_rrcThreshold windowModule true 1000000) quiet 16).output0 = 0 ∧
    (run (toggle_rrcThreshold windowModule true 1000000) quiet 17).output0 = 0 ∧
    (run (toggle_rrcThreshold windowModule true 1000000) quiet 18).output0 = 1 / 1000000000 ∧
    (run (toggle_rrcThreshold windowModule true 1000000) quiet 20).output0 = 1 / 1000000000 ∧
    (run (toggle_rrcThreshold shortWindowModule true 1000000) quiet 11).rrc_startTime = 6 ∧
    (run (toggle_rrcThreshold shortWindowModule true 1000000) quiet 11).rrc_endTime = 5 ∧
    (∀ k, 11 ≤ k → k < 20 →
      (run (toggle_rrcThreshold shortWindowModule true 1000000) quiet (k + 1)).output0 = 0) ∧
    (run (toggle_rrcThreshold windowModule true 1000000) quiet 8).time_int = 7 ∧
    (run (toggle_rrcThreshold windowModule true 1000000) quiet 8).bcl_startTime = 0 ∧
    (run (toggle_rrcThreshold windowModule true 1000000) quiet 8).beatNumber_int.tmod
      (run (toggle_rrcThreshold windowModule true 1000000) quiet 8).thresh_beatNumber = 0 ∧
    (run (toggle_rrcThreshold windowModule true 1000000) quiet 8).output0 = 0 ∧
    ⌊((1 : ℤ) : ℚ) + (91 / 10) / (650000 / 1000000)⌋ = 15 ∧
    ((toggle_rrcThreshold fineDelayModule true 650000).stim_length_int = 1 ∧
      (toggle_rrcThreshold fineDelayModule true 650000).bcl_int = 21 ∧
      (run (toggle_rrcThreshold fineDelayModule true 650000) quiet 22).bcl_startTime = 21 ∧
      (run (toggle_rrcThreshold fineDelayModule true 650000) quiet 22).rrc_startTime = 14 ∧
      (run (toggle_rrcThreshold fineDelayModule true 650000) quiet 36).time_int = 35 ∧
      (run (toggle_rrcThreshold fineDelayModule true 650000) quiet 36).output0 = 0 ∧
      (run (toggle_rrcThreshold fineDelayModule true 650000) quiet 37).time_int = 36 ∧
      (run (toggle_rrcThreshold fineDelayModule true 650000) quiet 37).bcl_startTime = 21 ∧
      (run (toggle_rrcThreshold fineDelayModule true 650000) quiet 37).output0 = 1 / 1000000000) ∧
    ⌊((25 : ℤ) : ℚ) + (41 / 5) / (40000 / 1000000)⌋ = 230 ∧
    (toggle_rrcThreshold delayModule true 40000).stim_length_int = 25 ∧
    (setInjectionWindow (toggle_rrcThreshold delayModule true 40000)).rrc_startTime = 229 := by
  refine ⟨by decide!, by decide!, by decide!, by decide!, by decide!, by decide!, by decide!,
    by decide!, by decide!, by decide!, by decide!, by decide!, by decide!, by decide!,
    by decide!, by decide!, by decide!, by decide!, by decide!, by decide!, by decide!,
    by decide!, fineDelay_run, by decide!, by decide!, by decide!⟩

/-! ## The PEAK phase of the detector -/

/-- A step in PACE, RRCTHRESHOLD or RRCPROTOCOL that neither ends the protocol
nor begins a new beat is phase 2 of the detector applied to a state that holds
the new sample and the advanced time and, in the detector, what the state
before the step held. -/
theorem execute_detector_same_beat (m : Module) (inp : StepInput)
    (hmode : m.execute_mode = .PACE ∨ m.execute_mode = .RRCTHRESHOLD ∨
      m.execute_mode = .RRCPROTOCOL)
    (hafter : (execute m inp).execute_mode ≠ .IDLE)
    (hbeat : (execute m inp).beatNumber = m.beatNumber) :
    ∃ x : Module, execute m inp = calculateAPD x 2 ∧
      x.time = m.time + m.period ∧ x.voltage = inp.input0 * 1000 - m.ljp ∧
      x.apd_mode = m.apd_mode ∧ x.apd_vmRest = m.apd_vmRest ∧
      x.apd_peakVoltage = m.apd_peakVoltage ∧ x.apd_peakTime = m.apd_peakTime ∧
      x.apd_startTime = m.apd_startTime ∧ x.apd_stimWindow = m.apd_stimWindow ∧
      x.apd_repolPercent = m.apd_repolPercent := by
  have hC := calculateAPD_frame
  have hR := startRecordingAtZero_frame
  rcases hmode with h | h | h
  · have hS := stimulus_PACE_frame
    have hA := restartAPD_frame
    rw [execute_of_PACE m inp h] at hbeat ⊢
    unfold execute_PACE at hbeat ⊢
    dsimp only at hbeat ⊢
    have hbp : beat_PACE (startRecordingAtZero
        (advanceClock { m with voltage := inp.input0 * 1000 - m.ljp })
        (advanceClock { m with voltage := inp.input0 * 1000 - m.ljp }).pace_recordData) =
        startRecordingAtZero
        (advanceClock { m with voltage := inp.input0 * 1000 - m.ljp })
        (advanceClock { m with voltage := inp.input0 * 1000 - m.ljp }).pace_recordData := by
      unfold beat_PACE at hbeat ⊢
      split_ifs at hbeat ⊢ with hb
      · exfalso
        simp [hC, hS, hA, hR, advanceClock] at hbeat
      · rfl
    rw [hbp]
    exact ⟨_, rfl, by simp [hS, hR, advanceClock], by simp [hS, hR, advanceClock],
      by simp [hS, hR, advanceClock], by simp [hS, hR, advanceClock],
      by simp [hS, hR, advanceClock], by simp [hS, hR, advanceClock],
      by simp [hS, hR, advanceClock], by simp [hS, hR, advanceClock],
      by simp [hS, hR, advanceClock]⟩
  · have hO := output_RRCTHRESHOLD_frame
    have hK := compare_RRCTHRESHOLD_frame
    have hE := finish_RRCTHRESHOLD_effect
    have hM := newBeat_RRCTHRESHOLD_effect
    rw [execute_of_RRCTHRESHOLD m inp h] at hafter hbeat ⊢
    unfold execute_RRCTHRESHOLD at hafter hbeat ⊢
    dsimp only at hafter hbeat ⊢
    split_ifs at hafter hbeat ⊢
    · exact absurd (hE _).1 hafter
    · exfalso
      simp only [hC, hO] at hbeat
      rw [(hM _).1] at hbeat
      simp [hK, hR, advanceClock] at hbeat
    · exact ⟨_, rfl, by simp [hO, hR, advanceClock], by simp [hO, hR, advanceClock],
        by simp [hO, hR, advanceClock], by simp [hO, hR, advanceClock],
        by simp [hO, hR, advanceClock], by simp [hO, hR, advanceClock],
        by simp [hO, hR, advanceClock], by simp [hO, hR, advanceClock],
        by simp [hO, hR, advanceClock]⟩
  · have hO := output_RRCPROTOCOL_frame
    have hE := finish_RRCPROTOCOL_effect
    have hB := newBeat_RRCPROTOCOL_effect
    rw [execute_of_RRCPROTOCOL m inp h] at hafter hbeat ⊢
    unfold execute_RRCPROTOCOL at hafter hbeat ⊢
    dsimp only at hafter hbeat ⊢
    split_ifs at hafter hbeat ⊢
    · exact absurd (hE _).1 hafter
    · exfalso
      simp only [hC, hO] at hbeat
      rw [(hB _ _).1] at hbeat
      simp [hR, advanceClock] at hbeat
    · exact ⟨_, rfl, by simp [hO, hR, advanceClock], by simp [hO, hR, advanceClock],
        by simp [hO, hR, advanceClock], by simp [hO, hR, advanceClock],
        by simp [hO, hR, advanceClock], by simp [hO, hR, advanceClock],
        by simp [hO, hR, advanceClock], by simp [hO, hR, advanceClock],
        by simp [hO, hR, advanceClock]⟩

/-- Phase 2 of the detector in START: a move to PEAK seeds the peak voltage
with the resting voltage. -/
theorem calculateAPD_upstroke_seed (m : Module) (h : m.apd_mode = .START)
    (hp : (calculateAPD m 2).apd_mode = .PEAK) :
    (calculateAPD m 2).apd_peakVoltage = (calculateAPD m 2).apd_vmRest := by
  have hC := calculateAPD_frame
  have hv : (calculateAPD m 2).apd_vmRest = m.apd_vmRest := by simp only [hC]
  rw [hv]
  unfold calculateAPD at hp ⊢
  simp only [h] at hp ⊢
  norm_num at hp ⊢
  split_ifs at hp ⊢ <;> first | rfl | (exfalso; simp_all)

/-- Phase 2 of the detector in PEAK: the peak voltage and its time after the
step, and what a move to DOWN tells. -/
theorem calculateAPD_peak (x : Module) (h : x.apd_mode = .PEAK) :
    (calculateAPD x 2).apd_peakVoltage =
      (if x.time - x.apd_startTime > (x.apd_stimWindow : ℚ) ∧ x.apd_peakVoltage < x.voltage
        then x.voltage else x.apd_peakVoltage) ∧
    (calculateAPD x 2).apd_peakTime =
      (if x.time - x.apd_startTime > (x.apd_stimWindow : ℚ) ∧ x.apd_peakVoltage < x.voltage
        then x.time else x.apd_peakTime) ∧
    ((calculateAPD x 2).apd_mode = .DOWN →
      (calculateAPD x 2).apd_downstrokeThreshold =
        x.apd_peakVoltage -
          (x.apd_peakVoltage - x.apd_vmRest) * ((x.apd_repolPercent : ℚ) / 100) ∧
      x.time - x.apd_startTime > (x.apd_stimWindow : ℚ) ∧
      ¬ x.apd_peakVoltage < x.voltage ∧
      x.time - x.apd_peakTime > 5) := by
  unfold calculateAPD
  simp only [h]
  norm_num
  split_ifs <;> simp_all

/-- Phase 2 of the detector in DOWN or DONE does not return to PEAK. -/
theorem calculateAPD_after_peak (x : Module)
    (h : x.apd_mode = .DOWN ∨ x.apd_mode = .DONE) :
    (calculateAPD x 2).apd_mode = .DOWN ∨ (calculateAPD x 2).apd_mode = .DONE := by
  unfold calculateAPD
  norm_num
  rcases h with h | h
  · simp only [h]
    split_ifs <;> simp [h]
  · simp [h]

/-- A call between the upstroke and the end of the beat, seen from the
detector: phase 2 applied to a state that holds the new sample, the advanced
time and the detector of the state before the call. -/
theorem detector_step_between (s : Module) (inp : ℕ → StepInput) (k d : ℕ)
    (hrun : ∀ n : ℕ, k ≤ n → n ≤ k + d + 1 →
      ((run s inp n).execute_mode = .PACE ∨ (run s inp n).execute_mode = .RRCTHRESHOLD ∨
        (run s inp n).execute_mode = .RRCPROTOCOL))
    (hbeat : ∀ j : ℕ, 1 ≤ j → j ≤ d →
      (run s inp (k + j + 1)).beatNumber = (run s inp (k + j)).beatNumber)
    (j : ℕ) (hj : j < d) :
    ∃ x : Module, run s inp (k + 1 + (j + 1)) = calculateAPD x 2 ∧
      x.time = (run s inp (k + 1 + j)).time + (run s inp (k + 1 + j)).period ∧
      x.apd_mode = (run s inp (k + 1 + j)).apd_mode ∧
      x.apd_vmRest = (run s inp (k + 1 + j)).apd_vmRest ∧
      x.apd_peakVoltage = (run s inp (k + 1 + j)).apd_peakVoltage ∧
      x.apd_peakTime = (run s inp (k + 1 + j)).apd_peakTime ∧
      x.apd_startTime = (run s inp (k + 1 + j)).apd_startTime := by
  have hr : run s inp (k + 1 + (j + 1)) = execute (run s inp (k + 1 + j)) (inp (k + 1 + j)) := rfl
  have hafter : (run s inp (k + 1 + (j + 1))).execute_mode ≠ .IDLE := by
    intro h
    rcases hrun (k + 1 + (j + 1)) (by omega) (by omega) with h2 | h2 | h2 <;> rw [h] at h2 <;>
      exact absurd h2 (by decide)
  have hb := hbeat (j + 1) (by omega) (by omega)
  rw [show k + (j + 1) + 1 = k + 1 + (j + 1) by omega, show k + (j + 1) = k + 1 + j by omega] at hb
  have hmode := hrun (k + 1 + j) (by omega) (by omega)
  rw [hr] at hafter hb ⊢
  obtain ⟨x, hx, x1, -, x3, x4, x5, x6, x7, -, -⟩ :=
    execute_detector_same_beat (run s inp (k + 1 + j)) (inp (k + 1 + j)) hmode hafter hb
  exact ⟨x, hx, x1, x3, x4, x5, x6, x7⟩

/-- Between the upstroke and a state in PEAK of the same beat the detector is in
PEAK. -/
theorem peak_phase_modes (s : Module) (inp : ℕ → StepInput) (k d : ℕ)
    (hrun : ∀ n : ℕ, k ≤ n → n ≤ k + d + 1 →
      ((run s inp n).execute_mode = .PACE ∨ (run s inp n).execute_mode = .RRCTHRESHOLD ∨
        (run s inp n).execute_mode = .RRCPROTOCOL))
    (hup : (run s inp k).apd_mode = .START ∧ (run s inp (k + 1)).apd_mode = .PEAK)
    (hbeat : ∀ j : ℕ, 1 ≤ j → j ≤ d →
      (run s inp (k + j + 1)).beatNumber = (run s inp (k + j)).beatNumber)
    (hpeak : (run s inp (k + d)).apd_mode = .PEAK)
    (j : ℕ) (hj : j < d) :
    (run s inp (k + 1 + j)).apd_mode = .PEAK := by
  by_contra hne
  have hns := (detector_between s inp k d hrun hup hbeat j hj).2.2.2
  have hq : (run s inp (k + 1 + j)).apd_mode = .DOWN ∨ (run s inp (k + 1 + j)).apd_mode = .DONE := by
    cases hm : (run s inp (k + 1 + j)).apd_mode
    · exact absurd hm hns
    · exact absurd hm hne
    · exact Or.inl rfl
    · exact Or.inr rfl
  have fwd : ∀ e : ℕ, j + e < d →
      ((run s inp (k + 1 + (j + e))).apd_mode = .DOWN ∨
        (run s inp (k + 1 + (j + e))).apd_mode = .DONE) := by
    intro e
    induction e with
    | zero =>
      intro _
      exact hq
    | succ e ih =>
      intro he
      have hprev := ih (by omega)
      obtain ⟨x, hx, -, x2, -, -, -, -⟩ :=
        detector_step_between s inp k d hrun hbeat (j + e) (by omega)
      rw [show k + 1 + (j + (e + 1)) = k + 1 + (j + e + 1) by omega, hx]
      exact calculateAPD_after_peak x (by rw [x2]; exact hprev)
  have hend := fwd (d - 1 - j) (by omega)
  rw [show k + 1 + (j + (d - 1 - j)) = k + d by omega, hpeak] at hend
  rcases hend with h | h <;> exact absurd h (by decide)

/-- The peak voltage and the peak time between the upstroke and a state in
PEAK of the same beat: the peak voltage is the running maximum seeded with the
resting voltage, the peak time is the time of the last new peak once one was
observed, and the resting voltage is the one of the upstroke. -/
theorem peak_phase_invariant (s : Module) (inp : ℕ → StepInput) (k d : ℕ)
    (hrun : ∀ n : ℕ, k ≤ n → n ≤ k + d + 1 →
      ((run s inp n).execute_mode = .PACE ∨ (run s inp n).execute_mode = .RRCTHRESHOLD ∨
        (run s inp n).execute_mode = .RRCPROTOCOL))
    (hup : (run s inp k).apd_mode = .START ∧ (run s inp (k + 1)).apd_mode = .PEAK)
    (hbeat : ∀ j : ℕ, 1 ≤ j → j ≤ d →
      (run s inp (k + j + 1)).beatNumber = (run s inp (k + j)).beatNumber)
    (hpeak : (run s inp (k + d)).apd_mode = .PEAK)
    (j : ℕ) (hj : j < d) :
    (run s inp (k + 1 + j)).apd_peakVoltage = (spec_peakTrack s inp k j).1 ∧
    (∀ t : ℚ, (spec_peakTrack s inp k j).2 = some t →
      (run s inp (k + 1 + j)).apd_peakTime = t) ∧
    (run s inp (k + 1 + j)).apd_vmRest = (run s inp (k + 1)).apd_vmRest := by
  have hC := calculateAPD_frame
  induction j with
  | zero =>
    have hr : run s inp (k + 1) = execute (run s inp k) (inp k) := rfl
    have hafter : (run s inp (k + 1)).execute_mode ≠ .IDLE := by
      intro h
      rcases hrun (k + 1) (by omega) (by omega) with h2 | h2 | h2 <;> rw [h] at h2 <;>
        exact absurd h2 (by decide)
    rw [hr] at hafter
    obtain ⟨x, hx, -, -, -, -, x5, -⟩ := execute_detector (run s inp k) (inp k)
      (hrun k (le_refl _) (by omega)) hafter
    have hxs : x.apd_mode = .START := by
      rcases x5 with h | h
      · rw [h, hup.1]
      · exact h
    have hp : (calculateAPD x 2).apd_mode = .PEAK := by rw [← hx, ← hr]; exact hup.2
    have hseed := calculateAPD_upstroke_seed x hxs hp
    rw [← hx, ← hr] at hseed
    refine ⟨hseed, ?_, rfl⟩
    intro t ht
    exact absurd ht (by simp [spec_peakTrack])
  | succ j ih =>
    obtain ⟨i1, i2, i3⟩ := ih (by omega)
    obtain ⟨b1, -, -, -⟩ := detector_between s inp k d hrun hup hbeat j (by omega)
    have hm := peak_phase_modes s inp k d hrun hup hbeat hpeak j (by omega)
    obtain ⟨x, hx, -, x2, x3, x4, x5, x6⟩ :=
      detector_step_between s inp k d hrun hbeat j (by omega)
    obtain ⟨c1, c2, -⟩ := calculateAPD_peak x (by rw [x2]; exact hm)
    have f1 : (calculateAPD x 2).time = x.time := (calculateAPD_clock x 2).1
    have f2 : (calculateAPD x 2).voltage = x.voltage := by simp only [hC]
    have f3 : (calculateAPD x 2).apd_stimWindow = x.apd_stimWindow := by simp only [hC]
    have f4 : (calculateAPD x 2).apd_vmRest = x.apd_vmRest := by simp only [hC]
    have e1 : spec_peakTrack s inp k (j + 1) =
        if x.time - (run s inp (k + 1)).time > (x.apd_stimWindow : ℚ) ∧
            (spec_peakTrack s inp k j).1 < x.voltage then
          (x.voltage, some x.time)
        else spec_peakTrack s inp k j := by
      rw [spec_peakTrack, hx, f1, f2, f3]
    rw [x6, b1, x4, i1] at c1 c2
    rw [hx, e1, c1, c2, f4, x3, i3]
    refine ⟨?_, ?_, rfl⟩
    · split_ifs <;> rfl
    · intro t ht
      split_ifs at ht ⊢ with hc
      · simpa using ht
      · rw [x5]
        exact i2 t ht

/-- C18 (amended): the PEAK phase of the APD detector in PACE, RRCTHRESHOLD or
RRCPROTOCOL. If the call number k moves the detector from START to PEAK and, in
the same beat and with the protocol still running, the call number k + d moves
it from PEAK to DOWN, then the downstroke threshold set by that call is
peak - (peak - resting) * repolPercent / 100, where resting is the resting
voltage of the beat and peak is the running maximum, SEEDED WITH THE RESTING
VOLTAGE, of the voltages sampled outside the artifact window since the
upstroke; the call lies after the artifact window; and when a new peak above
the seed was observed in this beat, the call lies more than 5 ms after the
last one. -/
theorem peak_phase_threshold (s : Module) (inp : ℕ → StepInput) (k d : ℕ)
    (hrun : (run s inp (k + d + 1)).execute_mode = .PACE ∨
      (run s inp (k + d + 1)).execute_mode = .RRCTHRESHOLD ∨
      (run s inp (k + d + 1)).execute_mode = .RRCPROTOCOL)
    (hup : (run s inp k).apd_mode = .START ∧ (run s inp (k + 1)).apd_mode = .PEAK)
    (hbeat : (run s inp (k + d + 1)).beatNumber = (run s inp (k + 1)).beatNumber)
    (hdown : (run s inp (k + d)).apd_mode = .PEAK ∧ (run s inp (k + d + 1)).apd_mode = .DOWN) :
    (run s inp (k + d + 1)).apd_downstrokeThreshold =
      (spec_peakTrack s inp k d).1 -
        ((spec_peakTrack s inp k d).1 - (run s inp (k + 1)).apd_vmRest) *
          (((run s inp (k + d + 1)).apd_repolPercent : ℚ) / 100) ∧
    (run s inp (k + d + 1)).apd_vmRest = (run s inp (k + 1)).apd_vmRest ∧
    (run s inp (k + d + 1)).time - (run s inp (k + 1)).time >
      ((run s inp (k + d + 1)).apd_stimWindow : ℚ) ∧
    (∀ t : ℚ, (spec_peakTrack s inp k d).2 = some t →
      (run s inp (k + d + 1)).time - t > 5) := by
  have hC := calculateAPD_frame
  have hd : 1 ≤ d := by
    rcases Nat.eq_zero_or_pos d with h | h
    · exfalso
      rw [h, Nat.add_zero, hup.1] at hdown
      exact absurd hdown.1 (by decide)
    · exact h
  have hnotidle : (run s inp (k + d + 1)).execute_mode ≠ .IDLE := by
    intro h
    rcases hrun with h2 | h2 | h2 <;> rw [h] at h2 <;> exact absurd h2 (by decide)
  have hmodes : ∀ n : ℕ, k ≤ n → n ≤ k + d + 1 →
      ((run s inp n).execute_mode = .PACE ∨ (run s inp n).execute_mode = .RRCTHRESHOLD ∨
        (run s inp n).execute_mode = .RRCPROTOCOL) := by
    intro n h1 h2
    obtain ⟨e, he⟩ : ∃ e : ℕ, k + d + 1 = n + e := ⟨k + d + 1 - n, by omega⟩
    rw [he] at hrun hnotidle
    rw [run_mode_back s inp n e hnotidle]
    exact hrun
  have hbeats : ∀ j : ℕ, 1 ≤ j → j ≤ d →
      (run s inp (k + j + 1)).beatNumber = (run s inp (k + j)).beatNumber := by
    intro j h1 h2
    have a1 := run_beat_mono s inp (k + 1) (j - 1)
    have a2 := run_beat_mono s inp (k + j) 1
    have a3 := run_beat_mono s inp (k + j + 1) (d - j)
    rw [show k + 1 + (j - 1) = k + j by omega] at a1
    rw [show k + j + 1 + (d - j) = k + d + 1 by omega, hbeat] at a3
    exact le_antisymm (le_trans a3 a1) a2
  obtain ⟨e, rfl⟩ : ∃ e : ℕ, d = e + 1 := ⟨d - 1, by omega⟩
  obtain ⟨hpk, hdn⟩ := hdown
  obtain ⟨i1, i2, i3⟩ := peak_phase_invariant s inp k (e + 1) hmodes hup hbeats hpk e (by omega)
  obtain ⟨b1, -, -, -⟩ := detector_between s inp k (e + 1) hmodes hup hbeats e (by omega)
  obtain ⟨x, hx, -, x2, x3, x4, x5, x6⟩ :=
    detector_step_between s inp k (e + 1) hmodes hbeats e (by omega)
  have hidx : k + (e + 1) + 1 = k + 1 + (e + 1) := by omega
  have hidx2 : k + (e + 1) = k + 1 + e := by omega
  rw [hidx2] at hpk
  rw [hidx] at hdn ⊢
  rw [hx] at hdn
  obtain ⟨-, -, c3⟩ := calculateAPD_peak x (by rw [x2]; exact hpk)
  obtain ⟨t1, t2, t3, t4⟩ := c3 hdn
  have f1 : (calculateAPD x 2).time = x.time := (calculateAPD_clock x 2).1
  have f2 : (calculateAPD x 2).voltage = x.voltage := by simp only [hC]
  have f3 : (calculateAPD x 2).apd_stimWindow = x.apd_stimWindow := by simp only [hC]
  have f4 : (calculateAPD x 2).apd_vmRest = x.apd_vmRest := by simp only [hC]
  have f5 : (calculateAPD x 2).apd_repolPercent = x.apd_repolPercent := by simp only [hC]
  rw [x4, i1] at t3
  have e1 : spec_peakTrack s inp k (e + 1) = spec_peakTrack s inp k e := by
    rw [spec_peakTrack, hx, f2]
    rw [if_neg]
    intro h
    exact t3 h.2
  rw [hx, e1, t1, f1, f3, f4, f5, x3, x4, i1, i3]
  rw [x6, b1] at t2
  refine ⟨rfl, rfl, t2, ?_⟩
  intro t ht
  rw [x5, i2 t ht] at t4
  exact t4

/-- C18, witness: pacing at 1 ms with a cycle of 20 ticks and an upstroke
threshold of -40 mV, on a trace that rests at -80 mV and rises to 20 mV at
call 21. Call 21 is the upstroke, call 26 (the first outside the window of
4 ms) observes the peak 20 mV, and call 32, 6 ms later, moves to DOWN with the
threshold 20 - (20 - (-80)) * 90 / 100 = -70 mV. -/
theorem peak_phase_threshold_witness :
    ((run (toggle_pace detectorModule true 1000000) spikeTrace (21 + 11 + 1)
        ).apd_downstrokeThreshold =
        (spec_peakTrack (toggle_pace detectorModule true 1000000) spikeTrace 21 11).1 -
          ((spec_peakTrack (toggle_pace detectorModule true 1000000) spikeTrace 21 11).1 -
            (run (toggle_pace detectorModule true 1000000) spikeTrace (21 + 1)).apd_vmRest) *
            (((run (toggle_pace detectorModule true 1000000) spikeTrace (21 + 11 + 1)
              ).apd_repolPercent : ℚ) / 100) ∧
      (run (toggle_pace detectorModule true 1000000) spikeTrace (21 + 11 + 1)).apd_vmRest =
        (run (toggle_pace detectorModule true 1000000) spikeTrace (21 + 1)).apd_vmRest ∧
      (run (toggle_pace detectorModule true 1000000) spikeTrace (21 + 11 + 1)).time -
          (run (toggle_pace detectorModule true 1000000) spikeTrace (21 + 1)).time >
        ((run (toggle_pace detectorModule true 1000000) spikeTrace (21 + 11 + 1)
          ).apd_stimWindow : ℚ) ∧
      (∀ t : ℚ,
        (spec_peakTrack (toggle_pace detectorModule true 1000000) spikeTrace 21 11).2 = some t →
        (run (toggle_pace detectorModule true 1000000) spikeTrace (21 + 11 + 1)).time - t > 5)) ∧
    spec_peakTrack (toggle_pace detectorModule true 1000000) spikeTrace 21 11 = (20, some 26) ∧
    (run (toggle_pace detectorModule true 1000000) spikeTrace 22).apd_vmRest = -80 ∧
    (run (toggle_pace detectorModule true 1000000) spikeTrace 33).time = 32 ∧
    (run (toggle_pace detectorModule true 1000000) spikeTrace 33).apd_downstrokeThreshold = -70 :=
  ⟨peak_phase_threshold (toggle_pace detectorModule true 1000000) spikeTrace 21 11
      (Or.inl (by decide!)) ⟨by decide!, by decide!⟩ (by decide!) ⟨by decide!, by decide!⟩,
    by decide!, by decide!, by decide!, by decide!⟩

/-- C18, counterexample: the same pacing on a trace with a failed stimulus:
rest at -80 mV, a stimulus artifact of -30 mV at the calls 21 and 22 (the
upstroke, inside the window), and -85 mV afterwards. The only voltage sampled
outside the artifact window up to the move is -85 mV (call 26); with that
running maximum the claim gives the threshold
-85 - (-85 - (-80)) * 90 / 100 = -80.5 mV. Call 26 moves to DOWN with the
threshold -80 mV: the peak is the seed, the resting voltage. No new peak was
observed in this beat; the peak time the step compares with is the one the
object was created with. -/
theorem peak_phase_threshold_counterexample :
    (run (toggle_pace detectorModule true 1000000) failedTrace 21).apd_mode = .START ∧
    (run (toggle_pace detectorModule true 1000000) failedTrace 22).apd_mode = .PEAK ∧
    (run (toggle_pace detectorModule true 1000000) failedTrace 22).apd_startTime = 21 ∧
    (run (toggle_pace detectorModule true 1000000) failedTrace 22).apd_vmRest = -80 ∧
    (run (toggle_pace detectorModule true 1000000) failedTrace 22).apd_stimWindow = 4 ∧
    (∀ n, 22 ≤ n → n < 27 →
      (run (toggle_pace detectorModule true 1000000) failedTrace n).apd_mode = .PEAK ∧
      (run (toggle_pace detectorModule true 1000000) failedTrace (n + 1)).beatNumber =
        (run (toggle_pace detectorModule true 1000000) failedTrace 22).beatNumber) ∧
    (run (toggle_pace detectorModule true 1000000) failedTrace 26).time = 25 ∧
    (run (toggle_pace detectorModule true 1000000) failedTrace 27).time = 26 ∧
    (run (toggle_pace detectorModule true 1000000) failedTrace 27).voltage = -85 ∧
    (run (toggle_pace detectorModule true 1000000) failedTrace 27).execute_mode = .PACE ∧
    (run (toggle_pace detectorModule true 1000000) failedTrace 27).apd_mode = .DOWN ∧
    (run (toggle_pace detectorModule true 1000000) failedTrace 27).apd_repolPercent = 90 ∧
    (run (toggle_pace detectorModule true 1000000) failedTrace 27).apd_downstrokeThreshold
      = -80 ∧
    (run (toggle_pace detectorModule true 1000000) failedTrace 27).apd_downstrokeThreshold ≠
      -85 - (-85 - (-80)) * (90 / 100) ∧
    (run (toggle_pace detectorModule true 1000000) failedTrace 27).apd_peakVoltage = -80 ∧
    (run (toggle_pace detectorModule true 1000000) failedTrace 27).apd_peakTime =
      (toggle_pace detectorModule true 1000000).apd_peakTime := by
  refine ⟨by decide!, by decide!, by decide!, by decide!, by decide!, by decide!, by decide!,
    by decide!, by decide!, by decide!, by decide!, by decide!, by decide!, by decide!,
    by decide!, by decide!⟩

/-! ## The upstroke threshold -/

/-- One step of the engine writes neither the upstroke threshold nor the
activity of the thread. -/
theorem execute_keeps_threshold (m : Module) (inp : StepInput) :
    (execute m inp).apd_upstrokeThreshold = m.apd_upstrokeThreshold ∧
    (execute m inp).active = m.active := by
  have hC := calculateAPD_frame
  have hR := startRecordingAtZero_frame
  cases hmode : m.execute_mode
  · rw [execute_of_IDLE m inp hmode]
    simp
  · have hS := search_STIMTHRESHOLD_frame
    rw [execute_of_STIMTHRESHOLD m inp hmode]
    unfold execute_STIMTHRESHOLD
    simp [hS, hR, advanceClock]
  · have hS := stimulus_PACE_frame
    have hB := beat_PACE_frame
    rw [execute_of_PACE m inp hmode]
    unfold execute_PACE
    simp [hC, hS, hB, hR, advanceClock]
  · have hO := output_RRCTHRESHOLD_frame
    have hN := newBeat_RRCTHRESHOLD_frame
    have hK := compare_RRCTHRESHOLD_frame
    have hF := finish_RRCTHRESHOLD_frame
    rw [execute_of_RRCTHRESHOLD m inp hmode]
    unfold execute_RRCTHRESHOLD
    dsimp only
    split_ifs <;> simp [hC, hO, hN, hK, hF, hR, advanceClock]
  · have hO := output_RRCPROTOCOL_frame
    have hN := newBeat_RRCPROTOCOL_frame
    have hF := finish_RRCPROTOCOL_frame
    rw [execute_of_RRCPROTOCOL m inp hmode]
    unfold execute_RRCPROTOCOL
    dsimp only
    split_ifs <;> simp [hC, hO, hN, hF, hR, advanceClock]

/-- The cancel branch of the toggle functions does not write the detector. -/
theorem cancelProtocol_detector (m : Module) :
    (cancelProtocol m).apd_upstrokeThreshold = m.apd_upstrokeThreshold ∧
    (cancelProtocol m).apd = m.apd ∧ (cancelProtocol m).active = false := by
  unfold cancelProtocol
  dsimp only
  split_ifs <;> exact ⟨rfl, rfl, rfl⟩

/-- The four toggle functions, pressed or released, do not write the upstroke
threshold. -/
theorem toggle_keeps_threshold (m : Module) (checked : Bool) (ns : ℤ) (v : ℚ) :
    (toggle_stimThreshold m checked ns v).apd_upstrokeThreshold = m.apd_upstrokeThreshold ∧
    (toggle_pace m checked ns).apd_upstrokeThreshold = m.apd_upstrokeThreshold ∧
    (toggle_rrcThreshold m checked ns).apd_upstrokeThreshold = m.apd_upstrokeThreshold ∧
    (toggle_rrcProtocol m checked ns).apd_upstrokeThreshold = m.apd_upstrokeThreshold := by
  have hK := cancelProtocol_detector
  have hT := reset_frame
  refine ⟨?_, ?_, ?_, ?_⟩
  · unfold toggle_stimThreshold
    dsimp only
    split_ifs <;> simp [hK, hT]
  · unfold toggle_pace
    dsimp only
    split_ifs <;> simp [hK, hT]
  · unfold toggle_rrcThreshold
    dsimp only
    split_ifs <;> simp [hK, hT]
  · unfold toggle_rrcProtocol
    dsimp only
    split_ifs <;> simp [hK, hT]

/-- Phase 2 of the detector in START moves to PEAK exactly when the voltage has
reached the upstroke threshold. -/
theorem calculateAPD_start_test (m : Module) (h : m.apd_mode = .START) :
    (calculateAPD m 2).apd_mode = .PEAK ↔ m.voltage ≥ m.apd_upstrokeThreshold := by
  unfold calculateAPD
  simp only [h]
  norm_num
  split_ifs <;> simp_all

/-- C21: the upstroke threshold is never written. In every state reachable
from a new object (by initialize, modifications of the parameters, the four
buttons pressed or released with any period, and steps in any mode) the
upstroke threshold is the value the memory of the object held before
initialize; the two phases of the detector and the reset leave it as it is;
and in START phase 2 moves to PEAK exactly when the voltage is at or above
it. -/
theorem upstroke_threshold_never_written (m0 m : Module) (h : ReachableFrom m0 m) :
    m.apd_upstrokeThreshold = m0.apd_upstrokeThreshold ∧
    (∀ step : ℤ, (calculateAPD m step).apd_upstrokeThreshold = m.apd_upstrokeThreshold) ∧
    (∀ ns : ℤ, (reset m ns).apd_upstrokeThreshold = m.apd_upstrokeThreshold) ∧
    (m.apd_mode = .START →
      ((calculateAPD m 2).apd_mode = .PEAK ↔ m.voltage ≥ m.apd_upstrokeThreshold)) := by
  have hC := calculateAPD_frame
  have hT := reset_frame
  refine ⟨?_, fun step => by simp only [hC], fun ns => by simp only [hT],
    calculateAPD_start_test m⟩
  induction h with
  | init => rfl
  | modify m g _ ih => exact ih
  | toggle_stimThreshold m c ns v _ ih =>
    rw [(toggle_keeps_threshold m c ns v).1]
    exact ih
  | toggle_pace m c ns _ ih =>
    rw [(toggle_keeps_threshold m c ns 0).2.1]
    exact ih
  | toggle_rrcThreshold m c ns _ ih =>
    rw [(toggle_keeps_threshold m c ns 0).2.2.1]
    exact ih
  | toggle_rrcProtocol m c ns _ ih =>
    rw [(toggle_keeps_threshold m c ns 0).2.2.2]
    exact ih
  | step m inp _ ih =>
    rw [(execute_keeps_threshold m inp).1]
    exact ih

/-- C21, witness: a new object whose memory holds an upstroke threshold of
-40 mV; after initialize, a modification of every parameter (liquid junction
potential 10 mV, cycle 500 ms), the start of the pace protocol at 1 ms and 21
steps on a preparation at 0 V (working voltage -10 mV), the threshold is still
-40 mV. -/
theorem upstroke_threshold_never_written_witness :
    ReachableFrom rawModule
      (run (toggle_pace (modify (initialise rawModule) otherGuiValues) true 1000000) quiet 21) ∧
    (run (toggle_pace (modify (initialise rawModule) otherGuiValues) true 1000000) quiet 21
      ).apd_upstrokeThreshold = rawModule.apd_upstrokeThreshold ∧
    rawModule.apd_upstrokeThreshold = -40 ∧
    (run (toggle_pace (modify (initialise rawModule) otherGuiValues) true 1000000) quiet 21
      ).voltage = -10 ∧
    (run (toggle_pace (modify (initialise rawModule) otherGuiValues) true 1000000) quiet 21
      ).bcl = 500 :=
  have hrun : ∀ (s : Module) (n : ℕ), ReachableFrom rawModule s →
      ReachableFrom rawModule (run s quiet n) := by
    intro s n hs
    induction n with
    | zero => exact hs
    | succ n ih => exact ReachableFrom.step _ _ ih
  have hreach := hrun _ 21
    (ReachableFrom.toggle_pace _ true 1000000
      (ReachableFrom.modify _ otherGuiValues ReachableFrom.init))
  ⟨hreach, (upstroke_threshold_never_written rawModule _ hreach).1, by decide!, by decide!,
    by decide!⟩

/-! ## The sign of the reported APD -/

/-- The detector mode after the beat boundary of PACE: it is kept, or it was
not DOWN and is reset to START. -/
theorem beat_PACE_apd_mode_down (m : Module) :
    (beat_PACE m).apd_mode = m.apd_mode ∨
      (m.apd_mode ≠ .DOWN ∧ (beat_PACE m).apd_mode = .START) := by
  have hM := restartAPD_mode
  unfold beat_PACE
  split_ifs with hb
  · rw [hM]
    dsimp only
    split_ifs with hd
    · exact Or.inr ⟨hd, rfl⟩
    · exact Or.inl rfl
  · exact Or.inl rfl

/-- The detector mode after a new beat of the threshold search: it is kept, or
it was not DOWN and is reset to START. -/
theorem newBeat_RRCTHRESHOLD_apd_mode_down (m : Module) :
    (newBeat_RRCTHRESHOLD m).apd_mode = m.apd_mode ∨
      (m.apd_mode ≠ .DOWN ∧ (newBeat_RRCTHRESHOLD m).apd_mode = .START) := by
  have hI := setInjectionWindow_frame
  have hM := restartAPD_mode
  unfold newBeat_RRCTHRESHOLD
  simp only [hI, hM]
  split_ifs with hd
  · exact Or.inr ⟨hd, rfl⟩
  · exact Or.inl rfl

/-- The detector mode after a new beat of the randomized protocol: it is kept,
or it was not DOWN and is reset to START. -/
theorem newBeat_RRCPROTOCOL_apd_mode_down (m : Module) (inp : StepInput) :
    (newBeat_RRCPROTOCOL m inp).apd_mode = m.apd_mode ∨
      (m.apd_mode ≠ .DOWN ∧ (newBeat_RRCPROTOCOL m inp).apd_mode = .START) := by
  have hI := setInjectionWindow_frame
  have hM := restartAPD_mode
  unfold newBeat_RRCPROTOCOL
  simp only [hI, hM]
  split_ifs with hd
  · exact Or.inr ⟨hd, rfl⟩
  · exact Or.inl rfl

/-- One step of the engine, seen from the detector: either the step does not
run the detector (IDLE, the stimulus threshold search, the end of a protocol),
and then the APD, the detector mode, the start time and the period are kept and
the time stands still or grows by one period; or the step is phase 2 of the
detector applied to a state in which the time has grown by one period, the
start time, the APD and the period are kept, and the mode is kept or, when it
was not DOWN, reset to START. -/
theorem execute_detector_cases (m : Module) (inp : StepInput) :
    ((execute m inp).apd = m.apd ∧ (execute m inp).apd_mode = m.apd_mode ∧
      (execute m inp).apd_startTime = m.apd_startTime ∧ (execute m inp).period = m.period ∧
      ((execute m inp).time = m.time ∨ (execute m inp).time = m.time + m.period)) ∨
    (∃ x : Module, execute m inp = calculateAPD x 2 ∧
      x.time = m.time + m.period ∧ x.period = m.period ∧
      x.apd_startTime = m.apd_startTime ∧ x.apd = m.apd ∧
      (x.apd_mode = m.apd_mode ∨ (m.apd_mode ≠ .DOWN ∧ x.apd_mode = .START))) := by
  have hC := calculateAPD_frame
  have hR := startRecordingAtZero_frame
  cases hmode : m.execute_mode
  · left
    rw [execute_of_IDLE m inp hmode]
    simp
  · left
    have hS := search_STIMTHRESHOLD_frame
    rw [execute_of_STIMTHRESHOLD m inp hmode]
    unfold execute_STIMTHRESHOLD
    simp [hS, hR, advanceClock]
  · right
    have hS := stimulus_PACE_frame
    have hB := beat_PACE_frame
    rw [execute_of_PACE m inp hmode]
    unfold execute_PACE
    dsimp only
    refine ⟨_, rfl, by simp [hS, hB, hR, advanceClock], by simp [hS, hB, hR, advanceClock],
      by simp [hS, hB, hR, advanceClock], by simp [hS, hB, hR, advanceClock], ?_⟩
    have := beat_PACE_apd_mode_down (startRecordingAtZero
      (advanceClock { m with voltage := inp.input0 * 1000 - m.ljp })
      (advanceClock { m with voltage := inp.input0 * 1000 - m.ljp }).pace_recordData)
    simpa [hS, hR, advanceClock] using this
  · have hO := output_RRCTHRESHOLD_frame
    have hN := newBeat_RRCTHRESHOLD_frame
    have hK := compare_RRCTHRESHOLD_frame
    have hF := finish_RRCTHRESHOLD_frame
    rw [execute_of_RRCTHRESHOLD m inp hmode]
    unfold execute_RRCTHRESHOLD
    dsimp only
    split_ifs
    · left
      simp [hF, hK, hR, advanceClock]
    · right
      refine ⟨_, rfl, by simp [hO, hN, hK, hR, advanceClock],
        by simp [hO, hN, hK, hR, advanceClock], by simp [hO, hN, hK, hR, advanceClock],
        by simp [hO, hN, hK, hR, advanceClock], ?_⟩
      have := newBeat_RRCTHRESHOLD_apd_mode_down (compare_RRCTHRESHOLD (startRecordingAtZero
        (advanceClock { m with voltage := inp.input0 * 1000 - m.ljp })
        (advanceClock { m with voltage := inp.input0 * 1000 - m.ljp }).thresh_recordData))
      simpa [hO, hK, hR, advanceClock] using this
    · right
      exact ⟨_, rfl, by simp [hO, hR, advanceClock], by simp [hO, hR, advanceClock],
        by simp [hO, hR, advanceClock], by simp [hO, hR, advanceClock],
        Or.inl (by simp [hO, hR, advanceClock])⟩
  · have hO := output_RRCPROTOCOL_frame
    have hN := newBeat_RRCPROTOCOL_frame
    have hF := finish_RRCPROTOCOL_frame
    rw [execute_of_RRCPROTOCOL m inp hmode]
    unfold execute_RRCPROTOCOL
    dsimp only
    split_ifs
    · left
      simp [hF, hR, advanceClock]
    · right
      refine ⟨_, rfl, by simp [hO, hN, hR, advanceClock],
        by simp [hO, hN, hR, advanceClock], by simp [hO, hN, hR, advanceClock],
        by simp [hO, hN, hR, advanceClock], ?_⟩
      have := newBeat_RRCPROTOCOL_apd_mode_down (startRecordingAtZero
        (advanceClock { m with voltage := inp.input0 * 1000 - m.ljp })
        (advanceClock { m with voltage := inp.input0 * 1000 - m.ljp }).rrcProtocol_recordData)
        inp
      simpa [hO, hR, advanceClock] using this
    · right
      exact ⟨_, rfl, by simp [hO, hR, advanceClock], by simp [hO, hR, advanceClock],
        by simp [hO, hR, advanceClock], by simp [hO, hR, advanceClock],
        Or.inl (by simp [hO, hR, advanceClock])⟩

/-- Phase 2 of the detector keeps the APD non-negative and the detector timed:
when the state it runs on has a positive period, lies one period after the
timed state before the step, and carries a non-negative APD. A move from DOWN
to DONE reports at least two periods. -/
theorem calculateAPD_timed (x : Module) (hapd : 0 ≤ x.apd) (hP : 0 < x.period)
    (hpeak : x.apd_mode = .PEAK → x.apd_startTime + x.period ≤ x.time)
    (hdown : x.apd_mode = .DOWN → x.apd_startTime + 2 * x.period ≤ x.time) :
    0 ≤ (calculateAPD x 2).apd ∧ detectorTimed (calculateAPD x 2) ∧
    (x.apd_mode = .DOWN → (calculateAPD x 2).apd_mode = .DONE →
      2 * x.period ≤ (calculateAPD x 2).apd) := by
  unfold detectorTimed calculateAPD
  rw [if_neg (by decide), if_pos rfl]
  cases hm : x.apd_mode
  · dsimp only
    split_ifs <;> (try dsimp only) <;> refine ⟨?_, ⟨hP, ?_, ?_⟩, ?_⟩ <;> intros <;>
      first | exact hapd | exact le_refl _ | (exfalso; simp_all)
  · have h1 := hpeak hm
    dsimp only
    split_ifs <;> (try dsimp only) <;> refine ⟨hapd, ⟨hP, ?_, ?_⟩, ?_⟩ <;> intros <;>
      first | linarith | (exfalso; simp_all)
  · have h2 := hdown hm
    dsimp only
    split_ifs <;> (try dsimp only) <;> refine ⟨?_, ⟨hP, ?_, ?_⟩, ?_⟩ <;> intros <;>
      first | linarith | (exfalso; simp_all)
  · dsimp only
    refine ⟨hapd, ⟨hP, ?_, ?_⟩, ?_⟩ <;> intros <;> (exfalso; simp_all)

/-- One step of the engine keeps the APD non-negative and the detector timed,
and a step that moves the detector from DOWN to DONE reports at least two
periods. -/
theorem execute_timed (m : Module) (inp : StepInput) (hapd : 0 ≤ m.apd)
    (ht : detectorTimed m) :
    0 ≤ (execute m inp).apd ∧ detectorTimed (execute m inp) ∧
    (m.apd_mode = .DOWN → (execute m inp).apd_mode = .DONE →
      2 * m.period ≤ (execute m inp).apd) := by
  obtain ⟨hP, hpk, hdn⟩ := ht
  rcases execute_detector_cases m inp with ⟨e1, e2, e3, e4, e5⟩ | ⟨x, hx, x1, x2, x3, x4, x5⟩
  · refine ⟨by rw [e1]; exact hapd, ?_, ?_⟩
    · unfold detectorTimed
      rw [e2, e3, e4]
      rcases e5 with e5 | e5 <;> rw [e5]
      · exact ⟨hP, hpk, hdn⟩
      · exact ⟨hP, fun h => by linarith [hpk h], fun h => by linarith [hdn h]⟩
    · intro h1 h2
      rw [e2, h1] at h2
      exact absurd h2 (by decide)
  · have hxP : 0 < x.period := by rw [x2]; exact hP
    have hxpeak : x.apd_mode = .PEAK → x.apd_startTime + x.period ≤ x.time := by
      intro h
      rw [x1, x2, x3]
      rcases x5 with h5 | ⟨-, h5⟩
      · rw [h5] at h
        linarith [hpk h]
      · rw [h5] at h
        exact absurd h (by decide)
    have hxdown : x.apd_mode = .DOWN → x.apd_startTime + 2 * x.period ≤ x.time := by
      intro h
      rw [x1, x2, x3]
      rcases x5 with h5 | ⟨-, h5⟩
      · rw [h5] at h
        linarith [hdn h]
      · rw [h5] at h
        exact absurd h (by decide)
    obtain ⟨c1, c2, c3⟩ := calculateAPD_timed x (by rw [x4]; exact hapd) hxP hxpeak hxdown
    rw [hx]
    refine ⟨c1, c2, ?_⟩
    intro h1 h2
    rw [← x2]
    refine c3 ?_ h2
    rcases x5 with h5 | ⟨h5, -⟩
    · rw [h5]; exact h1
    · exact absurd h1 h5

/-- A start command leaves the APD as it is and the detector timed when the
host reports a positive period: the thread is active, the period is positive
and the detector is in START. -/
theorem start_timed (m : Module) (ns : ℤ) (v : ℚ) (hns : 0 < ns) :
    ((toggle_stimThreshold m true ns v).apd = m.apd ∧
      detectorTimed (toggle_stimThreshold m true ns v)) ∧
    ((toggle_pace m true ns).apd = m.apd ∧ detectorTimed (toggle_pace m true ns)) ∧
    ((toggle_rrcThreshold m true ns).apd = m.apd ∧
      detectorTimed (toggle_rrcThreshold m true ns)) ∧
    ((toggle_rrcProtocol m true ns).apd = m.apd ∧
      detectorTimed (toggle_rrcProtocol m true ns)) := by
  have hT := reset_frame
  have hK := reset_clock
  have hpos : (0 : ℚ) < periodMs ns := (periodMs_sign ns).1 hns
  have hmode : ∀ (x : Module), (reset x ns).apd_mode = .START := by
    intro x
    unfold reset
    dsimp only
    rw [calculateAPD_one]
  unfold detectorTimed
  refine ⟨⟨?_, ?_, ?_, ?_⟩, ⟨?_, ?_, ?_, ?_⟩, ⟨?_, ?_, ?_, ?_⟩, ⟨?_, ?_, ?_, ?_⟩⟩
  · simp [toggle_stimThreshold, hT]
  · simpa [toggle_stimThreshold, hK] using hpos
  · simp [toggle_stimThreshold, hmode]
  · simp [toggle_stimThreshold, hmode]
  · simp [toggle_pace, hT]
  · simpa [toggle_pace, hK] using hpos
  · simp [toggle_pace, hmode]
  · simp [toggle_pace, hmode]
  · simp [toggle_rrcThreshold, hT]
  · simpa [toggle_rrcThreshold, hK] using hpos
  · simp [toggle_rrcThreshold, hmode]
  · simp [toggle_rrcThreshold, hmode]
  · simp [toggle_rrcProtocol, hT]
  · simpa [toggle_rrcProtocol, hK] using hpos
  · simp [toggle_rrcProtocol, hmode]
  · simp [toggle_rrcProtocol, hmode]

/-- A cancel command leaves the APD as it is and the thread inactive. -/
theorem cancel_apd (m : Module) (ns : ℤ) (v : ℚ) :
    ((toggle_stimThreshold m false ns v).apd = m.apd ∧
      (toggle_stimThreshold m false ns v).active = false) ∧
    ((toggle_pace m false ns).apd = m.apd ∧ (toggle_pace m false ns).active = false) ∧
    ((toggle_rrcThreshold m false ns).apd = m.apd ∧
      (toggle_rrcThreshold m false ns).active = false) ∧
    ((toggle_rrcProtocol m false ns).apd = m.apd ∧
      (toggle_rrcProtocol m false ns).active = false) := by
  have hK := cancelProtocol_detector
  refine ⟨⟨?_, ?_⟩, ⟨?_, ?_⟩, ⟨?_, ?_⟩, ⟨?_, ?_⟩⟩
  · simp [toggle_stimThreshold, hK]
  · simp [toggle_stimThreshold, hK]
  · simp [toggle_pace, hK]
  · simp [toggle_pace, hK]
  · simp [toggle_rrcThreshold, hK]
  · simp [toggle_rrcThreshold, hK]
  · simp [toggle_rrcProtocol, hK]
  · simp [toggle_rrcProtocol, hK]

/-- In every state reached in use the APD is not negative, and while the
thread is active the detector is timed. -/
theorem inUse_timed (m : Module) (h : ReachableInUse m) :
    0 ≤ m.apd ∧ (m.active = true → detectorTimed m) := by
  induction h with
  | init m hm =>
    refine ⟨le_refl _, fun ha => ?_⟩
    rw [show (initialise m).active = m.active from rfl, hm] at ha
    exact absurd ha (by decide)
  | modify m g _ ih => exact ih
  | start_stimThreshold m ns v hns _ ih =>
    obtain ⟨⟨h1, h2⟩, -⟩ := start_timed m ns v hns
    exact ⟨by rw [h1]; exact ih.1, fun _ => h2⟩
  | start_pace m ns hns _ ih =>
    obtain ⟨-, ⟨h1, h2⟩, -⟩ := start_timed m ns 0 hns
    exact ⟨by rw [h1]; exact ih.1, fun _ => h2⟩
  | start_rrcThreshold m ns hns _ ih =>
    obtain ⟨-, -, ⟨h1, h2⟩, -⟩ := start_timed m ns 0 hns
    exact ⟨by rw [h1]; exact ih.1, fun _ => h2⟩
  | start_rrcProtocol m ns hns _ ih =>
    obtain ⟨-, -, -, ⟨h1, h2⟩⟩ := start_timed m ns 0 hns
    exact ⟨by rw [h1]; exact ih.1, fun _ => h2⟩
  | cancel_stimThreshold m ns v _ ih =>
    obtain ⟨⟨h1, h2⟩, -⟩ := cancel_apd m ns v
    exact ⟨by rw [h1]; exact ih.1, fun ha => absurd (h2.symm.trans ha) (by decide)⟩
  | cancel_pace m ns _ ih =>
    obtain ⟨-, ⟨h1, h2⟩, -⟩ := cancel_apd m ns 0
    exact ⟨by rw [h1]; exact ih.1, fun ha => absurd (h2.symm.trans ha) (by decide)⟩
  | cancel_rrcThreshold m ns _ ih =>
    obtain ⟨-, -, ⟨h1, h2⟩, -⟩ := cancel_apd m ns 0
    exact ⟨by rw [h1]; exact ih.1, fun ha => absurd (h2.symm.trans ha) (by decide)⟩
  | cancel_rrcProtocol m ns _ ih =>
    obtain ⟨-, -, -, ⟨h1, h2⟩⟩ := cancel_apd m ns 0
    exact ⟨by rw [h1]; exact ih.1, fun ha => absurd (h2.symm.trans ha) (by decide)⟩
  | step m inp ha _ ih =>
    obtain ⟨e1, e2, -⟩ := execute_timed m inp ih.1 (ih.2 ha)
    exact ⟨e1, fun _ => e2⟩

/-- A run of steps from a state reached in use with an active thread stays
among the states reached in use, with the thread active. -/
theorem inUse_run (m : Module) (inp : ℕ → StepInput) (h : ReachableInUse m)
    (ha : m.active = true) (n : ℕ) :
    ReachableInUse (run m inp n) ∧ (run m inp n).active = true := by
  induction n with
  | zero => exact ⟨h, ha⟩
  | succ n ih =>
    have hr : run m inp (n + 1) = execute (run m inp n) (inp n) := rfl
    rw [hr]
    exact ⟨ReachableInUse.step _ _ ih.2 ih.1,
      by rw [(execute_keeps_threshold _ _).2]; exact ih.2⟩

/-- The comparison at a beat boundary leaves the baseline as it is or replaces
it by the current APD. -/
theorem compare_RRCTHRESHOLD_baseline (m : Module) :
    (compare_RRCTHRESHOLD m).thresh_previousAPD = m.thresh_previousAPD ∨
      (compare_RRCTHRESHOLD m).thresh_previousAPD = m.apd := by
  unfold compare_RRCTHRESHOLD
  split_ifs
  · exact Or.inr rfl
  · exact Or.inl rfl
  · exact Or.inl rfl
  · exact Or.inr rfl
  · exact Or.inl rfl

/-- One step of the engine leaves the baseline of the RRC threshold search as
it is or replaces it by the APD before the step; at a beat boundary of an
injection beat in RRCTHRESHOLD a negative baseline is replaced. -/
theorem execute_baseline (m : Module) (inp : StepInput) :
    ((execute m inp).thresh_previousAPD = m.thresh_previousAPD ∨
      (execute m inp).thresh_previousAPD = m.apd) ∧
    (m.execute_mode = .RRCTHRESHOLD → m.time_int + 1 - m.bcl_startTime ≥ m.bcl_int →
      m.beatNumber_int.tmod m.thresh_beatNumber = 0 → m.thresh_previousAPD < 0 →
      (execute m inp).thresh_previousAPD = m.apd) := by
  have hC := calculateAPD_frame
  have hR := startRecordingAtZero_frame
  constructor
  · cases hmode : m.execute_mode
    · left
      rw [execute_of_IDLE m inp hmode]
    · left
      have hS := search_STIMTHRESHOLD_frame
      rw [execute_of_STIMTHRESHOLD m inp hmode]
      unfold execute_STIMTHRESHOLD
      simp [hS, hR, advanceClock]
    · left
      have hS := stimulus_PACE_frame
      have hB := beat_PACE_frame
      rw [execute_of_PACE m inp hmode]
      unfold execute_PACE
      simp [hC, hS, hB, hR, advanceClock]
    · by_cases hb : m.time_int + 1 - m.bcl_startTime ≥ m.bcl_int
      · obtain ⟨y, -, -, y3, y4, -, -, -, -, -, e1, -, -, -⟩ :=
          execute_RRCTHRESHOLD_boundary m inp hmode hb
        rw [e1]
        rcases compare_RRCTHRESHOLD_baseline y with h | h
        · exact Or.inl (by rw [h, y3])
        · exact Or.inr (by rw [h, y4])
      · left
        have hO := output_RRCTHRESHOLD_frame
        rw [execute_of_RRCTHRESHOLD m inp hmode]
        unfold execute_RRCTHRESHOLD
        dsimp only
        have hb2 : ¬ (startRecordingAtZero
            (advanceClock { m with voltage := inp.input0 * 1000 - m.ljp })
            (advanceClock { m with voltage := inp.input0 * 1000 - m.ljp }).thresh_recordData
            ).time_int -
            (startRecordingAtZero
            (advanceClock { m with voltage := inp.input0 * 1000 - m.ljp })
            (advanceClock { m with voltage := inp.input0 * 1000 - m.ljp }).thresh_recordData
            ).bcl_startTime ≥
            (startRecordingAtZero
            (advanceClock { m with voltage := inp.input0 * 1000 - m.ljp })
            (advanceClock { m with voltage := inp.input0 * 1000 - m.ljp }).thresh_recordData
            ).bcl_int := by
          simpa [hR, advanceClock] using hb
        rw [if_neg hb2]
        simp [hC, hO, hR, advanceClock]
    · left
      have hO := output_RRCPROTOCOL_frame
      have hN := newBeat_RRCPROTOCOL_frame
      have hF := finish_RRCPROTOCOL_frame
      rw [execute_of_RRCPROTOCOL m inp hmode]
      unfold execute_RRCPROTOCOL
      dsimp only
      split_ifs <;> simp [hC, hO, hN, hF, hR, advanceClock]
  · intro hmode hb hinj hneg
    obtain ⟨y, y1, y2, y3, y4, -, -, -, -, -, e1, -, -, -⟩ :=
      execute_RRCTHRESHOLD_boundary m inp hmode hb
    rw [e1, ((compare_RRCTHRESHOLD_table y).1 (by rw [y1, y2]; exact hinj)
      (by rw [y3]; exact hneg)).1, y4]

/-- C22: the reported APD is never negative. In every state that the engine
reaches in use from a new object (initialize sets apd = 0; the parameters may
be modified; every start command gets a positive period; protocols may be
cancelled; steps are taken only while the thread is active): apd ≥ 0; while
the thread is active the period is positive and the detector is in PEAK or
DOWN only with apd_startTime ≤ time; a step that moves the detector from DOWN
to DONE writes an APD of at least 2 * period; and in RRCTHRESHOLD, after the
step of a beat boundary of an injection beat, the baseline previousAPD is not
negative in any later state of the run, so that the sentinel previousAPD < 0
holds only before the first injection-beat boundary of a search. -/
theorem apd_never_negative (m : Module) (h : ReachableInUse m) :
    0 ≤ m.apd ∧
    (m.active = true →
      0 < m.period ∧
      (m.apd_mode = .PEAK ∨ m.apd_mode = .DOWN → m.apd_startTime ≤ m.time)) ∧
    (∀ inp : StepInput, m.active = true → m.apd_mode = .DOWN →
      (execute m inp).apd_mode = .DONE → 2 * m.period ≤ (execute m inp).apd) ∧
    (∀ (inp : ℕ → StepInput) (n : ℕ), m.active = true →
      m.execute_mode = .RRCTHRESHOLD → m.time_int + 1 - m.bcl_startTime ≥ m.bcl_int →
      m.beatNumber_int.tmod m.thresh_beatNumber = 0 →
      0 ≤ (run m inp (n + 1)).thresh_previousAPD) := by
  obtain ⟨hapd, ht⟩ := inUse_timed m h
  refine ⟨hapd, fun ha => ?_, fun inp ha hd hdone => ?_, fun inp n ha hmode hb hinj => ?_⟩
  · obtain ⟨hP, hpk, hdn⟩ := ht ha
    refine ⟨hP, fun hm => ?_⟩
    rcases hm with hm | hm
    · exact hpk hm
    · linarith [hdn hm]
  · exact (execute_timed m inp hapd (ht ha)).2.2 hd hdone
  · induction n with
    | zero =>
      have hr : run m inp (0 + 1) = execute m (inp 0) := rfl
      rw [hr]
      by_cases hneg : m.thresh_previousAPD < 0
      · rw [(execute_baseline m (inp 0)).2 hmode hb hinj hneg]
        exact hapd
      · rcases (execute_baseline m (inp 0)).1 with e | e
        · rw [e]
          exact not_lt.mp hneg
        · rw [e]
          exact hapd
    | succ n ih =>
      have hr : run m inp (n + 1 + 1) = execute (run m inp (n + 1)) (inp (n + 1)) := rfl
      have hreach := (inUse_run m inp h ha (n + 1)).1
      rw [hr]
      rcases (execute_baseline (run m inp (n + 1)) (inp (n + 1))).1 with e | e
      · rw [e]
        exact ih
      · rw [e]
        exact (inUse_timed _ hreach).1

/-- C22, witness: the pace protocol started at 1 ms on a new object, on a
preparation at 0 V (working voltage -10 mV, above the upstroke threshold of
-40 mV). Call 0 is the upstroke, call 6 moves the detector to DOWN and call 7
moves it to DONE with an APD of 7 ms, which is at least 2 periods. -/
theorem apd_never_negative_witness :
    ReachableInUse (run startedPace quiet 7) ∧
    0 ≤ (run startedPace quiet 7).apd ∧
    (0 < (run startedPace quiet 7).period ∧
      ((run startedPace quiet 7).apd_mode = .PEAK ∨ (run startedPace quiet 7).apd_mode = .DOWN →
        (run startedPace quiet 7).apd_startTime ≤ (run startedPace quiet 7).time)) ∧
    2 * (run startedPace quiet 7).period ≤ (execute (run startedPace quiet 7) (quiet 7)).apd ∧
    (run startedPace quiet 7).apd_mode = .DOWN ∧
    (execute (run startedPace quiet 7) (quiet 7)).apd_mode = .DONE ∧
    (execute (run startedPace quiet 7) (quiet 7)).apd = 7 ∧
    (run startedPace quiet 7).period = 1 :=
  have hstart : ReachableInUse startedPace :=
    ReachableInUse.start_pace _ 1000000 (by decide)
      (ReachableInUse.modify _ otherGuiValues (ReachableInUse.init rawModule rfl))
  have hreach : ReachableInUse (run startedPace quiet 7) :=
    (inUse_run startedPace quiet hstart (by decide!) 7).1
  ⟨hreach, (apd_never_negative (run startedPace quiet 7) hreach).1,
    (apd_never_negative (run startedPace quiet 7) hreach).2.1 (by decide!),
    (apd_never_negative (run startedPace quiet 7) hreach).2.2.1 (quiet 7) (by decide!)
      (by decide!) (by decide!),
    by decide!, by decide!, by decide!, by decide!⟩

/-! ## The APD detector on a voltage trace -/

end RRC
